import Mathlib

/-!
# Frame scheduling and render-mode switching of RealTimeGraphicsPlayGround

A shallow embedding of `VulkanGUI` (include/gui_renderpass.hpp), of the frame
loop of `VulkanState` (src/vulkan_state.cpp) and of `GraphicsSystem::render`
(include/graphics_system.hpp).

Every call the C++ code makes on the Vulkan device, on GLFW, on a render pass
object or on the overlay is logged, in program order, in the field `trace` of
the state. Results of calls that are decided outside the program (the
`VkResult` of a Vulkan call, the events delivered by GLFW, the entry picked in
the overlay, a failing resource creation) are inputs of the functions.

`Config::MAX_FRAMES_IN_FLIGHT` is declared in constants.hpp, which is not part
of the sources at hand; it is the parameter `N` throughout.
-/

namespace RTG

/-! ## Vulkan result codes (vulkan_core.h) -/

/-- The type `VkResult`: a signed 32 bit enumeration. -/
abbrev VkResult := Int

def VK_SUCCESS : VkResult := 0
def VK_SUBOPTIMAL_KHR : VkResult := 1000001003
def VK_ERROR_OUT_OF_DATE_KHR : VkResult := -1000001004
def VK_ERROR_DEVICE_LOST : VkResult := -4

/-! ## Render pass objects -/

/-- The three classes derived from `BaseRenderPass` that
`createRenderModeResource` instantiates. -/
inductive PassKind
  | Forward
  | Deferred
  | Pixel
  deriving DecidableEq, Repr

/-- One heap object behind a `std::unique_ptr<BaseRenderPass>`. The field `id`
is the identity of the object (its address): every `std::make_unique` yields
an object distinct from all earlier ones. -/
structure Pass where
  id : Nat
  kind : PassKind
  deriving DecidableEq, Repr

/-! ## Calls logged in the trace -/

inductive Event
  /-- The call `memcpy(cameraUBOResource.buffersMapped[slot], ...)` in `updateCamera` -/
  | memcpyCameraUBO (slot : Nat)
  /-- The call `memcpy(cameraMatrixUBOResource.buffersMapped[slot], ...)` in `updateCamera` -/
  | memcpyCameraMatrixUBO (slot : Nat)
  /-- The call `oldRenderPassQueue[slot].push_back(std::move(renderModeManager))` -/
  | retire (id slot : Nat)
  /-- The call `std::make_unique<...RenderPass>(...)` -/
  | construct (id : Nat) (kind : PassKind)
  /-- The call `renderModeManager->init()` -/
  | passInit (id : Nat)
  /-- The call `->cleanup()` on a render pass object -/
  | passCleanup (id : Nat)
  /-- The call `renderModeManager->cleanupImageResources()` -/
  | passCleanupImageResources (id : Nat)
  /-- The call `renderModeManager->setSwapchain(swapchain)` followed by `createImageResources()` -/
  | passCreateImageResources (id : Nat)
  /-- The call `renderModeManager->render(commandBuffers, imageIndex, slot, ...)` -/
  | passRender (id slot : Nat)
  /-- The call `rayTracingPipeline->render(commandBuffers[slot], ...)` -/
  | rayTracingRender (slot : Nat)
  /-- The call `swapchainRenderPass->render(commandBuffers[slot], ...)` -/
  | swapchainPassRender (slot : Nat)
  | swapchainPassCleanupImageResources
  | swapchainPassCreateImageResources
  /-- The call `gui.render(commandBuffers[slot], ...)` -/
  | guiRender (slot : Nat)
  | guiRecreateFramebuffer
  /-- The call `vkWaitForFences(device, 1, &inFlightFences[slot], VK_TRUE, UINT64_MAX)` -/
  | vkWaitForFences (slot : Nat)
  /-- The call `vkAcquireNextImageKHR(..., imageAvailableSemaphores[slot], ...)` and its result -/
  | vkAcquireNextImageKHR (slot : Nat) (result : VkResult)
  /-- The call `vkResetFences(device, 1, &inFlightFences[slot])` -/
  | vkResetFences (slot : Nat)
  /-- The call `vkResetCommandBuffer(commandBuffers[slot], 0)` -/
  | vkResetCommandBuffer (slot : Nat)
  /-- The call `vkBeginCommandBuffer(commandBuffers[slot], ...)` -/
  | vkBeginCommandBuffer (slot : Nat)
  /-- The call `vkEndCommandBuffer(commandBuffers[slot])` -/
  | vkEndCommandBuffer (slot : Nat)
  /-- The call `vkQueueSubmit` of `commandBuffers[cmd]` with `inFlightFences[fence]` -/
  | vkQueueSubmit (cmd fence : Nat)
  /-- The call `vkQueuePresentKHR` waiting on `renderFinishedSemaphores[slot]` -/
  | vkQueuePresentKHR (slot : Nat)
  | vkDeviceWaitIdle
  | cleanupSwapchain
  | createSwapchain
  | createSwapchainImageViews
  | glfwWaitEvents
  /-- The call `gui.cleanup(device)` -/
  | guiCleanup
  /-- The call `rayTracingPipeline->cleanup()` -/
  | rayTracingCleanup
  /-- The call `swapchainRenderPass->cleanup()` -/
  | swapchainPassCleanup
  /-- The calls `player.resource.cleanup(device)` and `prop.resource.cleanup(device)` -/
  | assetsCleanup
  /-- The call `commonDescriptor.cleanup(device)` -/
  | commonDescriptorCleanup
  /-- The calls `cleanup(device)` on the five uniform and storage buffer resources -/
  | buffersCleanup
  /-- The destruction of the two semaphores and the fence of `slot` -/
  | destroySyncObjects (slot : Nat)
  /-- The remaining calls of `VulkanState::cleanup`, from
  `vkDestroyDescriptorSetLayout` to `vkDestroyInstance` -/
  | destroyDevice
  deriving DecidableEq, Repr

/-! ## VulkanGUI (include/gui_renderpass.hpp) -/

def DEFALT_MODES : List String := ["Forward", "Deferred + ShadowMapping", "Pixel"]
def RT_MODES : List String := ["(Real-Time) Ray Tracing in One Weekend"]

/-- The state members of `VulkanGUI` with their default member initialisers.
`mode` is an `int` in the source; it is only ever assigned non-negative
values, all below 5, so no conversion between `int` and `size_t` wraps. -/
structure VulkanGUI where
  mode : Nat := 0
  m_isRayTracingAvailable : Bool := false
  renderModes : List String := []
  deriving DecidableEq, Repr

namespace VulkanGUI

def getMode (g : VulkanGUI) : Nat := g.mode

/-- The statement `mode = (mode + 1) % std::size(renderModes);` -/
def proceedRenderModeIndex (g : VulkanGUI) : VulkanGUI :=
  { g with mode := (g.mode + 1) % g.renderModes.length }

def setRayTracingAvailable (rayTracingAvailable : Bool) (g : VulkanGUI) : VulkanGUI :=
  { g with
    m_isRayTracingAvailable := rayTracingAvailable
    renderModes := if rayTracingAvailable then DEFALT_MODES ++ RT_MODES else DEFALT_MODES }

def isRayTracingAvailable (g : VulkanGUI) : Bool := g.m_isRayTracingAvailable

/-- The statement `return mode >= DEFALT_MODES.size();` -/
def isRayTracingMode (g : VulkanGUI) : Bool := decide (g.mode ≥ DEFALT_MODES.length)

end VulkanGUI

/-! ## VulkanState (src/vulkan_state.cpp) -/

/-- What ends a call abnormally: a `std::runtime_error` that propagates to
`main`, or the dereference of a null `std::unique_ptr`. -/
inductive Fault
  | runtimeError (what : String)
  | nullDereference (pointer : String)
  deriving DecidableEq, Repr

/-- The members of `VulkanState` that the frame loop reads or writes, the
resize flag of the `WindowState` it refers to, and the log of calls.
`oldRenderPassQueue` is an array of `N` vectors in the source; it is indexed
by `currentFrame` only. `nextId` numbers the objects made by
`std::make_unique`. -/
structure VulkanState where
  gui : VulkanGUI := {}
  shouldSwitchRenderPass : Bool := false
  currentFrame : Nat := 0
  renderModeManager : Option Pass := none
  oldRenderPassQueue : Nat → List Pass := fun _ => []
  rayTracingPipeline : Bool := false
  framebufferResized : Bool := false
  nextId : Nat := 0
  trace : List Event := []

/-- Outcome of a call: the state on return, or the fault and the state at the
moment it was raised. -/
abbrev Step := Except (Fault × VulkanState) VulkanState

/-- The state a call ends in, however it ends. -/
def Step.state : Step → VulkanState
  | .ok s => s
  | .error (_, s) => s

/-- Whether the call returned. -/
def Step.returned : Step → Bool
  | .ok _ => true
  | .error _ => false

/-- A GLFW callback installed by `RTGraphicsApp::setCallback` that reaches the
graphics subsystem: `framebufferResizeCallback`, or `keyCallback` on a fresh
press of `R`. -/
inductive Callback
  | framebufferResize
  | changeRenderPass
  deriving DecidableEq, Repr

/-- The steps of `recreateSwapchain` that create resources and raise
`std::runtime_error` when the creation fails. -/
inductive RecreateStep
  | createSwapchain
  | createSwapchainImageViews
  | passCreateImageResources
  | swapchainPassCreateImageResources
  | guiRecreateFramebuffer
  deriving DecidableEq, Repr

/-- What the environment does during one `recreateSwapchain`: `waits` has one
entry per iteration of the loop that waits for a non-zero framebuffer size,
listing the callbacks GLFW runs inside that `glfwWaitEvents`; `failAt` names
the creation step that fails, if any. -/
structure RecreateInput where
  waits : List (List Callback) := []
  failAt : Option RecreateStep := none
  deriving DecidableEq, Repr

/-- What the environment decides during one `GraphicsSystem::render`. -/
structure FrameInput where
  /-- whether `init()` of a render pass constructed in this call raises -/
  initFails : Bool := false
  acquireResult : VkResult := VK_SUCCESS
  beginResult : VkResult := VK_SUCCESS
  /-- the entry the user picks in the overlay combo box during `gui.render` -/
  comboSelection : Option Nat := none
  endResult : VkResult := VK_SUCCESS
  submitResult : VkResult := VK_SUCCESS
  presentResult : VkResult := VK_SUCCESS
  /-- environment of the `recreateSwapchain` after a stale acquire -/
  acquireRecreate : RecreateInput := {}
  /-- environment of the `recreateSwapchain` after a stale present -/
  presentRecreate : RecreateInput := {}
  deriving DecidableEq, Repr

namespace VulkanState

def emit (e : Event) (s : VulkanState) : VulkanState :=
  { s with trace := s.trace ++ [e] }

/-- The statement `gui.proceedRenderModeIndex(); shouldSwitchRenderPass = true;` -/
def changeRenderPass (s : VulkanState) : VulkanState :=
  { s with gui := s.gui.proceedRenderModeIndex, shouldSwitchRenderPass := true }

/-- The statement `shouldSwitchRenderPass = true;` -/
def switchRenderPassCallback (s : VulkanState) : VulkanState :=
  { s with shouldSwitchRenderPass := true }

/-- The assignment `ImGui::Combo` makes to `mode` through the pointer it is given. -/
def setMode (i : Nat) (s : VulkanState) : VulkanState :=
  { s with gui := { s.gui with mode := i } }

/-- The call `windowState.setFramebufferResized(b)` -/
def setFramebufferResized (b : Bool) (s : VulkanState) : VulkanState :=
  { s with framebufferResized := b }

/-- Effect of one GLFW callback. -/
def fire (c : Callback) (s : VulkanState) : VulkanState :=
  match c with
  | .framebufferResize => s.setFramebufferResized true
  | .changeRenderPass => s.changeRenderPass

def fireAll (cs : List Callback) (s : VulkanState) : VulkanState :=
  cs.foldl (fun st c => fire c st) s

/-- The set difference computed by `checkDeviceExtensionSupport`: the names of
`required` that no available extension erased. -/
def missingExtensions (required available : List String) : List String :=
  required.filter (fun r => !available.contains r)

def deviceExtensions : List String := ["VK_KHR_swapchain"]

def rtExtensions : List String :=
  ["VK_KHR_acceleration_structure", "VK_KHR_ray_tracing_pipeline",
   "VK_KHR_deferred_host_operations", "VK_KHR_buffer_device_address"]

/-- The call `gui.setRayTracingAvailable(available)` -/
def setRayTracingAvailable (available : Bool) (s : VulkanState) : VulkanState :=
  { s with gui := s.gui.setRayTracingAvailable available }

/-- The function `checkDeviceExtensionSupport`: records in the overlay whether all ray
tracing extensions are available and returns whether the required ones are. -/
def checkDeviceExtensionSupport (availableExtensions : List String) (s : VulkanState) :
    Bool × VulkanState :=
  let requiredExtensions := missingExtensions deviceExtensions availableExtensions
  let requiredRTExtensions := missingExtensions rtExtensions availableExtensions
  (requiredExtensions.isEmpty, s.setRayTracingAvailable requiredRTExtensions.isEmpty)

/-- The class chosen by the `switch (gui.getMode())`. -/
def kindOfMode : Nat → PassKind
  | 1 => .Deferred
  | 2 => .Pixel
  | _ => .Forward

/-- The statement `oldRenderPassQueue[slot].push_back(p)` -/
def pushOld (slot : Nat) (p : Pass) (q : Nat → List Pass) : Nat → List Pass :=
  fun i => if i = slot then q i ++ [p] else q i

/-- The statements `if (renderModeManager != nullptr)
oldRenderPassQueue[currentFrame].push_back(std::move(renderModeManager));`: the
move leaves `renderModeManager` null. -/
def retireActive (s : VulkanState) : VulkanState :=
  match s.renderModeManager with
  | some old =>
    { s with
      oldRenderPassQueue := pushOld s.currentFrame old s.oldRenderPassQueue
      renderModeManager := none
      trace := s.trace ++ [Event.retire old.id s.currentFrame] }
  | none => s

/-- The `switch (gui.getMode())`: `std::make_unique` of the class selected by
the mode, moved into `renderModeManager`. -/
def constructPass (s : VulkanState) : VulkanState :=
  { s with
    renderModeManager := some { id := s.nextId, kind := kindOfMode s.gui.getMode }
    nextId := s.nextId + 1
    trace := s.trace ++ [Event.construct s.nextId (kindOfMode s.gui.getMode)] }

/-- The call `renderModeManager->init()`, logged; whether it raises is decided
by the caller of this function. -/
def initPass (s : VulkanState) : VulkanState :=
  match s.renderModeManager with
  | some pass => s.emit (Event.passInit pass.id)
  | none => s

/-- The function `VulkanState::createRenderModeResource` -/
def createRenderModeResource (initFails : Bool) (s : VulkanState) : Step :=
  if s.gui.isRayTracingMode then
    .ok s
  else
    let s := s.retireActive
    let s := s.constructPass
    let s := s.initPass
    if initFails then
      .error (Fault.runtimeError "failed to create render pass resources", s)
    else
      .ok s

/-- The statement `shouldSwitchRenderPass = false;` -/
def clearSwitch (s : VulkanState) : VulkanState :=
  { s with shouldSwitchRenderPass := false }

/-- The function `VulkanState::cleanupRenderModeResource` -/
def cleanupRenderModeResource (initFails : Bool) (s : VulkanState) : Step :=
  if s.shouldSwitchRenderPass then
    match createRenderModeResource initFails s with
    | .ok s1 => .ok s1.clearSwitch
    | .error e => .error e
  else
    .ok s

/-- The construction and `init()` of the ray tracing pipeline. -/
def makeRayTracingPipeline (s : VulkanState) : VulkanState :=
  { s with rayTracingPipeline := true }

/-- The part of `VulkanState::createLevelResource` after the buffers and
descriptors: `createRenderModeResource()` and, when ray tracing is available,
the construction and `init()` of the ray tracing pipeline. -/
def createLevelResource (initFails : Bool) (s : VulkanState) : Step :=
  match createRenderModeResource initFails s with
  | .ok s1 =>
    if s1.gui.isRayTracingAvailable then .ok s1.makeRayTracingPipeline
    else .ok s1
  | .error e => .error e

/-- The function `VulkanState::updateCamera`: the two `memcpy` into the buffers of
`currentFrame`. -/
def updateCamera (s : VulkanState) : VulkanState :=
  (s.emit (Event.memcpyCameraUBO s.currentFrame)).emit
    (Event.memcpyCameraMatrixUBO s.currentFrame)

/-- The loop at the head of `recreateSwapchain`: one `glfwWaitEvents` per
entry, during which GLFW runs the callbacks of the entry. -/
def waitForFramebuffer : List (List Callback) → VulkanState → VulkanState
  | [], s => s
  | cs :: rest, s => waitForFramebuffer rest (fireAll cs (s.emit Event.glfwWaitEvents))

/-- A creation step of `recreateSwapchain`: logs the call and raises when the
environment makes this step fail. -/
def createStep (inp : RecreateInput) (step : RecreateStep) (e : Event) (what : String)
    (s : VulkanState) : Step :=
  if inp.failAt = some step then .error (Fault.runtimeError what, s.emit e)
  else .ok (s.emit e)

/-- The function `VulkanState::recreateSwapchain` -/
def recreateSwapchain (inp : RecreateInput) (s : VulkanState) : Step := do
  let s := waitForFramebuffer inp.waits s
  let s := s.emit Event.vkDeviceWaitIdle
  match s.renderModeManager with
  | none => throw (Fault.nullDereference "renderModeManager", s)
  | some pass =>
    let s := s.emit (Event.passCleanupImageResources pass.id)
    let s := s.emit Event.swapchainPassCleanupImageResources
    let s := s.emit Event.cleanupSwapchain
    let s ← createStep inp .createSwapchain Event.createSwapchain
      "failed to create swapchain" s
    let s ← createStep inp .createSwapchainImageViews Event.createSwapchainImageViews
      "failed to create swapchain image views" s
    let s ← createStep inp .passCreateImageResources (Event.passCreateImageResources pass.id)
      "failed to create framebuffer" s
    let s ← createStep inp .swapchainPassCreateImageResources
      Event.swapchainPassCreateImageResources "failed to create framebuffer" s
    createStep inp .guiRecreateFramebuffer Event.guiRecreateFramebuffer
      "failed to create ImGui framebuffer" s

/-- The call `VulkanGUI::render` as seen from `VulkanState`: the overlay is recorded,
and when the user picks an entry of `renderModes` other than the current one,
`ImGui::Combo` stores its index in `mode` and the callback
`switchRenderPassCallback` runs. -/
def guiRender (comboSelection : Option Nat) (s : VulkanState) : VulkanState :=
  let s := s.emit (Event.guiRender s.currentFrame)
  match comboSelection with
  | some i =>
    if i < s.gui.renderModes.length ∧ i ≠ s.gui.mode then
      (s.setMode i).switchRenderPassCallback
    else s
  | none => s

/-- The recording between `vkBeginCommandBuffer` and `gui.render`. -/
def recordFrame (s : VulkanState) : Step :=
  if s.gui.isRayTracingMode then
    if s.rayTracingPipeline then
      .ok ((s.emit (Event.rayTracingRender s.currentFrame)).emit
        (Event.swapchainPassRender s.currentFrame))
    else .error (Fault.nullDereference "rayTracingPipeline", s)
  else
    match s.renderModeManager with
    | some pass => .ok (s.emit (Event.passRender pass.id s.currentFrame))
    | none => .error (Fault.nullDereference "renderModeManager", s)

/-- The loop `for (auto& p : oldRenderPassQueue[currentFrame]) p->cleanup();`
followed by `oldRenderPassQueue[currentFrame].clear();` -/
def drain (s : VulkanState) : VulkanState :=
  { s with
    trace := s.trace ++ (s.oldRenderPassQueue s.currentFrame).map (fun p => Event.passCleanup p.id)
    oldRenderPassQueue := fun i => if i = s.currentFrame then [] else s.oldRenderPassQueue i }

/-- The statement `currentFrame = (currentFrame + 1) % Config::MAX_FRAMES_IN_FLIGHT;` -/
def advanceFrame (N : Nat) (s : VulkanState) : VulkanState :=
  { s with currentFrame := (s.currentFrame + 1) % N }

/-- The function `VulkanState::render` from the present result onwards. -/
def presentAndAdvance (N : Nat) (inp : FrameInput) (s : VulkanState) : Step := do
  let s ←
    if inp.presentResult = VK_ERROR_OUT_OF_DATE_KHR ∨ inp.presentResult = VK_SUBOPTIMAL_KHR
        ∨ s.framebufferResized = true then
      recreateSwapchain inp.presentRecreate (s.setFramebufferResized false)
    else if inp.presentResult ≠ VK_SUCCESS then
      throw (Fault.runtimeError "failed to present swapchain image", s)
    else pure s
  let s := s.advanceFrame N
  pure (drain s)

/-- The function `VulkanState::render` -/
def render (N : Nat) (inp : FrameInput) (s : VulkanState) : Step := do
  let s := s.emit (Event.vkWaitForFences s.currentFrame)
  let s := s.emit (Event.vkAcquireNextImageKHR s.currentFrame inp.acquireResult)
  if inp.acquireResult = VK_ERROR_OUT_OF_DATE_KHR then
    recreateSwapchain inp.acquireRecreate s
  else if inp.acquireResult ≠ VK_SUCCESS ∧ inp.acquireResult ≠ VK_SUBOPTIMAL_KHR then
    throw (Fault.runtimeError "failed to acquire swapchain image", s)
  else
    let s := s.emit (Event.vkResetFences s.currentFrame)
    let s := s.emit (Event.vkResetCommandBuffer s.currentFrame)
    let s := s.emit (Event.vkBeginCommandBuffer s.currentFrame)
    if inp.beginResult ≠ VK_SUCCESS then
      throw (Fault.runtimeError "failed to begin recording command buffer", s)
    else
      let s ← recordFrame s
      let s := guiRender inp.comboSelection s
      let s := s.emit (Event.vkEndCommandBuffer s.currentFrame)
      if inp.endResult ≠ VK_SUCCESS then
        throw (Fault.runtimeError "failed to record command buffer", s)
      else
        let s := s.emit (Event.vkQueueSubmit s.currentFrame s.currentFrame)
        if inp.submitResult ≠ VK_SUCCESS then
          throw (Fault.runtimeError "failed to submit draw command buffer", s)
        else
          let s := s.emit (Event.vkQueuePresentKHR s.currentFrame)
          presentAndAdvance N inp s

end VulkanState

/-! ## GraphicsSystem and the application loop -/

namespace GraphicsSystem

/-- The call `GraphicsSystem::render`: `updateCamera`, `cleanupRenderModeResource`,
`render`, in this order. -/
def render (N : Nat) (inp : FrameInput) (s : VulkanState) : Step := do
  let s := s.updateCamera
  let s ← s.cleanupRenderModeResource inp.initFails
  s.render N inp

end GraphicsSystem

/-- One iteration of the loop of `RTGraphicsApp::run`: the callbacks run by
`glfwPollEvents`, then `graphicsSystem.render`. -/
structure Iteration where
  polled : List Callback := []
  frame : FrameInput := {}
  deriving DecidableEq, Repr

/-- The loop of `RTGraphicsApp::run` over the given iterations; it ends at the
first fault. -/
def runLoop (N : Nat) : List Iteration → VulkanState → Step
  | [], s => .ok s
  | it :: rest, s =>
    match GraphicsSystem.render N it.frame (s.fireAll it.polled) with
    | .ok s1 => runLoop N rest s1
    | .error e => .error e


/-! ## Definitions used to state the properties -/

/-- Events that only `recreateSwapchain` logs. -/
def Event.isRecreate : Event → Bool
  | .glfwWaitEvents | .vkDeviceWaitIdle | .passCleanupImageResources _
  | .swapchainPassCleanupImageResources | .cleanupSwapchain | .createSwapchain
  | .createSwapchainImageViews | .passCreateImageResources _
  | .swapchainPassCreateImageResources | .guiRecreateFramebuffer => true
  | _ => false


namespace VulkanState

/-- The calls `recreateSwapchain` makes after `vkDeviceWaitIdle`. -/
def rebuildEvents (inp : RecreateInput) (id : Nat) : List Event :=
  [Event.passCleanupImageResources id, Event.swapchainPassCleanupImageResources,
   Event.cleanupSwapchain, Event.createSwapchain] ++
  (if inp.failAt = some .createSwapchain then [] else
    Event.createSwapchainImageViews ::
    (if inp.failAt = some .createSwapchainImageViews then [] else
      Event.passCreateImageResources id ::
      (if inp.failAt = some .passCreateImageResources then [] else
        Event.swapchainPassCreateImageResources ::
        (if inp.failAt = some .swapchainPassCreateImageResources then [] else
          [Event.guiRecreateFramebuffer]))))

/-- The state after the calls `es` have been logged. -/
def log (es : List Event) (s : VulkanState) : VulkanState :=
  { s with trace := s.trace ++ es }

/-- The calls `render` logs up to `vkBeginCommandBuffer`. -/
def beginEvents (s : VulkanState) (acquireResult : VkResult) : List Event :=
  [Event.vkWaitForFences s.currentFrame, Event.vkAcquireNextImageKHR s.currentFrame acquireResult,
   Event.vkResetFences s.currentFrame, Event.vkResetCommandBuffer s.currentFrame,
   Event.vkBeginCommandBuffer s.currentFrame]

/-- The calls `render` logs between `vkBeginCommandBuffer` and `gui.render`;
`none` when the pointer it would call through is null. -/
def recordEvents (s : VulkanState) : Option (List Event) :=
  if s.gui.isRayTracingMode then
    if s.rayTracingPipeline then
      some [Event.rayTracingRender s.currentFrame, Event.swapchainPassRender s.currentFrame]
    else none
  else s.renderModeManager.map (fun pass => [Event.passRender pass.id s.currentFrame])

/-- The calls `render` logs from `vkEndCommandBuffer` to `vkQueuePresentKHR`. -/
def submitEvents (s : VulkanState) : List Event :=
  [Event.vkEndCommandBuffer s.currentFrame, Event.vkQueueSubmit s.currentFrame s.currentFrame,
   Event.vkQueuePresentKHR s.currentFrame]

/-- The state `render` has reached when `gui.render` returns. -/
def recorded (inp : FrameInput) (rec : List Event) (s : VulkanState) : VulkanState :=
  (s.log (beginEvents s inp.acquireResult ++ rec)).guiRender inp.comboSelection

/-- The paths through `VulkanState::render`, each with the outcome of the call. -/
inductive RenderPath (N : Nat) (inp : FrameInput) (s : VulkanState) : Step → Prop
  | acquireStale (ha : inp.acquireResult = VK_ERROR_OUT_OF_DATE_KHR) :
      RenderPath N inp s (recreateSwapchain inp.acquireRecreate
        (s.log [Event.vkWaitForFences s.currentFrame,
          Event.vkAcquireNextImageKHR s.currentFrame inp.acquireResult]))
  | acquireFailed (ha : inp.acquireResult ≠ VK_ERROR_OUT_OF_DATE_KHR)
      (ha1 : inp.acquireResult ≠ VK_SUCCESS) (ha2 : inp.acquireResult ≠ VK_SUBOPTIMAL_KHR) :
      RenderPath N inp s (.error (Fault.runtimeError "failed to acquire swapchain image",
        s.log [Event.vkWaitForFences s.currentFrame,
          Event.vkAcquireNextImageKHR s.currentFrame inp.acquireResult]))
  | beginFailed (ha : inp.acquireResult = VK_SUCCESS ∨ inp.acquireResult = VK_SUBOPTIMAL_KHR)
      (hb : inp.beginResult ≠ VK_SUCCESS) :
      RenderPath N inp s (.error (Fault.runtimeError "failed to begin recording command buffer",
        s.log (beginEvents s inp.acquireResult)))
  | nullPointer (ha : inp.acquireResult = VK_SUCCESS ∨ inp.acquireResult = VK_SUBOPTIMAL_KHR)
      (hb : inp.beginResult = VK_SUCCESS) (hrec : recordEvents s = none) (pointer : String) :
      RenderPath N inp s (.error (Fault.nullDereference pointer,
        s.log (beginEvents s inp.acquireResult)))
  | endFailed (ha : inp.acquireResult = VK_SUCCESS ∨ inp.acquireResult = VK_SUBOPTIMAL_KHR)
      (hb : inp.beginResult = VK_SUCCESS) (rec : List Event) (hrec : recordEvents s = some rec)
      (he : inp.endResult ≠ VK_SUCCESS) :
      RenderPath N inp s (.error (Fault.runtimeError "failed to record command buffer",
        (recorded inp rec s).log [Event.vkEndCommandBuffer s.currentFrame]))
  | submitFailed (ha : inp.acquireResult = VK_SUCCESS ∨ inp.acquireResult = VK_SUBOPTIMAL_KHR)
      (hb : inp.beginResult = VK_SUCCESS) (rec : List Event) (hrec : recordEvents s = some rec)
      (he : inp.endResult = VK_SUCCESS) (hs : inp.submitResult ≠ VK_SUCCESS) :
      RenderPath N inp s (.error (Fault.runtimeError "failed to submit draw command buffer",
        (recorded inp rec s).log [Event.vkEndCommandBuffer s.currentFrame,
          Event.vkQueueSubmit s.currentFrame s.currentFrame]))
  | presentFailed (ha : inp.acquireResult = VK_SUCCESS ∨ inp.acquireResult = VK_SUBOPTIMAL_KHR)
      (hb : inp.beginResult = VK_SUCCESS) (rec : List Event) (hrec : recordEvents s = some rec)
      (he : inp.endResult = VK_SUCCESS) (hs : inp.submitResult = VK_SUCCESS)
      (hp : inp.presentResult ≠ VK_ERROR_OUT_OF_DATE_KHR) (hp1 : inp.presentResult ≠ VK_SUBOPTIMAL_KHR)
      (hp2 : inp.presentResult ≠ VK_SUCCESS) (hf : s.framebufferResized = false) :
      RenderPath N inp s (.error (Fault.runtimeError "failed to present swapchain image",
        (recorded inp rec s).log (submitEvents s)))
  | recreateFailed (ha : inp.acquireResult = VK_SUCCESS ∨ inp.acquireResult = VK_SUBOPTIMAL_KHR)
      (hb : inp.beginResult = VK_SUCCESS) (rec : List Event) (hrec : recordEvents s = some rec)
      (he : inp.endResult = VK_SUCCESS) (hs : inp.submitResult = VK_SUCCESS)
      (hp : inp.presentResult = VK_ERROR_OUT_OF_DATE_KHR ∨ inp.presentResult = VK_SUBOPTIMAL_KHR ∨
        s.framebufferResized = true)
      (err : Fault × VulkanState)
      (hr : recreateSwapchain inp.presentRecreate
        (((recorded inp rec s).log (submitEvents s)).setFramebufferResized false) = .error err) :
      RenderPath N inp s (.error err)
  | presentStale (ha : inp.acquireResult = VK_SUCCESS ∨ inp.acquireResult = VK_SUBOPTIMAL_KHR)
      (hb : inp.beginResult = VK_SUCCESS) (rec : List Event) (hrec : recordEvents s = some rec)
      (he : inp.endResult = VK_SUCCESS) (hs : inp.submitResult = VK_SUCCESS)
      (hp : inp.presentResult = VK_ERROR_OUT_OF_DATE_KHR ∨ inp.presentResult = VK_SUBOPTIMAL_KHR ∨
        s.framebufferResized = true)
      (v : VulkanState)
      (hr : recreateSwapchain inp.presentRecreate
        (((recorded inp rec s).log (submitEvents s)).setFramebufferResized false) = .ok v) :
      RenderPath N inp s (.ok (v.advanceFrame N).drain)
  | completed (ha : inp.acquireResult = VK_SUCCESS ∨ inp.acquireResult = VK_SUBOPTIMAL_KHR)
      (hb : inp.beginResult = VK_SUCCESS) (rec : List Event) (hrec : recordEvents s = some rec)
      (he : inp.endResult = VK_SUCCESS) (hs : inp.submitResult = VK_SUCCESS)
      (hp : inp.presentResult = VK_SUCCESS) (hf : s.framebufferResized = false) :
      RenderPath N inp s (.ok ((((recorded inp rec s).log (submitEvents s))).advanceFrame N).drain)

end VulkanState

namespace VulkanState

/-- The state after `VulkanState::init` has picked a physical device offering
`availableExtensions`. -/
def init (availableExtensions : List String) : VulkanState :=
  (checkDeviceExtensionSupport availableExtensions {}).2

/-- The state after `VulkanState::init` and `createLevelResource`. -/
def boot (availableExtensions : List String) : VulkanState :=
  (createLevelResource false (init availableExtensions)).state

end VulkanState

namespace VulkanState

/-- The state in which `createRenderModeResource` leaves `init()` of the new
render pass, outside ray tracing mode. -/
def switched (s : VulkanState) : VulkanState := s.retireActive.constructPass.initPass

/-- The call logged when the active render pass is retired. -/
def retireEvents (s : VulkanState) : List Event :=
  match s.renderModeManager with
  | some old => [Event.retire old.id s.currentFrame]
  | none => []

/-- The extensions of a device that supports ray tracing. -/
def allExtensions : List String := deviceExtensions ++ rtExtensions

end VulkanState

namespace VulkanState

/-- The calls one `recreateSwapchain` logs. -/
def recreateEvents (inp : RecreateInput) (s : VulkanState) : List Event :=
  List.replicate inp.waits.length Event.glfwWaitEvents ++ [Event.vkDeviceWaitIdle] ++
    (match s.renderModeManager with
      | none => []
      | some pass => rebuildEvents inp pass.id)

/-- The condition under which `render` recreates the swapchain after presenting. -/
def presentStale (inp : FrameInput) (s : VulkanState) : Prop :=
  inp.presentResult = VK_ERROR_OUT_OF_DATE_KHR ∨ inp.presentResult = VK_SUBOPTIMAL_KHR ∨
    s.framebufferResized = true

instance (inp : FrameInput) (s : VulkanState) : Decidable (presentStale inp s) := by
  unfold presentStale; infer_instance

end VulkanState

namespace VulkanState

/-- The calls one `render` may log, given its input and the state it starts from:
those up to `vkBeginCommandBuffer`, the recording, the overlay, the submission and
presentation, the calls of `recreateSwapchain` when the acquire is out of date or the
present stale, and `cleanup()` of retired render passes. -/
def mayLog (inp : FrameInput) (s : VulkanState) (e : Event) : Prop :=
  e ∈ beginEvents s inp.acquireResult ∨
  (∃ rec, recordEvents s = some rec ∧ e ∈ rec) ∨
  e = Event.guiRender s.currentFrame ∨
  e ∈ submitEvents s ∨
  (e.isRecreate = true ∧
    (inp.acquireResult = VK_ERROR_OUT_OF_DATE_KHR ∨ presentStale inp s)) ∨
  (∃ id, e = Event.passCleanup id)

end VulkanState

/-- No switch request among the callbacks. -/
def quietCallbacks (cs : List Callback) : Prop := Callback.changeRenderPass ∉ cs

instance (cs : List Callback) : Decidable (quietCallbacks cs) := by
  unfold quietCallbacks; infer_instance

/-- No switch request reaches the program during the `recreateSwapchain`. -/
def RecreateInput.quiet (r : RecreateInput) : Prop := ∀ cs ∈ r.waits, quietCallbacks cs

instance (r : RecreateInput) : Decidable r.quiet := by
  unfold RecreateInput.quiet; infer_instance

/-- No switch request is made during the render call: nothing is picked in the
overlay and no `changeRenderPass` callback runs. -/
def FrameInput.quiet (inp : FrameInput) : Prop :=
  inp.comboSelection = none ∧ inp.acquireRecreate.quiet ∧ inp.presentRecreate.quiet

instance (inp : FrameInput) : Decidable inp.quiet := by
  unfold FrameInput.quiet; infer_instance

/-- No switch request is made in this iteration of the application loop. -/
def Iteration.quiet (it : Iteration) : Prop := quietCallbacks it.polled ∧ it.frame.quiet

instance (it : Iteration) : Decidable it.quiet := by
  unfold Iteration.quiet; infer_instance

/-- The call that moves the active render pass into a bucket. -/
def Event.isRetire : Event → Bool
  | .retire _ _ => true
  | _ => false

/-- The construction of a render pass object. -/
def Event.isConstruct : Event → Bool
  | .construct _ _ => true
  | _ => false

/-- Every call of the render cycle succeeds: `init()` of a new render pass, acquire,
begin, end, submit, and present, which may report staleness provided the recreation
that follows creates everything. -/
def FrameInput.completes (inp : FrameInput) : Prop :=
  inp.initFails = false ∧
  (inp.acquireResult = VK_SUCCESS ∨ inp.acquireResult = VK_SUBOPTIMAL_KHR) ∧
  inp.beginResult = VK_SUCCESS ∧ inp.endResult = VK_SUCCESS ∧
  inp.submitResult = VK_SUCCESS ∧
  (inp.presentResult = VK_SUCCESS ∨ inp.presentResult = VK_SUBOPTIMAL_KHR ∨
    inp.presentResult = VK_ERROR_OUT_OF_DATE_KHR) ∧
  inp.presentRecreate.failAt = none

instance (inp : FrameInput) : Decidable inp.completes := by
  unfold FrameInput.completes; infer_instance

namespace VulkanState

/-- The scenario of the end-to-end test: two frame slots, Forward active, five
completed cycles, then one press of R before cycle 6. -/
def switchBeforeCycleSix : VulkanState :=
  (runLoop 2 (List.replicate 5 {}) (boot deviceExtensions)).state.changeRenderPass

/-- The bucket array after `oldRenderPassQueue[slot].clear()`. -/
def clearBucket (slot : Nat) (q : Nat → List Pass) : Nat → List Pass :=
  fun i => if i = slot then [] else q i

end VulkanState

/-! ## Obligations along a trace -/

/-- A kind of obligation that some calls open and later calls close: `opens e` is the
obligation the call `e` opens, `closes e a` tells whether the call `e` closes the
obligation `a`. -/
structure Watch (α : Type) where
  opens : Event → Option α
  closes : Event → α → Bool

namespace Watch

/-- The open obligations after the call `e`: those not closed by `e`, and the one `e`
opens. -/
def step {α : Type} (w : Watch α) (acc : List α) (e : Event) : List α :=
  acc.filter (fun a => !w.closes e a) ++ (w.opens e).toList

/-- The obligations open at the end of the trace. -/
def pending {α : Type} (w : Watch α) (tr : List Event) : List α :=
  tr.foldl w.step []

/-- At every call of the trace, no obligation that the call `needs` closed is open. -/
def Guarded {α : Type} (w : Watch α) (needs : Event → α → Bool) (tr : List Event) : Prop :=
  ∀ pre e post, tr = pre ++ e :: post → ∀ a ∈ w.pending pre, needs e a = false

end Watch

namespace VulkanState

/-- The calls of `cleanup()` that the drain of bucket `slot` logs. -/
def cleanupEvents (s : VulkanState) (slot : Nat) : List Event :=
  (s.oldRenderPassQueue slot).map (fun p => Event.passCleanup p.id)

end VulkanState

namespace Watch

/-- The calls of `l`, made in this order while the obligations `acc` are open, never
need an open obligation closed. -/
def GuardedFrom {α : Type} (w : Watch α) (needs : Event → α → Bool) :
    List α → List Event → Prop
  | _, [] => True
  | acc, e :: l => (∀ a ∈ acc, needs e a = false) ∧ GuardedFrom w needs (w.step acc e) l

/-- The call neither opens nor closes an obligation. -/
def Neutral {α : Type} (w : Watch α) (e : Event) : Prop :=
  w.opens e = none ∧ ∀ a, w.closes e a = false

end Watch

namespace VulkanState

/-- The two `memcpy` of `updateCamera`. -/
def cameraEvents (s : VulkanState) : List Event :=
  [Event.memcpyCameraUBO s.currentFrame, Event.memcpyCameraMatrixUBO s.currentFrame]

/-- The calls a commit that reaches the `switch` logs. -/
def commitEvents (s : VulkanState) : List Event :=
  retireEvents s ++
    [Event.construct s.nextId (kindOfMode s.gui.getMode), Event.passInit s.nextId]

/-- The calls of a `render` whose acquire is out of date, when `recreateSwapchain` runs
to its end or to the step that fails. -/
def staleAcquireEvents (inp : FrameInput) (s : VulkanState) : List Event :=
  [Event.vkWaitForFences s.currentFrame,
    Event.vkAcquireNextImageKHR s.currentFrame inp.acquireResult] ++
  recreateEvents inp.acquireRecreate s

/-- The calls of a `render` from the fence wait to `vkQueuePresentKHR`, with the
recording `rec`. -/
def frameEvents (inp : FrameInput) (rec : List Event) (s : VulkanState) : List Event :=
  beginEvents s inp.acquireResult ++ rec ++ [Event.guiRender s.currentFrame] ++ submitEvents s

/-- The state `u` in which `GraphicsSystem::render` enters `VulkanState::render`, having
started in `s`: either no switch was committed, or `createRenderModeResource` retired
the active render pass and constructed the next. -/
def Committed (s u : VulkanState) : Prop :=
  u.currentFrame = s.currentFrame ∧
  ((u.renderModeManager = s.renderModeManager ∧
      u.oldRenderPassQueue = s.oldRenderPassQueue ∧ u.nextId = s.nextId ∧
      u.trace = s.trace ++ cameraEvents s) ∨
   (u.renderModeManager = some { id := s.nextId, kind := kindOfMode s.gui.getMode } ∧
      u.oldRenderPassQueue = (match s.renderModeManager with
        | some old => pushOld s.currentFrame old s.oldRenderPassQueue
        | none => s.oldRenderPassQueue) ∧
      u.nextId = s.nextId + 1 ∧
      u.trace = s.trace ++ cameraEvents s ++ commitEvents s))

/-- The outcome `r` of a `VulkanState::render` started in `u`, with the calls `L` it
logged: a fault, after a beginning of one of the two full sequences of calls; a return
after a stale acquire; or a return after the drain. -/
def RenderShape (N : Nat) (inp : FrameInput) (u : VulkanState) (r : Step)
    (L : List Event) : Prop :=
  (r.returned = false ∧ ∃ M rec, (recordEvents u = some rec ∨ rec = []) ∧
    (L ++ M = staleAcquireEvents inp u ∨
     L ++ M = frameEvents inp rec u ++ recreateEvents inp.presentRecreate u)) ∨
  (r.returned = true ∧ L = staleAcquireEvents inp u ∧
    r.state.currentFrame = u.currentFrame ∧
    r.state.oldRenderPassQueue = u.oldRenderPassQueue ∧
    r.state.renderModeManager = u.renderModeManager ∧ r.state.nextId = u.nextId) ∨
  (r.returned = true ∧ ∃ rec R, recordEvents u = some rec ∧
    (R = [] ∨ R = recreateEvents inp.presentRecreate u) ∧
    L = frameEvents inp rec u ++ R ++ cleanupEvents u ((u.currentFrame + 1) % N) ∧
    r.state.currentFrame = (u.currentFrame + 1) % N ∧
    r.state.oldRenderPassQueue = clearBucket ((u.currentFrame + 1) % N) u.oldRenderPassQueue ∧
    r.state.renderModeManager = u.renderModeManager ∧ r.state.nextId = u.nextId)

end VulkanState

/-! ## The obligations of the frame loop -/

/-- The retirement of render pass `id` into the bucket of `slot` is open until
`inFlightFences[slot]` is waited on. -/
def retirement : Watch (Nat × Nat) where
  opens := fun e => match e with
    | .retire id slot => some (id, slot)
    | _ => none
  closes := fun e a => match e with
    | .vkWaitForFences slot => a.2 == slot
    | _ => false

/-- The retirement of render pass `id` is open until the next `GraphicsSystem::render`
begins, which `updateCamera` marks. -/
def retirementInCall : Watch Nat where
  opens := fun e => match e with
    | .retire id _ => some id
    | _ => none
  closes := fun e _ => match e with
    | .memcpyCameraUBO _ => true
    | _ => false

/-- The recording of commands of render pass `id` into the command buffer of `slot` is
open until `inFlightFences[slot]` is waited on or the device is waited idle. -/
def recording : Watch (Nat × Nat) where
  opens := fun e => match e with
    | .passRender id slot => some (id, slot)
    | _ => none
  closes := fun e a => match e with
    | .vkWaitForFences slot => a.2 == slot
    | .vkDeviceWaitIdle => true
    | _ => false

/-- The recording into the command buffer of `slot` is open until that command buffer
is submitted with `inFlightFences[slot]`. -/
def unsubmitted : Watch Nat where
  opens := fun e => match e with
    | .passRender _ slot => some slot
    | _ => none
  closes := fun e a => match e with
    | .vkQueueSubmit cmd fence => cmd == a && fence == a
    | _ => false

/-- The call `cleanup()` on render pass `id` needs every obligation about `id` closed. -/
def cleanupNeeds : Event → Nat × Nat → Bool
  | .passCleanup id, a => a.1 == id
  | _, _ => false

/-- The call `cleanup()` on render pass `id` needs the obligation `id` closed. -/
def cleanupNeedsId : Event → Nat → Bool
  | .passCleanup id, a => a == id
  | _, _ => false

/-- A wait that stands for the completion of the recording of `slot` needs the
recording submitted: the wait on the fence of `slot`, and `vkDeviceWaitIdle`. -/
def waitNeeds : Event → Nat → Bool
  | .vkWaitForFences slot, a => a == slot
  | .vkDeviceWaitIdle, _ => true
  | _, _ => false

/-- The fence of `slot` is waited on by one of the render calls that run, starting with
`currentFrame = cf`, before the call that drains bucket `b`: `slot` lies in the cyclic
interval from `cf` up to but excluding `b`. -/
def waitedBeforeDrain (cf slot b : Nat) : Prop :=
  (cf ≤ slot ∧ slot < b) ∨ (b < cf ∧ (cf ≤ slot ∨ slot < b))

/-- What holds of the trace after every call of the loop, also one that ends in a fault. -/
structure TraceInv (N : Nat) (tr : List Event) : Prop where
  retired : retirement.Guarded cleanupNeeds tr
  retiredInCall : 2 ≤ N → retirementInCall.Guarded cleanupNeedsId tr
  recorded : recording.Guarded cleanupNeeds tr
  submitted : unsubmitted.Guarded waitNeeds tr

/-- What holds between two iterations of the loop. -/
structure LoopInv (N : Nat) (s : VulkanState) : Prop where
  frame : s.currentFrame < N
  trace : TraceInv N s.trace
  retiredNone : retirement.pending s.trace = []
  submittedAll : unsubmitted.pending s.trace = []
  buckets : ∀ b p, p ∈ s.oldRenderPassQueue b → b < N ∧ p.id < s.nextId ∧
    ∀ slot, (p.id, slot) ∈ recording.pending s.trace → waitedBeforeDrain s.currentFrame slot b
  slots : ∀ a ∈ recording.pending s.trace, a.2 < N
  active : ∀ a, s.renderModeManager = some a → a.id < s.nextId ∧
    ∀ b p, p ∈ s.oldRenderPassQueue b → p.id ≠ a.id

/-- What holds when `GraphicsSystem::render` enters `VulkanState::render`. -/
structure EnterInv (N : Nat) (u : VulkanState) : Prop where
  frame : u.currentFrame < N
  trace : TraceInv N u.trace
  retiredSlot : ∀ a ∈ retirement.pending u.trace, a.2 = u.currentFrame
  retiredInCall : 2 ≤ N → ∀ a ∈ retirementInCall.pending u.trace,
    ∀ p ∈ u.oldRenderPassQueue ((u.currentFrame + 1) % N), p.id ≠ a
  submittedAll : unsubmitted.pending u.trace = []
  buckets : ∀ b p, p ∈ u.oldRenderPassQueue b → b < N ∧ p.id < u.nextId ∧
    (b ≠ u.currentFrame → ∀ slot, (p.id, slot) ∈ recording.pending u.trace →
      waitedBeforeDrain u.currentFrame slot b)
  slots : ∀ a ∈ recording.pending u.trace, a.2 < N
  active : ∀ a, u.renderModeManager = some a → a.id < u.nextId ∧
    ∀ b p, p ∈ u.oldRenderPassQueue b → p.id ≠ a.id

/-- The call `cleanup()` on a render pass. -/
def Event.isCleanup : Event → Bool
  | .passCleanup _ => true
  | _ => false

namespace VulkanState

/-- One completed cycle with Forward, then a cycle before which R was pressed. -/
def cycleThenSwitch : List Iteration := [{}, { polled := [Callback.changeRenderPass] }]

/-- A cycle before which R was pressed, then one more cycle. -/
def switchThenCycle : List Iteration := [{ polled := [Callback.changeRenderPass] }, {}]

/-- The calls from `createLevelResource` to the first recording. -/
def firstCycleHead : List Event :=
  [Event.construct 0 PassKind.Forward, Event.passInit 0, Event.memcpyCameraUBO 0,
   Event.memcpyCameraMatrixUBO 0, Event.vkWaitForFences 0, Event.vkAcquireNextImageKHR 0 0,
   Event.vkResetFences 0, Event.vkResetCommandBuffer 0, Event.vkBeginCommandBuffer 0]

/-- The calls from `createLevelResource` to the commit of the switch. -/
def switchCycleHead : List Event :=
  [Event.construct 0 PassKind.Forward, Event.passInit 0, Event.memcpyCameraUBO 0,
   Event.memcpyCameraMatrixUBO 0]

/-- The calls between the recording with the Forward render pass and its `cleanup()`,
with one frame slot. -/
def switchCycleOneSlot : List Event :=
  [Event.guiRender 0, Event.vkEndCommandBuffer 0, Event.vkQueueSubmit 0 0,
   Event.vkQueuePresentKHR 0, Event.memcpyCameraUBO 0, Event.memcpyCameraMatrixUBO 0,
   Event.retire 0 0, Event.construct 1 PassKind.Deferred, Event.passInit 1,
   Event.vkWaitForFences 0, Event.vkAcquireNextImageKHR 0 0, Event.vkResetFences 0,
   Event.vkResetCommandBuffer 0, Event.vkBeginCommandBuffer 0, Event.passRender 1 0,
   Event.guiRender 0, Event.vkEndCommandBuffer 0, Event.vkQueueSubmit 0 0,
   Event.vkQueuePresentKHR 0]

/-- The calls between the retirement of the Forward render pass and its `cleanup()`,
with two frame slots. -/
def switchCycleTwoSlots : List Event :=
  [Event.construct 1 PassKind.Deferred, Event.passInit 1,
   Event.vkWaitForFences 0, Event.vkAcquireNextImageKHR 0 0, Event.vkResetFences 0,
   Event.vkResetCommandBuffer 0, Event.vkBeginCommandBuffer 0, Event.passRender 1 0,
   Event.guiRender 0, Event.vkEndCommandBuffer 0, Event.vkQueueSubmit 0 0,
   Event.vkQueuePresentKHR 0, Event.memcpyCameraUBO 1, Event.memcpyCameraMatrixUBO 1,
   Event.vkWaitForFences 1, Event.vkAcquireNextImageKHR 1 0, Event.vkResetFences 1,
   Event.vkResetCommandBuffer 1, Event.vkBeginCommandBuffer 1, Event.passRender 1 1,
   Event.guiRender 1, Event.vkEndCommandBuffer 1, Event.vkQueueSubmit 1 1,
   Event.vkQueuePresentKHR 1]

end VulkanState

/-! ## Recording and the fence of the frame slot -/

/-- The call that starts a recording into a command buffer. -/
def Event.isReset : Event → Bool
  | .vkResetCommandBuffer _ => true
  | _ => false

/-- A queue submission that is handed another fence than that of the slot of its
command buffer. -/
def Event.isForeignSubmit : Event → Bool
  | .vkQueueSubmit cmd fence => cmd != fence
  | _ => false

/-- Every recording in the trace comes directly after the wait on the fence of its slot,
the acquire and the reset of that fence. -/
def RecordsAfterWait (tr : List Event) : Prop :=
  ∀ pre post S, tr = pre ++ Event.vkResetCommandBuffer S :: post →
    ∃ before r, pre = before ++ [Event.vkWaitForFences S, Event.vkAcquireNextImageKHR S r,
      Event.vkResetFences S]

/-- Every queue submission in the trace is handed the fence of the slot of its command
buffer. -/
def SubmitsWithSlotFence (tr : List Event) : Prop :=
  ∀ e ∈ tr, e.isForeignSubmit = false

/-- The two properties of the trace that order recordings after fence waits. -/
structure FenceInv (tr : List Event) : Prop where
  records : RecordsAfterWait tr
  submits : SubmitsWithSlotFence tr

namespace VulkanState

/-- Two cycles without a switch request. -/
def twoCycles : List Iteration := [{}, {}]

/-- The calls of the first cycle and of the second up to its recording. -/
def secondRecordingHead : List Event :=
  [Event.construct 0 PassKind.Forward, Event.passInit 0, Event.memcpyCameraUBO 0,
   Event.memcpyCameraMatrixUBO 0, Event.vkWaitForFences 0, Event.vkAcquireNextImageKHR 0 0,
   Event.vkResetFences 0, Event.vkResetCommandBuffer 0, Event.vkBeginCommandBuffer 0,
   Event.passRender 0 0, Event.guiRender 0, Event.vkEndCommandBuffer 0,
   Event.vkQueueSubmit 0 0, Event.vkQueuePresentKHR 0, Event.memcpyCameraUBO 0,
   Event.memcpyCameraMatrixUBO 0, Event.vkWaitForFences 0, Event.vkAcquireNextImageKHR 0 0,
   Event.vkResetFences 0]

/-- The calls of the second cycle after `vkResetCommandBuffer`. -/
def secondRecordingTail : List Event :=
  [Event.vkBeginCommandBuffer 0, Event.passRender 0 0, Event.guiRender 0,
   Event.vkEndCommandBuffer 0, Event.vkQueueSubmit 0 0, Event.vkQueuePresentKHR 0]

end VulkanState

namespace VulkanState

/-- The state after start-up, one press of R and the commit of the switch: the Forward
render pass waits in the bucket of slot 0. -/
def committedSwitch : VulkanState :=
  (cleanupRenderModeResource false (boot deviceExtensions).changeRenderPass).state

end VulkanState

namespace VulkanState

/-- A result that is neither success nor one of the two staleness codes. -/
def isFailure (r : VkResult) : Prop :=
  r ≠ VK_SUCCESS ∧ r ≠ VK_SUBOPTIMAL_KHR ∧ r ≠ VK_ERROR_OUT_OF_DATE_KHR

instance (r : VkResult) : Decidable (isFailure r) := by
  unfold isFailure; infer_instance

/-- One of the calls that `render` reaches fails: the acquire returns a failure; or,
after a usable acquire, begin fails; or, after a recording through non-null pointers,
end fails, or submit fails, or present returns a failure while the resize flag of the
window is not set. -/
def callFails (inp : FrameInput) (s : VulkanState) : Prop :=
  isFailure inp.acquireResult ∨
  ((inp.acquireResult = VK_SUCCESS ∨ inp.acquireResult = VK_SUBOPTIMAL_KHR) ∧
    (inp.beginResult ≠ VK_SUCCESS ∨
     (inp.beginResult = VK_SUCCESS ∧ recordEvents s ≠ none ∧
       (inp.endResult ≠ VK_SUCCESS ∨
        (inp.endResult = VK_SUCCESS ∧
          (inp.submitResult ≠ VK_SUCCESS ∨
           (inp.submitResult = VK_SUCCESS ∧ isFailure inp.presentResult ∧
             s.framebufferResized = false)))))))

instance (inp : FrameInput) (s : VulkanState) : Decidable (callFails inp s) := by
  unfold callFails; infer_instance

/-- The state after start-up in which GLFW has reported a resize of the framebuffer. -/
def resizedAfterBoot : VulkanState := (boot deviceExtensions).fire Callback.framebufferResize

end VulkanState

namespace VulkanState

/-- The calls of a `recreateSwapchain` that runs to its end, after its waits for a
framebuffer of non-zero size, with the active render pass `id`. -/
def fullRecreateEvents (id : Nat) : List Event :=
  [Event.vkDeviceWaitIdle,
   Event.passCleanupImageResources id, Event.swapchainPassCleanupImageResources,
   Event.cleanupSwapchain, Event.createSwapchain, Event.createSwapchainImageViews,
   Event.passCreateImageResources id, Event.swapchainPassCreateImageResources,
   Event.guiRecreateFramebuffer]

end VulkanState

namespace VulkanState

/-- Three cycles without a switch request. -/
def threeCycles : List Iteration := [{}, {}, {}]

/-- The calls from `createLevelResource` up to the first queue submission, which uses
slot 0. -/
def firstSubmissionHead : List Event :=
  [Event.construct 0 PassKind.Forward, Event.passInit 0, Event.memcpyCameraUBO 0,
   Event.memcpyCameraMatrixUBO 0, Event.vkWaitForFences 0, Event.vkAcquireNextImageKHR 0 0,
   Event.vkResetFences 0, Event.vkResetCommandBuffer 0, Event.vkBeginCommandBuffer 0,
   Event.passRender 0 0, Event.guiRender 0, Event.vkEndCommandBuffer 0]

/-- The calls between the first submission of slot 0 and the next `updateCamera` for
slot 0, with two frame slots: the present of the first cycle and the second cycle. -/
def betweenSlotZeroUses : List Event :=
  [Event.vkQueuePresentKHR 0, Event.memcpyCameraUBO 1, Event.memcpyCameraMatrixUBO 1,
   Event.vkWaitForFences 1, Event.vkAcquireNextImageKHR 1 0, Event.vkResetFences 1,
   Event.vkResetCommandBuffer 1, Event.vkBeginCommandBuffer 1, Event.passRender 0 1,
   Event.guiRender 1, Event.vkEndCommandBuffer 1, Event.vkQueueSubmit 1 1,
   Event.vkQueuePresentKHR 1]

/-- The calls of the third cycle after its write to the camera buffer of slot 0. -/
def thirdCycleTail : List Event :=
  [Event.memcpyCameraMatrixUBO 0, Event.vkWaitForFences 0, Event.vkAcquireNextImageKHR 0 0,
   Event.vkResetFences 0, Event.vkResetCommandBuffer 0, Event.vkBeginCommandBuffer 0,
   Event.passRender 0 0, Event.guiRender 0, Event.vkEndCommandBuffer 0,
   Event.vkQueueSubmit 0 0, Event.vkQueuePresentKHR 0]

end VulkanState

namespace VulkanState

/-- The function `VulkanState::cleanup`. The calls on `rayTracingPipeline` and on
`renderModeManager` go through a `std::unique_ptr` without a test for null. -/
def cleanup (N : Nat) (s : VulkanState) : Step := do
  let s := s.emit Event.guiCleanup
  if s.rayTracingPipeline then
    let s := s.emit Event.rayTracingCleanup
    let s := s.emit Event.swapchainPassCleanup
    let s := s.emit Event.assetsCleanup
    match s.renderModeManager with
    | none => throw (Fault.nullDereference "renderModeManager", s)
    | some pass =>
      let s := s.emit (Event.passCleanup pass.id)
      let s := s.emit Event.commonDescriptorCleanup
      let s := s.emit Event.cleanupSwapchain
      let s := s.emit Event.buffersCleanup
      let s := s.log ((List.range N).map Event.destroySyncObjects)
      pure (s.emit Event.destroyDevice)
  else
    throw (Fault.nullDereference "rayTracingPipeline", s)

end VulkanState

namespace GraphicsSystem

/-- The function `GraphicsSystem::cleanup`: `deviceWaitIdle`, then
`VulkanState::cleanup`. -/
def cleanup (N : Nat) (s : VulkanState) : Step :=
  (s.emit Event.vkDeviceWaitIdle).cleanup N

end GraphicsSystem

/-! ## Commands recorded into a command buffer -/

/-- The values of `VkImageLayout` the render passes use. -/
inductive VkImageLayout
  | UNDEFINED
  | GENERAL
  | COLOR_ATTACHMENT_OPTIMAL
  | DEPTH_STENCIL_ATTACHMENT_OPTIMAL
  | DEPTH_STENCIL_READ_ONLY_OPTIMAL
  | SHADER_READ_ONLY_OPTIMAL
  | PRESENT_SRC_KHR
  deriving DecidableEq, Repr

/-- The bits of `VkPipelineStageFlags` the render passes use. -/
inductive VkPipelineStageFlagBits
  | TOP_OF_PIPE
  | EARLY_FRAGMENT_TESTS
  | LATE_FRAGMENT_TESTS
  | FRAGMENT_SHADER
  | COLOR_ATTACHMENT_OUTPUT
  | RAY_TRACING_SHADER_KHR
  deriving DecidableEq, Repr

/-- The bits of `VkAccessFlags` the render passes use. -/
inductive VkAccessFlagBits
  | INPUT_ATTACHMENT_READ
  | SHADER_READ
  | SHADER_WRITE
  | COLOR_ATTACHMENT_WRITE
  | DEPTH_STENCIL_ATTACHMENT_WRITE
  deriving DecidableEq, Repr

/-- A stage mask, as the bits that are set in it, in the order the source writes them. -/
abbrev VkPipelineStageFlags := List VkPipelineStageFlagBits

/-- An access mask, as the bits that are set in it; `VK_ACCESS_NONE` is the empty list. -/
abbrev VkAccessFlags := List VkAccessFlagBits

inductive VkImageAspectFlagBits
  | COLOR
  | DEPTH
  deriving DecidableEq, Repr

/-- The five images of `GBufferRenderPass`, in the order of its `enum BINDING`. -/
inductive GBufferImage
  | albedo
  | position
  | normal
  | material
  | depth
  deriving DecidableEq, Repr

/-- The images that a barrier of a render function names. -/
inductive Image
  /-- An image of the `GBufferRenderPass` owned by the Pixel strategy -/
  | gBuffer (i : GBufferImage)
  /-- The member `shadowMap.image` of `BaseShadowRenderPass` -/
  | shadowMap
  /-- The member `renderedImageResource.image` of `SwapchainRenderPass` -/
  | renderedImage
  deriving DecidableEq, Repr

/-- The member `renderPass` of the object that begins a render pass. -/
inductive RenderPassHandle
  | forward
  | shadow
  | deferred
  | gBuffer
  | pixel
  | swapchain
  | gui
  deriving DecidableEq, Repr

/-- The pipeline objects the render functions bind. -/
inductive PipelineHandle
  | forward
  | shadow
  /-- The member `gBufferPipeline` of `DeferredRenderPass` -/
  | deferredGBuffer
  /-- The member `ssaoPipeline` of `DeferredRenderPass` -/
  | deferredSsao
  /-- The member `lightingPipeline` of `DeferredRenderPass` -/
  | deferredLighting
  | gBuffer
  | pixel
  | rayTracing
  | swapchain
  deriving DecidableEq, Repr

/-- The descriptor sets the render functions bind, each with the index into its
array `sets`. -/
inductive DescriptorSet
  /-- The set `commonDescriptor.modelMatrix.sets[slot]` -/
  | commonModelMatrix (slot : Nat)
  /-- The set `commonDescriptor.cameraMatrix.sets[slot]` -/
  | commonCameraMatrix (slot : Nat)
  /-- The set `commonDescriptor.camera.sets[slot]` -/
  | commonCamera (slot : Nat)
  /-- The set `commonDescriptor.light.sets[slot]` -/
  | commonLight (slot : Nat)
  /-- The set `models[i].resource.descriptorSets[slot]` -/
  | model (i slot : Nat)
  /-- The set `output.sets[slot]` of `ForwardRenderPass` -/
  | forwardOutput (slot : Nat)
  /-- The set `lightDescriptor.sets[slot]` of `BaseShadowRenderPass` -/
  | shadowLight (slot : Nat)
  /-- The set `ssaoDescriptor.sets[slot]` of `DeferredRenderPass` -/
  | ssao (slot : Nat)
  /-- The set `lightingDescriptor.sets[slot]` of `DeferredRenderPass` -/
  | lighting (slot : Nat)
  /-- The set `shadowPass->getShadowMap()[slot]` -/
  | shadowMap (slot : Nat)
  /-- The set `shadowPass->getLightMatrix()[slot]` -/
  | lightMatrix (slot : Nat)
  /-- The set `gBuffer->getGBuffer()[slot]` -/
  | gBuffer (slot : Nat)
  /-- The set `tlasDescriptor.sets[0]` of `RayTracingPipeline` -/
  | tlas
  /-- The set `outputDescriptor.sets[slot]` of `RayTracingPipeline` -/
  | rayTracingOutput (slot : Nat)
  /-- The set `sphereDescriptor.sets[0]` of `RayTracingPipeline` -/
  | sphere
  /-- The set `samplerDescriptor.sets[slot]` of `SwapchainRenderPass` -/
  | swapchainSampler (slot : Nat)
  deriving DecidableEq, Repr

/-- The fields of `VkImageMemoryBarrier` the render functions set to other values than
the ones common to all barriers. -/
structure VkImageMemoryBarrier where
  oldLayout : VkImageLayout
  newLayout : VkImageLayout
  image : Image
  aspectMask : VkImageAspectFlagBits
  srcAccessMask : VkAccessFlags
  dstAccessMask : VkAccessFlags
  deriving DecidableEq, Repr

/-- A command recorded into a command buffer. -/
inductive Cmd
  | vkCmdBeginRenderPass (renderPass : RenderPassHandle) (clearValueCount : Nat)
  | vkCmdSetViewport
  | vkCmdSetScissor
  | vkCmdBindPipeline (pipeline : PipelineHandle)
  /-- The vertex buffer of `models[model]` is bound -/
  | vkCmdBindVertexBuffers (model : Nat)
  /-- The index buffer of `models[model]` is bound -/
  | vkCmdBindIndexBuffer (model : Nat)
  /-- One descriptor set is bound as set number `firstSet`, with at most one dynamic
  offset -/
  | vkCmdBindDescriptorSets (firstSet : Nat) (set : DescriptorSet) (dynamicOffset : Option Nat)
  | vkCmdPushConstants
  | vkCmdDraw (vertexCount : Nat)
  | vkCmdDrawIndexed (indexCount : Nat)
  | vkCmdNextSubpass
  | vkCmdEndRenderPass
  /-- A pipeline barrier with one image memory barrier -/
  | vkCmdPipelineBarrier (srcStageMask dstStageMask : VkPipelineStageFlags)
      (barrier : VkImageMemoryBarrier)
  | vkCmdTraceRaysKHR
  /-- The call `ImGui_ImplVulkan_RenderDrawData(ImGui::GetDrawData(), commandBuffer)` -/
  | ImGui_ImplVulkan_RenderDrawData
  deriving DecidableEq, Repr

/-- What a render function does, in program order. -/
inductive Op
  /-- The command `c` is recorded into `commandBuffers[commandBuffer]` -/
  | record (commandBuffer : Nat) (c : Cmd)
  /-- The call `memcpy(modelMatrixBuffersMapped[slot] + offset, &matrixUBO, sizeof(matrixUBO))`
  with the model matrix of `models[model]` -/
  | memcpyModelMatrix (slot offset model : Nat)
  /-- The call `memcpy(shadowMapLight.buffersMapped[slot], &lightUBOData, ...)` -/
  | memcpyLightMatrix (slot : Nat)
  /-- The calls that build the ImGui frame on the host, from `ImGui_ImplVulkan_NewFrame`
  to `ImGui::Render` -/
  | imguiFrame
  deriving DecidableEq, Repr

/-- The fields of `AssetData` the render functions read. -/
structure AssetData where
  /-- The member `resource.indexCount`, a `size_t`; the render functions pass
  `static_cast<uint32_t>(models[i].resource.indexCount)` to `vkCmdDrawIndexed` -/
  indexCount : Nat
  deriving DecidableEq, Repr

/-- The conversion `static_cast<uint32_t>(i * sizeof(TransformMatrixBuffer))`, with
`sz = sizeof(TransformMatrixBuffer)`. -/
def modelMatrixOffset (sz i : Nat) : Nat := (i * sz) % 2 ^ 32

namespace AssetData

/-- The function `AssetData::updateModelTransformMatrix` (include/vulkan_types.hpp), called
on `models[index]` with `modelMatrixBuffersMapped[slot]`: the write and the offset it returns. -/
def updateModelTransformMatrix (sz index slot : Nat) : List Op × Nat :=
  let offset := (index * sz) % 2 ^ 32
  ([Op.memcpyModelMatrix slot offset index], offset)

end AssetData

namespace VulkanUtils

/-- Modelled from the spec: `VulkanUtils::transitionLayout` is declared in
include/vulkan_utils.hpp and its body is not among the sources. By its declaration it
records the "explicit barrier" of the spec: one `vkCmdPipelineBarrier` with one image
memory barrier made of its arguments. -/
def transitionLayout (commandBuffer : Nat) (image : Image) (oldLayout newLayout : VkImageLayout)
    (aspectMask : VkImageAspectFlagBits) (srcAccessMask dstAccessMask : VkAccessFlags)
    (srcStageMask dstStageMask : VkPipelineStageFlags) : List Op :=
  [Op.record commandBuffer (Cmd.vkCmdPipelineBarrier srcStageMask dstStageMask
    { oldLayout := oldLayout, newLayout := newLayout, image := image, aspectMask := aspectMask,
      srcAccessMask := srcAccessMask, dstAccessMask := dstAccessMask })]

end VulkanUtils

namespace ForwardRenderPass

/-- The body of the loop over `models` in `ForwardRenderPass::render`. -/
def drawModel (sz currentFrame : Nat) (i : Nat) (model : AssetData) : List Op :=
  let offset := modelMatrixOffset sz i
  [Op.memcpyModelMatrix currentFrame offset i,
   Op.record currentFrame (Cmd.vkCmdBindVertexBuffers i),
   Op.record currentFrame (Cmd.vkCmdBindIndexBuffer i),
   Op.record currentFrame
     (Cmd.vkCmdBindDescriptorSets 0 (DescriptorSet.commonModelMatrix currentFrame) (some offset)),
   Op.record currentFrame
     (Cmd.vkCmdBindDescriptorSets 1 (DescriptorSet.commonCameraMatrix currentFrame) none),
   Op.record currentFrame
     (Cmd.vkCmdBindDescriptorSets 2 (DescriptorSet.commonCamera currentFrame) none),
   Op.record currentFrame
     (Cmd.vkCmdBindDescriptorSets 3 (DescriptorSet.commonLight currentFrame) none),
   Op.record currentFrame
     (Cmd.vkCmdBindDescriptorSets 4 (DescriptorSet.model i currentFrame) none),
   Op.record currentFrame
     (Cmd.vkCmdBindDescriptorSets 5 (DescriptorSet.forwardOutput currentFrame) none),
   Op.record currentFrame (Cmd.vkCmdDrawIndexed (model.indexCount % 2 ^ 32))]

/-- The function `ForwardRenderPass::render` (src/forward_renderpass.cpp). -/
def render (sz currentFrame : Nat) (models : List AssetData) : List Op :=
  [Op.record currentFrame (Cmd.vkCmdBeginRenderPass RenderPassHandle.forward 2),
   Op.record currentFrame Cmd.vkCmdSetViewport,
   Op.record currentFrame Cmd.vkCmdSetScissor,
   Op.record currentFrame (Cmd.vkCmdBindPipeline PipelineHandle.forward)] ++
  models.enum.flatMap (fun im => drawModel sz currentFrame im.1 im.2) ++
  [Op.record currentFrame Cmd.vkCmdEndRenderPass]

end ForwardRenderPass

namespace BaseShadowRenderPass

/-- The function `BaseShadowRenderPass::resetLayout`; it sets `currentLayout` to
`VK_IMAGE_LAYOUT_DEPTH_STENCIL_ATTACHMENT_OPTIMAL`. -/
def resetLayout (commandBuffer : Nat) : List Op :=
  [Op.record commandBuffer (Cmd.vkCmdPipelineBarrier
    [VkPipelineStageFlagBits.FRAGMENT_SHADER] [VkPipelineStageFlagBits.LATE_FRAGMENT_TESTS]
    { oldLayout := VkImageLayout.SHADER_READ_ONLY_OPTIMAL,
      newLayout := VkImageLayout.DEPTH_STENCIL_ATTACHMENT_OPTIMAL,
      image := Image.shadowMap, aspectMask := VkImageAspectFlagBits.DEPTH,
      srcAccessMask := [VkAccessFlagBits.SHADER_READ],
      dstAccessMask := [VkAccessFlagBits.DEPTH_STENCIL_ATTACHMENT_WRITE] })]

/-- The function `BaseShadowRenderPass::updateLightMatrix`: one `memcpy` for each of the
`N = Config::MAX_FRAMES_IN_FLIGHT` mapped buffers. The matrix it copies is computed from
`directionalLights[0]`; the vector is taken to have an element. -/
def updateLightMatrix (N : Nat) : List Op :=
  (List.range N).map Op.memcpyLightMatrix

/-- The body of the loop over `models` in `generateShadowMap`. -/
def drawModel (sz currentFrame : Nat) (i : Nat) (model : AssetData) : List Op :=
  let w := AssetData.updateModelTransformMatrix sz i currentFrame
  w.1 ++
  [Op.record currentFrame (Cmd.vkCmdBindVertexBuffers i),
   Op.record currentFrame (Cmd.vkCmdBindIndexBuffer i),
   Op.record currentFrame
     (Cmd.vkCmdBindDescriptorSets 0 (DescriptorSet.commonModelMatrix currentFrame) (some w.2)),
   Op.record currentFrame
     (Cmd.vkCmdBindDescriptorSets 1 (DescriptorSet.shadowLight currentFrame) none),
   Op.record currentFrame (Cmd.vkCmdDrawIndexed (model.indexCount % 2 ^ 32))]

/-- The function `BaseShadowRenderPass::generateShadowMap`
(src/shadowmapping_renderpass.cpp), started with the member `currentLayout`: what it
does, and the value of `currentLayout` when it returns. -/
def generateShadowMap (sz N currentFrame : Nat) (models : List AssetData)
    (currentLayout : VkImageLayout) : List Op × VkImageLayout :=
  ((if currentLayout ≠ VkImageLayout.DEPTH_STENCIL_ATTACHMENT_OPTIMAL then
      resetLayout currentFrame else []) ++
   updateLightMatrix N ++
   [Op.record currentFrame (Cmd.vkCmdBeginRenderPass RenderPassHandle.shadow 1),
    Op.record currentFrame Cmd.vkCmdSetViewport,
    Op.record currentFrame Cmd.vkCmdSetScissor,
    Op.record currentFrame (Cmd.vkCmdBindPipeline PipelineHandle.shadow)] ++
   models.enum.flatMap (fun im => drawModel sz currentFrame im.1 im.2) ++
   [Op.record currentFrame Cmd.vkCmdEndRenderPass,
    Op.record currentFrame (Cmd.vkCmdPipelineBarrier
      [VkPipelineStageFlagBits.LATE_FRAGMENT_TESTS] [VkPipelineStageFlagBits.FRAGMENT_SHADER]
      { oldLayout := VkImageLayout.DEPTH_STENCIL_ATTACHMENT_OPTIMAL,
        newLayout := VkImageLayout.SHADER_READ_ONLY_OPTIMAL,
        image := Image.shadowMap, aspectMask := VkImageAspectFlagBits.DEPTH,
        srcAccessMask := [VkAccessFlagBits.DEPTH_STENCIL_ATTACHMENT_WRITE],
        dstAccessMask := [VkAccessFlagBits.SHADER_READ] })],
   VkImageLayout.SHADER_READ_ONLY_OPTIMAL)

end BaseShadowRenderPass

namespace DeferredRenderPass

/-- The body of the loop over `models` in the first subpass of `DeferredRenderPass::render`. -/
def drawModel (sz currentFrame : Nat) (i : Nat) (model : AssetData) : List Op :=
  let offset := modelMatrixOffset sz i
  [Op.memcpyModelMatrix currentFrame offset i,
   Op.record currentFrame (Cmd.vkCmdBindVertexBuffers i),
   Op.record currentFrame (Cmd.vkCmdBindIndexBuffer i),
   Op.record currentFrame
     (Cmd.vkCmdBindDescriptorSets 0 (DescriptorSet.commonModelMatrix currentFrame) (some offset)),
   Op.record currentFrame
     (Cmd.vkCmdBindDescriptorSets 1 (DescriptorSet.commonCameraMatrix currentFrame) none),
   Op.record currentFrame
     (Cmd.vkCmdBindDescriptorSets 2 (DescriptorSet.commonCamera currentFrame) none),
   Op.record currentFrame
     (Cmd.vkCmdBindDescriptorSets 3 (DescriptorSet.model i currentFrame) none),
   Op.record currentFrame (Cmd.vkCmdDrawIndexed (model.indexCount % 2 ^ 32))]

/-- The part of `DeferredRenderPass::render` from `vkCmdBeginRenderPass` to
`vkCmdEndRenderPass`. -/
def subpasses (sz currentFrame : Nat) (models : List AssetData) : List Op :=
  [Op.record currentFrame (Cmd.vkCmdBeginRenderPass RenderPassHandle.deferred 7),
   Op.record currentFrame Cmd.vkCmdSetViewport,
   Op.record currentFrame Cmd.vkCmdSetScissor,
   Op.record currentFrame (Cmd.vkCmdBindPipeline PipelineHandle.deferredGBuffer)] ++
  models.enum.flatMap (fun im => drawModel sz currentFrame im.1 im.2) ++
  [Op.record currentFrame Cmd.vkCmdNextSubpass,
   Op.record currentFrame (Cmd.vkCmdBindPipeline PipelineHandle.deferredSsao),
   Op.record currentFrame
     (Cmd.vkCmdBindDescriptorSets 0 (DescriptorSet.commonCameraMatrix currentFrame) none),
   Op.record currentFrame
     (Cmd.vkCmdBindDescriptorSets 1 (DescriptorSet.commonCamera currentFrame) none),
   Op.record currentFrame (Cmd.vkCmdBindDescriptorSets 2 (DescriptorSet.ssao currentFrame) none),
   Op.record currentFrame Cmd.vkCmdPushConstants,
   Op.record currentFrame (Cmd.vkCmdDraw 4),
   Op.record currentFrame Cmd.vkCmdNextSubpass,
   Op.record currentFrame (Cmd.vkCmdBindPipeline PipelineHandle.deferredLighting),
   Op.record currentFrame
     (Cmd.vkCmdBindDescriptorSets 0 (DescriptorSet.commonCameraMatrix currentFrame) none),
   Op.record currentFrame
     (Cmd.vkCmdBindDescriptorSets 1 (DescriptorSet.commonCamera currentFrame) none),
   Op.record currentFrame
     (Cmd.vkCmdBindDescriptorSets 2 (DescriptorSet.commonLight currentFrame) none),
   Op.record currentFrame
     (Cmd.vkCmdBindDescriptorSets 3 (DescriptorSet.lighting currentFrame) none),
   Op.record currentFrame
     (Cmd.vkCmdBindDescriptorSets 4 (DescriptorSet.shadowMap currentFrame) none),
   Op.record currentFrame
     (Cmd.vkCmdBindDescriptorSets 5 (DescriptorSet.lightMatrix currentFrame) none),
   Op.record currentFrame (Cmd.vkCmdDraw 4),
   Op.record currentFrame Cmd.vkCmdEndRenderPass]

/-- The function `DeferredRenderPass::render` (src/deferred_renderpass.cpp), started with
the member `currentLayout` of its `shadowPass`: what it does, and the value of that
member when it returns. -/
def render (sz N currentFrame : Nat) (models : List AssetData)
    (shadowLayout : VkImageLayout) : List Op × VkImageLayout :=
  let shadow := BaseShadowRenderPass.generateShadowMap sz N currentFrame models shadowLayout
  (shadow.1 ++ subpasses sz currentFrame models, shadow.2)

end DeferredRenderPass

namespace GBufferRenderPass

/-- The function `GBufferRenderPass::transitionGBufferToSampler`
(src/gbuffer_renderpass.cpp); it also sets the member `isTransitioned`, which nothing
reads. -/
def transitionGBufferToSampler (commandBuffer : Nat) : List Op :=
  VulkanUtils.transitionLayout commandBuffer (Image.gBuffer GBufferImage.albedo)
    VkImageLayout.COLOR_ATTACHMENT_OPTIMAL VkImageLayout.SHADER_READ_ONLY_OPTIMAL
    VkImageAspectFlagBits.COLOR
    [VkAccessFlagBits.COLOR_ATTACHMENT_WRITE] [VkAccessFlagBits.SHADER_READ]
    [VkPipelineStageFlagBits.COLOR_ATTACHMENT_OUTPUT] [VkPipelineStageFlagBits.FRAGMENT_SHADER] ++
  VulkanUtils.transitionLayout commandBuffer (Image.gBuffer GBufferImage.position)
    VkImageLayout.COLOR_ATTACHMENT_OPTIMAL VkImageLayout.SHADER_READ_ONLY_OPTIMAL
    VkImageAspectFlagBits.COLOR
    [VkAccessFlagBits.COLOR_ATTACHMENT_WRITE] [VkAccessFlagBits.SHADER_READ]
    [VkPipelineStageFlagBits.COLOR_ATTACHMENT_OUTPUT] [VkPipelineStageFlagBits.FRAGMENT_SHADER] ++
  VulkanUtils.transitionLayout commandBuffer (Image.gBuffer GBufferImage.normal)
    VkImageLayout.COLOR_ATTACHMENT_OPTIMAL VkImageLayout.SHADER_READ_ONLY_OPTIMAL
    VkImageAspectFlagBits.COLOR
    [VkAccessFlagBits.COLOR_ATTACHMENT_WRITE] [VkAccessFlagBits.SHADER_READ]
    [VkPipelineStageFlagBits.COLOR_ATTACHMENT_OUTPUT] [VkPipelineStageFlagBits.FRAGMENT_SHADER] ++
  VulkanUtils.transitionLayout commandBuffer (Image.gBuffer GBufferImage.material)
    VkImageLayout.COLOR_ATTACHMENT_OPTIMAL VkImageLayout.SHADER_READ_ONLY_OPTIMAL
    VkImageAspectFlagBits.COLOR
    [VkAccessFlagBits.COLOR_ATTACHMENT_WRITE] [VkAccessFlagBits.SHADER_READ]
    [VkPipelineStageFlagBits.COLOR_ATTACHMENT_OUTPUT] [VkPipelineStageFlagBits.FRAGMENT_SHADER] ++
  VulkanUtils.transitionLayout commandBuffer (Image.gBuffer GBufferImage.depth)
    VkImageLayout.DEPTH_STENCIL_ATTACHMENT_OPTIMAL VkImageLayout.SHADER_READ_ONLY_OPTIMAL
    VkImageAspectFlagBits.DEPTH
    [VkAccessFlagBits.DEPTH_STENCIL_ATTACHMENT_WRITE] [VkAccessFlagBits.SHADER_READ]
    [VkPipelineStageFlagBits.LATE_FRAGMENT_TESTS] [VkPipelineStageFlagBits.FRAGMENT_SHADER]

/-- The body of the loop over `models` in `generateGBuffer`. -/
def drawModel (sz currentFrame : Nat) (i : Nat) (model : AssetData) : List Op :=
  let offset := modelMatrixOffset sz i
  [Op.memcpyModelMatrix currentFrame offset i,
   Op.record currentFrame (Cmd.vkCmdBindVertexBuffers i),
   Op.record currentFrame (Cmd.vkCmdBindIndexBuffer i),
   Op.record currentFrame
     (Cmd.vkCmdBindDescriptorSets 0 (DescriptorSet.commonModelMatrix currentFrame) (some offset)),
   Op.record currentFrame
     (Cmd.vkCmdBindDescriptorSets 1 (DescriptorSet.commonCameraMatrix currentFrame) none),
   Op.record currentFrame
     (Cmd.vkCmdBindDescriptorSets 2 (DescriptorSet.commonCamera currentFrame) none),
   Op.record currentFrame
     (Cmd.vkCmdBindDescriptorSets 3 (DescriptorSet.model i currentFrame) none),
   Op.record currentFrame (Cmd.vkCmdDrawIndexed (model.indexCount % 2 ^ 32))]

/-- The part of `generateGBuffer` from `vkCmdBeginRenderPass` to `vkCmdEndRenderPass`. -/
def geometryPass (sz currentFrame : Nat) (models : List AssetData) : List Op :=
  [Op.record currentFrame (Cmd.vkCmdBeginRenderPass RenderPassHandle.gBuffer 7),
   Op.record currentFrame Cmd.vkCmdSetViewport,
   Op.record currentFrame Cmd.vkCmdSetScissor,
   Op.record currentFrame (Cmd.vkCmdBindPipeline PipelineHandle.gBuffer)] ++
  models.enum.flatMap (fun im => drawModel sz currentFrame im.1 im.2) ++
  [Op.record currentFrame Cmd.vkCmdEndRenderPass]

/-- The function `GBufferRenderPass::generateGBuffer` (src/gbuffer_renderpass.cpp). -/
def generateGBuffer (sz currentFrame : Nat) (models : List AssetData) : List Op :=
  geometryPass sz currentFrame models ++ transitionGBufferToSampler currentFrame

/-- The member `finalLayout` of the attachment descriptions of
`GBufferRenderPass::createRenderPass`. -/
def finalLayout : GBufferImage → VkImageLayout
  | GBufferImage.albedo => VkImageLayout.COLOR_ATTACHMENT_OPTIMAL
  | GBufferImage.position => VkImageLayout.COLOR_ATTACHMENT_OPTIMAL
  | GBufferImage.normal => VkImageLayout.COLOR_ATTACHMENT_OPTIMAL
  | GBufferImage.material => VkImageLayout.COLOR_ATTACHMENT_OPTIMAL
  | GBufferImage.depth => VkImageLayout.DEPTH_STENCIL_ATTACHMENT_OPTIMAL

/-- The member `imageLayout` of the `VkDescriptorImageInfo` that
`GBufferRenderPass::createDescriptorSets` writes for each image into the sets
`getGBuffer()` hands out. -/
def descriptorImageLayout : GBufferImage → VkImageLayout
  | GBufferImage.albedo => VkImageLayout.SHADER_READ_ONLY_OPTIMAL
  | GBufferImage.position => VkImageLayout.SHADER_READ_ONLY_OPTIMAL
  | GBufferImage.normal => VkImageLayout.SHADER_READ_ONLY_OPTIMAL
  | GBufferImage.material => VkImageLayout.SHADER_READ_ONLY_OPTIMAL
  | GBufferImage.depth => VkImageLayout.DEPTH_STENCIL_READ_ONLY_OPTIMAL

end GBufferRenderPass

namespace PixelRenderPass

/-- The part of `PixelRenderPass::render` after `generateGBuffer`: the compositing pass. -/
def compositingPass (currentFrame : Nat) : List Op :=
  [Op.record currentFrame (Cmd.vkCmdBeginRenderPass RenderPassHandle.pixel 2),
   Op.record currentFrame Cmd.vkCmdSetViewport,
   Op.record currentFrame Cmd.vkCmdSetScissor,
   Op.record currentFrame (Cmd.vkCmdBindPipeline PipelineHandle.pixel),
   Op.record currentFrame
     (Cmd.vkCmdBindDescriptorSets 0 (DescriptorSet.commonCameraMatrix currentFrame) none),
   Op.record currentFrame
     (Cmd.vkCmdBindDescriptorSets 1 (DescriptorSet.commonCamera currentFrame) none),
   Op.record currentFrame
     (Cmd.vkCmdBindDescriptorSets 2 (DescriptorSet.commonLight currentFrame) none),
   Op.record currentFrame
     (Cmd.vkCmdBindDescriptorSets 3 (DescriptorSet.gBuffer currentFrame) none),
   Op.record currentFrame Cmd.vkCmdPushConstants,
   Op.record currentFrame (Cmd.vkCmdDraw 4),
   Op.record currentFrame Cmd.vkCmdEndRenderPass]

/-- The function `PixelRenderPass::render` (src/pixel_renderpass.cpp). -/
def render (sz currentFrame : Nat) (models : List AssetData) : List Op :=
  GBufferRenderPass.generateGBuffer sz currentFrame models ++ compositingPass currentFrame

end PixelRenderPass

namespace RayTracingPipeline

/-- The function `RayTracingPipeline::render` (src/raytracing_pipeline.cpp). -/
def render (commandBuffer currentFrame : Nat) : List Op :=
  [Op.record commandBuffer (Cmd.vkCmdBindPipeline PipelineHandle.rayTracing),
   Op.record commandBuffer (Cmd.vkCmdBindDescriptorSets 0 DescriptorSet.tlas none),
   Op.record commandBuffer
     (Cmd.vkCmdBindDescriptorSets 1 (DescriptorSet.rayTracingOutput currentFrame) none),
   Op.record commandBuffer
     (Cmd.vkCmdBindDescriptorSets 2 (DescriptorSet.commonCameraMatrix currentFrame) none),
   Op.record commandBuffer
     (Cmd.vkCmdBindDescriptorSets 3 (DescriptorSet.commonCamera currentFrame) none),
   Op.record commandBuffer (Cmd.vkCmdBindDescriptorSets 4 DescriptorSet.sphere none),
   Op.record commandBuffer Cmd.vkCmdPushConstants,
   Op.record commandBuffer Cmd.vkCmdTraceRaysKHR]

end RayTracingPipeline

namespace SwapchainRenderPass

/-- The function `SwapchainRenderPass::render` (src/swapchain_renderpass.cpp), the
composite pass of the ray-tracing mode. -/
def render (commandBuffer currentFrame : Nat) : List Op :=
  VulkanUtils.transitionLayout commandBuffer Image.renderedImage
    VkImageLayout.GENERAL VkImageLayout.SHADER_READ_ONLY_OPTIMAL VkImageAspectFlagBits.COLOR
    [VkAccessFlagBits.SHADER_WRITE] [VkAccessFlagBits.SHADER_READ]
    [VkPipelineStageFlagBits.RAY_TRACING_SHADER_KHR, VkPipelineStageFlagBits.FRAGMENT_SHADER]
    [VkPipelineStageFlagBits.FRAGMENT_SHADER] ++
  [Op.record commandBuffer (Cmd.vkCmdBeginRenderPass RenderPassHandle.swapchain 1),
   Op.record commandBuffer Cmd.vkCmdSetViewport,
   Op.record commandBuffer Cmd.vkCmdSetScissor,
   Op.record commandBuffer (Cmd.vkCmdBindPipeline PipelineHandle.swapchain),
   Op.record commandBuffer
     (Cmd.vkCmdBindDescriptorSets 0 (DescriptorSet.swapchainSampler currentFrame) none),
   Op.record commandBuffer (Cmd.vkCmdDraw 4),
   Op.record commandBuffer Cmd.vkCmdEndRenderPass] ++
  VulkanUtils.transitionLayout commandBuffer Image.renderedImage
    VkImageLayout.SHADER_READ_ONLY_OPTIMAL VkImageLayout.GENERAL VkImageAspectFlagBits.COLOR
    [VkAccessFlagBits.SHADER_READ] [VkAccessFlagBits.SHADER_WRITE]
    [VkPipelineStageFlagBits.FRAGMENT_SHADER]
    [VkPipelineStageFlagBits.RAY_TRACING_SHADER_KHR, VkPipelineStageFlagBits.FRAGMENT_SHADER]

end SwapchainRenderPass

namespace VulkanGUI

/-- The function `VulkanGUI::render` (src/gui_renderpass.cpp) as seen from the command
buffer: the overlay. What it does to `mode` is in `VulkanState.guiRender`. -/
def render (commandBuffer : Nat) : List Op :=
  [Op.record commandBuffer (Cmd.vkCmdBeginRenderPass RenderPassHandle.gui 0),
   Op.imguiFrame,
   Op.record commandBuffer Cmd.ImGui_ImplVulkan_RenderDrawData,
   Op.record commandBuffer Cmd.vkCmdEndRenderPass]

end VulkanGUI

/-- The virtual call `renderModeManager->render(commandBuffers, imageIndex, currentFrame,
modelMatrixUBOResource.buffersMapped, objects, ...)` on an object of class `kind`. Only
the Deferred strategy has a member that `render` reads and writes, the `currentLayout`
of its shadow pass, given here as `shadowLayout`. -/
def BaseRenderPass.render (kind : PassKind) (sz N currentFrame : Nat) (models : List AssetData)
    (shadowLayout : VkImageLayout) : List Op :=
  match kind with
  | PassKind.Forward => ForwardRenderPass.render sz currentFrame models
  | PassKind.Deferred => (DeferredRenderPass.render sz N currentFrame models shadowLayout).1
  | PassKind.Pixel => PixelRenderPass.render sz currentFrame models

namespace VulkanState

/-- What `VulkanState::render` does between `vkBeginCommandBuffer` and
`vkEndCommandBuffer` (src/vulkan_state.cpp, 1418 to 1435), as the operations of the
render functions it calls; `none` when the pointer it would call through is null. The
calls are those that `recordFrame` and `guiRender` log in the trace. -/
def recordOps (sz N : Nat) (models : List AssetData) (shadowLayout : VkImageLayout)
    (s : VulkanState) : Option (List Op) :=
  if s.gui.isRayTracingMode then
    if s.rayTracingPipeline then
      some (RayTracingPipeline.render s.currentFrame s.currentFrame ++
        SwapchainRenderPass.render s.currentFrame s.currentFrame ++
        VulkanGUI.render s.currentFrame)
    else none
  else
    match s.renderModeManager with
    | some pass =>
      some (BaseRenderPass.render pass.kind sz N s.currentFrame models shadowLayout ++
        VulkanGUI.render s.currentFrame)
    | none => none

end VulkanState

/-- The operations that only `VulkanGUI::render` performs: beginning the render pass of
the overlay, building the ImGui frame, and recording its draw data. -/
def Op.isOverlay : Op → Bool
  | Op.record _ (Cmd.vkCmdBeginRenderPass RenderPassHandle.gui _) => true
  | Op.record _ Cmd.ImGui_ImplVulkan_RenderDrawData => true
  | Op.imguiFrame => true
  | _ => false

/-- The operation records into `commandBuffers[b]`, or records nothing. -/
def Op.onBuffer (b : Nat) : Op → Bool
  | Op.record c _ => decide (c = b)
  | _ => true

/-- The call is `gui.render`. -/
def Event.isGuiRender : Event → Bool
  | Event.guiRender _ => true
  | _ => false

/-- The image memory barrier that the operation records on `image`, if it records one. -/
def Op.barrierOn (image : Image) : Op → Option VkImageMemoryBarrier
  | Op.record _ (Cmd.vkCmdPipelineBarrier _ _ b) => if b.image = image then some b else none
  | _ => none

/-- The image memory barriers on `image` among the operations, in order. -/
def barriersOn (image : Image) (ops : List Op) : List VkImageMemoryBarrier :=
  ops.filterMap (Op.barrierOn image)

/-! ## The render pass of the Deferred strategy -/

/-- The values of `VkFormat` the sources name; `other` stands for the remaining ones. -/
inductive VkFormat
  | UNDEFINED
  | R8_UNORM
  | R8G8_UNORM
  | R8G8B8A8_UNORM
  | B8G8R8A8_SRGB
  | R32G32B32A32_SFLOAT
  | other (code : Nat)
  deriving DecidableEq, Repr

/-- The fields of `VkAttachmentDescription` that differ between attachments. -/
structure VkAttachmentDescription where
  format : VkFormat
  initialLayout : VkImageLayout
  finalLayout : VkImageLayout
  deriving DecidableEq, Repr

/-- A `VkAttachmentReference`; `attachment = none` stands for `VK_ATTACHMENT_UNUSED`. -/
structure VkAttachmentReference where
  attachment : Option Nat
  layout : VkImageLayout
  deriving DecidableEq, Repr

/-- The attachment references of a `VkSubpassDescription`; `depthStencilAttachment = none`
stands for a null `pDepthStencilAttachment`. -/
structure VkSubpassDescription where
  inputAttachments : List VkAttachmentReference := []
  colorAttachments : List VkAttachmentReference := []
  depthStencilAttachment : Option VkAttachmentReference := none
  deriving DecidableEq, Repr

/-- A `VkSubpassDependency`; a subpass `none` stands for `VK_SUBPASS_EXTERNAL`, and
`byRegion` for `dependencyFlags = VK_DEPENDENCY_BY_REGION_BIT`. -/
structure VkSubpassDependency where
  srcSubpass : Option Nat
  dstSubpass : Option Nat
  srcStageMask : VkPipelineStageFlags
  dstStageMask : VkPipelineStageFlags
  srcAccessMask : VkAccessFlags
  dstAccessMask : VkAccessFlags
  byRegion : Bool
  deriving DecidableEq, Repr

/-- The arrays of a `VkRenderPassCreateInfo`. -/
structure VkRenderPassCreateInfo where
  attachments : List VkAttachmentDescription
  subpasses : List VkSubpassDescription
  dependencies : List VkSubpassDependency
  deriving DecidableEq, Repr

/-- The member of `VkClearValue` that is set. -/
inductive VkClearValue
  | color
  | depthStencil
  deriving DecidableEq, Repr

namespace DeferredRenderPass

/-- The `enum BINDING` of src/deferred_renderpass.cpp. -/
def BINDING.ALBEDO : Nat := 0
def BINDING.POSITION : Nat := 1
def BINDING.NORMAL : Nat := 2
def BINDING.MATERIAL : Nat := 3
def BINDING.DEPTH : Nat := 4
def BINDING.SSAO : Nat := 5

/-- The array `attachments` of `DeferredRenderPass::createRenderPass`; `depthFormat` and
`swapchain.imageFormat` are members set elsewhere. -/
def attachments (depthFormat swapchainImageFormat : VkFormat) : List VkAttachmentDescription :=
  [ -- albedoAttachment
    { format := VkFormat.R8G8B8A8_UNORM, initialLayout := VkImageLayout.UNDEFINED,
      finalLayout := VkImageLayout.COLOR_ATTACHMENT_OPTIMAL },
    -- positionAttachment
    { format := VkFormat.R32G32B32A32_SFLOAT, initialLayout := VkImageLayout.UNDEFINED,
      finalLayout := VkImageLayout.COLOR_ATTACHMENT_OPTIMAL },
    -- normalAttachment
    { format := VkFormat.R32G32B32A32_SFLOAT, initialLayout := VkImageLayout.UNDEFINED,
      finalLayout := VkImageLayout.COLOR_ATTACHMENT_OPTIMAL },
    -- materialAttachment
    { format := VkFormat.R8G8_UNORM, initialLayout := VkImageLayout.UNDEFINED,
      finalLayout := VkImageLayout.COLOR_ATTACHMENT_OPTIMAL },
    -- depthAttachment
    { format := depthFormat, initialLayout := VkImageLayout.UNDEFINED,
      finalLayout := VkImageLayout.DEPTH_STENCIL_ATTACHMENT_OPTIMAL },
    -- ssaoAttachment
    { format := VkFormat.R8_UNORM, initialLayout := VkImageLayout.UNDEFINED,
      finalLayout := VkImageLayout.COLOR_ATTACHMENT_OPTIMAL },
    -- swapchainAttachment
    { format := swapchainImageFormat, initialLayout := VkImageLayout.UNDEFINED,
      finalLayout := VkImageLayout.PRESENT_SRC_KHR } ]

/-- The subpass description `gBufferSubpass`. -/
def gBufferSubpass : VkSubpassDescription :=
  { colorAttachments :=
      [ { attachment := some BINDING.ALBEDO, layout := VkImageLayout.COLOR_ATTACHMENT_OPTIMAL },
        { attachment := some BINDING.POSITION, layout := VkImageLayout.COLOR_ATTACHMENT_OPTIMAL },
        { attachment := some BINDING.NORMAL, layout := VkImageLayout.COLOR_ATTACHMENT_OPTIMAL },
        { attachment := some BINDING.MATERIAL, layout := VkImageLayout.COLOR_ATTACHMENT_OPTIMAL } ],
    depthStencilAttachment :=
      some { attachment := some BINDING.DEPTH,
             layout := VkImageLayout.DEPTH_STENCIL_ATTACHMENT_OPTIMAL } }

/-- The subpass description `ssaoSubpass`. -/
def ssaoSubpass : VkSubpassDescription :=
  { colorAttachments :=
      [ { attachment := some BINDING.SSAO, layout := VkImageLayout.COLOR_ATTACHMENT_OPTIMAL } ],
    inputAttachments :=
      [ { attachment := none, layout := VkImageLayout.UNDEFINED },
        { attachment := none, layout := VkImageLayout.UNDEFINED },
        { attachment := some BINDING.NORMAL, layout := VkImageLayout.SHADER_READ_ONLY_OPTIMAL },
        { attachment := none, layout := VkImageLayout.UNDEFINED },
        { attachment := some BINDING.DEPTH,
          layout := VkImageLayout.DEPTH_STENCIL_READ_ONLY_OPTIMAL },
        { attachment := none, layout := VkImageLayout.UNDEFINED } ] }

/-- The subpass description `lightingSubpass`. -/
def lightingSubpass : VkSubpassDescription :=
  { colorAttachments :=
      [ { attachment := some 6, layout := VkImageLayout.COLOR_ATTACHMENT_OPTIMAL } ],
    inputAttachments :=
      [ { attachment := some BINDING.ALBEDO, layout := VkImageLayout.SHADER_READ_ONLY_OPTIMAL },
        { attachment := some BINDING.POSITION, layout := VkImageLayout.SHADER_READ_ONLY_OPTIMAL },
        { attachment := some BINDING.NORMAL, layout := VkImageLayout.SHADER_READ_ONLY_OPTIMAL },
        { attachment := some BINDING.MATERIAL, layout := VkImageLayout.SHADER_READ_ONLY_OPTIMAL },
        { attachment := some BINDING.DEPTH,
          layout := VkImageLayout.DEPTH_STENCIL_READ_ONLY_OPTIMAL },
        { attachment := some BINDING.SSAO, layout := VkImageLayout.SHADER_READ_ONLY_OPTIMAL } ] }

/-- The array `subpasses` of `DeferredRenderPass::createRenderPass`. -/
def subpassDescriptions : List VkSubpassDescription :=
  [gBufferSubpass, ssaoSubpass, lightingSubpass]

/-- The dependency `gBufferDependency`. -/
def gBufferDependency : VkSubpassDependency :=
  { srcSubpass := none, dstSubpass := some 0,
    srcStageMask := [VkPipelineStageFlagBits.TOP_OF_PIPE],
    dstStageMask := [VkPipelineStageFlagBits.COLOR_ATTACHMENT_OUTPUT,
      VkPipelineStageFlagBits.EARLY_FRAGMENT_TESTS],
    srcAccessMask := [],
    dstAccessMask := [VkAccessFlagBits.COLOR_ATTACHMENT_WRITE],
    byRegion := false }

/-- The dependency `ssaoDependency`. -/
def ssaoDependency : VkSubpassDependency :=
  { srcSubpass := some 0, dstSubpass := some 1,
    srcStageMask := [VkPipelineStageFlagBits.COLOR_ATTACHMENT_OUTPUT],
    dstStageMask := [VkPipelineStageFlagBits.FRAGMENT_SHADER],
    srcAccessMask := [VkAccessFlagBits.COLOR_ATTACHMENT_WRITE],
    dstAccessMask := [VkAccessFlagBits.INPUT_ATTACHMENT_READ],
    byRegion := true }

/-- The dependency `lightingDependency`. -/
def lightingDependency : VkSubpassDependency :=
  { srcSubpass := some 1, dstSubpass := some 2,
    srcStageMask := [VkPipelineStageFlagBits.COLOR_ATTACHMENT_OUTPUT],
    dstStageMask := [VkPipelineStageFlagBits.FRAGMENT_SHADER],
    srcAccessMask := [VkAccessFlagBits.COLOR_ATTACHMENT_WRITE],
    dstAccessMask := [VkAccessFlagBits.INPUT_ATTACHMENT_READ],
    byRegion := true }

/-- The array `dependencies` of `DeferredRenderPass::createRenderPass`. -/
def dependencies : List VkSubpassDependency :=
  [gBufferDependency, ssaoDependency, lightingDependency]

/-- The `VkRenderPassCreateInfo` that `DeferredRenderPass::createRenderPass`
(src/deferred_renderpass.cpp) passes to `vkCreateRenderPass`. -/
def createRenderPass (depthFormat swapchainImageFormat : VkFormat) : VkRenderPassCreateInfo :=
  { attachments := attachments depthFormat swapchainImageFormat,
    subpasses := subpassDescriptions,
    dependencies := dependencies }

/-- The image views that `createFramebuffers` puts into a framebuffer. -/
inductive View
  | albedo
  | position
  | normal
  | material
  | depth
  | ssao
  /-- The view `swapchain.imageViews[i]` -/
  | swapchain (i : Nat)
  deriving DecidableEq, Repr

/-- The format and the aspect with which `DeferredRenderPass::createGBuffers` creates the
six image views, and `VulkanState::createSwapchainImageViews` those of the swapchain. -/
def View.created (depthFormat swapchainImageFormat : VkFormat) :
    View → VkFormat × VkImageAspectFlagBits
  | View.albedo => (VkFormat.R8G8B8A8_UNORM, VkImageAspectFlagBits.COLOR)
  | View.position => (VkFormat.R32G32B32A32_SFLOAT, VkImageAspectFlagBits.COLOR)
  | View.normal => (VkFormat.R32G32B32A32_SFLOAT, VkImageAspectFlagBits.COLOR)
  | View.material => (VkFormat.R8G8_UNORM, VkImageAspectFlagBits.COLOR)
  | View.depth => (depthFormat, VkImageAspectFlagBits.DEPTH)
  | View.ssao => (VkFormat.R8_UNORM, VkImageAspectFlagBits.COLOR)
  | View.swapchain _ => (swapchainImageFormat, VkImageAspectFlagBits.COLOR)

/-- The array `attachments` of `DeferredRenderPass::createFramebuffers` for the
framebuffer of swapchain image `i`. -/
def framebufferAttachments (i : Nat) : List View :=
  [View.albedo, View.position, View.normal, View.material, View.depth, View.ssao,
   View.swapchain i]

/-- The array `clearValues` of `DeferredRenderPass::render`. -/
def clearValues : List VkClearValue :=
  [VkClearValue.color, VkClearValue.color, VkClearValue.color, VkClearValue.color,
   VkClearValue.depthStencil, VkClearValue.color, VkClearValue.color]

end DeferredRenderPass

/-- The clear value that fits a view of the given aspect. -/
def VkImageAspectFlagBits.clearValue : VkImageAspectFlagBits → VkClearValue
  | VkImageAspectFlagBits.COLOR => VkClearValue.color
  | VkImageAspectFlagBits.DEPTH => VkClearValue.depthStencil

/-- The layouts in which an image can only be read. -/
def VkImageLayout.isReadOnly : VkImageLayout → Bool
  | VkImageLayout.SHADER_READ_ONLY_OPTIMAL => true
  | VkImageLayout.DEPTH_STENCIL_READ_ONLY_OPTIMAL => true
  | _ => false

namespace VkSubpassDescription

/-- The references through which the subpass writes attachment `a`: its colour
references and its depth-stencil reference to `a`. -/
def writeRefs (sp : VkSubpassDescription) (a : Nat) : List VkAttachmentReference :=
  (sp.colorAttachments ++ sp.depthStencilAttachment.toList).filter
    (fun r => r.attachment = some a)

/-- The references through which the subpass reads attachment `a` as an input attachment. -/
def inputRefs (sp : VkSubpassDescription) (a : Nat) : List VkAttachmentReference :=
  sp.inputAttachments.filter (fun r => r.attachment = some a)

/-- The subpass writes attachment `a` through its depth-stencil reference. -/
def writesDepth (sp : VkSubpassDescription) (a : Nat) : Bool :=
  sp.depthStencilAttachment.any (fun r => r.attachment = some a)

end VkSubpassDescription

/-- The indices of the subpasses that write attachment `a`. -/
def writers (subpasses : List VkSubpassDescription) (a : Nat) : List Nat :=
  (List.range subpasses.length).filter
    (fun i => (subpasses.get? i).any (fun sp => !(sp.writeRefs a).isEmpty))

/-- The indices of the subpasses that read attachment `a` as an input attachment. -/
def readers (subpasses : List VkSubpassDescription) (a : Nat) : List Nat :=
  (List.range subpasses.length).filter
    (fun i => (subpasses.get? i).any (fun sp => !(sp.inputRefs a).isEmpty))

/-- A write of attachment `a` in subpass `producer` that subpass `consumer` reads as an
input attachment. -/
structure AttachmentRead where
  attachment : Nat
  /-- The write is through the depth-stencil reference of the producer -/
  depth : Bool
  producer : Nat
  consumer : Nat
  deriving DecidableEq, Repr

/-- All writes of one of the first `attachmentCount` attachments that a later subpass
reads as an input attachment. -/
def attachmentReads (subpasses : List VkSubpassDescription) (attachmentCount : Nat) :
    List AttachmentRead :=
  (List.range attachmentCount).flatMap fun a =>
    (writers subpasses a).flatMap fun i =>
      ((readers subpasses a).filter (fun j => i < j)).map fun j =>
        { attachment := a,
          depth := (subpasses.get? i).any (fun sp => sp.writesDepth a),
          producer := i, consumer := j }

namespace VkSubpassDependency

/-- The source masks of the dependency cover a write through a colour reference:
the stage that writes colour attachments and the colour attachment write access. -/
def coversColorWrite (d : VkSubpassDependency) : Bool :=
  decide (VkPipelineStageFlagBits.COLOR_ATTACHMENT_OUTPUT ∈ d.srcStageMask) &&
  decide (VkAccessFlagBits.COLOR_ATTACHMENT_WRITE ∈ d.srcAccessMask)

/-- The source masks of the dependency cover a write through a depth-stencil reference:
a stage of the fragment tests and the depth-stencil attachment write access. -/
def coversDepthWrite (d : VkSubpassDependency) : Bool :=
  (decide (VkPipelineStageFlagBits.EARLY_FRAGMENT_TESTS ∈ d.srcStageMask) ||
    decide (VkPipelineStageFlagBits.LATE_FRAGMENT_TESTS ∈ d.srcStageMask)) &&
  decide (VkAccessFlagBits.DEPTH_STENCIL_ATTACHMENT_WRITE ∈ d.srcAccessMask)

/-- The destination masks of the dependency cover a read of an input attachment in the
fragment shader. -/
def coversInputRead (d : VkSubpassDependency) : Bool :=
  decide (VkPipelineStageFlagBits.FRAGMENT_SHADER ∈ d.dstStageMask) &&
  decide (VkAccessFlagBits.INPUT_ATTACHMENT_READ ∈ d.dstAccessMask)

end VkSubpassDependency

/-- The chains of at most `fuel` dependencies among `deps` that lead from subpass `i` to
subpass `j`, each dependency starting in the subpass in which the one before ends. -/
def chains (deps : List VkSubpassDependency) : Nat → Nat → Nat → List (List VkSubpassDependency)
  | 0, _, _ => []
  | fuel + 1, i, j =>
    (deps.filter (fun d => d.srcSubpass = some i)).flatMap fun d =>
      match d.dstSubpass with
      | none => []
      | some k => (if k = j then [[d]] else []) ++ (chains deps fuel k j).map (fun c => d :: c)

/-- There is a chain of dependencies from the producer to the consumer whose first
dependency covers the write and whose last dependency covers the input attachment read. -/
def AttachmentRead.covered (deps : List VkSubpassDependency) (r : AttachmentRead) : Bool :=
  (chains deps deps.length r.producer r.consumer).any fun c =>
    (c.head?.any fun d => if r.depth then d.coversDepthWrite else d.coversColorWrite) &&
    (c.getLast?.any fun d => d.coversInputRead)

/-! ## The swapchain (src/vulkan_state.cpp) -/

structure VkExtent2D where
  width : Nat
  height : Nat
  deriving DecidableEq, Repr

/-- The values of `VkColorSpaceKHR`; `other` stands for those the sources do not name. -/
inductive VkColorSpaceKHR
  | SRGB_NONLINEAR_KHR
  | other (code : Nat)
  deriving DecidableEq, Repr

structure VkSurfaceFormatKHR where
  format : VkFormat
  colorSpace : VkColorSpaceKHR
  deriving DecidableEq, Repr

/-- The values of `VkPresentModeKHR`; `other` stands for those the sources do not name. -/
inductive VkPresentModeKHR
  | MAILBOX_KHR
  | FIFO_KHR
  | other (code : Nat)
  deriving DecidableEq, Repr

/-- The fields of `VkSurfaceCapabilitiesKHR` that `createSwapchain` reads, all `uint32_t`. -/
structure VkSurfaceCapabilitiesKHR where
  minImageCount : Nat
  maxImageCount : Nat
  currentExtent : VkExtent2D
  minImageExtent : VkExtent2D
  maxImageExtent : VkExtent2D
  deriving DecidableEq, Repr

/-- The struct `SwapchainSupportDetails` (include/vulkan_types.hpp). -/
structure SwapchainSupportDetails where
  capabilities : VkSurfaceCapabilitiesKHR
  formats : List VkSurfaceFormatKHR
  presentModes : List VkPresentModeKHR
  deriving DecidableEq, Repr

/-- What the surface, the window and the driver answer during one `createSwapchain`. -/
structure SurfaceAnswers where
  /-- The result of `querySwapchainSupport(physicalDevice)` -/
  support : SwapchainSupportDetails
  /-- The `int` width and height that `glfwGetFramebufferSize` stores -/
  framebufferSize : Int × Int
  /-- The result of `vkCreateSwapchainKHR` -/
  createResult : VkResult := VK_SUCCESS
  /-- The number of images that `vkGetSwapchainImagesKHR` reports for the new swapchain -/
  imageCount : Nat
  deriving DecidableEq, Repr

/-- The fields of `VkSwapchainCreateInfoKHR` that `createSwapchain` computes. -/
structure VkSwapchainCreateInfoKHR where
  minImageCount : Nat
  imageFormat : VkFormat
  imageColorSpace : VkColorSpaceKHR
  imageExtent : VkExtent2D
  presentMode : VkPresentModeKHR
  deriving DecidableEq, Repr

/-- The struct `Swapchain` (include/vulkan_types.hpp). Handles are numbers; `handle = none`
stands for `VK_NULL_HANDLE`. -/
structure Swapchain where
  handle : Option Nat := none
  minImageCount : Nat := 0
  imageFormat : VkFormat := VkFormat.UNDEFINED
  extent : VkExtent2D := { width := 0, height := 0 }
  images : List Nat := []
  imageViews : List Nat := []
  deriving DecidableEq, Repr

/-- The member `swapchain` of `VulkanState` and the objects of the device it refers to:
the image views that were created and not destroyed, the calls of `vkDestroyImageView`
and `vkDestroySwapchainKHR` made so far, and the create infos passed to
`vkCreateSwapchainKHR`. A new object gets the handle `nextHandle`. -/
structure SurfaceState where
  swapchain : Swapchain := {}
  nextHandle : Nat := 0
  liveImageViews : List Nat := []
  destroyedImageViews : List Nat := []
  destroyedSwapchains : List Nat := []
  createInfos : List VkSwapchainCreateInfoKHR := []
  deriving DecidableEq, Repr

/-- What ends a call of the swapchain functions abnormally: a `std::runtime_error`, or
an index outside a vector. -/
inductive SurfaceFault
  | runtimeError (what : String)
  | outOfRange (what : String)
  deriving DecidableEq, Repr

/-- The function `std::clamp(v, lo, hi)` on `uint32_t`. -/
def clamp (v lo hi : Nat) : Nat := if v < lo then lo else if hi < v then hi else v

/-- The conversion `static_cast<uint32_t>` of an `int`. -/
def toUint32 (i : Int) : Nat := (i % 2 ^ 32).toNat

/-- The value `std::numeric_limits<uint32_t>::max()`. -/
def UINT32_MAX : Nat := 2 ^ 32 - 1

namespace SurfaceState

/-- The function `VulkanState::chooseSwapSurfaceFormat`; `none` when the vector is empty
and `availableFormats[0]` is outside it. -/
def chooseSwapSurfaceFormat (availableFormats : List VkSurfaceFormatKHR) :
    Option VkSurfaceFormatKHR :=
  match availableFormats.find? (fun f => decide (f.format = VkFormat.B8G8R8A8_SRGB ∧
      f.colorSpace = VkColorSpaceKHR.SRGB_NONLINEAR_KHR)) with
  | some f => some f
  | none => availableFormats.head?

/-- The function `VulkanState::chooseSwapPresentMode` -/
def chooseSwapPresentMode (availablePresentModes : List VkPresentModeKHR) : VkPresentModeKHR :=
  match availablePresentModes.find? (fun m => decide (m = VkPresentModeKHR.MAILBOX_KHR)) with
  | some m => m
  | none => VkPresentModeKHR.FIFO_KHR

/-- The function `VulkanState::chooseSwapExtent`, with the answer of
`glfwGetFramebufferSize`. -/
def chooseSwapExtent (capabilities : VkSurfaceCapabilitiesKHR) (framebufferSize : Int × Int) :
    VkExtent2D :=
  if capabilities.currentExtent.width ≠ UINT32_MAX then capabilities.currentExtent
  else
    { width := clamp (toUint32 framebufferSize.1) capabilities.minImageExtent.width
        capabilities.maxImageExtent.width,
      height := clamp (toUint32 framebufferSize.2) capabilities.minImageExtent.height
        capabilities.maxImageExtent.height }

/-- The call `vkDestroyImageView(device, v, nullptr)`. -/
def vkDestroyImageView (v : Nat) (s : SurfaceState) : SurfaceState :=
  { s with liveImageViews := s.liveImageViews.erase v
           destroyedImageViews := s.destroyedImageViews ++ [v] }

/-- The function `VulkanState::cleanupSwapchain`. The vector `swapchain.imageViews`
keeps the destroyed handles. -/
def cleanupSwapchain (s : SurfaceState) : SurfaceState :=
  let s := s.swapchain.imageViews.foldl (fun st v => st.vkDestroyImageView v) s
  { s with destroyedSwapchains := s.destroyedSwapchains ++ s.swapchain.handle.toList }

/-- The local `imageCount` of `createSwapchain` before `vkCreateSwapchainKHR`. -/
def requestedImageCount (capabilities : VkSurfaceCapabilitiesKHR) : Nat :=
  let imageCount := (capabilities.minImageCount + 1) % 2 ^ 32
  if capabilities.maxImageCount > 0 ∧ imageCount > capabilities.maxImageCount then
    capabilities.maxImageCount
  else imageCount

/-- The function `VulkanState::createSwapchain`. -/
def createSwapchain (a : SurfaceAnswers) (s : SurfaceState) :
    Except (SurfaceFault × SurfaceState) SurfaceState :=
  match chooseSwapSurfaceFormat a.support.formats with
  | none => .error (SurfaceFault.outOfRange "availableFormats[0]", s)
  | some surfaceFormat =>
    let presentMode := chooseSwapPresentMode a.support.presentModes
    let extent := chooseSwapExtent a.support.capabilities a.framebufferSize
    let imageCount := requestedImageCount a.support.capabilities
    let s := { s with swapchain := { s.swapchain with minImageCount := imageCount } }
    let createInfo : VkSwapchainCreateInfoKHR :=
      { minImageCount := imageCount, imageFormat := surfaceFormat.format,
        imageColorSpace := surfaceFormat.colorSpace, imageExtent := extent,
        presentMode := presentMode }
    let s := { s with createInfos := s.createInfos ++ [createInfo] }
    if a.createResult ≠ VK_SUCCESS then
      .error (SurfaceFault.runtimeError "failed to create swapchain", s)
    else
      let s := { s with swapchain := { s.swapchain with handle := some s.nextHandle }
                        nextHandle := s.nextHandle + 1 }
      let s := { s with swapchain := { s.swapchain with
                          images := List.range' s.nextHandle a.imageCount }
                        nextHandle := s.nextHandle + a.imageCount }
      .ok { s with swapchain := { s.swapchain with
                     imageFormat := surfaceFormat.format, extent := extent } }

/-- Modelled from the spec: `VulkanUtils::createImageView` is declared in
include/vulkan_utils.hpp and its body is not among the sources. It creates one image
view, an object distinct from all objects created before, and returns its handle. -/
def createImageView (s : SurfaceState) : Nat × SurfaceState :=
  (s.nextHandle, { s with nextHandle := s.nextHandle + 1
                          liveImageViews := s.liveImageViews ++ [s.nextHandle] })

/-- The loop of `createSwapchainImageViews` over the images `images`, with the views
made so far. -/
def createViews : List Nat → List Nat × SurfaceState → List Nat × SurfaceState
  | [], r => r
  | _ :: images, (views, s) =>
    let r := s.createImageView
    createViews images (views ++ [r.1], r.2)

/-- The function `VulkanState::createSwapchainImageViews`: after the `resize` every
element of `swapchain.imageViews` is assigned a new view. -/
def createSwapchainImageViews (s : SurfaceState) : SurfaceState :=
  let r := createViews s.swapchain.images ([], s)
  { r.2 with swapchain := { r.2.swapchain with imageViews := r.1 } }

/-- The calls of `VulkanState::recreateSwapchain` that read or write the swapchain:
`cleanupSwapchain(); createSwapchain(); createSwapchainImageViews();`. The calls around
them are those of `VulkanState.recreateSwapchain`. -/
def recreateSwapchain (a : SurfaceAnswers) (s : SurfaceState) :
    Except (SurfaceFault × SurfaceState) SurfaceState := do
  let s := s.cleanupSwapchain
  let s ← s.createSwapchain a
  pure s.createSwapchainImageViews

/-- The image views of the swapchain are the live ones, each once; no live view has been
destroyed, no view has been destroyed twice, and all handles are below `nextHandle`. -/
structure Consistent (s : SurfaceState) : Prop where
  live : s.liveImageViews = s.swapchain.imageViews
  nodup : s.swapchain.imageViews.Nodup
  fresh : ∀ v ∈ s.swapchain.imageViews, v < s.nextHandle
  destroyedOnce : s.destroyedImageViews.Nodup
  destroyedOld : ∀ v ∈ s.destroyedImageViews, v < s.nextHandle
  disjoint : ∀ v ∈ s.destroyedImageViews, v ∉ s.swapchain.imageViews

/-- A surface with a fixed extent, one format and one present mode; the driver hands
out three images. -/
def fixedSurface : SurfaceAnswers :=
  { support :=
      { capabilities :=
          { minImageCount := 2, maxImageCount := 3,
            currentExtent := { width := 800, height := 600 },
            minImageExtent := { width := 1, height := 1 },
            maxImageExtent := { width := 4096, height := 4096 } },
        formats := [{ format := VkFormat.B8G8R8A8_SRGB,
                      colorSpace := VkColorSpaceKHR.SRGB_NONLINEAR_KHR }],
        presentModes := [VkPresentModeKHR.FIFO_KHR] },
    framebufferSize := (800, 600),
    imageCount := 3 }

/-- The state after the first `createSwapchain(); createSwapchainImageViews();` on
`fixedSurface`. -/
def firstSwapchain : SurfaceState :=
  { swapchain :=
      { handle := some 0, minImageCount := 3, imageFormat := VkFormat.B8G8R8A8_SRGB,
        extent := { width := 800, height := 600 }, images := [1, 2, 3], imageViews := [4, 5, 6] },
    nextHandle := 7,
    liveImageViews := [4, 5, 6],
    createInfos := [{ minImageCount := 3, imageFormat := VkFormat.B8G8R8A8_SRGB,
                      imageColorSpace := VkColorSpaceKHR.SRGB_NONLINEAR_KHR,
                      imageExtent := { width := 800, height := 600 },
                      presentMode := VkPresentModeKHR.FIFO_KHR }] }

end SurfaceState

/-! ## The scene of the ray tracing pipeline (src/raytracing_pipeline.cpp) -/

/-- The type `float` as a type `F` with the operations the sources use on it. What the
operations compute is left open. -/
structure FloatOps (F : Type) where
  /-- The value of a decimal literal such as `0.9f`, and of an `int` converted to `float` -/
  ofDecimal : ℚ → F
  add : F → F → F
  sub : F → F → F
  mul : F → F → F

/-- The type `glm::vec3`. -/
structure Vec3 (F : Type) where
  x : F
  y : F
  z : F
  deriving DecidableEq, Repr

namespace Vec3

/-- Modelled from the spec: glm is not among the sources. The member function
`glm::vec3::length()` returns the number of components of the vector, 3, whatever the
vector is; the Euclidean norm is the free function `glm::length`. -/
def length {F : Type} (_ : Vec3 F) : Nat := 3

/-- The operator `-` of `glm::vec3`. -/
def sub {F : Type} (ops : FloatOps F) (a b : Vec3 F) : Vec3 F :=
  { x := ops.sub a.x b.x, y := ops.sub a.y b.y, z := ops.sub a.z b.z }

end Vec3

/-- The struct `SphereSSBO` (include/raytracing_pipeline.hpp). -/
structure SphereSSBO (F : Type) where
  center : Vec3 F
  color : Vec3 F
  radius : F
  deriving DecidableEq, Repr

/-- The comparison `n > 0.9f` of an integer with the literal: the integer is converted
to `float` exactly, and `0.9f` lies between 0 and 1. -/
def exceedsNineTenths (n : Nat) : Bool := decide (1 ≤ n)

/-- The fields of `VkAccelerationStructureInstanceKHR` that `createTLAS` sets. The
fields `instanceCustomIndex` and `instanceShaderBindingTableRecordOffset` are bit
fields of 24 bits. -/
structure VkAccelerationStructureInstanceKHR (F : Type) where
  /-- The three rows of the `VkTransformMatrixKHR` -/
  transform : List (List F)
  instanceCustomIndex : Nat
  mask : Nat
  instanceShaderBindingTableRecordOffset : Nat
  accelerationStructureReference : Nat
  deriving DecidableEq, Repr

/-- The type of a ray tracing shader group. -/
inductive VkRayTracingShaderGroupTypeKHR
  | GENERAL_KHR
  | PROCEDURAL_HIT_GROUP_KHR
  deriving DecidableEq, Repr

/-- A `VkRayTracingShaderGroupCreateInfoKHR`; a shader `none` stands for
`VK_SHADER_UNUSED_KHR`. -/
structure VkRayTracingShaderGroupCreateInfoKHR where
  type : VkRayTracingShaderGroupTypeKHR
  generalShader : Option Nat := none
  closestHitShader : Option Nat := none
  anyHitShader : Option Nat := none
  intersectionShader : Option Nat := none
  deriving DecidableEq, Repr

namespace RayTracingPipeline

/-- The cells `(a, b)` that the two loops of `createSpheres` visit, in order. -/
def cells : List (Int × Int) :=
  (List.range 22).flatMap fun i => (List.range 22).map fun j => ((i : Int) - 11, (j : Int) - 11)

/-- The first `push_back` of `createSpheres`. -/
def groundSphere {F : Type} (ops : FloatOps F) : SphereSSBO F :=
  { center := { x := ops.ofDecimal 0, y := ops.ofDecimal (-1000), z := ops.ofDecimal 0 },
    color := { x := ops.ofDecimal (1 / 2), y := ops.ofDecimal (1 / 2),
               z := ops.ofDecimal (1 / 2) },
    radius := ops.ofDecimal 1000 }

/-- The vector `position` of the cell `(a, b)`, when `k` calls `dis(gen)` were made
before; `rng k` is the result of call number `k`. -/
def position {F : Type} (ops : FloatOps F) (rng : Nat → F) (cell : Int × Int) (k : Nat) :
    Vec3 F :=
  { x := ops.add (ops.ofDecimal cell.1) (ops.mul (ops.ofDecimal (9 / 10)) (rng k)),
    y := ops.ofDecimal (1 / 5),
    z := ops.add (ops.ofDecimal cell.2) (ops.mul (ops.ofDecimal (9 / 10)) (rng (k + 1))) }

/-- The sphere that `createSpheres` pushes for the cell. -/
def cellSphere {F : Type} (ops : FloatOps F) (rng : Nat → F) (cell : Int × Int) (k : Nat) :
    SphereSSBO F :=
  { center := position ops rng cell k,
    color := { x := rng (k + 2), y := rng (k + 3), z := rng (k + 4) },
    radius := ops.ofDecimal (1 / 5) }

/-- The body of the inner loop of `createSpheres`, on the vector `spheres` and the number
of calls `dis(gen)` made so far. -/
def visitCell {F : Type} (ops : FloatOps F) (rng : Nat → F)
    (st : List (SphereSSBO F) × Nat) (cell : Int × Int) : List (SphereSSBO F) × Nat :=
  let position := position ops rng cell st.2
  if exceedsNineTenths (Vec3.sub ops position
      { x := ops.ofDecimal 4, y := ops.ofDecimal (1 / 5), z := ops.ofDecimal 0 }).length then
    (st.1 ++ [cellSphere ops rng cell st.2], st.2 + 5)
  else (st.1, st.2 + 2)

/-- The function `RayTracingPipeline::createSpheres`, on the member `spheres`, with the
results `rng 0, rng 1, ...` of the calls `dis(gen)`. -/
def createSpheres {F : Type} (ops : FloatOps F) (rng : Nat → F)
    (spheres : List (SphereSSBO F)) : List (SphereSSBO F) :=
  (cells.foldl (visitCell ops rng) (spheres ++ [groundSphere ops], 0)).1

/-- The instance that `createTLAS` makes for `spheres[i]`. -/
def makeInstance {F : Type} (ops : FloatOps F) (blasDeviceAddress : Nat) (i : Nat)
    (sphere : SphereSSBO F) : VkAccelerationStructureInstanceKHR F :=
  let translate := sphere.center
  let scale : Vec3 F :=
    { x := ops.mul sphere.radius (ops.ofDecimal 2), y := ops.mul sphere.radius (ops.ofDecimal 2),
      z := ops.mul sphere.radius (ops.ofDecimal 2) }
  { transform :=
      [[scale.x, ops.ofDecimal 0, ops.ofDecimal 0, translate.x],
       [ops.ofDecimal 0, scale.y, ops.ofDecimal 0, translate.y],
       [ops.ofDecimal 0, ops.ofDecimal 0, scale.z, translate.z]],
    instanceCustomIndex := i % 2 ^ 24,
    mask := 255,
    instanceShaderBindingTableRecordOffset := (i % 3) % 2 ^ 24,
    accelerationStructureReference := blasDeviceAddress }

/-- The vector `instances` that `RayTracingPipeline::createTLAS` builds from the member
`spheres`; `none` when the loop over the `uint32_t i` does not end because the vector has
`2^32` elements or more. -/
def createTLAS {F : Type} (ops : FloatOps F) (blasDeviceAddress : Nat)
    (spheres : List (SphereSSBO F)) : Option (List (VkAccelerationStructureInstanceKHR F)) :=
  if spheres.length < 2 ^ 32 then
    some (spheres.enum.map fun p => makeInstance ops blasDeviceAddress p.1 p.2)
  else none

/-- The vector `shaderGroups` of `RayTracingPipeline::createPipeline`. -/
def shaderGroups : List VkRayTracingShaderGroupCreateInfoKHR :=
  [ { type := VkRayTracingShaderGroupTypeKHR.GENERAL_KHR, generalShader := some 0 },
    { type := VkRayTracingShaderGroupTypeKHR.GENERAL_KHR, generalShader := some 1 },
    { type := VkRayTracingShaderGroupTypeKHR.PROCEDURAL_HIT_GROUP_KHR,
      closestHitShader := some 3, intersectionShader := some 2 },
    { type := VkRayTracingShaderGroupTypeKHR.PROCEDURAL_HIT_GROUP_KHR,
      closestHitShader := some 4, intersectionShader := some 2 },
    { type := VkRayTracingShaderGroupTypeKHR.PROCEDURAL_HIT_GROUP_KHR,
      closestHitShader := some 5, intersectionShader := some 2 } ]

/-- The number of hit groups among the shader groups. -/
def hitGroupCount : Nat :=
  (shaderGroups.filter fun g =>
    decide (g.type = VkRayTracingShaderGroupTypeKHR.PROCEDURAL_HIT_GROUP_KHR)).length

end RayTracingPipeline

/-- The rational numbers as a stand-in for `float`, with exact operations. -/
def exactOps : FloatOps ℚ :=
  { ofDecimal := fun q => q, add := fun a b => a + b, sub := fun a b => a - b,
    mul := fun a b => a * b }

/-- A sphere of radius 1/5 at (1, 1/5, -2). -/
def smallSphere : SphereSSBO ℚ :=
  { center := { x := 1, y := 1 / 5, z := -2 }, color := { x := 1, y := 0, z := 0 },
    radius := 1 / 5 }

/-- Two spheres: the ground sphere and the small sphere. -/
def twoSpheres : List (SphereSSBO ℚ) := [RayTracingPipeline.groundSphere exactOps, smallSphere]

/-! ## The shader binding table (src/raytracing_pipeline.cpp) -/

/-- The limits of `VkPhysicalDeviceRayTracingPipelinePropertiesKHR` that `createSBT`
reads, all of type `uint32_t`. -/
structure RayTracingProperties where
  shaderGroupHandleSize : Nat
  shaderGroupHandleAlignment : Nat
  shaderGroupBaseAlignment : Nat
  deriving DecidableEq, Repr

/-- The struct `VkStridedDeviceAddressRegionKHR`; the members are initialised with `{}`. -/
structure VkStridedDeviceAddressRegionKHR where
  deviceAddress : Nat := 0
  stride : Nat := 0
  size : Nat := 0
  deriving DecidableEq, Repr

/-- A call `memcpy(pData, getHandle(i), handleSize)` of `createSBT`: `dst` is the offset
of `pData` in the mapped buffer, `src` the offset of the handle in the vector `handles`. -/
structure HandleCopy where
  dst : Nat
  src : Nat
  size : Nat
  deriving DecidableEq, Repr

/-- What `createSBT` computes: the four regions, the size of the vector `handles`, the
size of the buffer, and the copies into the mapped buffer, in order. -/
structure ShaderBindingTable where
  raygenSBT : VkStridedDeviceAddressRegionKHR
  missSBT : VkStridedDeviceAddressRegionKHR
  hitSBT : VkStridedDeviceAddressRegionKHR
  callableSBT : VkStridedDeviceAddressRegionKHR
  dataSize : Nat
  sbtSize : Nat
  copies : List HandleCopy
  deriving DecidableEq, Repr

/-- The multiple of `a` next to `s` from above: `s` rounded up to the alignment `a`. -/
def roundUp (s a : Nat) : Nat := (s + a - 1) / a * a

namespace RayTracingProperties

/-- The conditions on the limits: the two alignments are powers of two, the handle size
is at least 1, and none of the `uint32_t` sums and products of `createSBT` exceeds
`2^32 - 1`. -/
structure Valid (p : RayTracingProperties) : Prop where
  handleAlignment : ∃ k, p.shaderGroupHandleAlignment = 2 ^ k
  baseAlignment : ∃ k, p.shaderGroupBaseAlignment = 2 ^ k
  handleSize : 1 ≤ p.shaderGroupHandleSize
  alignedHandle : p.shaderGroupHandleSize + p.shaderGroupHandleAlignment ≤ 2 ^ 32
  alignedRegions : 3 * roundUp p.shaderGroupHandleSize p.shaderGroupHandleAlignment +
    p.shaderGroupBaseAlignment ≤ 2 ^ 32
  handles : 5 * p.shaderGroupHandleSize < 2 ^ 32

/-- Limits as a device reports them: handles of 32 bytes, aligned to 32, regions aligned
to 64. -/
def typical : RayTracingProperties :=
  { shaderGroupHandleSize := 32, shaderGroupHandleAlignment := 32,
    shaderGroupBaseAlignment := 64 }

end RayTracingProperties

namespace RayTracingPipeline

/-- The function `RayTracingPipeline::alignup` (include/raytracing_pipeline.hpp):
`(s + alignment - 1) & ~(alignment - 1)` on `uint32_t`. -/
def alignup (s alignment : Nat) : Nat :=
  ((s + alignment + (2 ^ 32 - 1)) % 2 ^ 32) &&&
    (2 ^ 32 - 1 - (alignment + (2 ^ 32 - 1)) % 2 ^ 32)

/-- The function `RayTracingPipeline::createSBT`, with the limits `property` and the
device address `sbtAddress` of the buffer it creates. -/
def createSBT (property : RayTracingProperties) (sbtAddress : Nat) : ShaderBindingTable :=
  let missCount := 1
  let hitCount := 3
  let handleCount := (1 + missCount + hitCount) % 2 ^ 32
  let handleSize := property.shaderGroupHandleSize
  let handleSizeAligned := alignup handleSize property.shaderGroupHandleAlignment
  let raygenStride := alignup handleSizeAligned property.shaderGroupBaseAlignment
  let raygenSize := raygenStride
  let missStride := handleSizeAligned
  let missSize := alignup ((missCount * handleSizeAligned) % 2 ^ 32)
    property.shaderGroupBaseAlignment
  let hitStride := handleSizeAligned
  let hitSize := alignup ((hitCount * handleSizeAligned) % 2 ^ 32)
    property.shaderGroupBaseAlignment
  let callableSBT : VkStridedDeviceAddressRegionKHR := {}
  let dataSize := (handleCount * handleSize) % 2 ^ 32
  let sbtSize := (raygenSize + missSize + hitSize + callableSBT.size) % 2 ^ 64
  let getHandle := fun (i : Nat) => (i * handleSize) % 2 ^ 32
  { raygenSBT := { deviceAddress := sbtAddress, stride := raygenStride, size := raygenSize },
    missSBT := { deviceAddress := (sbtAddress + raygenSize) % 2 ^ 64, stride := missStride,
                 size := missSize },
    hitSBT := { deviceAddress := (sbtAddress + raygenSize + missSize) % 2 ^ 64,
                stride := hitStride, size := hitSize },
    callableSBT := callableSBT,
    dataSize := dataSize,
    sbtSize := sbtSize,
    copies :=
      [{ dst := 0, src := getHandle 0, size := handleSize }] ++
      (List.range missCount).map (fun c =>
        { dst := raygenSize + c * missStride, src := getHandle (1 + c), size := handleSize }) ++
      (List.range hitCount).map (fun c =>
        { dst := raygenSize + missSize + c * hitStride, src := getHandle (1 + missCount + c),
          size := handleSize }) }

end RayTracingPipeline

/-- The two byte ranges do not overlap. -/
def HandleCopy.disjointFrom (a b : HandleCopy) : Prop :=
  a.dst + a.size ≤ b.dst ∨ b.dst + b.size ≤ a.dst

/-- The write of a model matrix that the operation performs: the slot of the buffer, the
byte offset in it, and the object whose matrix is written. -/
def Op.modelMatrixWrite? : Op → Option (Nat × Nat × Nat)
  | Op.memcpyModelMatrix slot offset model => some (slot, offset, model)
  | _ => none

/-- The dynamic offset with which the operation binds the set of the model matrices. -/
def Op.dynamicOffset? : Op → Option Nat
  | Op.record _ (Cmd.vkCmdBindDescriptorSets _ (DescriptorSet.commonModelMatrix _) offset) =>
    offset
  | _ => none

/-- The index count of the indexed draw that the operation records. -/
def Op.drawIndexed? : Op → Option Nat
  | Op.record _ (Cmd.vkCmdDrawIndexed indexCount) => some indexCount
  | _ => none

/-- The vertex count of the draw without indices that the operation records. -/
def Op.draw? : Op → Option Nat
  | Op.record _ (Cmd.vkCmdDraw vertexCount) => some vertexCount
  | _ => none

/-- The pipeline that the operation binds. -/
def Op.pipeline? : Op → Option PipelineHandle
  | Op.record _ (Cmd.vkCmdBindPipeline pipeline) => some pipeline
  | _ => none

/-- The operation begins, continues or ends a render pass. -/
def Op.isRenderPassControl : Op → Bool
  | Op.record _ (Cmd.vkCmdBeginRenderPass _ _) => true
  | Op.record _ Cmd.vkCmdNextSubpass => true
  | Op.record _ Cmd.vkCmdEndRenderPass => true
  | _ => false

/-- The value of `pipelineInfo.subpass` with which
`DeferredRenderPass::createGraphicsPipeline` creates each of its three pipelines. -/
def DeferredRenderPass.createGraphicsPipeline : List (PipelineHandle × Nat) :=
  [(PipelineHandle.deferredGBuffer, 0), (PipelineHandle.deferredSsao, 1),
   (PipelineHandle.deferredLighting, 2)]

/-- The operation records `vkCmdNextSubpass`. -/
def Op.isNextSubpass : Op → Bool
  | Op.record _ Cmd.vkCmdNextSubpass => true
  | _ => false

/-- The render pass that the operation begins. -/
def Op.beginRenderPass? : Op → Option RenderPassHandle
  | Op.record _ (Cmd.vkCmdBeginRenderPass renderPass _) => some renderPass
  | _ => none

/-- The pipelines that `DeferredRenderPass::createGraphicsPipeline` creates for the subpass
of index `j`. -/
def DeferredRenderPass.pipelinesOfSubpass (j : Nat) : List PipelineHandle :=
  DeferredRenderPass.createGraphicsPipeline.filterMap
    (fun p => if p.2 = j then some p.1 else none)

/-- Two objects, with 36 and 6 indices. -/
def twoObjects : List AssetData := [{ indexCount := 36 }, { indexCount := 6 }]

/-- An object list of `2^26 + 1` equal objects. -/
def manyObjects : List AssetData := List.replicate (2 ^ 26 + 1) { indexCount := 3 }

/-- One object with `2^32 + 3` indices. -/
def hugeObject : List AssetData := [{ indexCount := 2 ^ 32 + 3 }]

/-! ## Descriptor pools and the sets allocated from them -/

/-- The descriptor types the sources use. -/
inductive VkDescriptorType
  | SAMPLER
  | COMBINED_IMAGE_SAMPLER
  | UNIFORM_BUFFER
  | UNIFORM_BUFFER_DYNAMIC
  | STORAGE_BUFFER
  | STORAGE_IMAGE
  | INPUT_ATTACHMENT
  | ACCELERATION_STRUCTURE_KHR
  deriving DecidableEq, Repr

/-- The fields of `VkDescriptorSetLayoutBinding` the sources set to a value that matters
for the size of a pool. -/
structure VkDescriptorSetLayoutBinding where
  binding : Nat
  descriptorType : VkDescriptorType
  descriptorCount : Nat
  deriving DecidableEq, Repr

/-- The struct `VkDescriptorPoolSize`. -/
structure VkDescriptorPoolSize where
  type : VkDescriptorType
  descriptorCount : Nat
  deriving DecidableEq, Repr

/-- The fields `pPoolSizes` and `maxSets` of `VkDescriptorPoolCreateInfo`. -/
structure VkDescriptorPoolCreateInfo where
  poolSizes : List VkDescriptorPoolSize
  maxSets : Nat
  deriving DecidableEq, Repr

/-- The number of descriptors of type `t` the pool is created with. -/
def VkDescriptorPoolCreateInfo.descriptorCount (pool : VkDescriptorPoolCreateInfo)
    (t : VkDescriptorType) : Nat :=
  ((pool.poolSizes.filter (fun p => p.type = t)).map (fun p => p.descriptorCount)).sum

/-- The number of descriptors of type `t` in one set of the layout. -/
def layoutDescriptors (t : VkDescriptorType) (layout : List VkDescriptorSetLayoutBinding) :
    Nat :=
  ((layout.filter (fun b => b.descriptorType = t)).map (fun b => b.descriptorCount)).sum

/-- The number of descriptors of type `t` in the sets allocated, each given by its
layout. -/
def allocatedDescriptors (t : VkDescriptorType)
    (sets : List (List VkDescriptorSetLayoutBinding)) : Nat :=
  (sets.map (layoutDescriptors t)).sum

namespace DeferredRenderPass

/-- The layout `ssaoDescriptor.layout` of `DeferredRenderPass::createDescriptorSetLayout`:
`normalBinding` and `depthBinding`. -/
def ssaoInputLayoutBindings : List VkDescriptorSetLayoutBinding :=
  [ { binding := BINDING.NORMAL, descriptorType := VkDescriptorType.INPUT_ATTACHMENT,
      descriptorCount := 1 },
    { binding := BINDING.DEPTH, descriptorType := VkDescriptorType.INPUT_ATTACHMENT,
      descriptorCount := 1 } ]

/-- The layout `lightingDescriptor.layout` of
`DeferredRenderPass::createDescriptorSetLayout`. -/
def lightingInputLayoutBindings : List VkDescriptorSetLayoutBinding :=
  [ { binding := BINDING.ALBEDO, descriptorType := VkDescriptorType.INPUT_ATTACHMENT,
      descriptorCount := 1 },
    { binding := BINDING.NORMAL, descriptorType := VkDescriptorType.INPUT_ATTACHMENT,
      descriptorCount := 1 },
    { binding := BINDING.POSITION, descriptorType := VkDescriptorType.INPUT_ATTACHMENT,
      descriptorCount := 1 },
    { binding := BINDING.MATERIAL, descriptorType := VkDescriptorType.INPUT_ATTACHMENT,
      descriptorCount := 1 },
    { binding := BINDING.DEPTH, descriptorType := VkDescriptorType.INPUT_ATTACHMENT,
      descriptorCount := 1 },
    { binding := BINDING.SSAO, descriptorType := VkDescriptorType.INPUT_ATTACHMENT,
      descriptorCount := 1 } ]

/-- The create info of `DeferredRenderPass::createDescriptorPool`, with
`N = Config::MAX_FRAMES_IN_FLIGHT`; the counts are `uint32_t`. -/
def createDescriptorPool (N : Nat) : VkDescriptorPoolCreateInfo :=
  { poolSizes :=
      [ { type := VkDescriptorType.INPUT_ATTACHMENT, descriptorCount := (N * 7) % 2 ^ 32 },
        { type := VkDescriptorType.UNIFORM_BUFFER, descriptorCount := N % 2 ^ 32 } ],
    maxSets := (N * 2) % 2 ^ 32 }

/-- The layouts of the sets `DeferredRenderPass::createDescriptorSets` allocates from
`descriptorPool`: `N` sets of the ssao layout, then `N` sets of the lighting layout. -/
def createDescriptorSets (N : Nat) : List (List VkDescriptorSetLayoutBinding) :=
  List.replicate N ssaoInputLayoutBindings ++ List.replicate N lightingInputLayoutBindings

end DeferredRenderPass

namespace GBufferRenderPass

/-- The `enum BINDING` of src/gbuffer_renderpass.cpp. -/
def BINDING.ALBEDO : Nat := 0
def BINDING.POSITION : Nat := 1
def BINDING.NORMAL : Nat := 2
def BINDING.MATERIAL : Nat := 3
def BINDING.DEPTH : Nat := 4

/-- The layout `descriptor.layout` of `GBufferRenderPass::createDescriptorSetLayout`. -/
def layoutBindings : List VkDescriptorSetLayoutBinding :=
  [ { binding := BINDING.ALBEDO, descriptorType := VkDescriptorType.COMBINED_IMAGE_SAMPLER,
      descriptorCount := 1 },
    { binding := BINDING.NORMAL, descriptorType := VkDescriptorType.COMBINED_IMAGE_SAMPLER,
      descriptorCount := 1 },
    { binding := BINDING.POSITION, descriptorType := VkDescriptorType.COMBINED_IMAGE_SAMPLER,
      descriptorCount := 1 },
    { binding := BINDING.MATERIAL, descriptorType := VkDescriptorType.COMBINED_IMAGE_SAMPLER,
      descriptorCount := 1 },
    { binding := BINDING.DEPTH, descriptorType := VkDescriptorType.COMBINED_IMAGE_SAMPLER,
      descriptorCount := 1 } ]

/-- The create info of `GBufferRenderPass::createDescriptorPool`, with
`N = Config::MAX_FRAMES_IN_FLIGHT`; the counts are `uint32_t`. -/
def createDescriptorPool (N : Nat) : VkDescriptorPoolCreateInfo :=
  { poolSizes :=
      [ { type := VkDescriptorType.INPUT_ATTACHMENT, descriptorCount := (N * 7) % 2 ^ 32 },
        { type := VkDescriptorType.UNIFORM_BUFFER, descriptorCount := N % 2 ^ 32 } ],
    maxSets := (N * 2) % 2 ^ 32 }

/-- The layouts of the sets `GBufferRenderPass::createDescriptorSets` allocates from
`descriptorPool`: `N` sets of `descriptor.layout`. -/
def createDescriptorSets (N : Nat) : List (List VkDescriptorSetLayoutBinding) :=
  List.replicate N layoutBindings

end GBufferRenderPass

/-! ## The keys of the input manager -/

/-- The class `InputManager` (include/input_manager.hpp): the array `bool keys[GLFW_KEY_LAST]`,
as the list of its elements. -/
structure InputManager where
  keys : List Bool
  deriving DecidableEq, Repr

/-- An access to `keys` with an index that is not an index of the array. -/
inductive InputFault
  | outOfBounds (index : Int)
  deriving DecidableEq, Repr

/-- The values of `action` that GLFW passes to a key callback. -/
inductive KeyAction
  | GLFW_RELEASE
  | GLFW_PRESS
  | GLFW_REPEAT
  deriving DecidableEq, Repr

namespace InputManager

/-- The member initialiser `bool keys[GLFW_KEY_LAST] = { false }`; `last` is the value of
`GLFW_KEY_LAST`, a constant of the GLFW header. -/
def init (last : Nat) : InputManager := { keys := List.replicate last false }

/-- The expression `keys[key]` as a value. -/
def read (m : InputManager) (key : Int) : Except InputFault Bool :=
  if 0 ≤ key then
    match m.keys[key.toNat]? with
    | some b => .ok b
    | none => .error (InputFault.outOfBounds key)
  else .error (InputFault.outOfBounds key)

/-- The assignment `keys[key] = value`. -/
def write (m : InputManager) (key : Int) (value : Bool) : Except InputFault InputManager :=
  if 0 ≤ key ∧ key.toNat < m.keys.length then
    .ok { keys := m.keys.set key.toNat value }
  else .error (InputFault.outOfBounds key)

/-- The function `InputManager::isKeyPressed`. -/
def isKeyPressed (last : Nat) (m : InputManager) (key : Int) : Except InputFault Bool :=
  if key < 0 ∨ key ≥ (last : Int) then .ok false
  else m.read key

/-- The function `InputManager::keyPressed`. -/
def keyPressed (m : InputManager) (key : Int) : Except InputFault InputManager :=
  m.write key true

/-- The function `InputManager::keyReleased`. -/
def keyReleased (m : InputManager) (key : Int) : Except InputFault InputManager :=
  m.write key false

end InputManager

/-- The members of `RTGraphicsApp` that `keyCallback` reaches: the input manager, and the
numbers of calls of `graphicsSystem.changeRenderPass` and `camera.togglePerspective`. -/
structure RTGraphicsApp where
  inputManager : InputManager
  changeRenderPassCalls : Nat := 0
  togglePerspectiveCalls : Nat := 0
  deriving DecidableEq, Repr

namespace RTGraphicsApp

/-- The function `RTGraphicsApp::keyCallback` (src/rt_graphics_app.cpp); `last`, `keyR` and
`keyP` are the values of `GLFW_KEY_LAST`, `GLFW_KEY_R` and `GLFW_KEY_P`, constants of the
GLFW header. -/
def keyCallback (last keyR keyP : Nat) (app : RTGraphicsApp) (key : Int)
    (action : KeyAction) : Except InputFault RTGraphicsApp :=
  if action = KeyAction.GLFW_RELEASE then do
    let inputManager ← app.inputManager.keyReleased key
    pure { app with inputManager := inputManager }
  else do
    let app ←
      if key = (keyR : Int) then do
        if (← app.inputManager.isKeyPressed last keyR) then pure app
        else pure { app with changeRenderPassCalls := app.changeRenderPassCalls + 1 }
      else if key = (keyP : Int) then do
        if (← app.inputManager.isKeyPressed last keyP) then pure app
        else pure { app with togglePerspectiveCalls := app.togglePerspectiveCalls + 1 }
      else pure app
    if action = KeyAction.GLFW_PRESS then do
      let inputManager ← app.inputManager.keyPressed key
      pure { app with inputManager := inputManager }
    else pure app

end RTGraphicsApp

/-! ## The fences of the frame slots -/

/-- The flag bits of `VkFenceCreateInfo` that the sources use. -/
inductive VkFenceCreateFlagBits
  | SIGNALED
  deriving DecidableEq, Repr

/-- The field `flags` of `VkFenceCreateInfo`. -/
structure VkFenceCreateInfo where
  flags : List VkFenceCreateFlagBits := []
  deriving DecidableEq, Repr

/-- A fence, with its state when it is created. -/
structure VkFence where
  signaled : Bool
  deriving DecidableEq, Repr

/-- The fence a successful `vkCreateFence` creates: signaled when the create info carries
`VK_FENCE_CREATE_SIGNALED_BIT`. -/
def vkCreateFence (info : VkFenceCreateInfo) : VkFence :=
  { signaled := info.flags.contains VkFenceCreateFlagBits.SIGNALED }

/-- The loop of `VulkanState::createSyncObjects` over the iterations `is`, with the
fences it creates; `failAt` is the iteration in which a creation fails, if any. -/
def VulkanState.createFences (fenceInfo : VkFenceCreateInfo) (failAt : Option Nat) :
    List Nat → Except Fault (List VkFence)
  | [] => .ok []
  | i :: is =>
    if failAt = some i then
      .error (Fault.runtimeError "failed to create sync objects for a frame")
    else
      match VulkanState.createFences fenceInfo failAt is with
      | .ok fences => .ok (vkCreateFence fenceInfo :: fences)
      | .error e => .error e

/-- The function `VulkanState::createSyncObjects`, with the vector `inFlightFences` it
fills. -/
def VulkanState.createSyncObjects (N : Nat) (failAt : Option Nat) :
    Except Fault (List VkFence) :=
  let fenceInfo : VkFenceCreateInfo := { flags := [VkFenceCreateFlagBits.SIGNALED] }
  VulkanState.createFences fenceInfo failAt (List.range N)

/-- The fence of `slot` is unsignaled and no submission will signal it: from
`vkResetFences` on it until a queue submission is handed it. -/
def fenceUnsignaled : Watch Nat where
  opens := fun e => match e with
    | .vkResetFences slot => some slot
    | _ => none
  closes := fun e a => match e with
    | .vkQueueSubmit _ fence => a == fence
    | _ => false

/-- A submission handed the fence `fence` is outstanding until that fence is waited on
or the device is waited idle. -/
def outstanding : Watch Nat where
  opens := fun e => match e with
    | .vkQueueSubmit _ fence => some fence
    | _ => none
  closes := fun e a => match e with
    | .vkWaitForFences slot => a == slot
    | .vkDeviceWaitIdle => true
    | _ => false

/-- The call that begins a `GraphicsSystem::render`: the first `memcpy` of
`updateCamera`. -/
def Event.beginsCall : Event → Bool
  | .memcpyCameraUBO _ => true
  | _ => false

/-- The wait on the fence of `slot` needs that fence signaled or about to be signaled;
the begin of a `GraphicsSystem::render` needs this of every fence. -/
def signalNeeds : Event → Nat → Bool
  | .vkWaitForFences slot, a => a == slot
  | .memcpyCameraUBO _, _ => true
  | _, _ => false

/-- A queue submission handed the fence `fence` needs no earlier submission with that
fence outstanding. -/
def submitNeeds : Event → Nat → Bool
  | .vkQueueSubmit _ fence, a => a == fence
  | _, _ => false

/-- The call resets a fence or submits to the queue. -/
def Event.isResetOrSubmit : Event → Bool
  | .vkResetFences _ | .vkQueueSubmit _ _ => true
  | _ => false

/-- The call waits on a fence, resets a fence, submits to the queue or begins a
`GraphicsSystem::render`. -/
def Event.isFenceCall : Event → Bool
  | .vkWaitForFences _ | .vkResetFences _ | .vkQueueSubmit _ _ | .memcpyCameraUBO _ => true
  | _ => false

/-- Every reset of a fence in the trace comes directly after the wait on that fence and
an acquire that returned `VK_SUCCESS` or `VK_SUBOPTIMAL_KHR`. -/
def ResetsAfterAcquire (tr : List Event) : Prop :=
  ∀ pre post S, tr = pre ++ Event.vkResetFences S :: post →
    ∃ before r, pre = before ++ [Event.vkWaitForFences S, Event.vkAcquireNextImageKHR S r] ∧
      (r = VK_SUCCESS ∨ r = VK_SUBOPTIMAL_KHR)

/-- What holds of the fences in the trace after every call of the loop. -/
structure SignalInv (N : Nat) (tr : List Event) : Prop where
  acquired : ResetsAfterAcquire tr
  signaled : fenceUnsignaled.Guarded signalNeeds tr
  single : outstanding.Guarded submitNeeds tr
  slots : ∀ c f, Event.vkQueueSubmit c f ∈ tr → c = f ∧ f < N

/-- The calls `L` of a `VulkanState::render` with `currentFrame = cf` and the acquire
result `a`, as far as the fences go: no reset; or a reset after a good acquire and a
fault before the submission; or a reset after a good acquire and the submission. -/
def FenceCalls (cf : Nat) (a : VkResult) (L : List Event) (returned : Bool) : Prop :=
  (∃ R, L = [Event.vkWaitForFences cf, Event.vkAcquireNextImageKHR cf a] ++ R ∧
    ∀ e ∈ R, e.isFenceCall = false) ∨
  ((a = VK_SUCCESS ∨ a = VK_SUBOPTIMAL_KHR) ∧
    ((returned = false ∧ ∃ M, L = [Event.vkWaitForFences cf,
        Event.vkAcquireNextImageKHR cf a, Event.vkResetFences cf] ++ M ∧
      ∀ e ∈ M, e.isFenceCall = false) ∨
     (∃ M T, L = [Event.vkWaitForFences cf, Event.vkAcquireNextImageKHR cf a,
        Event.vkResetFences cf] ++ M ++ Event.vkQueueSubmit cf cf :: T ∧
      (∀ e ∈ M, e.isFenceCall = false) ∧ ∀ e ∈ T, e.isFenceCall = false)))

/-- Three cycles of the loop without any request. -/
def threeCycles : List Iteration := [{}, {}, {}]

namespace VulkanState

/-- One cycle of the loop, before which R was pressed. -/
def switchedOnce : List Iteration := [{ polled := [Callback.changeRenderPass] }]

/-- The state at shutdown after `switchedOnce`, with two frame slots, on a device that
supports ray tracing. -/
def atShutdown : VulkanState := (runLoop 2 switchedOnce (boot allExtensions)).state

end VulkanState

/-! ## Projections of the state after each operation -/

namespace VulkanState

@[simp] theorem emit_gui (e : Event) (s : VulkanState) :
    (s.emit e).gui = s.gui := rfl

@[simp] theorem emit_shouldSwitchRenderPass (e : Event) (s : VulkanState) :
    (s.emit e).shouldSwitchRenderPass = s.shouldSwitchRenderPass := rfl

@[simp] theorem emit_currentFrame (e : Event) (s : VulkanState) :
    (s.emit e).currentFrame = s.currentFrame := rfl

@[simp] theorem emit_renderModeManager (e : Event) (s : VulkanState) :
    (s.emit e).renderModeManager = s.renderModeManager := rfl

@[simp] theorem emit_oldRenderPassQueue (e : Event) (s : VulkanState) :
    (s.emit e).oldRenderPassQueue = s.oldRenderPassQueue := rfl

@[simp] theorem emit_rayTracingPipeline (e : Event) (s : VulkanState) :
    (s.emit e).rayTracingPipeline = s.rayTracingPipeline := rfl

@[simp] theorem emit_framebufferResized (e : Event) (s : VulkanState) :
    (s.emit e).framebufferResized = s.framebufferResized := rfl

@[simp] theorem emit_nextId (e : Event) (s : VulkanState) :
    (s.emit e).nextId = s.nextId := rfl

@[simp] theorem emit_trace (e : Event) (s : VulkanState) :
    (s.emit e).trace = s.trace ++ [e] := rfl

@[simp] theorem setMode_gui (i : Nat) (s : VulkanState) :
    (s.setMode i).gui = { s.gui with mode := i } := rfl

@[simp] theorem setMode_shouldSwitchRenderPass (i : Nat) (s : VulkanState) :
    (s.setMode i).shouldSwitchRenderPass = s.shouldSwitchRenderPass := rfl

@[simp] theorem setMode_currentFrame (i : Nat) (s : VulkanState) :
    (s.setMode i).currentFrame = s.currentFrame := rfl

@[simp] theorem setMode_renderModeManager (i : Nat) (s : VulkanState) :
    (s.setMode i).renderModeManager = s.renderModeManager := rfl

@[simp] theorem setMode_oldRenderPassQueue (i : Nat) (s : VulkanState) :
    (s.setMode i).oldRenderPassQueue = s.oldRenderPassQueue := rfl

@[simp] theorem setMode_rayTracingPipeline (i : Nat) (s : VulkanState) :
    (s.setMode i).rayTracingPipeline = s.rayTracingPipeline := rfl

@[simp] theorem setMode_framebufferResized (i : Nat) (s : VulkanState) :
    (s.setMode i).framebufferResized = s.framebufferResized := rfl

@[simp] theorem setMode_nextId (i : Nat) (s : VulkanState) :
    (s.setMode i).nextId = s.nextId := rfl

@[simp] theorem setMode_trace (i : Nat) (s : VulkanState) :
    (s.setMode i).trace = s.trace := rfl

@[simp] theorem setFramebufferResized_gui (b : Bool) (s : VulkanState) :
    (s.setFramebufferResized b).gui = s.gui := rfl

@[simp] theorem setFramebufferResized_shouldSwitchRenderPass (b : Bool) (s : VulkanState) :
    (s.setFramebufferResized b).shouldSwitchRenderPass = s.shouldSwitchRenderPass := rfl

@[simp] theorem setFramebufferResized_currentFrame (b : Bool) (s : VulkanState) :
    (s.setFramebufferResized b).currentFrame = s.currentFrame := rfl

@[simp] theorem setFramebufferResized_renderModeManager (b : Bool) (s : VulkanState) :
    (s.setFramebufferResized b).renderModeManager = s.renderModeManager := rfl

@[simp] theorem setFramebufferResized_oldRenderPassQueue (b : Bool) (s : VulkanState) :
    (s.setFramebufferResized b).oldRenderPassQueue = s.oldRenderPassQueue := rfl

@[simp] theorem setFramebufferResized_rayTracingPipeline (b : Bool) (s : VulkanState) :
    (s.setFramebufferResized b).rayTracingPipeline = s.rayTracingPipeline := rfl

@[simp] theorem setFramebufferResized_framebufferResized (b : Bool) (s : VulkanState) :
    (s.setFramebufferResized b).framebufferResized = b := rfl

@[simp] theorem setFramebufferResized_nextId (b : Bool) (s : VulkanState) :
    (s.setFramebufferResized b).nextId = s.nextId := rfl

@[simp] theorem setFramebufferResized_trace (b : Bool) (s : VulkanState) :
    (s.setFramebufferResized b).trace = s.trace := rfl

@[simp] theorem changeRenderPass_gui (s : VulkanState) :
    (s.changeRenderPass).gui = s.gui.proceedRenderModeIndex := rfl

@[simp] theorem changeRenderPass_shouldSwitchRenderPass (s : VulkanState) :
    (s.changeRenderPass).shouldSwitchRenderPass = true := rfl

@[simp] theorem changeRenderPass_currentFrame (s : VulkanState) :
    (s.changeRenderPass).currentFrame = s.currentFrame := rfl

@[simp] theorem changeRenderPass_renderModeManager (s : VulkanState) :
    (s.changeRenderPass).renderModeManager = s.renderModeManager := rfl

@[simp] theorem changeRenderPass_oldRenderPassQueue (s : VulkanState) :
    (s.changeRenderPass).oldRenderPassQueue = s.oldRenderPassQueue := rfl

@[simp] theorem changeRenderPass_rayTracingPipeline (s : VulkanState) :
    (s.changeRenderPass).rayTracingPipeline = s.rayTracingPipeline := rfl

@[simp] theorem changeRenderPass_framebufferResized (s : VulkanState) :
    (s.changeRenderPass).framebufferResized = s.framebufferResized := rfl

@[simp] theorem changeRenderPass_nextId (s : VulkanState) :
    (s.changeRenderPass).nextId = s.nextId := rfl

@[simp] theorem changeRenderPass_trace (s : VulkanState) :
    (s.changeRenderPass).trace = s.trace := rfl

@[simp] theorem switchRenderPassCallback_gui (s : VulkanState) :
    (s.switchRenderPassCallback).gui = s.gui := rfl

@[simp] theorem switchRenderPassCallback_shouldSwitchRenderPass (s : VulkanState) :
    (s.switchRenderPassCallback).shouldSwitchRenderPass = true := rfl

@[simp] theorem switchRenderPassCallback_currentFrame (s : VulkanState) :
    (s.switchRenderPassCallback).currentFrame = s.currentFrame := rfl

@[simp] theorem switchRenderPassCallback_renderModeManager (s : VulkanState) :
    (s.switchRenderPassCallback).renderModeManager = s.renderModeManager := rfl

@[simp] theorem switchRenderPassCallback_oldRenderPassQueue (s : VulkanState) :
    (s.switchRenderPassCallback).oldRenderPassQueue = s.oldRenderPassQueue := rfl

@[simp] theorem switchRenderPassCallback_rayTracingPipeline (s : VulkanState) :
    (s.switchRenderPassCallback).rayTracingPipeline = s.rayTracingPipeline := rfl

@[simp] theorem switchRenderPassCallback_framebufferResized (s : VulkanState) :
    (s.switchRenderPassCallback).framebufferResized = s.framebufferResized := rfl

@[simp] theorem switchRenderPassCallback_nextId (s : VulkanState) :
    (s.switchRenderPassCallback).nextId = s.nextId := rfl

@[simp] theorem switchRenderPassCallback_trace (s : VulkanState) :
    (s.switchRenderPassCallback).trace = s.trace := rfl

@[simp] theorem clearSwitch_gui (s : VulkanState) :
    (s.clearSwitch).gui = s.gui := rfl

@[simp] theorem clearSwitch_shouldSwitchRenderPass (s : VulkanState) :
    (s.clearSwitch).shouldSwitchRenderPass = false := rfl

@[simp] theorem clearSwitch_currentFrame (s : VulkanState) :
    (s.clearSwitch).currentFrame = s.currentFrame := rfl

@[simp] theorem clearSwitch_renderModeManager (s : VulkanState) :
    (s.clearSwitch).renderModeManager = s.renderModeManager := rfl

@[simp] theorem clearSwitch_oldRenderPassQueue (s : VulkanState) :
    (s.clearSwitch).oldRenderPassQueue = s.oldRenderPassQueue := rfl

@[simp] theorem clearSwitch_rayTracingPipeline (s : VulkanState) :
    (s.clearSwitch).rayTracingPipeline = s.rayTracingPipeline := rfl

@[simp] theorem clearSwitch_framebufferResized (s : VulkanState) :
    (s.clearSwitch).framebufferResized = s.framebufferResized := rfl

@[simp] theorem clearSwitch_nextId (s : VulkanState) :
    (s.clearSwitch).nextId = s.nextId := rfl

@[simp] theorem clearSwitch_trace (s : VulkanState) :
    (s.clearSwitch).trace = s.trace := rfl

@[simp] theorem makeRayTracingPipeline_gui (s : VulkanState) :
    (s.makeRayTracingPipeline).gui = s.gui := rfl

@[simp] theorem makeRayTracingPipeline_shouldSwitchRenderPass (s : VulkanState) :
    (s.makeRayTracingPipeline).shouldSwitchRenderPass = s.shouldSwitchRenderPass := rfl

@[simp] theorem makeRayTracingPipeline_currentFrame (s : VulkanState) :
    (s.makeRayTracingPipeline).currentFrame = s.currentFrame := rfl

@[simp] theorem makeRayTracingPipeline_renderModeManager (s : VulkanState) :
    (s.makeRayTracingPipeline).renderModeManager = s.renderModeManager := rfl

@[simp] theorem makeRayTracingPipeline_oldRenderPassQueue (s : VulkanState) :
    (s.makeRayTracingPipeline).oldRenderPassQueue = s.oldRenderPassQueue := rfl

@[simp] theorem makeRayTracingPipeline_rayTracingPipeline (s : VulkanState) :
    (s.makeRayTracingPipeline).rayTracingPipeline = true := rfl

@[simp] theorem makeRayTracingPipeline_framebufferResized (s : VulkanState) :
    (s.makeRayTracingPipeline).framebufferResized = s.framebufferResized := rfl

@[simp] theorem makeRayTracingPipeline_nextId (s : VulkanState) :
    (s.makeRayTracingPipeline).nextId = s.nextId := rfl

@[simp] theorem makeRayTracingPipeline_trace (s : VulkanState) :
    (s.makeRayTracingPipeline).trace = s.trace := rfl

@[simp] theorem advanceFrame_gui (N : Nat) (s : VulkanState) :
    (s.advanceFrame N).gui = s.gui := rfl

@[simp] theorem advanceFrame_shouldSwitchRenderPass (N : Nat) (s : VulkanState) :
    (s.advanceFrame N).shouldSwitchRenderPass = s.shouldSwitchRenderPass := rfl

@[simp] theorem advanceFrame_currentFrame (N : Nat) (s : VulkanState) :
    (s.advanceFrame N).currentFrame = (s.currentFrame + 1) % N := rfl

@[simp] theorem advanceFrame_renderModeManager (N : Nat) (s : VulkanState) :
    (s.advanceFrame N).renderModeManager = s.renderModeManager := rfl

@[simp] theorem advanceFrame_oldRenderPassQueue (N : Nat) (s : VulkanState) :
    (s.advanceFrame N).oldRenderPassQueue = s.oldRenderPassQueue := rfl

@[simp] theorem advanceFrame_rayTracingPipeline (N : Nat) (s : VulkanState) :
    (s.advanceFrame N).rayTracingPipeline = s.rayTracingPipeline := rfl

@[simp] theorem advanceFrame_framebufferResized (N : Nat) (s : VulkanState) :
    (s.advanceFrame N).framebufferResized = s.framebufferResized := rfl

@[simp] theorem advanceFrame_nextId (N : Nat) (s : VulkanState) :
    (s.advanceFrame N).nextId = s.nextId := rfl

@[simp] theorem advanceFrame_trace (N : Nat) (s : VulkanState) :
    (s.advanceFrame N).trace = s.trace := rfl

@[simp] theorem drain_gui (s : VulkanState) :
    (s.drain).gui = s.gui := rfl

@[simp] theorem drain_shouldSwitchRenderPass (s : VulkanState) :
    (s.drain).shouldSwitchRenderPass = s.shouldSwitchRenderPass := rfl

@[simp] theorem drain_currentFrame (s : VulkanState) :
    (s.drain).currentFrame = s.currentFrame := rfl

@[simp] theorem drain_renderModeManager (s : VulkanState) :
    (s.drain).renderModeManager = s.renderModeManager := rfl

@[simp] theorem drain_oldRenderPassQueue (s : VulkanState) :
    (s.drain).oldRenderPassQueue = fun i => if i = s.currentFrame then [] else s.oldRenderPassQueue i := rfl

@[simp] theorem drain_rayTracingPipeline (s : VulkanState) :
    (s.drain).rayTracingPipeline = s.rayTracingPipeline := rfl

@[simp] theorem drain_framebufferResized (s : VulkanState) :
    (s.drain).framebufferResized = s.framebufferResized := rfl

@[simp] theorem drain_nextId (s : VulkanState) :
    (s.drain).nextId = s.nextId := rfl

@[simp] theorem drain_trace (s : VulkanState) :
    (s.drain).trace = s.trace ++ (s.oldRenderPassQueue s.currentFrame).map (fun p => Event.passCleanup p.id) := rfl

@[simp] theorem constructPass_gui (s : VulkanState) :
    (s.constructPass).gui = s.gui := rfl

@[simp] theorem constructPass_shouldSwitchRenderPass (s : VulkanState) :
    (s.constructPass).shouldSwitchRenderPass = s.shouldSwitchRenderPass := rfl

@[simp] theorem constructPass_currentFrame (s : VulkanState) :
    (s.constructPass).currentFrame = s.currentFrame := rfl

@[simp] theorem constructPass_renderModeManager (s : VulkanState) :
    (s.constructPass).renderModeManager = some { id := s.nextId, kind := kindOfMode s.gui.getMode } := rfl

@[simp] theorem constructPass_oldRenderPassQueue (s : VulkanState) :
    (s.constructPass).oldRenderPassQueue = s.oldRenderPassQueue := rfl

@[simp] theorem constructPass_rayTracingPipeline (s : VulkanState) :
    (s.constructPass).rayTracingPipeline = s.rayTracingPipeline := rfl

@[simp] theorem constructPass_framebufferResized (s : VulkanState) :
    (s.constructPass).framebufferResized = s.framebufferResized := rfl

@[simp] theorem constructPass_nextId (s : VulkanState) :
    (s.constructPass).nextId = s.nextId + 1 := rfl

@[simp] theorem constructPass_trace (s : VulkanState) :
    (s.constructPass).trace = s.trace ++ [Event.construct s.nextId (kindOfMode s.gui.getMode)] := rfl

@[simp] theorem updateCamera_gui (s : VulkanState) :
    (s.updateCamera).gui = s.gui := rfl

@[simp] theorem updateCamera_shouldSwitchRenderPass (s : VulkanState) :
    (s.updateCamera).shouldSwitchRenderPass = s.shouldSwitchRenderPass := rfl

@[simp] theorem updateCamera_currentFrame (s : VulkanState) :
    (s.updateCamera).currentFrame = s.currentFrame := rfl

@[simp] theorem updateCamera_renderModeManager (s : VulkanState) :
    (s.updateCamera).renderModeManager = s.renderModeManager := rfl

@[simp] theorem updateCamera_oldRenderPassQueue (s : VulkanState) :
    (s.updateCamera).oldRenderPassQueue = s.oldRenderPassQueue := rfl

@[simp] theorem updateCamera_rayTracingPipeline (s : VulkanState) :
    (s.updateCamera).rayTracingPipeline = s.rayTracingPipeline := rfl

@[simp] theorem updateCamera_framebufferResized (s : VulkanState) :
    (s.updateCamera).framebufferResized = s.framebufferResized := rfl

@[simp] theorem updateCamera_nextId (s : VulkanState) :
    (s.updateCamera).nextId = s.nextId := rfl

@[simp] theorem updateCamera_trace (s : VulkanState) :
    (s.updateCamera).trace = s.trace ++ [Event.memcpyCameraUBO s.currentFrame, Event.memcpyCameraMatrixUBO s.currentFrame] := by simp [updateCamera, emit]

@[simp] theorem retireActive_gui (s : VulkanState) :
    s.retireActive.gui = s.gui := by
  unfold retireActive; split <;> rfl

@[simp] theorem initPass_gui (s : VulkanState) :
    s.initPass.gui = s.gui := by
  unfold initPass; split <;> rfl

@[simp] theorem retireActive_shouldSwitchRenderPass (s : VulkanState) :
    s.retireActive.shouldSwitchRenderPass = s.shouldSwitchRenderPass := by
  unfold retireActive; split <;> rfl

@[simp] theorem initPass_shouldSwitchRenderPass (s : VulkanState) :
    s.initPass.shouldSwitchRenderPass = s.shouldSwitchRenderPass := by
  unfold initPass; split <;> rfl

@[simp] theorem retireActive_currentFrame (s : VulkanState) :
    s.retireActive.currentFrame = s.currentFrame := by
  unfold retireActive; split <;> rfl

@[simp] theorem initPass_currentFrame (s : VulkanState) :
    s.initPass.currentFrame = s.currentFrame := by
  unfold initPass; split <;> rfl

@[simp] theorem guiRender_currentFrame (c : Option Nat) (s : VulkanState) :
    (s.guiRender c).currentFrame = s.currentFrame := by
  cases c with
  | none => rfl
  | some i => simp only [guiRender]; split <;> rfl

@[simp] theorem initPass_renderModeManager (s : VulkanState) :
    s.initPass.renderModeManager = s.renderModeManager := by
  unfold initPass; split <;> rfl

@[simp] theorem guiRender_renderModeManager (c : Option Nat) (s : VulkanState) :
    (s.guiRender c).renderModeManager = s.renderModeManager := by
  cases c with
  | none => rfl
  | some i => simp only [guiRender]; split <;> rfl

@[simp] theorem initPass_oldRenderPassQueue (s : VulkanState) :
    s.initPass.oldRenderPassQueue = s.oldRenderPassQueue := by
  unfold initPass; split <;> rfl

@[simp] theorem guiRender_oldRenderPassQueue (c : Option Nat) (s : VulkanState) :
    (s.guiRender c).oldRenderPassQueue = s.oldRenderPassQueue := by
  cases c with
  | none => rfl
  | some i => simp only [guiRender]; split <;> rfl

@[simp] theorem retireActive_rayTracingPipeline (s : VulkanState) :
    s.retireActive.rayTracingPipeline = s.rayTracingPipeline := by
  unfold retireActive; split <;> rfl

@[simp] theorem initPass_rayTracingPipeline (s : VulkanState) :
    s.initPass.rayTracingPipeline = s.rayTracingPipeline := by
  unfold initPass; split <;> rfl

@[simp] theorem guiRender_rayTracingPipeline (c : Option Nat) (s : VulkanState) :
    (s.guiRender c).rayTracingPipeline = s.rayTracingPipeline := by
  cases c with
  | none => rfl
  | some i => simp only [guiRender]; split <;> rfl

@[simp] theorem retireActive_framebufferResized (s : VulkanState) :
    s.retireActive.framebufferResized = s.framebufferResized := by
  unfold retireActive; split <;> rfl

@[simp] theorem initPass_framebufferResized (s : VulkanState) :
    s.initPass.framebufferResized = s.framebufferResized := by
  unfold initPass; split <;> rfl

@[simp] theorem guiRender_framebufferResized (c : Option Nat) (s : VulkanState) :
    (s.guiRender c).framebufferResized = s.framebufferResized := by
  cases c with
  | none => rfl
  | some i => simp only [guiRender]; split <;> rfl

@[simp] theorem retireActive_nextId (s : VulkanState) :
    s.retireActive.nextId = s.nextId := by
  unfold retireActive; split <;> rfl

@[simp] theorem initPass_nextId (s : VulkanState) :
    s.initPass.nextId = s.nextId := by
  unfold initPass; split <;> rfl

@[simp] theorem guiRender_nextId (c : Option Nat) (s : VulkanState) :
    (s.guiRender c).nextId = s.nextId := by
  cases c with
  | none => rfl
  | some i => simp only [guiRender]; split <;> rfl

@[simp] theorem retireActive_renderModeManager (s : VulkanState) :
    s.retireActive.renderModeManager = none := by
  unfold retireActive; split
  · rfl
  · assumption

@[simp] theorem guiRender_trace (c : Option Nat) (s : VulkanState) :
    (s.guiRender c).trace = s.trace ++ [Event.guiRender s.currentFrame] := by
  cases c with
  | none => rfl
  | some i => simp only [guiRender]; split <;> rfl

theorem retireActive_some (s : VulkanState) (old : Pass) (h : s.renderModeManager = some old) :
    s.retireActive.oldRenderPassQueue = pushOld s.currentFrame old s.oldRenderPassQueue ∧
    s.retireActive.trace = s.trace ++ [Event.retire old.id s.currentFrame] := by
  unfold retireActive; rw [h]; exact ⟨rfl, rfl⟩

theorem retireActive_none (s : VulkanState) (h : s.renderModeManager = none) :
    s.retireActive = s := by
  unfold retireActive; rw [h]


/-! ## What callbacks and `recreateSwapchain` leave unchanged -/

/-- The members a GLFW callback leaves alone. -/
structure SameFrame (s t : VulkanState) : Prop where
  currentFrame : t.currentFrame = s.currentFrame
  renderModeManager : t.renderModeManager = s.renderModeManager
  oldRenderPassQueue : t.oldRenderPassQueue = s.oldRenderPassQueue
  nextId : t.nextId = s.nextId
  rayTracingPipeline : t.rayTracingPipeline = s.rayTracingPipeline

theorem fire_sameFrame (c : Callback) (s : VulkanState) : SameFrame s (fire c s) ∧ (fire c s).trace = s.trace := by
  cases c <;> exact ⟨⟨rfl, rfl, rfl, rfl, rfl⟩, rfl⟩

theorem fireAll_sameFrame (cs : List Callback) (s : VulkanState) :
    SameFrame s (fireAll cs s) ∧ (fireAll cs s).trace = s.trace := by
  induction cs generalizing s with
  | nil => exact ⟨⟨rfl, rfl, rfl, rfl, rfl⟩, rfl⟩
  | cons c cs ih =>
    have h1 := fire_sameFrame c s
    have h2 := ih (fire c s)
    simp only [fireAll, List.foldl_cons] at h2 ⊢
    obtain ⟨⟨a1, a2, a3, a4, a5⟩, a6⟩ := h1
    obtain ⟨⟨b1, b2, b3, b4, b5⟩, b6⟩ := h2
    exact ⟨⟨b1.trans a1, b2.trans a2, b3.trans a3, b4.trans a4, b5.trans a5⟩, b6.trans a6⟩

theorem waitForFramebuffer_spec (ws : List (List Callback)) (s : VulkanState) :
    SameFrame s (waitForFramebuffer ws s) ∧
    (waitForFramebuffer ws s).trace = s.trace ++ List.replicate ws.length Event.glfwWaitEvents := by
  induction ws generalizing s with
  | nil => exact ⟨⟨rfl, rfl, rfl, rfl, rfl⟩, by simp [waitForFramebuffer]⟩
  | cons c cs ih =>
    have h1 := fireAll_sameFrame c (s.emit Event.glfwWaitEvents)
    have h2 := ih (fireAll c (s.emit Event.glfwWaitEvents))
    obtain ⟨⟨a1, a2, a3, a4, a5⟩, a6⟩ := h1
    obtain ⟨⟨b1, b2, b3, b4, b5⟩, b6⟩ := h2
    simp only [waitForFramebuffer]
    refine ⟨⟨b1.trans a1, b2.trans a2, b3.trans a3, b4.trans a4, b5.trans a5⟩, ?_⟩
    rw [b6, a6]
    simp [List.replicate_succ]

theorem createStep_state (inp : RecreateInput) (step : RecreateStep) (e : Event) (what : String)
    (s : VulkanState) : (createStep inp step e what s).state = s.emit e := by
  unfold createStep; split <;> rfl

theorem createStep_ok (inp : RecreateInput) (step : RecreateStep) (e : Event) (what : String)
    (s : VulkanState) (h : inp.failAt ≠ some step) : createStep inp step e what s = .ok (s.emit e) := by
  unfold createStep; rw [if_neg h]

theorem createStep_error (inp : RecreateInput) (step : RecreateStep) (e : Event) (what : String)
    (s : VulkanState) (h : inp.failAt = some step) :
    createStep inp step e what s = .error (Fault.runtimeError what, s.emit e) := by
  unfold createStep; rw [if_pos h]

theorem recreateSwapchain_spec (inp : RecreateInput) (s : VulkanState) :
    SameFrame s (recreateSwapchain inp s).state ∧
    (recreateSwapchain inp s).state.trace =
      s.trace ++ List.replicate inp.waits.length Event.glfwWaitEvents ++ [Event.vkDeviceWaitIdle] ++
        (match s.renderModeManager with
          | none => []
          | some p => rebuildEvents inp p.id) := by
  obtain ⟨⟨a1, a2, a3, a4, a5⟩, a6⟩ := waitForFramebuffer_spec inp.waits s
  unfold recreateSwapchain
  simp only [bind, Except.bind, pure, Except.pure, throw, throwThe, MonadExceptOf.throw, emit_renderModeManager]
  generalize waitForFramebuffer inp.waits s = w at *
  rw [a2]
  have fin : ∀ (t : VulkanState) (evs : List Event), t.currentFrame = w.currentFrame →
      t.renderModeManager = w.renderModeManager → t.oldRenderPassQueue = w.oldRenderPassQueue →
      t.nextId = w.nextId → t.rayTracingPipeline = w.rayTracingPipeline →
      t.trace = w.trace ++ Event.vkDeviceWaitIdle :: evs →
      SameFrame s t ∧ t.trace = s.trace ++ List.replicate inp.waits.length Event.glfwWaitEvents ++
        [Event.vkDeviceWaitIdle] ++ evs := by
    intro t evs b1 b2 b3 b4 b5 b6
    exact ⟨⟨b1.trans a1, b2.trans a2, b3.trans a3, b4.trans a4, b5.trans a5⟩, by rw [b6, a6]; simp⟩
  cases s.renderModeManager with
  | none => apply fin <;> simp [Step.state]
  | some p =>
    simp only [rebuildEvents]
    by_cases h1 : inp.failAt = some .createSwapchain
    · simp only [createStep_error _ _ _ _ _ h1, Step.state, h1, if_true]
      apply fin <;> simp
    simp only [createStep_ok _ _ _ _ _ h1, if_neg h1]
    by_cases h2 : inp.failAt = some .createSwapchainImageViews
    · simp only [createStep_error _ _ _ _ _ h2, Step.state, h2, if_true]
      apply fin <;> simp
    simp only [createStep_ok _ _ _ _ _ h2, if_neg h2]
    by_cases h3 : inp.failAt = some .passCreateImageResources
    · simp only [createStep_error _ _ _ _ _ h3, Step.state, h3, if_true]
      apply fin <;> simp
    simp only [createStep_ok _ _ _ _ _ h3, if_neg h3]
    by_cases h4 : inp.failAt = some .swapchainPassCreateImageResources
    · simp only [createStep_error _ _ _ _ _ h4, Step.state, h4, if_true]
      apply fin <;> simp
    simp only [createStep_ok _ _ _ _ _ h4, if_neg h4]
    rw [createStep_state]
    apply fin <;> simp

end VulkanState
end RTG

namespace RTG
namespace VulkanState

theorem mem_rebuildEvents_isRebuild (inp : RecreateInput) (id : Nat) (e : Event)
    (h : e ∈ rebuildEvents inp id) :
    e = Event.passCleanupImageResources id ∨ e = Event.swapchainPassCleanupImageResources ∨
    e = Event.cleanupSwapchain ∨ e = Event.createSwapchain ∨ e = Event.createSwapchainImageViews ∨
    e = Event.passCreateImageResources id ∨ e = Event.swapchainPassCreateImageResources ∨
    e = Event.guiRecreateFramebuffer := by
  unfold rebuildEvents at h
  simp only [List.mem_append, List.mem_cons, List.mem_singleton, List.not_mem_nil, or_false] at h
  rcases h with (h | h | h | h) | h
  · exact Or.inl h
  · exact Or.inr (Or.inl h)
  · exact Or.inr (Or.inr (Or.inl h))
  · exact Or.inr (Or.inr (Or.inr (Or.inl h)))
  · split at h
    · simp at h
    · simp only [List.mem_cons] at h
      rcases h with h | h
      · simp [h]
      · split at h
        · simp at h
        · simp only [List.mem_cons] at h
          rcases h with h | h
          · simp [h]
          · split at h
            · simp at h
            · simp only [List.mem_cons] at h
              rcases h with h | h
              · simp [h]
              · split at h
                · simp at h
                · simp only [List.mem_singleton] at h
                  simp [h]

theorem recreateSwapchain_mem (inp : RecreateInput) (s : VulkanState) (e : Event)
    (h : e ∈ (recreateSwapchain inp s).state.trace) : e ∈ s.trace ∨ e.isRecreate = true := by
  rw [(recreateSwapchain_spec inp s).2] at h
  simp only [List.mem_append, List.mem_replicate, List.mem_singleton] at h
  rcases h with ((h | h) | h) | h
  · exact Or.inl h
  · right; rw [h.2]; rfl
  · right; rw [h]; rfl
  · right
    cases hm : s.renderModeManager with
    | none => simp [hm] at h
    | some p =>
      simp only [hm] at h
      rcases mem_rebuildEvents_isRebuild _ _ _ h with h | h | h | h | h | h | h | h <;> rw [h] <;> rfl


/-! ## The paths through `render` -/

theorem emit_eq_log (e : Event) (s : VulkanState) : s.emit e = s.log [e] := rfl

theorem log_log (a b : List Event) (s : VulkanState) : (s.log a).log b = s.log (a ++ b) := by
  simp [log]

@[simp] theorem log_gui (es : List Event) (s : VulkanState) :
    (s.log es).gui = s.gui := rfl

@[simp] theorem log_shouldSwitchRenderPass (es : List Event) (s : VulkanState) :
    (s.log es).shouldSwitchRenderPass = s.shouldSwitchRenderPass := rfl

@[simp] theorem log_currentFrame (es : List Event) (s : VulkanState) :
    (s.log es).currentFrame = s.currentFrame := rfl

@[simp] theorem log_renderModeManager (es : List Event) (s : VulkanState) :
    (s.log es).renderModeManager = s.renderModeManager := rfl

@[simp] theorem log_oldRenderPassQueue (es : List Event) (s : VulkanState) :
    (s.log es).oldRenderPassQueue = s.oldRenderPassQueue := rfl

@[simp] theorem log_rayTracingPipeline (es : List Event) (s : VulkanState) :
    (s.log es).rayTracingPipeline = s.rayTracingPipeline := rfl

@[simp] theorem log_framebufferResized (es : List Event) (s : VulkanState) :
    (s.log es).framebufferResized = s.framebufferResized := rfl

@[simp] theorem log_nextId (es : List Event) (s : VulkanState) :
    (s.log es).nextId = s.nextId := rfl

@[simp] theorem log_trace (es : List Event) (s : VulkanState) :
    (s.log es).trace = s.trace ++ es := rfl

theorem recordFrame_eq (s : VulkanState) :
    (∃ rec, recordEvents s = some rec ∧ s.recordFrame = .ok (s.log rec)) ∨
    (∃ pointer, recordEvents s = none ∧ s.recordFrame = .error (Fault.nullDereference pointer, s)) := by
  unfold recordFrame recordEvents
  split
  · split
    · exact Or.inl ⟨_, rfl, by simp [emit_eq_log, log_log]⟩
    · exact Or.inr ⟨_, rfl, rfl⟩
  · cases s.renderModeManager with
    | none => exact Or.inr ⟨_, rfl, rfl⟩
    | some p => exact Or.inl ⟨_, rfl, rfl⟩

theorem render_path (N : Nat) (inp : FrameInput) (s : VulkanState) :
    RenderPath N inp s (render N inp s) := by
  unfold render
  simp only [bind, Except.bind, pure, Except.pure, throw, throwThe, MonadExceptOf.throw,
    emit_currentFrame, emit_eq_log, log_log, List.singleton_append, List.cons_append,
    List.nil_append, log_currentFrame]
  split
  · next ha => exact RenderPath.acquireStale ha
  · next ha =>
    split
    · next ha' => exact RenderPath.acquireFailed ha ha'.1 ha'.2
    · next ha' =>
      have hacq : inp.acquireResult = VK_SUCCESS ∨ inp.acquireResult = VK_SUBOPTIMAL_KHR := by
        by_cases h : inp.acquireResult = VK_SUCCESS
        · exact Or.inl h
        · right; by_contra h2; exact ha' ⟨h, h2⟩
      split
      · next hb => exact RenderPath.beginFailed hacq hb
      · next hb =>
        have hb' : inp.beginResult = VK_SUCCESS := not_not.mp hb
        have hre : recordEvents (s.log (beginEvents s inp.acquireResult)) = recordEvents s := rfl
        rcases recordFrame_eq (s.log (beginEvents s inp.acquireResult)) with
          ⟨rec, h1, h2⟩ | ⟨pointer, h1, h2⟩
        · rw [hre] at h1
          simp only [beginEvents] at h2
          simp only [h2, log_log, guiRender_currentFrame, log_currentFrame]
          split
          · next he => exact RenderPath.endFailed hacq hb' rec h1 he
          · next he =>
            have he' : inp.endResult = VK_SUCCESS := not_not.mp he
            split
            · next hs => exact RenderPath.submitFailed hacq hb' rec h1 he' hs
            · next hs =>
              have hs' : inp.submitResult = VK_SUCCESS := not_not.mp hs
              unfold presentAndAdvance
              simp only [bind, Except.bind, pure, Except.pure, throw, throwThe,
                MonadExceptOf.throw, log_framebufferResized, guiRender_framebufferResized]
              split
              · next hp =>
                cases hr : recreateSwapchain inp.presentRecreate
                    (((recorded inp rec s).log (submitEvents s)).setFramebufferResized false) with
                | error err =>
                  have := RenderPath.recreateFailed (N := N) hacq hb' rec h1 he' hs' hp err hr
                  simp only [recorded, submitEvents, beginEvents] at hr
                  simp only [hr]
                  exact this
                | ok v =>
                  have := RenderPath.presentStale (N := N) hacq hb' rec h1 he' hs' hp v hr
                  simp only [recorded, submitEvents, beginEvents] at hr
                  simp only [hr]
                  exact this
              · next hp =>
                have hp0 : inp.presentResult ≠ VK_ERROR_OUT_OF_DATE_KHR := fun h => hp (Or.inl h)
                have hp1 : inp.presentResult ≠ VK_SUBOPTIMAL_KHR := fun h => hp (Or.inr (Or.inl h))
                have hf : s.framebufferResized = false := by
                  cases hx : s.framebufferResized with
                  | false => rfl
                  | true => exact absurd (Or.inr (Or.inr hx)) hp
                split
                · next hp2 => exact RenderPath.presentFailed hacq hb' rec h1 he' hs' hp0 hp1 hp2 hf
                · next hp2 =>
                  exact RenderPath.completed hacq hb' rec h1 he' hs' (not_not.mp hp2) hf
        · rw [hre] at h1
          simp only [beginEvents] at h2
          simp only [h2]
          exact RenderPath.nullPointer hacq hb' h1 pointer

end VulkanState

namespace VulkanState

theorem iterate_changeRenderPass_renderModes (k : Nat) (s : VulkanState) :
    ((changeRenderPass^[k]) s).gui.renderModes = s.gui.renderModes := by
  induction k generalizing s with
  | zero => rfl
  | succ n ih => rw [Function.iterate_succ_apply, ih]; rfl

theorem iterate_changeRenderPass_mode_lt (k : Nat) (s : VulkanState)
    (h : s.gui.mode < s.gui.renderModes.length) :
    ((changeRenderPass^[k]) s).gui.mode < s.gui.renderModes.length := by
  induction k generalizing s with
  | zero => exact h
  | succ n ih =>
    rw [Function.iterate_succ_apply]
    have h1 : s.changeRenderPass.gui.renderModes = s.gui.renderModes := rfl
    have h2 : s.changeRenderPass.gui.mode < s.changeRenderPass.gui.renderModes.length := by
      rw [h1]
      exact Nat.mod_lt _ (Nat.lt_of_le_of_lt (Nat.zero_le _) h)
    have := ih s.changeRenderPass h2
    rwa [h1] at this

theorem createRenderModeResource_eq (initFails : Bool) (s : VulkanState)
    (h : s.gui.isRayTracingMode = false) :
    (createRenderModeResource initFails s).state = s.retireActive.constructPass.initPass := by
  unfold createRenderModeResource
  simp only [h, Bool.false_eq_true, if_false]
  split <;> rfl

theorem mem_render_trace_rayTracingRender (N : Nat) (inp : FrameInput) (s : VulkanState)
    (h : s.gui.isRayTracingMode = false) (slot : Nat)
    (hm : Event.rayTracingRender slot ∈ (render N inp s).state.trace) :
    Event.rayTracingRender slot ∈ s.trace := by
  have hrec : ∀ rec, recordEvents s = some rec → Event.rayTracingRender slot ∉ rec := by
    intro rec hr
    unfold recordEvents at hr
    simp only [h, Bool.false_eq_true, if_false] at hr
    cases hp : s.renderModeManager with
    | none => simp [hp] at hr
    | some p => simp [hp] at hr; subst hr; simp
  have key : ∀ t : VulkanState, Event.rayTracingRender slot ∈ (recreateSwapchain inp.presentRecreate t).state.trace →
      Event.rayTracingRender slot ∈ t.trace := by
    intro t ht
    rcases recreateSwapchain_mem _ _ _ ht with h1 | h1
    · exact h1
    · simp [Event.isRecreate] at h1
  have key2 : ∀ t : VulkanState, Event.rayTracingRender slot ∈ (recreateSwapchain inp.acquireRecreate t).state.trace →
      Event.rayTracingRender slot ∈ t.trace := by
    intro t ht
    rcases recreateSwapchain_mem _ _ _ ht with h1 | h1
    · exact h1
    · simp [Event.isRecreate] at h1
  have hpath := render_path N inp s
  generalize render N inp s = r at hpath hm
  cases hpath with
  | acquireStale ha => simpa using key2 _ hm
  | acquireFailed => simpa [Step.state] using hm
  | beginFailed => simpa [Step.state, beginEvents] using hm
  | nullPointer => simpa [Step.state, beginEvents] using hm
  | endFailed ha hb rec hr =>
    have := hrec rec hr
    simp [Step.state, beginEvents, recorded, this] at hm; exact hm
  | submitFailed ha hb rec hr =>
    have := hrec rec hr
    simp [Step.state, beginEvents, recorded, this] at hm; exact hm
  | presentFailed ha hb rec hr =>
    have := hrec rec hr
    simp [Step.state, beginEvents, recorded, submitEvents, this] at hm; exact hm
  | recreateFailed ha hb rec hr he hs hp err hre =>
    have := hrec rec hr
    have h3 := key _ (by rw [hre]; exact hm)
    simp [Step.state, beginEvents, recorded, submitEvents, this] at h3; exact h3
  | presentStale ha hb rec hr he hs hp v hre =>
    have := hrec rec hr
    simp only [Step.state, drain_trace, advanceFrame_trace, List.mem_append, List.mem_map] at hm
    rcases hm with hm | ⟨p, _, hp⟩
    · have h3 := key _ (by rw [hre]; exact hm)
      simp [Step.state, beginEvents, recorded, submitEvents, this] at h3; exact h3
    · cases hp
  | completed ha hb rec hr =>
    have := hrec rec hr
    simp [Step.state, beginEvents, recorded, submitEvents, this] at hm; exact hm

end VulkanState

/-! ## The claims -/

open VulkanState

/-- C4. When ray tracing was detected as unavailable (`setRayTracingAvailable(false)`),
then after any number `k` of `changeRenderPass` calls starting from mode 0 the mode
index is 0, 1 or 2 and `isRayTracingMode()` is false; `createRenderModeResource` then
does not return early but retires, constructs and initialises, and `render` logs no
call of `rayTracingPipeline->render`. -/
theorem rayTracing_never_selected_when_unavailable (s : VulkanState) (k : Nat)
    (h0 : s.gui.mode = 0) :
    ((changeRenderPass^[k]) (s.setRayTracingAvailable false)).gui.mode < 3 ∧
    ((changeRenderPass^[k]) (s.setRayTracingAvailable false)).gui.isRayTracingMode = false ∧
    (∀ initFails : Bool,
      (createRenderModeResource initFails
          ((changeRenderPass^[k]) (s.setRayTracingAvailable false))).state =
        ((changeRenderPass^[k]) (s.setRayTracingAvailable false)).retireActive.constructPass.initPass) ∧
    (∀ (N : Nat) (inp : FrameInput) (slot : Nat),
      Event.rayTracingRender slot ∈
        (render N inp ((changeRenderPass^[k]) (s.setRayTracingAvailable false))).state.trace →
      Event.rayTracingRender slot ∈
        ((changeRenderPass^[k]) (s.setRayTracingAvailable false)).trace) := by
  have hlt : ((changeRenderPass^[k]) (s.setRayTracingAvailable false)).gui.mode < 3 := by
    have := iterate_changeRenderPass_mode_lt k (s.setRayTracingAvailable false)
      (by simp [setRayTracingAvailable, VulkanGUI.setRayTracingAvailable, DEFALT_MODES, h0])
    simpa [setRayTracingAvailable, VulkanGUI.setRayTracingAvailable, DEFALT_MODES] using this
  have hrt : ((changeRenderPass^[k]) (s.setRayTracingAvailable false)).gui.isRayTracingMode
      = false := by
    simp [VulkanGUI.isRayTracingMode, DEFALT_MODES]; exact hlt
  exact ⟨hlt, hrt, fun f => createRenderModeResource_eq f _ hrt,
    fun N inp slot => mem_render_trace_rayTracingRender N inp _ hrt slot⟩

/-- Witness of C4: five `changeRenderPass` calls on the freshly constructed state. -/
theorem rayTracing_never_selected_when_unavailable_witness :
    ({} : VulkanState).gui.mode = 0 ∧
    ((changeRenderPass^[5]) (({} : VulkanState).setRayTracingAvailable false)).gui.mode < 3 ∧
    ((changeRenderPass^[5])
      (({} : VulkanState).setRayTracingAvailable false)).gui.isRayTracingMode = false :=
  ⟨rfl, (rayTracing_never_selected_when_unavailable {} 5 rfl).1,
    (rayTracing_never_selected_when_unavailable {} 5 rfl).2.1⟩

namespace VulkanState

theorem cleanupRenderModeResource_eq (initFails : Bool) (s : VulkanState) :
    cleanupRenderModeResource initFails s =
      if s.shouldSwitchRenderPass then
        if s.gui.isRayTracingMode then .ok s.clearSwitch
        else if initFails then
          .error (Fault.runtimeError "failed to create render pass resources", s.switched)
        else .ok s.switched.clearSwitch
      else .ok s := by
  unfold cleanupRenderModeResource createRenderModeResource switched
  by_cases h1 : s.shouldSwitchRenderPass = true
  · by_cases h2 : s.gui.isRayTracingMode = true
    · simp [h1, h2]
    · by_cases h3 : initFails = true
      · simp [h1, h2, h3]
      · simp [h1, h2, h3]
  · simp [h1]

@[simp] theorem switched_renderModeManager (s : VulkanState) :
    s.switched.renderModeManager = some { id := s.nextId, kind := kindOfMode s.gui.getMode } := by
  simp [switched]

@[simp] theorem switched_nextId (s : VulkanState) : s.switched.nextId = s.nextId + 1 := by
  simp [switched]

@[simp] theorem switched_currentFrame (s : VulkanState) :
    s.switched.currentFrame = s.currentFrame := by
  simp [switched]

@[simp] theorem switched_gui (s : VulkanState) : s.switched.gui = s.gui := by
  simp [switched]

@[simp] theorem switched_shouldSwitchRenderPass (s : VulkanState) :
    s.switched.shouldSwitchRenderPass = s.shouldSwitchRenderPass := by
  simp [switched]

@[simp] theorem switched_rayTracingPipeline (s : VulkanState) :
    s.switched.rayTracingPipeline = s.rayTracingPipeline := by
  simp [switched]

@[simp] theorem switched_framebufferResized (s : VulkanState) :
    s.switched.framebufferResized = s.framebufferResized := by
  simp [switched]

theorem switched_oldRenderPassQueue (s : VulkanState) :
    s.switched.oldRenderPassQueue =
      match s.renderModeManager with
      | some old => pushOld s.currentFrame old s.oldRenderPassQueue
      | none => s.oldRenderPassQueue := by
  simp only [switched, initPass_oldRenderPassQueue, constructPass_oldRenderPassQueue]
  cases h : s.renderModeManager with
  | none => rw [retireActive_none s h]
  | some old => exact (retireActive_some s old h).1

theorem switched_trace (s : VulkanState) :
    s.switched.trace = s.trace ++ retireEvents s ++
      [Event.construct s.nextId (kindOfMode s.gui.getMode), Event.passInit s.nextId] := by
  have h1 : s.switched.trace = s.retireActive.constructPass.trace ++ [Event.passInit s.nextId] := by
    simp only [switched, initPass, constructPass_renderModeManager, retireActive_nextId, emit_trace]
  rw [h1, constructPass_trace, retireActive_nextId, retireActive_gui]
  cases h : s.renderModeManager with
  | none => rw [retireActive_none s h]; simp [retireEvents, h]
  | some old => rw [(retireActive_some s old h).2]; simp [retireEvents, h]

end VulkanState

open VulkanState

/-- C5, as amended. A committed switch (`cleanupRenderModeResource` with
`shouldSwitchRenderPass` set) whose target mode is Forward, Deferred or Pixel appends
the previously active render pass to `oldRenderPassQueue[currentFrame]`, leaves every
other bucket alone, calls no `cleanup()`, and makes active a newly constructed object
of the class the mode selects, on which `init()` is called; the call returns unless
`init()` raises. When the target mode is the ray tracing mode nothing is retired or
constructed: only the pending flag is cleared. -/
theorem committed_switch_retires_and_constructs (s : VulkanState) (old : Pass)
    (initFails : Bool) (hsw : s.shouldSwitchRenderPass = true)
    (hold : s.renderModeManager = some old) :
    (s.gui.isRayTracingMode = false →
      (cleanupRenderModeResource initFails s).state.oldRenderPassQueue s.currentFrame =
        s.oldRenderPassQueue s.currentFrame ++ [old] ∧
      (∀ i, i ≠ s.currentFrame →
        (cleanupRenderModeResource initFails s).state.oldRenderPassQueue i =
          s.oldRenderPassQueue i) ∧
      (cleanupRenderModeResource initFails s).state.renderModeManager =
        some { id := s.nextId, kind := kindOfMode s.gui.getMode } ∧
      (cleanupRenderModeResource initFails s).state.nextId = s.nextId + 1 ∧
      (cleanupRenderModeResource initFails s).state.trace =
        s.trace ++ [Event.retire old.id s.currentFrame,
          Event.construct s.nextId (kindOfMode s.gui.getMode), Event.passInit s.nextId] ∧
      ((cleanupRenderModeResource initFails s).returned = !initFails) ∧
      (s.gui.getMode = 0 → kindOfMode s.gui.getMode = PassKind.Forward) ∧
      (s.gui.getMode = 1 → kindOfMode s.gui.getMode = PassKind.Deferred) ∧
      (s.gui.getMode = 2 → kindOfMode s.gui.getMode = PassKind.Pixel)) ∧
    (s.gui.isRayTracingMode = true →
      cleanupRenderModeResource initFails s = .ok s.clearSwitch) := by
  rw [cleanupRenderModeResource_eq, hsw]
  refine ⟨fun hrt => ?_, fun hrt => by simp [hrt]⟩
  simp only [hrt, if_true, Bool.false_eq_true, if_false]
  have hq := switched_oldRenderPassQueue s
  have ht := switched_trace s
  simp only [hold, retireEvents] at hq ht
  have hk : (s.gui.getMode = 0 → kindOfMode s.gui.getMode = PassKind.Forward) ∧
      (s.gui.getMode = 1 → kindOfMode s.gui.getMode = PassKind.Deferred) ∧
      (s.gui.getMode = 2 → kindOfMode s.gui.getMode = PassKind.Pixel) :=
    ⟨fun h => by rw [h]; rfl, fun h => by rw [h]; rfl, fun h => by rw [h]; rfl⟩
  cases initFails with
  | true =>
    simp only [if_true, Step.state, Step.returned, hq, ht, pushOld, switched_renderModeManager,
      switched_nextId]
    refine ⟨by simp, fun i hi => by simp [hi], trivial, trivial, by simp, rfl, hk⟩
  | false =>
    simp only [Bool.false_eq_true, if_false, Step.state, Step.returned,
      clearSwitch_oldRenderPassQueue, clearSwitch_renderModeManager, clearSwitch_nextId,
      clearSwitch_trace, hq, ht, pushOld, switched_renderModeManager, switched_nextId]
    refine ⟨by simp, fun i hi => by simp [hi], trivial, trivial, by simp, rfl, hk⟩

/-- Witness of C5 as amended: one `changeRenderPass` after start-up without ray
tracing, then the commit. -/
theorem committed_switch_retires_and_constructs_witness :
    (boot deviceExtensions).changeRenderPass.shouldSwitchRenderPass = true ∧
    (boot deviceExtensions).changeRenderPass.renderModeManager =
      some { id := 0, kind := PassKind.Forward } ∧
    (cleanupRenderModeResource false (boot deviceExtensions).changeRenderPass).state.oldRenderPassQueue
        (boot deviceExtensions).changeRenderPass.currentFrame =
      (boot deviceExtensions).changeRenderPass.oldRenderPassQueue
        (boot deviceExtensions).changeRenderPass.currentFrame ++
        [{ id := 0, kind := PassKind.Forward }] :=
  ⟨rfl, rfl,
    ((committed_switch_retires_and_constructs (boot deviceExtensions).changeRenderPass
      { id := 0, kind := PassKind.Forward } false rfl rfl).1 (by decide)).1⟩

/-- Counterexample to C5 as stated: on a device with ray tracing, three
`changeRenderPass` calls after start-up request the ray tracing mode, which is in the
list of available modes; the commit then appends nothing to
`oldRenderPassQueue[currentFrame]` and the active object is still the one made at
start-up, not a newly constructed one. -/
theorem committed_switch_to_rayTracing_retires_nothing :
    ((changeRenderPass^[3]) (boot allExtensions)).shouldSwitchRenderPass = true ∧
    ((changeRenderPass^[3]) (boot allExtensions)).gui.getMode = 3 ∧
    ((changeRenderPass^[3]) (boot allExtensions)).gui.renderModes.length = 4 ∧
    ((changeRenderPass^[3]) (boot allExtensions)).renderModeManager =
      some { id := 0, kind := PassKind.Forward } ∧
    ((changeRenderPass^[3]) (boot allExtensions)).oldRenderPassQueue 0 = [] ∧
    (cleanupRenderModeResource false
      ((changeRenderPass^[3]) (boot allExtensions))).state.oldRenderPassQueue
        ((changeRenderPass^[3]) (boot allExtensions)).currentFrame = [] ∧
    (cleanupRenderModeResource false
      ((changeRenderPass^[3]) (boot allExtensions))).state.renderModeManager =
        some { id := 0, kind := PassKind.Forward } ∧
    (cleanupRenderModeResource false
      ((changeRenderPass^[3]) (boot allExtensions))).state.trace =
        [Event.construct 0 PassKind.Forward, Event.passInit 0] := by
  decide

namespace VulkanState

theorem recreateSwapchain_trace (inp : RecreateInput) (s : VulkanState) :
    (recreateSwapchain inp s).state.trace = s.trace ++ recreateEvents inp s := by
  rw [(recreateSwapchain_spec inp s).2, recreateEvents]
  cases s.renderModeManager <;> simp

theorem recreateSwapchain_returned (inp : RecreateInput) (s : VulkanState)
    (hm : s.renderModeManager ≠ none) (hf : inp.failAt = none) :
    (recreateSwapchain inp s).returned = true := by
  obtain ⟨⟨-, a2, -, -, -⟩, -⟩ := waitForFramebuffer_spec inp.waits s
  unfold recreateSwapchain
  simp only [bind, Except.bind, pure, Except.pure, throw, throwThe, MonadExceptOf.throw,
    emit_renderModeManager]
  generalize waitForFramebuffer inp.waits s = w at *
  rw [a2]
  cases h : s.renderModeManager with
  | none => exact absurd h hm
  | some p =>
    have h1 : ∀ step, inp.failAt ≠ some step := by intro step; rw [hf]; exact fun h => nomatch h
    simp only [createStep_ok _ _ _ _ _ (h1 _)]
    rfl

theorem recreateSwapchain_faults (inp : RecreateInput) (s : VulkanState)
    (h : s.renderModeManager = none ∨ inp.failAt ≠ none) :
    (recreateSwapchain inp s).returned = false := by
  obtain ⟨⟨-, a2, -, -, -⟩, -⟩ := waitForFramebuffer_spec inp.waits s
  unfold recreateSwapchain
  simp only [bind, Except.bind, pure, Except.pure, throw, throwThe, MonadExceptOf.throw,
    emit_renderModeManager]
  generalize waitForFramebuffer inp.waits s = w at *
  rw [a2]
  cases hm : s.renderModeManager with
  | none => rfl
  | some p =>
    have hf : inp.failAt ≠ none := by
      rcases h with h | h
      · rw [hm] at h; exact absurd h (fun h => nomatch h)
      · exact h
    simp only []
    by_cases h1 : inp.failAt = some .createSwapchain
    · simp only [createStep_error _ _ _ _ _ h1]; rfl
    simp only [createStep_ok _ _ _ _ _ h1]
    by_cases h2 : inp.failAt = some .createSwapchainImageViews
    · simp only [createStep_error _ _ _ _ _ h2]; rfl
    simp only [createStep_ok _ _ _ _ _ h2]
    by_cases h3 : inp.failAt = some .passCreateImageResources
    · simp only [createStep_error _ _ _ _ _ h3]; rfl
    simp only [createStep_ok _ _ _ _ _ h3]
    by_cases h4 : inp.failAt = some .swapchainPassCreateImageResources
    · simp only [createStep_error _ _ _ _ _ h4]; rfl
    simp only [createStep_ok _ _ _ _ _ h4]
    by_cases h5 : inp.failAt = some .guiRecreateFramebuffer
    · simp only [createStep_error _ _ _ _ _ h5]; rfl
    exfalso
    cases hfa : inp.failAt with
    | none => exact hf hfa
    | some st => cases st <;> simp_all

theorem render_acquireStale (N : Nat) (inp : FrameInput) (s : VulkanState)
    (h : inp.acquireResult = VK_ERROR_OUT_OF_DATE_KHR) :
    render N inp s = recreateSwapchain inp.acquireRecreate
      (s.log [Event.vkWaitForFences s.currentFrame,
        Event.vkAcquireNextImageKHR s.currentFrame inp.acquireResult]) := by
  unfold render
  simp only [bind, Except.bind, pure, Except.pure, throw, throwThe, MonadExceptOf.throw,
    emit_currentFrame, emit_eq_log, log_log, List.singleton_append, log_currentFrame]
  rw [if_pos h]

end VulkanState

open VulkanState

/-- C9. When `vkAcquireNextImageKHR` reports `VK_ERROR_OUT_OF_DATE_KHR`, `render` waits
on the fence of the slot, acquires, calls `recreateSwapchain` and ends with the outcome
of that call: it returns whenever the recreation raises nothing. The calls it logs are
the wait, the acquire and those of `recreateSwapchain` only, so no fence is reset and
nothing is recorded, submitted or presented; `currentFrame` and every bucket of
`oldRenderPassQueue` are unchanged. -/
theorem render_stale_acquire_recreates_and_skips (N : Nat) (inp : FrameInput)
    (s : VulkanState) (h : inp.acquireResult = VK_ERROR_OUT_OF_DATE_KHR) :
    render N inp s = recreateSwapchain inp.acquireRecreate
      ((s.emit (Event.vkWaitForFences s.currentFrame)).emit
        (Event.vkAcquireNextImageKHR s.currentFrame inp.acquireResult)) ∧
    (render N inp s).state.trace =
      s.trace ++ [Event.vkWaitForFences s.currentFrame,
        Event.vkAcquireNextImageKHR s.currentFrame inp.acquireResult] ++
      recreateEvents inp.acquireRecreate s ∧
    (∀ e, e ∈ (render N inp s).state.trace → e ∈ s.trace ∨
      e = Event.vkWaitForFences s.currentFrame ∨
      e = Event.vkAcquireNextImageKHR s.currentFrame inp.acquireResult ∨
      e.isRecreate = true) ∧
    (render N inp s).state.currentFrame = s.currentFrame ∧
    (render N inp s).state.oldRenderPassQueue = s.oldRenderPassQueue ∧
    (render N inp s).state.renderModeManager = s.renderModeManager ∧
    (s.renderModeManager ≠ none → inp.acquireRecreate.failAt = none →
      (render N inp s).returned = true) := by
  rw [render_acquireStale N inp s h]
  obtain ⟨⟨a1, a2, a3, -, -⟩, -⟩ := recreateSwapchain_spec inp.acquireRecreate
    (s.log [Event.vkWaitForFences s.currentFrame,
      Event.vkAcquireNextImageKHR s.currentFrame inp.acquireResult])
  refine ⟨by simp [emit_eq_log, log_log], ?_, ?_, a1, a3, a2, ?_⟩
  · rw [recreateSwapchain_trace, log_trace]; rfl
  · intro e he
    rcases recreateSwapchain_mem _ _ _ he with h1 | h1
    · simp only [log_trace, List.mem_append, List.mem_cons, List.mem_singleton,
        List.not_mem_nil, or_false] at h1
      rcases h1 with h1 | h1 | h1
      · exact Or.inl h1
      · exact Or.inr (Or.inl h1)
      · exact Or.inr (Or.inr (Or.inl h1))
    · exact Or.inr (Or.inr (Or.inr h1))
  · intro hm hf
    exact recreateSwapchain_returned _ _ (by simpa using hm) hf

/-- Witness of C9: a stale acquire in the first frame after start-up. -/
theorem render_stale_acquire_recreates_and_skips_witness :
    ({ acquireResult := VK_ERROR_OUT_OF_DATE_KHR } : FrameInput).acquireResult =
      VK_ERROR_OUT_OF_DATE_KHR ∧
    (render 2 { acquireResult := VK_ERROR_OUT_OF_DATE_KHR } (boot deviceExtensions)).state.currentFrame
      = (boot deviceExtensions).currentFrame ∧
    (render 2 { acquireResult := VK_ERROR_OUT_OF_DATE_KHR } (boot deviceExtensions)).returned = true :=
  ⟨rfl,
   (render_stale_acquire_recreates_and_skips 2 { acquireResult := VK_ERROR_OUT_OF_DATE_KHR }
      (boot deviceExtensions) rfl).2.2.2.1,
   (render_stale_acquire_recreates_and_skips 2 { acquireResult := VK_ERROR_OUT_OF_DATE_KHR }
      (boot deviceExtensions) rfl).2.2.2.2.2.2 (by decide) rfl⟩

namespace VulkanState

theorem recreateEvents_isRecreate (inp : RecreateInput) (s : VulkanState) (e : Event)
    (h : e ∈ recreateEvents inp s) : e.isRecreate = true := by
  unfold recreateEvents at h
  simp only [List.mem_append, List.mem_replicate, List.mem_singleton] at h
  rcases h with (h | h) | h
  · rw [h.2]; rfl
  · rw [h]; rfl
  · cases hm : s.renderModeManager with
    | none => simp [hm] at h
    | some p =>
      simp only [hm] at h
      rcases mem_rebuildEvents_isRebuild _ _ _ h with h | h | h | h | h | h | h | h <;>
        rw [h] <;> rfl

theorem recordEvents_isRecreate (s : VulkanState) (rec : List Event)
    (hr : recordEvents s = some rec) (e : Event) (he : e ∈ rec) : e.isRecreate = false := by
  unfold recordEvents at hr
  split at hr
  · split at hr
    · cases hr
      simp only [List.mem_cons, List.mem_singleton, List.not_mem_nil, or_false] at he
      rcases he with h | h <;> rw [h] <;> rfl
    · cases hr
  · cases hp2 : s.renderModeManager with
    | none => simp [hp2] at hr
    | some p =>
      simp [hp2] at hr; subst hr
      simp only [List.mem_singleton] at he
      rw [he]; rfl

theorem presentAndAdvance_stale (N : Nat) (inp : FrameInput) (s : VulkanState)
    (h : presentStale inp s) :
    presentAndAdvance N inp s =
      match recreateSwapchain inp.presentRecreate (s.setFramebufferResized false) with
      | .ok v => .ok (v.advanceFrame N).drain
      | .error e => .error e := by
  unfold presentAndAdvance
  simp only [bind, Except.bind, pure, Except.pure, throw, throwThe, MonadExceptOf.throw]
  rw [if_pos (show inp.presentResult = VK_ERROR_OUT_OF_DATE_KHR ∨
    inp.presentResult = VK_SUBOPTIMAL_KHR ∨ s.framebufferResized = true from h)]
  cases recreateSwapchain inp.presentRecreate (s.setFramebufferResized false) <;> rfl

theorem presentAndAdvance_success (N : Nat) (inp : FrameInput) (s : VulkanState)
    (hp : inp.presentResult = VK_SUCCESS) (hf : s.framebufferResized = false) :
    presentAndAdvance N inp s = .ok (s.advanceFrame N).drain := by
  unfold presentAndAdvance
  simp only [bind, Except.bind, pure, Except.pure, throw, throwThe, MonadExceptOf.throw]
  have h1 : ¬ (inp.presentResult = VK_ERROR_OUT_OF_DATE_KHR ∨
      inp.presentResult = VK_SUBOPTIMAL_KHR ∨ s.framebufferResized = true) := by
    rw [hp, hf]; decide
  rw [if_neg h1, if_neg (not_not.mpr hp)]

theorem render_reaches_present (N : Nat) (inp : FrameInput) (s : VulkanState) (rec : List Event)
    (ha : inp.acquireResult = VK_SUCCESS ∨ inp.acquireResult = VK_SUBOPTIMAL_KHR)
    (hb : inp.beginResult = VK_SUCCESS) (hrec : recordEvents s = some rec)
    (he : inp.endResult = VK_SUCCESS) (hs : inp.submitResult = VK_SUCCESS) :
    render N inp s = presentAndAdvance N inp ((recorded inp rec s).log (submitEvents s)) := by
  have ha0 : ¬ inp.acquireResult = VK_ERROR_OUT_OF_DATE_KHR := by
    rcases ha with h | h <;> rw [h] <;> decide
  have ha1 : ¬ (inp.acquireResult ≠ VK_SUCCESS ∧ inp.acquireResult ≠ VK_SUBOPTIMAL_KHR) := by
    rintro ⟨h1, h2⟩; rcases ha with h | h
    · exact h1 h
    · exact h2 h
  unfold render
  simp only [bind, Except.bind, pure, Except.pure, throw, throwThe, MonadExceptOf.throw,
    emit_currentFrame, emit_eq_log, log_log, List.singleton_append, List.cons_append,
    List.nil_append, log_currentFrame]
  rw [if_neg ha0, if_neg ha1, if_neg (not_not.mpr hb)]
  have hre : recordEvents (s.log (beginEvents s inp.acquireResult)) = recordEvents s := rfl
  rcases recordFrame_eq (s.log (beginEvents s inp.acquireResult)) with
    ⟨rec', h1, h2⟩ | ⟨pointer, h1, h2⟩
  · rw [hre, hrec] at h1
    cases h1
    simp only [beginEvents] at h2
    simp only [h2, log_log, guiRender_currentFrame, log_currentFrame]
    rw [if_neg (not_not.mpr he), if_neg (not_not.mpr hs)]
    rfl
  · rw [hre, hrec] at h1; cases h1


theorem render_trace_new (N : Nat) (inp : FrameInput) (s : VulkanState) :
    ∃ L, (render N inp s).state.trace = s.trace ++ L ∧ ∀ x ∈ L, mayLog inp s x := by
  have hB : ∀ x ∈ beginEvents s inp.acquireResult, mayLog inp s x :=
    fun x hx => Or.inl hx
  have hR : ∀ rec, recordEvents s = some rec → ∀ x ∈ rec, mayLog inp s x :=
    fun rec hr x hx => Or.inr (Or.inl ⟨rec, hr, hx⟩)
  have hG : mayLog inp s (Event.guiRender s.currentFrame) := Or.inr (Or.inr (Or.inl rfl))
  have hS : ∀ x ∈ submitEvents s, mayLog inp s x :=
    fun x hx => Or.inr (Or.inr (Or.inr (Or.inl hx)))
  have hA : inp.acquireResult = VK_ERROR_OUT_OF_DATE_KHR → ∀ t, ∀ x ∈ recreateEvents inp.acquireRecreate t,
      mayLog inp s x := by
    intro ha t x hx
    refine Or.inr (Or.inr (Or.inr (Or.inr (Or.inl ⟨?_, Or.inl ha⟩))))
    exact recreateEvents_isRecreate _ _ _ hx
  have hP : presentStale inp s → ∀ t, ∀ x ∈ recreateEvents inp.presentRecreate t,
      mayLog inp s x := by
    intro hp t x hx
    refine Or.inr (Or.inr (Or.inr (Or.inr (Or.inl ⟨?_, Or.inr hp⟩))))
    exact recreateEvents_isRecreate _ _ _ hx
  have hC : ∀ l : List Pass, ∀ x ∈ l.map (fun p => Event.passCleanup p.id), mayLog inp s x := by
    intro l x hx
    obtain ⟨p, -, hp⟩ := List.mem_map.mp hx
    exact Or.inr (Or.inr (Or.inr (Or.inr (Or.inr ⟨p.id, hp.symm⟩))))
  have hpath := render_path N inp s
  generalize render N inp s = r at hpath
  cases hpath with
  | acquireStale ha =>
    refine ⟨_, by rw [recreateSwapchain_trace, log_trace, List.append_assoc], ?_⟩
    simp only [List.forall_mem_append, List.forall_mem_cons]
    exact ⟨⟨hB _ (by simp [beginEvents]), hB _ (by simp [beginEvents]), by simp⟩, hA ha _⟩
  | acquireFailed =>
    refine ⟨_, by simp only [Step.state, log_trace]; rfl, ?_⟩
    simp only [List.forall_mem_cons]
    exact ⟨hB _ (by simp [beginEvents]), hB _ (by simp [beginEvents]), by simp⟩
  | beginFailed => exact ⟨_, by simp only [Step.state, log_trace], hB⟩
  | nullPointer => exact ⟨_, by simp only [Step.state, log_trace], hB⟩
  | endFailed ha hb rec hr =>
    refine ⟨_, by simp only [Step.state, log_trace, recorded, guiRender_trace, log_currentFrame,
      List.append_assoc]; rfl, ?_⟩
    simp only [List.forall_mem_append, List.forall_mem_cons]
    exact ⟨hB, hR rec hr, ⟨hG, by simp⟩, hS _ (by simp [submitEvents]), by simp⟩
  | submitFailed ha hb rec hr =>
    refine ⟨_, by simp only [Step.state, log_trace, recorded, guiRender_trace, log_currentFrame,
      List.append_assoc]; rfl, ?_⟩
    simp only [List.forall_mem_append, List.forall_mem_cons]
    exact ⟨hB, hR rec hr, ⟨hG, by simp⟩, hS _ (by simp [submitEvents]),
      hS _ (by simp [submitEvents]), by simp⟩
  | presentFailed ha hb rec hr =>
    refine ⟨_, by simp only [Step.state, log_trace, recorded, guiRender_trace, log_currentFrame,
      List.append_assoc]; rfl, ?_⟩
    simp only [List.forall_mem_append, List.forall_mem_cons]
    exact ⟨hB, hR rec hr, ⟨hG, by simp⟩, hS⟩
  | recreateFailed ha hb rec hr he hs hp err hre =>
    have ht := recreateSwapchain_trace inp.presentRecreate
      (((recorded inp rec s).log (submitEvents s)).setFramebufferResized false)
    rw [hre] at ht
    refine ⟨_, by rw [ht]; simp only [Step.state, log_trace, recorded, guiRender_trace,
      log_currentFrame, setFramebufferResized_trace, List.append_assoc]; rfl, ?_⟩
    simp only [List.forall_mem_append, List.forall_mem_cons]
    exact ⟨hB, hR rec hr, ⟨hG, by simp⟩, hS, hP hp _⟩
  | presentStale ha hb rec hr he hs hp v hre =>
    have ht := recreateSwapchain_trace inp.presentRecreate
      (((recorded inp rec s).log (submitEvents s)).setFramebufferResized false)
    rw [hre] at ht
    simp only [Step.state] at ht
    refine ⟨_, by simp only [Step.state, drain_trace, advanceFrame_trace, ht, log_trace,
      recorded, guiRender_trace, log_currentFrame, setFramebufferResized_trace,
      List.append_assoc]; rfl, ?_⟩
    simp only [List.forall_mem_append, List.forall_mem_cons]
    exact ⟨hB, hR rec hr, ⟨hG, by simp⟩, hS, hP hp _, hC _⟩
  | completed ha hb rec hr =>
    refine ⟨_, by simp only [Step.state, drain_trace, advanceFrame_trace, log_trace,
      recorded, guiRender_trace, log_currentFrame, List.append_assoc]; rfl, ?_⟩
    simp only [List.forall_mem_append, List.forall_mem_cons]
    exact ⟨hB, hR rec hr, ⟨hG, by simp⟩, hS, hC _⟩

theorem mem_render_trace_isRecreate (N : Nat) (inp : FrameInput) (s : VulkanState)
    (ha : inp.acquireResult ≠ VK_ERROR_OUT_OF_DATE_KHR) (hp : ¬ presentStale inp s)
    (e : Event) (he : e.isRecreate = true) (hm : e ∈ (render N inp s).state.trace) :
    e ∈ s.trace := by
  obtain ⟨L, hL, hall⟩ := render_trace_new N inp s
  rw [hL] at hm
  rcases List.mem_append.mp hm with h | h
  · exact h
  · rcases hall e h with h1 | h1 | h1 | h1 | h1 | h1
    · exact absurd he (by
        simp only [beginEvents, List.mem_cons, List.mem_singleton, List.not_mem_nil,
          or_false] at h1
        rcases h1 with h | h | h | h | h <;> rw [h] <;> simp [Event.isRecreate])
    · obtain ⟨rec, hr, hx⟩ := h1
      exact absurd he (by rw [recordEvents_isRecreate s rec hr e hx]; simp)
    · rw [h1] at he; cases he
    · exact absurd he (by
        simp only [submitEvents, List.mem_cons, List.mem_singleton, List.not_mem_nil,
          or_false] at h1
        rcases h1 with h | h | h <;> rw [h] <;> simp [Event.isRecreate])
    · rcases h1.2 with h2 | h2
      · exact absurd h2 ha
      · exact absurd h2 hp
    · obtain ⟨id, hid⟩ := h1
      rw [hid] at he; cases he

theorem recreateSwapchain_framebufferResized (inp : RecreateInput) (s : VulkanState)
    (h : inp.waits = []) :
    (recreateSwapchain inp s).state.framebufferResized = s.framebufferResized := by
  unfold recreateSwapchain
  simp only [bind, Except.bind, pure, Except.pure, throw, throwThe, MonadExceptOf.throw,
    emit_renderModeManager, h, waitForFramebuffer]
  cases s.renderModeManager with
  | none => simp [Step.state]
  | some p =>
    simp only []
    by_cases h1 : inp.failAt = some .createSwapchain
    · simp [createStep_error _ _ _ _ _ h1, Step.state]
    simp only [createStep_ok _ _ _ _ _ h1]
    by_cases h2 : inp.failAt = some .createSwapchainImageViews
    · simp [createStep_error _ _ _ _ _ h2, Step.state]
    simp only [createStep_ok _ _ _ _ _ h2]
    by_cases h3 : inp.failAt = some .passCreateImageResources
    · simp [createStep_error _ _ _ _ _ h3, Step.state]
    simp only [createStep_ok _ _ _ _ _ h3]
    by_cases h4 : inp.failAt = some .swapchainPassCreateImageResources
    · simp [createStep_error _ _ _ _ _ h4, Step.state]
    simp only [createStep_ok _ _ _ _ _ h4]
    rw [createStep_state]; simp

end VulkanState

open VulkanState

/-- C10, as amended. When presentation reports staleness (`vkQueuePresentKHR` returns
`VK_ERROR_OUT_OF_DATE_KHR` or `VK_SUBOPTIMAL_KHR`, or the resize flag of the window is
set), the render call in which the present happened clears the flag and calls
`recreateSwapchain` itself, right after `vkQueuePresentKHR` and before `currentFrame`
is advanced and the bucket drained. A render call whose own acquire is not out of date
and whose own present is not stale logs no call of `recreateSwapchain`: nothing is
deferred to it. -/
theorem present_staleness_recreates_in_same_call (N : Nat) (inp : FrameInput)
    (s : VulkanState) (rec : List Event)
    (ha : inp.acquireResult = VK_SUCCESS ∨ inp.acquireResult = VK_SUBOPTIMAL_KHR)
    (hb : inp.beginResult = VK_SUCCESS) (hrec : recordEvents s = some rec)
    (he : inp.endResult = VK_SUCCESS) (hs : inp.submitResult = VK_SUCCESS)
    (hp : presentStale inp s) :
    render N inp s =
      (match recreateSwapchain inp.presentRecreate
          (((recorded inp rec s).log (submitEvents s)).setFramebufferResized false) with
        | .ok v => .ok (v.advanceFrame N).drain
        | .error e => .error e) ∧
    (∃ cleanups, (render N inp s).state.trace =
      s.trace ++ beginEvents s inp.acquireResult ++ rec ++ [Event.guiRender s.currentFrame] ++
        submitEvents s ++ recreateEvents inp.presentRecreate s ++ cleanups ∧
      ∀ e ∈ cleanups, ∃ id, e = Event.passCleanup id) ∧
    (inp.presentRecreate.waits = [] → (render N inp s).state.framebufferResized = false) ∧
    (∀ (inp2 : FrameInput) (u : VulkanState),
      inp2.acquireResult ≠ VK_ERROR_OUT_OF_DATE_KHR → ¬ presentStale inp2 u →
      ∀ e, e.isRecreate = true → e ∈ (render N inp2 u).state.trace → e ∈ u.trace) := by
  have hpres : presentStale inp ((recorded inp rec s).log (submitEvents s)) := by
    simpa [presentStale, recorded] using hp
  have hrender := render_reaches_present N inp s rec ha hb hrec he hs
  rw [presentAndAdvance_stale N inp _ hpres] at hrender
  refine ⟨hrender, ?_, ?_, fun inp2 u h1 h2 e h3 h4 =>
    mem_render_trace_isRecreate N inp2 u h1 h2 e h3 h4⟩
  · rw [hrender]
    have ht := recreateSwapchain_trace inp.presentRecreate
      (((recorded inp rec s).log (submitEvents s)).setFramebufferResized false)
    have hre : recreateEvents inp.presentRecreate
        (((recorded inp rec s).log (submitEvents s)).setFramebufferResized false) =
        recreateEvents inp.presentRecreate s := by
      simp [recreateEvents, recorded]
    rw [hre] at ht
    cases hr : recreateSwapchain inp.presentRecreate
        (((recorded inp rec s).log (submitEvents s)).setFramebufferResized false) with
    | error err =>
      rw [hr] at ht
      refine ⟨[], ?_, by simp⟩
      simp only [Step.state] at ht ⊢
      rw [ht]; simp [recorded]
    | ok v =>
      rw [hr] at ht
      refine ⟨(v.oldRenderPassQueue ((v.currentFrame + 1) % N)).map
        (fun p => Event.passCleanup p.id), ?_, ?_⟩
      · simp only [Step.state] at ht ⊢
        rw [drain_trace, advanceFrame_trace, ht]; simp [recorded]
      · intro e hmem
        obtain ⟨p, -, hp⟩ := List.mem_map.mp hmem
        exact ⟨p.id, hp.symm⟩
  · intro hw
    rw [hrender]
    have hf := recreateSwapchain_framebufferResized inp.presentRecreate
      (((recorded inp rec s).log (submitEvents s)).setFramebufferResized false) hw
    cases hr : recreateSwapchain inp.presentRecreate
        (((recorded inp rec s).log (submitEvents s)).setFramebufferResized false) with
    | error err => rw [hr] at hf; simpa [Step.state] using hf
    | ok v => rw [hr] at hf; simpa [Step.state] using hf

/-- Witness of C10 as amended: the first frame after start-up, presented out of date. -/
theorem present_staleness_recreates_in_same_call_witness :
    (({ presentResult := VK_ERROR_OUT_OF_DATE_KHR } : FrameInput).acquireResult = VK_SUCCESS ∨
      ({ presentResult := VK_ERROR_OUT_OF_DATE_KHR } : FrameInput).acquireResult =
        VK_SUBOPTIMAL_KHR) ∧
    recordEvents (boot deviceExtensions) = some [Event.passRender 0 0] ∧
    presentStale { presentResult := VK_ERROR_OUT_OF_DATE_KHR } (boot deviceExtensions) ∧
    (render 2 { presentResult := VK_ERROR_OUT_OF_DATE_KHR }
      (boot deviceExtensions)).state.framebufferResized = false :=
  ⟨Or.inl rfl, rfl, Or.inl rfl,
    (present_staleness_recreates_in_same_call 2 { presentResult := VK_ERROR_OUT_OF_DATE_KHR }
      (boot deviceExtensions) [Event.passRender 0 0] (Or.inl rfl) rfl rfl rfl rfl
      (Or.inl rfl)).2.2.1 rfl⟩

/-- Counterexample to C10 as stated: with two frame slots, the first `render` after
start-up is presented with `VK_ERROR_OUT_OF_DATE_KHR`. That very call waits for the
device and rebuilds the swapchain after `vkQueuePresentKHR`; the next call, with
successful results, begins with its fence wait and acquire and recreates nothing. -/
theorem present_staleness_is_not_deferred :
    (render 2 { presentResult := VK_ERROR_OUT_OF_DATE_KHR } (boot deviceExtensions)).state.trace =
      [Event.construct 0 PassKind.Forward, Event.passInit 0,
       Event.vkWaitForFences 0, Event.vkAcquireNextImageKHR 0 VK_SUCCESS, Event.vkResetFences 0,
       Event.vkResetCommandBuffer 0, Event.vkBeginCommandBuffer 0, Event.passRender 0 0,
       Event.guiRender 0, Event.vkEndCommandBuffer 0, Event.vkQueueSubmit 0 0,
       Event.vkQueuePresentKHR 0,
       Event.vkDeviceWaitIdle, Event.passCleanupImageResources 0,
       Event.swapchainPassCleanupImageResources, Event.cleanupSwapchain, Event.createSwapchain,
       Event.createSwapchainImageViews, Event.passCreateImageResources 0,
       Event.swapchainPassCreateImageResources, Event.guiRecreateFramebuffer] ∧
    (render 2 {}
      (render 2 { presentResult := VK_ERROR_OUT_OF_DATE_KHR }
        (boot deviceExtensions)).state).state.trace =
      (render 2 { presentResult := VK_ERROR_OUT_OF_DATE_KHR } (boot deviceExtensions)).state.trace ++
      [Event.vkWaitForFences 1, Event.vkAcquireNextImageKHR 1 VK_SUCCESS, Event.vkResetFences 1,
       Event.vkResetCommandBuffer 1, Event.vkBeginCommandBuffer 1, Event.passRender 0 1,
       Event.guiRender 1, Event.vkEndCommandBuffer 1, Event.vkQueueSubmit 1 1,
       Event.vkQueuePresentKHR 1] := by
  decide

namespace VulkanState

theorem fire_quiet (c : Callback) (s : VulkanState) (h : c ≠ Callback.changeRenderPass) :
    (fire c s).gui = s.gui ∧ (fire c s).shouldSwitchRenderPass = s.shouldSwitchRenderPass := by
  cases c with
  | framebufferResize => exact ⟨rfl, rfl⟩
  | changeRenderPass => exact absurd rfl h

theorem fireAll_quiet (cs : List Callback) (s : VulkanState) (h : quietCallbacks cs) :
    (fireAll cs s).gui = s.gui ∧
    (fireAll cs s).shouldSwitchRenderPass = s.shouldSwitchRenderPass := by
  induction cs generalizing s with
  | nil => exact ⟨rfl, rfl⟩
  | cons c cs ih =>
    have hc : c ≠ Callback.changeRenderPass := fun hc => h (by rw [hc]; exact List.mem_cons_self _ _)
    have hcs : quietCallbacks cs := fun hm => h (List.mem_cons_of_mem _ hm)
    obtain ⟨a1, a2⟩ := fire_quiet c s hc
    obtain ⟨b1, b2⟩ := ih (fire c s) hcs
    simp only [fireAll, List.foldl_cons] at b1 b2 ⊢
    exact ⟨b1.trans a1, b2.trans a2⟩

theorem waitForFramebuffer_quiet (ws : List (List Callback)) (s : VulkanState)
    (h : ∀ cs ∈ ws, quietCallbacks cs) :
    (waitForFramebuffer ws s).gui = s.gui ∧
    (waitForFramebuffer ws s).shouldSwitchRenderPass = s.shouldSwitchRenderPass := by
  induction ws generalizing s with
  | nil => exact ⟨rfl, rfl⟩
  | cons c cs ih =>
    obtain ⟨a1, a2⟩ := fireAll_quiet c (s.emit Event.glfwWaitEvents)
      (h c (List.mem_cons_self _ _))
    obtain ⟨b1, b2⟩ := ih (fireAll c (s.emit Event.glfwWaitEvents))
      (fun x hx => h x (List.mem_cons_of_mem _ hx))
    simp only [waitForFramebuffer]
    exact ⟨b1.trans a1, b2.trans a2⟩

theorem recreateSwapchain_state (inp : RecreateInput) (s : VulkanState) :
    (recreateSwapchain inp s).state =
      (waitForFramebuffer inp.waits s).log
        (Event.vkDeviceWaitIdle ::
          (match s.renderModeManager with
            | none => []
            | some pass => rebuildEvents inp pass.id)) := by
  obtain ⟨⟨-, a2, -, -, -⟩, -⟩ := waitForFramebuffer_spec inp.waits s
  unfold recreateSwapchain
  simp only [bind, Except.bind, pure, Except.pure, throw, throwThe, MonadExceptOf.throw,
    emit_renderModeManager]
  generalize waitForFramebuffer inp.waits s = w at *
  rw [a2]
  cases s.renderModeManager with
  | none => simp only [Step.state, emit_eq_log]
  | some p =>
    simp only [rebuildEvents]
    by_cases h1 : inp.failAt = some .createSwapchain
    · simp [createStep_error _ _ _ _ _ h1, Step.state, h1, emit_eq_log, log_log]
    simp only [createStep_ok _ _ _ _ _ h1, if_neg h1]
    by_cases h2 : inp.failAt = some .createSwapchainImageViews
    · simp [createStep_error _ _ _ _ _ h2, Step.state, h2, emit_eq_log, log_log]
    simp only [createStep_ok _ _ _ _ _ h2, if_neg h2]
    by_cases h3 : inp.failAt = some .passCreateImageResources
    · simp [createStep_error _ _ _ _ _ h3, Step.state, h3, emit_eq_log, log_log]
    simp only [createStep_ok _ _ _ _ _ h3, if_neg h3]
    by_cases h4 : inp.failAt = some .swapchainPassCreateImageResources
    · simp [createStep_error _ _ _ _ _ h4, Step.state, h4, emit_eq_log, log_log]
    simp only [createStep_ok _ _ _ _ _ h4, if_neg h4]
    rw [createStep_state]
    simp [emit_eq_log, log_log]

theorem recreateSwapchain_quiet (inp : RecreateInput) (s : VulkanState) (h : inp.quiet) :
    (recreateSwapchain inp s).state.gui = s.gui ∧
    (recreateSwapchain inp s).state.shouldSwitchRenderPass = s.shouldSwitchRenderPass := by
  rw [recreateSwapchain_state]
  exact waitForFramebuffer_quiet inp.waits s h

end VulkanState

theorem GraphicsSystem.render_eq (N : Nat) (inp : FrameInput) (s : VulkanState) :
    GraphicsSystem.render N inp s =
      match cleanupRenderModeResource inp.initFails s.updateCamera with
      | .ok u => VulkanState.render N inp u
      | .error e => .error e := by
  unfold GraphicsSystem.render
  simp only [bind, Except.bind]
  cases cleanupRenderModeResource inp.initFails s.updateCamera <;> rfl

namespace VulkanState

@[simp] theorem recorded_currentFrame (inp : FrameInput) (rec : List Event) (s : VulkanState) :
    (recorded inp rec s).currentFrame = s.currentFrame := by simp [recorded]

@[simp] theorem recorded_renderModeManager (inp : FrameInput) (rec : List Event)
    (s : VulkanState) : (recorded inp rec s).renderModeManager = s.renderModeManager := by
  simp [recorded]

@[simp] theorem recorded_oldRenderPassQueue (inp : FrameInput) (rec : List Event)
    (s : VulkanState) : (recorded inp rec s).oldRenderPassQueue = s.oldRenderPassQueue := by
  simp [recorded]

@[simp] theorem recorded_nextId (inp : FrameInput) (rec : List Event) (s : VulkanState) :
    (recorded inp rec s).nextId = s.nextId := by simp [recorded]

@[simp] theorem recorded_rayTracingPipeline (inp : FrameInput) (rec : List Event)
    (s : VulkanState) : (recorded inp rec s).rayTracingPipeline = s.rayTracingPipeline := by
  simp [recorded]

@[simp] theorem recorded_framebufferResized (inp : FrameInput) (rec : List Event)
    (s : VulkanState) : (recorded inp rec s).framebufferResized = s.framebufferResized := by
  simp [recorded]

@[simp] theorem recorded_trace (inp : FrameInput) (rec : List Event) (s : VulkanState) :
    (recorded inp rec s).trace =
      s.trace ++ (beginEvents s inp.acquireResult ++ rec) ++ [Event.guiRender s.currentFrame] := by
  simp [recorded]

theorem recorded_quiet (inp : FrameInput) (rec : List Event) (s : VulkanState)
    (h : inp.comboSelection = none) :
    (recorded inp rec s).gui = s.gui ∧
    (recorded inp rec s).shouldSwitchRenderPass = s.shouldSwitchRenderPass := by
  simp only [recorded, h, guiRender]
  exact ⟨rfl, rfl⟩

theorem render_frame (N : Nat) (inp : FrameInput) (s : VulkanState) :
    (render N inp s).state.renderModeManager = s.renderModeManager ∧
    (render N inp s).state.nextId = s.nextId ∧
    (render N inp s).state.rayTracingPipeline = s.rayTracingPipeline ∧
    (((render N inp s).state.currentFrame = s.currentFrame ∧
      (render N inp s).state.oldRenderPassQueue = s.oldRenderPassQueue) ∨
     ((render N inp s).returned = true ∧
      (render N inp s).state.currentFrame = (s.currentFrame + 1) % N ∧
      (render N inp s).state.oldRenderPassQueue =
        fun i => if i = (s.currentFrame + 1) % N then [] else s.oldRenderPassQueue i)) := by
  have hpath := render_path N inp s
  generalize render N inp s = r at hpath
  cases hpath with
  | acquireStale ha =>
    obtain ⟨⟨a1, a2, a3, a4, a5⟩, -⟩ := recreateSwapchain_spec inp.acquireRecreate
      (s.log [Event.vkWaitForFences s.currentFrame,
        Event.vkAcquireNextImageKHR s.currentFrame inp.acquireResult])
    exact ⟨a2, a4, a5, Or.inl ⟨a1, a3⟩⟩
  | acquireFailed => exact ⟨rfl, rfl, rfl, Or.inl ⟨rfl, rfl⟩⟩
  | beginFailed => exact ⟨rfl, rfl, rfl, Or.inl ⟨rfl, rfl⟩⟩
  | nullPointer => exact ⟨rfl, rfl, rfl, Or.inl ⟨rfl, rfl⟩⟩
  | endFailed ha hb rec hr => simp [Step.state]
  | submitFailed ha hb rec hr => simp [Step.state]
  | presentFailed ha hb rec hr => simp [Step.state]
  | recreateFailed ha hb rec hr he hs hp err hre =>
    obtain ⟨⟨a1, a2, a3, a4, a5⟩, -⟩ := recreateSwapchain_spec inp.presentRecreate
      (((recorded inp rec s).log (submitEvents s)).setFramebufferResized false)
    rw [hre] at a1 a2 a3 a4 a5
    simp only [setFramebufferResized_currentFrame, log_currentFrame, recorded_currentFrame,
      setFramebufferResized_renderModeManager, log_renderModeManager,
      recorded_renderModeManager, setFramebufferResized_oldRenderPassQueue,
      log_oldRenderPassQueue, recorded_oldRenderPassQueue, setFramebufferResized_nextId,
      log_nextId, recorded_nextId, setFramebufferResized_rayTracingPipeline,
      log_rayTracingPipeline, recorded_rayTracingPipeline] at a1 a2 a3 a4 a5
    exact ⟨a2, a4, a5, Or.inl ⟨a1, a3⟩⟩
  | presentStale ha hb rec hr he hs hp v hre =>
    obtain ⟨⟨a1, a2, a3, a4, a5⟩, -⟩ := recreateSwapchain_spec inp.presentRecreate
      (((recorded inp rec s).log (submitEvents s)).setFramebufferResized false)
    rw [hre] at a1 a2 a3 a4 a5
    simp only [Step.state, setFramebufferResized_currentFrame, log_currentFrame,
      recorded_currentFrame,
      setFramebufferResized_renderModeManager, log_renderModeManager,
      recorded_renderModeManager, setFramebufferResized_oldRenderPassQueue,
      log_oldRenderPassQueue, recorded_oldRenderPassQueue, setFramebufferResized_nextId,
      log_nextId, recorded_nextId, setFramebufferResized_rayTracingPipeline,
      log_rayTracingPipeline, recorded_rayTracingPipeline] at a1 a2 a3 a4 a5
    refine ⟨?_, ?_, ?_, Or.inr ⟨rfl, ?_, ?_⟩⟩ <;>
      simp [Step.state, a1, a2, a3, a4, a5]
  | completed ha hb rec hr =>
    refine ⟨?_, ?_, ?_, Or.inr ⟨rfl, ?_, ?_⟩⟩ <;> simp [Step.state]

theorem render_quiet (N : Nat) (inp : FrameInput) (s : VulkanState) (h : inp.quiet) :
    (render N inp s).state.gui = s.gui ∧
    (render N inp s).state.shouldSwitchRenderPass = s.shouldSwitchRenderPass := by
  obtain ⟨hc, hqa, hqp⟩ := h
  have hpath := render_path N inp s
  generalize render N inp s = r at hpath
  cases hpath with
  | acquireStale ha =>
    exact recreateSwapchain_quiet inp.acquireRecreate _ hqa
  | acquireFailed => exact ⟨rfl, rfl⟩
  | beginFailed => exact ⟨rfl, rfl⟩
  | nullPointer => exact ⟨rfl, rfl⟩
  | endFailed ha hb rec hr => exact recorded_quiet inp rec s hc
  | submitFailed ha hb rec hr => exact recorded_quiet inp rec s hc
  | presentFailed ha hb rec hr => exact recorded_quiet inp rec s hc
  | recreateFailed ha hb rec hr he hs hp err hre =>
    have := recreateSwapchain_quiet inp.presentRecreate
      (((recorded inp rec s).log (submitEvents s)).setFramebufferResized false) hqp
    rw [hre] at this
    obtain ⟨b1, b2⟩ := recorded_quiet inp rec s hc
    exact ⟨this.1.trans b1, this.2.trans b2⟩
  | presentStale ha hb rec hr he hs hp v hre =>
    have := recreateSwapchain_quiet inp.presentRecreate
      (((recorded inp rec s).log (submitEvents s)).setFramebufferResized false) hqp
    rw [hre] at this
    obtain ⟨b1, b2⟩ := recorded_quiet inp rec s hc
    exact ⟨this.1.trans b1, this.2.trans b2⟩
  | completed ha hb rec hr => exact recorded_quiet inp rec s hc

end VulkanState

namespace VulkanState

theorem graphicsRender_idle (N : Nat) (inp : FrameInput) (s : VulkanState)
    (h : s.shouldSwitchRenderPass = false) :
    GraphicsSystem.render N inp s = render N inp s.updateCamera := by
  rw [GraphicsSystem.render_eq, cleanupRenderModeResource_eq]
  simp [h]

theorem runLoop_cons (N : Nat) (it : Iteration) (rest : List Iteration) (s : VulkanState) :
    (runLoop N (it :: rest) s).state =
      if (GraphicsSystem.render N it.frame (s.fireAll it.polled)).returned then
        (runLoop N rest (GraphicsSystem.render N it.frame (s.fireAll it.polled)).state).state
      else (GraphicsSystem.render N it.frame (s.fireAll it.polled)).state := by
  simp only [runLoop]
  cases GraphicsSystem.render N it.frame (s.fireAll it.polled) with
  | error e => rfl
  | ok v => rfl

theorem idle_step (N : Nat) (it : Iteration) (s : VulkanState) (hq : it.quiet)
    (hb : ∀ b, s.oldRenderPassQueue b = []) (hs : s.shouldSwitchRenderPass = false) :
    (∀ b, (GraphicsSystem.render N it.frame (s.fireAll it.polled)).state.oldRenderPassQueue b
      = []) ∧
    (GraphicsSystem.render N it.frame (s.fireAll it.polled)).state.shouldSwitchRenderPass
      = false ∧
    (GraphicsSystem.render N it.frame (s.fireAll it.polled)).state.renderModeManager
      = s.renderModeManager := by
  obtain ⟨⟨-, f2, f3, -, -⟩, -⟩ := fireAll_sameFrame it.polled s
  obtain ⟨-, f7⟩ := fireAll_quiet it.polled s hq.1
  rw [graphicsRender_idle N it.frame _ (f7.trans hs)]
  obtain ⟨r1, -, -, r4⟩ := render_frame N it.frame (s.fireAll it.polled).updateCamera
  obtain ⟨-, q2⟩ := render_quiet N it.frame (s.fireAll it.polled).updateCamera hq.2
  simp only [updateCamera_renderModeManager, updateCamera_oldRenderPassQueue,
    updateCamera_shouldSwitchRenderPass, updateCamera_currentFrame] at r1 r4 q2
  refine ⟨fun b => ?_, q2.trans (f7.trans hs), r1.trans f2⟩
  rcases r4 with ⟨-, h⟩ | ⟨-, -, h⟩
  · rw [h, f3]; exact hb b
  · rw [h, f3]; simp [hb]

theorem idle_run (N : Nat) (its : List Iteration) (s : VulkanState)
    (hq : ∀ it ∈ its, it.quiet)
    (hb : ∀ b, s.oldRenderPassQueue b = []) (hs : s.shouldSwitchRenderPass = false) :
    (∀ b, (runLoop N its s).state.oldRenderPassQueue b = []) ∧
    (runLoop N its s).state.renderModeManager = s.renderModeManager := by
  induction its generalizing s with
  | nil => exact ⟨hb, rfl⟩
  | cons it rest ih =>
    obtain ⟨a1, a2, a3⟩ := idle_step N it s (hq it (List.mem_cons_self _ _)) hb hs
    rw [runLoop_cons]
    split
    · obtain ⟨b1, b2⟩ := ih _ (fun x hx => hq x (List.mem_cons_of_mem _ hx)) a1 a2
      exact ⟨b1, b2.trans a3⟩
    · exact ⟨a1, a3⟩

theorem boot_spec (exts : List String) :
    (∀ b, (boot exts).oldRenderPassQueue b = []) ∧
    (boot exts).shouldSwitchRenderPass = false ∧
    (boot exts).renderModeManager = some { id := 0, kind := PassKind.Forward } ∧
    (boot exts).currentFrame = 0 ∧ (boot exts).gui.mode = 0 ∧ (boot exts).nextId = 1 := by
  have h0 : (init exts).gui.isRayTracingMode = false := by
    simp [init, checkDeviceExtensionSupport, setRayTracingAvailable,
      VulkanGUI.setRayTracingAvailable, VulkanGUI.isRayTracingMode, DEFALT_MODES]
  have h1 : (createRenderModeResource false (init exts)) = .ok (init exts).switched := by
    unfold createRenderModeResource switched
    simp [h0]
  have h2 : (boot exts) = if (init exts).switched.gui.isRayTracingAvailable then
      (init exts).switched.makeRayTracingPipeline else (init exts).switched := by
    unfold boot createLevelResource
    rw [h1]
    simp only []
    split <;> rfl
  have hq := switched_oldRenderPassQueue (init exts)
  have hm : (init exts).renderModeManager = none := rfl
  rw [hm] at hq
  rw [h2]
  split <;>
    simp [hq, VulkanGUI.getMode] <;>
    simp [init, checkDeviceExtensionSupport, setRayTracingAvailable,
      VulkanGUI.setRayTracingAvailable, kindOfMode]

end VulkanState

open VulkanState

/-- C7. For every number `N` of frame slots (`N ≥ 1`) and every run of
`GraphicsSystem::render` cycles after `createLevelResource` in which no switch is
requested (no `changeRenderPass` callback and nothing picked in the overlay), whatever
the results of the Vulkan calls: after each cycle, as before the first, every bucket of
`oldRenderPassQueue` is empty and the active render pass is the Forward object that
`createLevelResource` made. -/
theorem no_switch_request_keeps_buckets_empty (N : Nat) (exts : List String)
    (its : List Iteration) (hN : 1 ≤ N) (hq : ∀ it ∈ its, it.quiet) (k : Nat) :
    (∀ b, (runLoop N (its.take k) (boot exts)).state.oldRenderPassQueue b = []) ∧
    (runLoop N (its.take k) (boot exts)).state.renderModeManager =
      (boot exts).renderModeManager ∧
    (boot exts).renderModeManager = some { id := 0, kind := PassKind.Forward } := by
  have _ := hN
  obtain ⟨hb, hs, hm, -⟩ := boot_spec exts
  obtain ⟨a, b⟩ := idle_run N (its.take k) (boot exts)
    (fun it hit => hq it (List.mem_of_mem_take hit)) hb hs
  exact ⟨a, b, hm⟩

/-- Witness of C7: five cycles with two frame slots, one of them resized, one with an
acquire that is out of date. -/
theorem no_switch_request_keeps_buckets_empty_witness :
    1 ≤ 2 ∧
    (∀ it ∈ [({} : Iteration), { polled := [Callback.framebufferResize] }, {},
        { frame := { acquireResult := VK_ERROR_OUT_OF_DATE_KHR } }, {}], it.quiet) ∧
    (runLoop 2 [({} : Iteration), { polled := [Callback.framebufferResize] }, {},
        { frame := { acquireResult := VK_ERROR_OUT_OF_DATE_KHR } }, {}]
      (boot deviceExtensions)).state.oldRenderPassQueue 1 = [] :=
  ⟨by decide, by decide,
    (no_switch_request_keeps_buckets_empty 2 deviceExtensions
      [({} : Iteration), { polled := [Callback.framebufferResize] }, {},
        { frame := { acquireResult := VK_ERROR_OUT_OF_DATE_KHR } }, {}]
      (by decide) (by decide) 5).1 1⟩

namespace VulkanState

theorem iterate_changeRenderPass_mode (k : Nat) (s : VulkanState)
    (h : s.gui.mode < s.gui.renderModes.length) :
    ((changeRenderPass^[k]) s).gui.mode = (s.gui.mode + k) % s.gui.renderModes.length := by
  induction k with
  | zero => simp [Nat.mod_eq_of_lt h]
  | succ n ih =>
    rw [Function.iterate_succ_apply']
    have h1 := iterate_changeRenderPass_renderModes n s
    simp only [changeRenderPass_gui, VulkanGUI.proceedRenderModeIndex, h1, ih]
    rw [Nat.mod_add_mod, Nat.add_assoc]

theorem iterate_changeRenderPass_flag (k : Nat) (s : VulkanState) (hk : 1 ≤ k) :
    ((changeRenderPass^[k]) s).shouldSwitchRenderPass = true := by
  obtain ⟨n, rfl⟩ : ∃ n, k = n + 1 := ⟨k - 1, by omega⟩
  rw [Function.iterate_succ_apply']
  rfl

theorem mayLog_not_retire (inp : FrameInput) (s : VulkanState) (e : Event)
    (h : mayLog inp s e) : e.isRetire = false ∧ e.isConstruct = false := by
  rcases h with h1 | h1 | h1 | h1 | h1 | h1
  · simp only [beginEvents, List.mem_cons, List.mem_singleton, List.not_mem_nil,
      or_false] at h1
    rcases h1 with h | h | h | h | h <;> rw [h] <;> exact ⟨rfl, rfl⟩
  · obtain ⟨rec, hr, hx⟩ := h1
    unfold recordEvents at hr
    split at hr
    · split at hr
      · cases hr
        simp only [List.mem_cons, List.mem_singleton, List.not_mem_nil, or_false] at hx
        rcases hx with h | h <;> rw [h] <;> exact ⟨rfl, rfl⟩
      · cases hr
    · cases hp2 : s.renderModeManager with
      | none => simp [hp2] at hr
      | some p =>
        simp [hp2] at hr; subst hr
        simp only [List.mem_singleton] at hx
        rw [hx]; exact ⟨rfl, rfl⟩
  · rw [h1]; exact ⟨rfl, rfl⟩
  · simp only [submitEvents, List.mem_cons, List.mem_singleton, List.not_mem_nil,
      or_false] at h1
    rcases h1 with h | h | h <;> rw [h] <;> exact ⟨rfl, rfl⟩
  · have h2 := h1.1
    cases e <;> first | exact ⟨rfl, rfl⟩ | cases h2
  · obtain ⟨id, hid⟩ := h1
    rw [hid]; exact ⟨rfl, rfl⟩

theorem render_retires_nothing (N : Nat) (inp : FrameInput) (s : VulkanState) :
    ∃ L, (render N inp s).state.trace = s.trace ++ L ∧
      L.countP Event.isRetire = 0 ∧ L.countP Event.isConstruct = 0 := by
  obtain ⟨L, hL, hall⟩ := render_trace_new N inp s
  refine ⟨L, hL, ?_, ?_⟩
  · rw [List.countP_eq_zero]
    intro x hx; rw [(mayLog_not_retire inp s x (hall x hx)).1]; simp
  · rw [List.countP_eq_zero]
    intro x hx; rw [(mayLog_not_retire inp s x (hall x hx)).2]; simp

theorem graphicsRender_retires_nothing (N : Nat) (inp : FrameInput) (s : VulkanState)
    (h : s.shouldSwitchRenderPass = false) :
    ∃ L, (GraphicsSystem.render N inp s).state.trace = s.trace ++ L ∧
      L.countP Event.isRetire = 0 ∧ L.countP Event.isConstruct = 0 := by
  rw [graphicsRender_idle N inp s h]
  obtain ⟨L, hL, h1, h2⟩ := render_retires_nothing N inp s.updateCamera
  refine ⟨[Event.memcpyCameraUBO s.currentFrame, Event.memcpyCameraMatrixUBO s.currentFrame]
    ++ L, ?_, ?_, ?_⟩
  · rw [hL, updateCamera_trace, List.append_assoc]
  · rw [List.countP_append, h1]; rfl
  · rw [List.countP_append, h2]; rfl

/-- The calls the commit of a pending switch logs. -/
theorem commit_trace (initFails : Bool) (s : VulkanState) :
    ∃ commit, (cleanupRenderModeResource initFails s).state.trace = s.trace ++ commit ∧
      commit.countP Event.isRetire ≤ 1 ∧ commit.countP Event.isConstruct ≤ 1 ∧
      ∀ id kind, Event.construct id kind ∈ commit → kind = kindOfMode s.gui.mode := by
  rw [cleanupRenderModeResource_eq]
  by_cases h1 : s.shouldSwitchRenderPass = true
  · by_cases h2 : s.gui.isRayTracingMode = true
    · exact ⟨[], by simp [h1, h2, Step.state], by simp, by simp, by simp⟩
    · have key : (s.retireEvents ++
          [Event.construct s.nextId (kindOfMode s.gui.getMode), Event.passInit s.nextId]).countP
            Event.isRetire ≤ 1 ∧
          (s.retireEvents ++
          [Event.construct s.nextId (kindOfMode s.gui.getMode), Event.passInit s.nextId]).countP
            Event.isConstruct ≤ 1 ∧
          ∀ id kind, Event.construct id kind ∈ (s.retireEvents ++
          [Event.construct s.nextId (kindOfMode s.gui.getMode), Event.passInit s.nextId]) →
            kind = kindOfMode s.gui.mode := by
        unfold retireEvents
        cases s.renderModeManager with
        | none => simp [Event.isRetire, Event.isConstruct, VulkanGUI.getMode]
        | some p => simp [Event.isRetire, Event.isConstruct, VulkanGUI.getMode]
      refine ⟨s.retireEvents ++
          [Event.construct s.nextId (kindOfMode s.gui.getMode), Event.passInit s.nextId],
        ?_, key⟩
      cases initFails <;> simp [h1, h2, Step.state, switched_trace]
  · exact ⟨[], by simp [h1, Step.state], by simp, by simp, by simp⟩

end VulkanState

open VulkanState

namespace VulkanState

/-- The commit of a pending switch outside ray tracing mode, when `init()` of the new
render pass succeeds: what it leaves. -/
theorem commit_switches (s : VulkanState) (h1 : s.shouldSwitchRenderPass = true)
    (h2 : s.gui.isRayTracingMode = false) :
    cleanupRenderModeResource false s.updateCamera = .ok s.updateCamera.switched.clearSwitch ∧
    s.updateCamera.switched.clearSwitch.renderModeManager =
      some { id := s.nextId, kind := kindOfMode s.gui.mode } ∧
    (∀ old, s.renderModeManager = some old →
      s.updateCamera.switched.clearSwitch.oldRenderPassQueue =
        pushOld s.currentFrame old s.oldRenderPassQueue ∧
      s.updateCamera.switched.clearSwitch.trace = s.updateCamera.trace ++
        [Event.retire old.id s.currentFrame,
          Event.construct s.nextId (kindOfMode s.gui.mode), Event.passInit s.nextId]) ∧
    (s.renderModeManager = none →
      s.updateCamera.switched.clearSwitch.oldRenderPassQueue = s.oldRenderPassQueue ∧
      s.updateCamera.switched.clearSwitch.trace = s.updateCamera.trace ++
        [Event.construct s.nextId (kindOfMode s.gui.mode), Event.passInit s.nextId]) ∧
    recordEvents s.updateCamera.switched.clearSwitch =
      some [Event.passRender s.nextId s.currentFrame] := by
  have hre : retireEvents s.updateCamera = retireEvents s := by
    simp [retireEvents]
  refine ⟨?_, ?_, ?_, ?_, ?_⟩
  · rw [cleanupRenderModeResource_eq]
    simp [h1, h2]
  · simp [VulkanGUI.getMode]
  · intro old hold
    refine ⟨?_, ?_⟩
    · rw [clearSwitch_oldRenderPassQueue, switched_oldRenderPassQueue]
      simp only [updateCamera_renderModeManager, updateCamera_currentFrame,
        updateCamera_oldRenderPassQueue, hold]
    · simp only [clearSwitch_trace, switched_trace, hre, updateCamera_nextId,
        updateCamera_gui, VulkanGUI.getMode, List.append_assoc]
      simp [retireEvents, hold]
  · intro hnone
    refine ⟨?_, ?_⟩
    · rw [clearSwitch_oldRenderPassQueue, switched_oldRenderPassQueue]
      simp only [updateCamera_renderModeManager, updateCamera_currentFrame,
        updateCamera_oldRenderPassQueue, hnone]
    · simp only [clearSwitch_trace, switched_trace, hre, updateCamera_nextId,
        updateCamera_gui, VulkanGUI.getMode, List.append_assoc]
      simp [retireEvents, hnone]
  · unfold recordEvents
    simp [h2, VulkanGUI.getMode]

/-- The commit of a pending switch in ray tracing mode: what it leaves. -/
theorem commit_rayTracing (initFails : Bool) (s : VulkanState)
    (h1 : s.shouldSwitchRenderPass = true) (h2 : s.gui.isRayTracingMode = true) :
    cleanupRenderModeResource initFails s.updateCamera = .ok s.updateCamera.clearSwitch ∧
    s.updateCamera.clearSwitch.renderModeManager = s.renderModeManager ∧
    s.updateCamera.clearSwitch.oldRenderPassQueue = s.oldRenderPassQueue ∧
    s.updateCamera.clearSwitch.trace = s.updateCamera.trace ∧
    (s.rayTracingPipeline = true → recordEvents s.updateCamera.clearSwitch =
      some [Event.rayTracingRender s.currentFrame, Event.swapchainPassRender s.currentFrame]) := by
  refine ⟨?_, by simp, by simp, by simp, ?_⟩
  · rw [cleanupRenderModeResource_eq]
    simp [h1, h2]
  · intro h3
    unfold recordEvents
    simp [h2, h3]

end VulkanState

open VulkanState

/-- C8. After `k ≥ 1` `changeRenderPass` calls issued between two
`GraphicsSystem::render` calls, starting from mode `m`, the mode is
`(m + k) mod |renderModes|` and the pending flag is set. The next
`GraphicsSystem::render` runs `cleanupRenderModeResource` before `render`: that commit
logs at most one retirement and at most one construction, of the class the mode
`(m + k) mod |renderModes|` selects, and on return has cleared the flag; `render`
itself retires and constructs nothing, so the transition is committed once and before
any command is recorded. A `GraphicsSystem::render` that starts with the flag clear
retires and constructs nothing, and the flag is clear after a call during which no new
request was made. The commit makes the transition: when the mode `(m + k) mod
|renderModes|` is not the ray tracing mode and `init()` of the new render pass succeeds,
the commit returns with a new object of the class of that mode as the active render
pass, the render pass that was active pushed onto the bucket of `currentFrame`, exactly
the retirement of the old object, the construction and `init()` of the new one logged,
and the recording of the frame goes through the new object; when that mode is the ray
tracing mode, the commit returns with the active render pass and the buckets unchanged
and nothing logged, and the recording of the frame goes through the ray tracing
pipeline. -/
theorem pending_requests_commit_once (N : Nat) (inp : FrameInput) (s t : VulkanState)
    (k : Nat) (hk : 1 ≤ k) (hm : s.gui.mode < s.gui.renderModes.length)
    (ht : t = (changeRenderPass^[k]) s) :
    t.gui.mode = (s.gui.mode + k) % s.gui.renderModes.length ∧
    t.shouldSwitchRenderPass = true ∧
    GraphicsSystem.render N inp t =
      (match cleanupRenderModeResource inp.initFails t.updateCamera with
        | .ok u => render N inp u
        | .error e => .error e) ∧
    (∃ commit,
      (cleanupRenderModeResource inp.initFails t.updateCamera).state.trace =
        t.updateCamera.trace ++ commit ∧
      commit.countP Event.isRetire ≤ 1 ∧ commit.countP Event.isConstruct ≤ 1 ∧
      ∀ id kind, Event.construct id kind ∈ commit →
        kind = kindOfMode ((s.gui.mode + k) % s.gui.renderModes.length)) ∧
    (∀ u, cleanupRenderModeResource inp.initFails t.updateCamera = .ok u →
      u.shouldSwitchRenderPass = false ∧
      u.gui.mode = (s.gui.mode + k) % s.gui.renderModes.length) ∧
    (∀ (u : VulkanState) (inp2 : FrameInput), ∃ L,
      (render N inp2 u).state.trace = u.trace ++ L ∧
      L.countP Event.isRetire = 0 ∧ L.countP Event.isConstruct = 0) ∧
    (∀ (u : VulkanState) (inp2 : FrameInput), u.shouldSwitchRenderPass = false → ∃ L,
      (GraphicsSystem.render N inp2 u).state.trace = u.trace ++ L ∧
      L.countP Event.isRetire = 0 ∧ L.countP Event.isConstruct = 0) ∧
    (inp.quiet → ∀ v, GraphicsSystem.render N inp t = .ok v →
      v.shouldSwitchRenderPass = false) ∧
    (t.gui.isRayTracingMode = false → inp.initFails = false →
      ∃ u, cleanupRenderModeResource inp.initFails t.updateCamera = .ok u ∧
        u.renderModeManager =
          some { id := t.nextId, kind := kindOfMode ((s.gui.mode + k) % s.gui.renderModes.length) } ∧
        (∀ old, t.renderModeManager = some old →
          u.oldRenderPassQueue = pushOld t.currentFrame old t.oldRenderPassQueue ∧
          u.trace = t.updateCamera.trace ++
            [Event.retire old.id t.currentFrame,
              Event.construct t.nextId
                (kindOfMode ((s.gui.mode + k) % s.gui.renderModes.length)),
              Event.passInit t.nextId]) ∧
        (t.renderModeManager = none →
          u.oldRenderPassQueue = t.oldRenderPassQueue ∧
          u.trace = t.updateCamera.trace ++
            [Event.construct t.nextId
                (kindOfMode ((s.gui.mode + k) % s.gui.renderModes.length)),
              Event.passInit t.nextId]) ∧
        recordEvents u = some [Event.passRender t.nextId t.currentFrame]) ∧
    (t.gui.isRayTracingMode = true →
      ∃ u, cleanupRenderModeResource inp.initFails t.updateCamera = .ok u ∧
        u.renderModeManager = t.renderModeManager ∧
        u.oldRenderPassQueue = t.oldRenderPassQueue ∧
        u.trace = t.updateCamera.trace ∧
        (t.rayTracingPipeline = true → recordEvents u =
          some [Event.rayTracingRender t.currentFrame,
            Event.swapchainPassRender t.currentFrame])) ∧
    t.renderModeManager = s.renderModeManager ∧
    t.oldRenderPassQueue = s.oldRenderPassQueue ∧
    t.currentFrame = s.currentFrame ∧ t.nextId = s.nextId := by
  have hmode : t.gui.mode = (s.gui.mode + k) % s.gui.renderModes.length := by
    rw [ht]; exact iterate_changeRenderPass_mode k s hm
  have hflag : t.shouldSwitchRenderPass = true := by
    rw [ht]; exact iterate_changeRenderPass_flag k s hk
  have hcommit : ∀ u, cleanupRenderModeResource inp.initFails t.updateCamera = .ok u →
      u.shouldSwitchRenderPass = false ∧
      u.gui.mode = (s.gui.mode + k) % s.gui.renderModes.length := by
    intro u hu
    rw [cleanupRenderModeResource_eq] at hu
    simp only [updateCamera_shouldSwitchRenderPass, hflag, if_true, updateCamera_gui] at hu
    split at hu
    · cases hu; exact ⟨rfl, hmode⟩
    · split at hu
      · cases hu
      · cases hu
        exact ⟨rfl, by simpa using hmode⟩
  have hsame : ∀ (n : Nat) (x : VulkanState),
      ((changeRenderPass^[n]) x).renderModeManager = x.renderModeManager ∧
      ((changeRenderPass^[n]) x).oldRenderPassQueue = x.oldRenderPassQueue ∧
      ((changeRenderPass^[n]) x).currentFrame = x.currentFrame ∧
      ((changeRenderPass^[n]) x).nextId = x.nextId := by
    intro n
    induction n with
    | zero => intro x; exact ⟨rfl, rfl, rfl, rfl⟩
    | succ n ih =>
      intro x
      rw [Function.iterate_succ_apply]
      exact ih (changeRenderPass x)
  refine ⟨hmode, hflag, GraphicsSystem.render_eq N inp t, ?_, hcommit,
    fun u inp2 => render_retires_nothing N inp2 u,
    fun u inp2 hu => graphicsRender_retires_nothing N inp2 u hu, ?_, ?_, ?_,
    by rw [ht]; exact (hsame k s).1, by rw [ht]; exact (hsame k s).2.1,
    by rw [ht]; exact (hsame k s).2.2.1, by rw [ht]; exact (hsame k s).2.2.2⟩
  · obtain ⟨commit, h1, h2, h3, h4⟩ := commit_trace inp.initFails t.updateCamera
    refine ⟨commit, h1, h2, h3, fun id kind hmem => ?_⟩
    rw [h4 id kind hmem, updateCamera_gui, hmode]
  · intro hq v hv
    rw [GraphicsSystem.render_eq] at hv
    cases hc : cleanupRenderModeResource inp.initFails t.updateCamera with
    | error e => rw [hc] at hv; cases hv
    | ok u =>
      rw [hc] at hv
      simp only [] at hv
      have h1 := (render_quiet N inp u hq).2
      rw [hv] at h1
      exact h1.trans (hcommit u hc).1
  · intro hrt hinit
    obtain ⟨c1, c2, c3, c4, c5⟩ := commit_switches t hflag hrt
    rw [hinit]
    rw [hmode] at c2 c3 c4
    exact ⟨_, c1, c2, c3, c4, c5⟩
  · intro hrt
    obtain ⟨c1, c2, c3, c4, c5⟩ := commit_rayTracing inp.initFails t hflag hrt
    exact ⟨_, c1, c2, c3, c4, c5⟩

set_option maxRecDepth 20000 in
/-- Witness of C8: two presses of R after start-up, then the commit of the next frame:
the active render pass is a new object of the class of mode 2, the Forward object of
start-up is in the bucket of slot 0, and the frame is recorded with the new object. -/
theorem pending_requests_commit_once_witness :
    1 ≤ 2 ∧ (boot deviceExtensions).gui.mode < (boot deviceExtensions).gui.renderModes.length ∧
    ((changeRenderPass^[2]) (boot deviceExtensions)).gui.mode =
      ((boot deviceExtensions).gui.mode + 2) % (boot deviceExtensions).gui.renderModes.length ∧
    ((changeRenderPass^[2]) (boot deviceExtensions)).gui.mode = 2 ∧
    ∃ u, cleanupRenderModeResource false
        ((changeRenderPass^[2]) (boot deviceExtensions)).updateCamera = .ok u ∧
      u.renderModeManager = some { id := 1, kind := PassKind.Pixel } ∧
      u.oldRenderPassQueue 0 = [{ id := 0, kind := PassKind.Forward }] ∧
      recordEvents u = some [Event.passRender 1 0] := by
  have h := pending_requests_commit_once 2 {} (boot deviceExtensions)
    ((changeRenderPass^[2]) (boot deviceExtensions)) 2 (by decide) (by decide) rfl
  obtain ⟨u, h1, h2, h3, -, h5⟩ := h.2.2.2.2.2.2.2.2.1 (by decide) rfl
  exact ⟨by decide, by decide, h.1, by decide, u, h1, h2.trans (by decide),
    (congrFun (h3 { id := 0, kind := PassKind.Forward } (by decide)).1 0).trans (by decide),
    h5.trans (by decide)⟩

namespace VulkanState

theorem render_completes (N : Nat) (inp : FrameInput) (s : VulkanState) (p : Pass)
    (hc : inp.completes) (hp : s.renderModeManager = some p)
    (hrt : s.gui.isRayTracingMode = false) :
    ∃ v, render N inp s = .ok v ∧
      v.currentFrame = (s.currentFrame + 1) % N ∧
      v.renderModeManager = some p ∧
      v.oldRenderPassQueue = clearBucket ((s.currentFrame + 1) % N) s.oldRenderPassQueue ∧
      v.nextId = s.nextId ∧
      Event.passRender p.id s.currentFrame ∈ v.trace := by
  obtain ⟨-, ha, hb, he, hs, hpr, hfa⟩ := hc
  have hrec : recordEvents s = some [Event.passRender p.id s.currentFrame] := by
    unfold recordEvents; simp [hrt, hp]
  have hrender := render_reaches_present N inp s _ ha hb hrec he hs
  by_cases hst : presentStale inp ((recorded inp [Event.passRender p.id s.currentFrame] s).log
      (submitEvents s))
  · rw [presentAndAdvance_stale N inp _ hst] at hrender
    have hret := recreateSwapchain_returned inp.presentRecreate
      (((recorded inp [Event.passRender p.id s.currentFrame] s).log
        (submitEvents s)).setFramebufferResized false) (by simp [hp]) hfa
    obtain ⟨⟨a1, a2, a3, a4, -⟩, -⟩ := recreateSwapchain_spec inp.presentRecreate
      (((recorded inp [Event.passRender p.id s.currentFrame] s).log
        (submitEvents s)).setFramebufferResized false)
    have a6 := recreateSwapchain_trace inp.presentRecreate
      (((recorded inp [Event.passRender p.id s.currentFrame] s).log
        (submitEvents s)).setFramebufferResized false)
    cases hr : recreateSwapchain inp.presentRecreate
      (((recorded inp [Event.passRender p.id s.currentFrame] s).log
        (submitEvents s)).setFramebufferResized false) with
    | error e => rw [hr] at hret; cases hret
    | ok v =>
      rw [hr] at hrender a1 a2 a3 a4 a6
      simp only [Step.state, setFramebufferResized_currentFrame, log_currentFrame,
        recorded_currentFrame, setFramebufferResized_renderModeManager, log_renderModeManager,
        recorded_renderModeManager, setFramebufferResized_oldRenderPassQueue,
        log_oldRenderPassQueue, recorded_oldRenderPassQueue, setFramebufferResized_nextId,
        log_nextId, recorded_nextId, setFramebufferResized_trace, log_trace,
        recorded_trace] at a1 a2 a3 a4 a6
      refine ⟨_, hrender, ?_, ?_, ?_, ?_, ?_⟩
      · simp [a1]
      · simp [a2, hp]
      · simp [a1, a3]; rfl
      · simp [a4]
      · simp [a6]
  · have hst2 : inp.presentResult = VK_SUCCESS ∧ s.framebufferResized = false := by
      simp only [presentStale, log_framebufferResized, recorded_framebufferResized,
        not_or] at hst
      refine ⟨?_, by simpa using hst.2.2⟩
      rcases hpr with h | h | h
      · exact h
      · exact absurd h hst.2.1
      · exact absurd h hst.1
    rw [presentAndAdvance_success N inp _ hst2.1 (by simpa using hst2.2)] at hrender
    refine ⟨_, hrender, ?_, ?_, ?_, ?_, ?_⟩
    · simp
    · simp [hp]
    · simp; rfl
    · simp
    · simp

theorem cycle_completes (N : Nat) (it : Iteration) (s : VulkanState) (p : Pass)
    (hc : it.frame.completes) (hq : it.quiet) (hp : s.renderModeManager = some p)
    (hrt : s.gui.isRayTracingMode = false) :
    ∃ v, GraphicsSystem.render N it.frame (s.fireAll it.polled) = .ok v ∧
      v.currentFrame = (s.currentFrame + 1) % N ∧
      v.gui = s.gui ∧ v.shouldSwitchRenderPass = false ∧
      v.renderModeManager =
        (if s.shouldSwitchRenderPass then some { id := s.nextId, kind := kindOfMode s.gui.getMode }
         else some p) ∧
      v.oldRenderPassQueue = clearBucket ((s.currentFrame + 1) % N)
        (if s.shouldSwitchRenderPass then pushOld s.currentFrame p s.oldRenderPassQueue
         else s.oldRenderPassQueue) ∧
      Event.passRender (if s.shouldSwitchRenderPass then s.nextId else p.id) s.currentFrame
        ∈ v.trace := by
  obtain ⟨⟨f1, f2, f3, f4, -⟩, -⟩ := fireAll_sameFrame it.polled s
  obtain ⟨f6, f7⟩ := fireAll_quiet it.polled s hq.1
  generalize s.fireAll it.polled = t at *
  rw [GraphicsSystem.render_eq, cleanupRenderModeResource_eq]
  simp only [updateCamera_shouldSwitchRenderPass, updateCamera_gui, f6, f7, hrt, hc.1,
    Bool.false_eq_true, if_false]
  by_cases hsw : s.shouldSwitchRenderPass = true
  · simp only [hsw, if_true]
    obtain ⟨v, h1, h2, h3, h4, h5, h6⟩ := render_completes N it.frame
      t.updateCamera.switched.clearSwitch { id := t.nextId, kind := kindOfMode t.gui.getMode }
      hc (by simp) (by simp [f6, hrt])
    obtain ⟨q1, q2⟩ := render_quiet N it.frame t.updateCamera.switched.clearSwitch hq.2
    rw [h1] at q1 q2
    simp only [Step.state, clearSwitch_gui, switched_gui, updateCamera_gui,
      clearSwitch_shouldSwitchRenderPass] at q1 q2
    have hq2 := switched_oldRenderPassQueue t.updateCamera
    simp only [updateCamera_renderModeManager, f2, hp, updateCamera_currentFrame,
      updateCamera_oldRenderPassQueue, f1, f3] at hq2
    simp only [clearSwitch_currentFrame, switched_currentFrame, updateCamera_currentFrame, f1,
      clearSwitch_oldRenderPassQueue, hq2, clearSwitch_nextId, switched_nextId,
      updateCamera_nextId, f4, f6] at h2 h3 h4 h5 h6
    exact ⟨v, h1, h2, q1.trans f6, q2, h3, h4, h6⟩
  · have hsw2 : s.shouldSwitchRenderPass = false := by simpa using hsw
    simp only [hsw2, Bool.false_eq_true, if_false]
    obtain ⟨v, h1, h2, h3, h4, h5, h6⟩ := render_completes N it.frame
      t.updateCamera p hc (by simp [f2, hp]) (by simp [f6, hrt])
    obtain ⟨q1, q2⟩ := render_quiet N it.frame t.updateCamera hq.2
    rw [h1] at q1 q2
    simp only [Step.state, updateCamera_gui, updateCamera_shouldSwitchRenderPass] at q1 q2
    simp only [updateCamera_currentFrame, f1, updateCamera_oldRenderPassQueue, f3,
      updateCamera_nextId] at h2 h3 h4 h5 h6
    exact ⟨v, h1, h2, q1.trans f6, q2.trans (f7.trans hsw2), h3, h4, h6⟩

end VulkanState

namespace VulkanState

theorem add_mod_ne_self (N cf m : Nat) (hcf : cf < N) (h0 : 0 < m) (hm : m < N) :
    (cf + m) % N ≠ cf := by
  by_cases h : cf + m < N
  · rw [Nat.mod_eq_of_lt h]; omega
  · have h1 : (cf + m) % N = cf + m - N := by
      rw [Nat.mod_eq_sub_mod (by omega), Nat.mod_eq_of_lt (by omega)]
    rw [h1]; omega

theorem runLoop_ok (N : Nat) (it : Iteration) (rest : List Iteration) (s v : VulkanState)
    (h : GraphicsSystem.render N it.frame (s.fireAll it.polled) = .ok v) :
    runLoop N (it :: rest) s = runLoop N rest v := by
  simp only [runLoop, h]

theorem idle_cycles (N : Nat) (hN : 0 < N) (its : List Iteration) (t : VulkanState) (p : Pass)
    (hits : ∀ it ∈ its, it.frame.completes ∧ it.quiet)
    (hp : t.renderModeManager = some p) (hrt : t.gui.isRayTracingMode = false)
    (hsw : t.shouldSwitchRenderPass = false) (hcf : t.currentFrame < N) :
    ∃ v, runLoop N its t = .ok v ∧
      v.currentFrame = (t.currentFrame + its.length) % N ∧
      v.gui = t.gui ∧ v.shouldSwitchRenderPass = false ∧ v.renderModeManager = some p ∧
      ∀ b, v.oldRenderPassQueue b =
        if b ∈ (List.range its.length).map (fun i => (t.currentFrame + (i + 1)) % N) then []
        else t.oldRenderPassQueue b := by
  induction its generalizing t with
  | nil =>
    exact ⟨t, rfl, by simp [Nat.mod_eq_of_lt hcf], rfl, hsw, hp, by simp⟩
  | cons it rest ih =>
    obtain ⟨hc, hq⟩ := hits it (List.mem_cons_self _ _)
    obtain ⟨v1, h1, h2, h3, h4, h5, h6, -⟩ := cycle_completes N it t p hc hq hp hrt
    simp only [hsw, Bool.false_eq_true, if_false] at h5 h6
    obtain ⟨v, g1, g2, g3, g4, g5, g6⟩ := ih v1
      (fun x hx => hits x (List.mem_cons_of_mem _ hx)) h5 (by rw [h3]; exact hrt) h4
      (by rw [h2]; exact Nat.mod_lt _ hN)
    refine ⟨v, by rw [runLoop_ok N it rest t v1 h1]; exact g1, ?_, g3.trans h3, g4, g5, ?_⟩
    · rw [g2, h2, Nat.mod_add_mod, List.length_cons]
      congr 1; omega
    · intro b
      rw [g6 b, h2, h6, List.length_cons, List.range_succ_eq_map, List.map_cons, List.map_map]
      have hfun : (fun i => ((t.currentFrame + 1) % N + (i + 1)) % N) =
          ((fun i => (t.currentFrame + (i + 1)) % N) ∘ Nat.succ) := by
        funext i
        simp only [Function.comp, Nat.succ_eq_add_one]
        rw [Nat.mod_add_mod]
        congr 1; omega
      rw [hfun]
      simp only [List.mem_cons, clearBucket, Nat.zero_add]
      by_cases hb1 : b = (t.currentFrame + 1) % N
      · simp [hb1]
      · simp [hb1]

end VulkanState

open VulkanState

/-- C6, as amended. A switch committed by render cycle `c`, in frame slot `S`, with `N`
frame slots: cycle `c` records with the newly constructed render pass, the retired one
is held in `oldRenderPassQueue[S]` after each of the cycles `c, ..., c + N - 2`, and
after cycle `c + N - 1` completes no bucket contains it. With `N = 2` and the switch
requested before cycle 6, the retired Forward pass is still in its bucket after
cycle 6 and gone after cycle 7. Here `its` are the cycles from `c` on, each completing
without a new request, and `s` is the state before cycle `c`. -/
theorem retired_pass_held_until_slot_reused (N : Nat) (s : VulkanState) (old : Pass)
    (its : List Iteration) (hN : 1 ≤ N) (hcf : s.currentFrame < N)
    (hold : s.renderModeManager = some old) (hsw : s.shouldSwitchRenderPass = true)
    (hrt : s.gui.isRayTracingMode = false)
    (hfresh : ∀ b, old ∉ s.oldRenderPassQueue b)
    (hits : ∀ it ∈ its, it.frame.completes ∧ it.quiet) (hlen : 1 ≤ its.length) :
    (runLoop N its s).returned = true ∧
    Event.passRender s.nextId s.currentFrame ∈ (runLoop N (its.take 1) s).state.trace ∧
    (runLoop N its s).state.renderModeManager =
      some { id := s.nextId, kind := kindOfMode s.gui.getMode } ∧
    (its.length < N → old ∈ (runLoop N its s).state.oldRenderPassQueue s.currentFrame) ∧
    (its.length = N → ∀ b, old ∉ (runLoop N its s).state.oldRenderPassQueue b) := by
  cases its with
  | nil => simp at hlen
  | cons it rest =>
    obtain ⟨hc, hq⟩ := hits it (List.mem_cons_self _ _)
    obtain ⟨v1, h1, h2, h3, h4, h5, h6, h7⟩ := cycle_completes N it s old hc hq hold hrt
    simp only [hsw, if_true] at h5 h6 h7
    obtain ⟨v, g1, g2, g3, g4, g5, g6⟩ := idle_cycles N hN rest v1 _
      (fun x hx => hits x (List.mem_cons_of_mem _ hx)) h5 (by rw [h3]; exact hrt) h4
      (by rw [h2]; exact Nat.mod_lt _ hN)
    have hrun : runLoop N (it :: rest) s = .ok v := by
      rw [runLoop_ok N it rest s v1 h1]; exact g1
    have hfirst : runLoop N ((it :: rest).take 1) s = .ok v1 := by
      simp only [List.take_succ_cons, List.take_zero]
      rw [runLoop_ok N it [] s v1 h1]; rfl
    have hslots : ∀ b, b ∈ (List.range rest.length).map
        (fun i => (v1.currentFrame + (i + 1)) % N) ↔
        ∃ m, 2 ≤ m ∧ m ≤ rest.length + 1 ∧ b = (s.currentFrame + m) % N := by
      intro b
      simp only [List.mem_map, List.mem_range, h2]
      constructor
      · rintro ⟨i, hi, rfl⟩
        exact ⟨i + 2, by omega, by omega, by rw [Nat.mod_add_mod]; congr 1; omega⟩
      · rintro ⟨m, hm1, hm2, rfl⟩
        exact ⟨m - 2, by omega, by rw [Nat.mod_add_mod]; congr 1; omega⟩
    rw [hrun, hfirst]
    simp only [Step.returned, Step.state, List.length_cons]
    refine ⟨trivial, h7, g5, fun hlt => ?_, fun heq b => ?_⟩
    · have hnot : ¬ s.currentFrame ∈ (List.range rest.length).map
          (fun i => (v1.currentFrame + (i + 1)) % N) := by
        rw [hslots]
        rintro ⟨m, hm1, hm2, hm3⟩
        exact add_mod_ne_self N s.currentFrame m hcf (by omega) (by omega) hm3.symm
      have hne : s.currentFrame ≠ (s.currentFrame + 1) % N :=
        fun h => add_mod_ne_self N s.currentFrame 1 hcf (by omega) (by omega) h.symm
      rw [g6, if_neg hnot, h6]
      simp [clearBucket, pushOld, hne]
    · rw [g6]
      split
      · simp
      · next hnot =>
        rw [h6]
        simp only [clearBucket, pushOld]
        split
        · simp
        · next hb1 =>
          by_cases hb : b = s.currentFrame
          · exfalso
            subst hb
            by_cases hN1 : N = 1
            · subst hN1
              apply hb1
              rw [Nat.mod_one]; omega
            · apply hnot
              rw [hslots]
              exact ⟨N, by omega, by omega, by rw [Nat.add_mod_right, Nat.mod_eq_of_lt hcf]⟩
          · rw [if_neg hb]; exact hfresh b

/-- Witness of C6 as amended: the scenario with two frame slots; after cycle 6 the
Forward pass is in the bucket of slot 1, after cycle 7 it is in no bucket. -/
theorem retired_pass_held_until_slot_reused_witness :
    switchBeforeCycleSix.currentFrame = 1 ∧
    switchBeforeCycleSix.renderModeManager = some { id := 0, kind := PassKind.Forward } ∧
    switchBeforeCycleSix.shouldSwitchRenderPass = true ∧
    ({ id := 0, kind := PassKind.Forward } : Pass) ∈
      (runLoop 2 [{}] switchBeforeCycleSix).state.oldRenderPassQueue 1 ∧
    (∀ b, ({ id := 0, kind := PassKind.Forward } : Pass) ∉
      (runLoop 2 [{}, {}] switchBeforeCycleSix).state.oldRenderPassQueue b) :=
  have hfresh : ∀ b, ({ id := 0, kind := PassKind.Forward } : Pass) ∉
      switchBeforeCycleSix.oldRenderPassQueue b := fun b => by
    have h := (idle_run 2 (List.replicate 5 {}) (boot deviceExtensions) (by decide)
      (boot_spec deviceExtensions).1 (boot_spec deviceExtensions).2.1).1 b
    simp only [switchBeforeCycleSix, changeRenderPass_oldRenderPassQueue, h]
    exact List.not_mem_nil _
  ⟨by decide, by decide, by decide,
    (retired_pass_held_until_slot_reused 2 switchBeforeCycleSix
      { id := 0, kind := PassKind.Forward } [{}] (by decide) (by decide) (by decide)
      (by decide) (by decide) hfresh (by decide) (by decide)).2.2.2.1 (by decide),
    (retired_pass_held_until_slot_reused 2 switchBeforeCycleSix
      { id := 0, kind := PassKind.Forward } [{}, {}] (by decide) (by decide) (by decide)
      (by decide) (by decide) hfresh (by decide) (by decide)).2.2.2.2 rfl⟩

set_option maxRecDepth 20000 in
/-- Counterexample to C6 as stated: in the scenario with two frame slots the switch is
applied by cycle 6, in slot 1. After cycle 6 the retired Forward pass is in the bucket
of slot 1; when cycle 7 completes, `cleanup()` has been called on it and both buckets
are empty, so it is not held until cycle 8 completes. -/
theorem retired_pass_gone_after_cycle_seven :
    switchBeforeCycleSix.currentFrame = 1 ∧
    (runLoop 2 [{}] switchBeforeCycleSix).state.oldRenderPassQueue 1 =
      [{ id := 0, kind := PassKind.Forward }] ∧
    (runLoop 2 [{}, {}] switchBeforeCycleSix).returned = true ∧
    (runLoop 2 [{}, {}] switchBeforeCycleSix).state.oldRenderPassQueue 0 = [] ∧
    (runLoop 2 [{}, {}] switchBeforeCycleSix).state.oldRenderPassQueue 1 = [] ∧
    Event.passCleanup 0 ∈ (runLoop 2 [{}, {}] switchBeforeCycleSix).state.trace := by
  decide

namespace Watch

variable {α : Type}

theorem pending_append (w : Watch α) (a b : List Event) :
    w.pending (a ++ b) = b.foldl w.step (w.pending a) := by
  simp [pending, List.foldl_append]

theorem mem_step (w : Watch α) (acc : List α) (e : Event) (x : α) :
    x ∈ w.step acc e ↔ (x ∈ acc ∧ w.closes e x = false) ∨ w.opens e = some x := by
  unfold step
  rw [List.mem_append, List.mem_filter]
  constructor
  · rintro (⟨h1, h2⟩ | h)
    · exact Or.inl ⟨h1, by simpa using h2⟩
    · exact Or.inr (by simpa [Option.mem_toList] using h)
  · rintro (⟨h1, h2⟩ | h)
    · exact Or.inl ⟨h1, by simp [h2]⟩
    · exact Or.inr (by simp [Option.mem_toList, h])

theorem mem_foldl_step_of_mem (w : Watch α) (l : List Event) (acc : List α) (x : α)
    (hx : x ∈ acc) (hl : ∀ e ∈ l, w.closes e x = false) : x ∈ l.foldl w.step acc := by
  induction l generalizing acc with
  | nil => exact hx
  | cons e l ih =>
    rw [List.foldl_cons]
    exact ih _ ((mem_step w acc e x).mpr (Or.inl ⟨hx, hl e (List.mem_cons_self _ _)⟩))
      (fun e' he' => hl e' (List.mem_cons_of_mem _ he'))

theorem foldl_step_neutral (w : Watch α) (l : List Event) (acc : List α)
    (h : ∀ e ∈ l, w.opens e = none ∧ ∀ a, w.closes e a = false) :
    l.foldl w.step acc = acc := by
  induction l generalizing acc with
  | nil => rfl
  | cons e l ih =>
    rw [List.foldl_cons]
    obtain ⟨h1, h2⟩ := h e (List.mem_cons_self _ _)
    have : w.step acc e = acc := by
      unfold step
      rw [h1]
      simp [h2]
    rw [this]
    exact ih acc (fun e' he' => h e' (List.mem_cons_of_mem _ he'))

/-- An obligation opened in the trace and not closed afterwards is pending. -/
theorem mem_pending_of_open (w : Watch α) (pre post : List Event) (e : Event) (x : α)
    (ho : w.opens e = some x) (hc : ∀ e' ∈ post, w.closes e' x = false) :
    x ∈ w.pending (pre ++ e :: post) := by
  have h1 : pre ++ e :: post = (pre ++ [e]) ++ post := by simp
  rw [h1, pending_append, pending_append]
  apply mem_foldl_step_of_mem _ _ _ _ _ hc
  rw [List.foldl_cons, List.foldl_nil]
  exact (mem_step w _ e x).mpr (Or.inr ho)

/-- In a guarded trace, between a call that opens an obligation and a later call that
needs it closed there is a call that closes it. -/
theorem guarded_closed_between (w : Watch α) (needs : Event → α → Bool) (tr : List Event)
    (hg : w.Guarded needs tr) (pre mid post : List Event) (e1 e2 : Event) (x : α)
    (htr : tr = pre ++ e1 :: (mid ++ e2 :: post)) (ho : w.opens e1 = some x)
    (hn : needs e2 x = true) : ∃ e ∈ mid, w.closes e x = true := by
  by_contra hcon
  have hc : ∀ e' ∈ mid, w.closes e' x = false := by
    intro e' he'
    cases h : w.closes e' x with
    | false => rfl
    | true => exact absurd ⟨e', he', h⟩ hcon
  have hp := mem_pending_of_open w pre mid e1 x ho hc
  have := hg (pre ++ e1 :: mid) e2 post (by rw [htr]; simp) x hp
  rw [hn] at this
  cases this

theorem guarded_nil (w : Watch α) (needs : Event → α → Bool) : w.Guarded needs [] := by
  intro pre e post h
  cases pre <;> cases h

/-- Appending calls that need nothing keeps a trace guarded. -/
theorem guarded_append_of_needs_nothing (w : Watch α) (needs : Event → α → Bool)
    (tr l : List Event) (hg : w.Guarded needs tr)
    (hl : ∀ e ∈ l, ∀ a, needs e a = false) : w.Guarded needs (tr ++ l) := by
  intro pre e post h a ha
  rcases List.append_eq_append_iff.mp h with ⟨a', h1, h2⟩ | ⟨c', h1, h2⟩
  · exact hl e (by rw [h2]; simp) a
  · cases c' with
    | nil =>
      simp only [List.nil_append] at h2
      exact hl e (by rw [← h2]; exact List.mem_cons_self _ _) a
    | cons x c'' =>
      simp only [List.cons_append, List.cons.injEq] at h2
      obtain ⟨rfl, -⟩ := h2
      exact hg pre e c'' h1 a ha

/-- Appending calls that leave the open obligations alone, each of which needs none of
the open obligations closed, keeps a trace guarded. -/
theorem guarded_append_neutral (w : Watch α) (needs : Event → α → Bool)
    (tr l : List Event) (hg : w.Guarded needs tr)
    (hl : ∀ e ∈ l, w.opens e = none ∧ ∀ a, w.closes e a = false)
    (hn : ∀ e ∈ l, ∀ a ∈ w.pending tr, needs e a = false) : w.Guarded needs (tr ++ l) := by
  intro pre e post h a ha
  rcases List.append_eq_append_iff.mp h with ⟨a', h1, h2⟩ | ⟨c', h1, h2⟩
  · have he : e ∈ l := by rw [h2]; simp
    have ha' : ∀ e' ∈ a', w.opens e' = none ∧ ∀ a, w.closes e' a = false := by
      intro e' he'
      exact hl e' (by rw [h2]; simp [he'])
    rw [h1, pending_append, foldl_step_neutral w a' _ ha'] at ha
    exact hn e he a ha
  · cases c' with
    | nil =>
      simp only [List.nil_append] at h2
      simp only [List.append_nil] at h1
      rw [← h1] at ha
      exact hn e (by rw [← h2]; exact List.mem_cons_self _ _) a ha
    | cons x c'' =>
      simp only [List.cons_append, List.cons.injEq] at h2
      obtain ⟨rfl, -⟩ := h2
      exact hg pre e c'' h1 a ha

@[simp] theorem guardedFrom_nil (w : Watch α) (needs : Event → α → Bool) (acc : List α) :
    w.GuardedFrom needs acc [] ↔ True := Iff.rfl

@[simp] theorem guardedFrom_cons (w : Watch α) (needs : Event → α → Bool) (acc : List α)
    (e : Event) (l : List Event) :
    w.GuardedFrom needs acc (e :: l) ↔
      (∀ a ∈ acc, needs e a = false) ∧ w.GuardedFrom needs (w.step acc e) l := Iff.rfl

theorem guardedFrom_append (w : Watch α) (needs : Event → α → Bool) (acc : List α)
    (l1 l2 : List Event) :
    w.GuardedFrom needs acc (l1 ++ l2) ↔
      w.GuardedFrom needs acc l1 ∧ w.GuardedFrom needs (l1.foldl w.step acc) l2 := by
  induction l1 generalizing acc with
  | nil => simp
  | cons e l ih =>
    simp only [List.cons_append, guardedFrom_cons, List.foldl_cons, ih, and_assoc]

theorem guarded_snoc (w : Watch α) (needs : Event → α → Bool) (tr : List Event) (e : Event) :
    w.Guarded needs (tr ++ [e]) ↔
      w.Guarded needs tr ∧ ∀ a ∈ w.pending tr, needs e a = false := by
  constructor
  · intro h
    refine ⟨?_, fun a ha => h tr e [] rfl a ha⟩
    intro pre x post hx a ha
    exact h pre x (post ++ [e]) (by rw [hx]; simp) a ha
  · rintro ⟨h1, h2⟩ pre x post hx a ha
    rcases List.append_eq_append_iff.mp hx with ⟨a', h3, h4⟩ | ⟨c', h3, h4⟩
    · cases a' with
      | nil =>
        simp only [List.nil_append, List.cons.injEq] at h4
        simp only [List.append_nil] at h3
        rw [← h4.1]
        rw [h3] at ha
        exact h2 a ha
      | cons y ys =>
        simp only [List.cons_append, List.cons.injEq] at h4
        have := h4.2
        cases ys <;> simp at this
    · cases c' with
      | nil =>
        simp only [List.nil_append, List.cons.injEq] at h4
        simp only [List.append_nil] at h3
        rw [h4.1]
        rw [← h3] at ha
        exact h2 a ha
      | cons y ys =>
        simp only [List.cons_append, List.cons.injEq] at h4
        obtain ⟨rfl, -⟩ := h4
        exact h1 pre x ys h3 a ha

theorem guarded_append_iff (w : Watch α) (needs : Event → α → Bool) (tr l : List Event) :
    w.Guarded needs (tr ++ l) ↔
      w.Guarded needs tr ∧ w.GuardedFrom needs (w.pending tr) l := by
  induction l generalizing tr with
  | nil => simp
  | cons e l ih =>
    have h1 : tr ++ e :: l = (tr ++ [e]) ++ l := by simp
    rw [h1, ih, guarded_snoc, guardedFrom_cons, pending_append, List.foldl_cons,
      List.foldl_nil, and_assoc]

theorem guardedFrom_of_needs_nothing (w : Watch α) (needs : Event → α → Bool)
    (acc : List α) (l : List Event) (h : ∀ e ∈ l, ∀ a, needs e a = false) :
    w.GuardedFrom needs acc l := by
  induction l generalizing acc with
  | nil => trivial
  | cons e l ih =>
    exact ⟨fun a _ => h e (List.mem_cons_self _ _) a,
      ih _ (fun e' he' => h e' (List.mem_cons_of_mem _ he'))⟩

theorem step_neutral (w : Watch α) (acc : List α) (e : Event) (h : w.Neutral e) :
    w.step acc e = acc := by
  unfold step
  rw [h.1]
  simp [h.2]

theorem foldl_neutral (w : Watch α) (l : List Event) (acc : List α)
    (h : ∀ e ∈ l, w.Neutral e) : l.foldl w.step acc = acc :=
  foldl_step_neutral w l acc h

theorem guardedFrom_neutral (w : Watch α) (needs : Event → α → Bool)
    (acc : List α) (l : List Event) (h : ∀ e ∈ l, w.Neutral e) :
    w.GuardedFrom needs acc l ↔ ∀ e ∈ l, ∀ a ∈ acc, needs e a = false := by
  induction l with
  | nil => simp
  | cons e l ih =>
    rw [guardedFrom_cons, step_neutral w acc e (h e (List.mem_cons_self _ _)),
      ih (fun e' he' => h e' (List.mem_cons_of_mem _ he')), List.forall_mem_cons]

theorem guardedFrom_nil_acc (w : Watch α) (needs : Event → α → Bool)
    (l : List Event) (h : ∀ e ∈ l, w.Neutral e) : w.GuardedFrom needs [] l := by
  rw [guardedFrom_neutral w needs [] l h]
  intro e _ a ha
  cases ha

end Watch

namespace VulkanState

theorem recreateEvents_congr (inp : RecreateInput) (s t : VulkanState)
    (h : t.renderModeManager = s.renderModeManager) :
    recreateEvents inp t = recreateEvents inp s := by
  unfold recreateEvents
  rw [h]

theorem graphicsRender_cases (N : Nat) (inp : FrameInput) (s : VulkanState) :
    ((GraphicsSystem.render N inp s).returned = false ∧
      (GraphicsSystem.render N inp s).state.trace =
        s.trace ++ cameraEvents s ++ commitEvents s) ∨
    ∃ u, Committed s u ∧ GraphicsSystem.render N inp s = render N inp u := by
  rw [GraphicsSystem.render_eq, cleanupRenderModeResource_eq]
  have hcam : s.updateCamera.trace = s.trace ++ cameraEvents s := by
    rw [updateCamera_trace]; rfl
  have hre : retireEvents s.updateCamera = retireEvents s := by
    simp [retireEvents]
  by_cases h1 : s.updateCamera.shouldSwitchRenderPass = true
  · rw [if_pos h1]
    by_cases h2 : s.updateCamera.gui.isRayTracingMode = true
    · rw [if_pos h2]
      refine Or.inr ⟨s.updateCamera.clearSwitch, ⟨by simp, Or.inl ⟨by simp, by simp, by simp, ?_⟩⟩, rfl⟩
      rw [clearSwitch_trace, hcam]
    · rw [if_neg h2]
      by_cases h3 : inp.initFails = true
      · rw [if_pos h3]
        refine Or.inl ⟨rfl, ?_⟩
        simp only [Step.state, switched_trace, hcam, hre, commitEvents, updateCamera_nextId,
          updateCamera_gui, List.append_assoc]
      · rw [if_neg h3]
        refine Or.inr ⟨s.updateCamera.switched.clearSwitch,
          ⟨by simp, Or.inr ⟨by simp, ?_, by simp, ?_⟩⟩, rfl⟩
        · simp only [clearSwitch_oldRenderPassQueue, switched_oldRenderPassQueue,
            updateCamera_renderModeManager, updateCamera_currentFrame,
            updateCamera_oldRenderPassQueue]
        · simp only [clearSwitch_trace, switched_trace, hcam, hre, commitEvents,
            updateCamera_nextId, updateCamera_gui, List.append_assoc]
  · rw [if_neg h1]
    exact Or.inr ⟨s.updateCamera, ⟨by simp, Or.inl ⟨by simp, by simp, by simp, hcam⟩⟩, rfl⟩

theorem render_shape (N : Nat) (inp : FrameInput) (u : VulkanState) :
    ∃ L, (render N inp u).state.trace = u.trace ++ L ∧ RenderShape N inp u (render N inp u) L := by
  have hpath := render_path N inp u
  generalize render N inp u = r at hpath
  have hA : recreateEvents inp.acquireRecreate
      (u.log [Event.vkWaitForFences u.currentFrame,
        Event.vkAcquireNextImageKHR u.currentFrame inp.acquireResult]) =
      recreateEvents inp.acquireRecreate u := recreateEvents_congr _ _ _ (by simp)
  have hP : ∀ rec, recreateEvents inp.presentRecreate
      (((recorded inp rec u).log (submitEvents u)).setFramebufferResized false) =
      recreateEvents inp.presentRecreate u :=
    fun rec => recreateEvents_congr _ _ _ (by simp)
  cases hpath with
  | acquireStale ha =>
    obtain ⟨⟨a1, a2, a3, a4, -⟩, -⟩ := recreateSwapchain_spec inp.acquireRecreate
      (u.log [Event.vkWaitForFences u.currentFrame,
        Event.vkAcquireNextImageKHR u.currentFrame inp.acquireResult])
    refine ⟨staleAcquireEvents inp u, ?_, ?_⟩
    · rw [recreateSwapchain_trace, log_trace, hA, staleAcquireEvents, List.append_assoc]
    · cases hr : (recreateSwapchain inp.acquireRecreate
        (u.log [Event.vkWaitForFences u.currentFrame,
          Event.vkAcquireNextImageKHR u.currentFrame inp.acquireResult])).returned with
      | false => exact Or.inl ⟨hr, [], [], Or.inr rfl, Or.inl (by simp)⟩
      | true =>
        exact Or.inr (Or.inl ⟨hr, rfl, by simpa using a1, by simpa using a3,
          by simpa using a2, by simpa using a4⟩)
  | acquireFailed =>
    refine ⟨[Event.vkWaitForFences u.currentFrame,
        Event.vkAcquireNextImageKHR u.currentFrame inp.acquireResult], ?_,
      Or.inl ⟨rfl, recreateEvents inp.acquireRecreate u, [], Or.inr rfl, Or.inl rfl⟩⟩
    simp only [Step.state, log_trace]
  | beginFailed =>
    refine ⟨beginEvents u inp.acquireResult, ?_,
      Or.inl ⟨rfl, [Event.guiRender u.currentFrame] ++ submitEvents u ++
        recreateEvents inp.presentRecreate u, [], Or.inr rfl, Or.inr ?_⟩⟩
    · simp only [Step.state, log_trace]
    · simp only [frameEvents, List.append_assoc, List.nil_append]
  | nullPointer =>
    refine ⟨beginEvents u inp.acquireResult, ?_,
      Or.inl ⟨rfl, [Event.guiRender u.currentFrame] ++ submitEvents u ++
        recreateEvents inp.presentRecreate u, [], Or.inr rfl, Or.inr ?_⟩⟩
    · simp only [Step.state, log_trace]
    · simp only [frameEvents, List.append_assoc, List.nil_append]
  | endFailed ha hb rec hr =>
    refine ⟨beginEvents u inp.acquireResult ++ rec ++ [Event.guiRender u.currentFrame] ++
        [Event.vkEndCommandBuffer u.currentFrame], ?_,
      Or.inl ⟨rfl, [Event.vkQueueSubmit u.currentFrame u.currentFrame,
        Event.vkQueuePresentKHR u.currentFrame] ++
        recreateEvents inp.presentRecreate u, rec, Or.inl hr, Or.inr ?_⟩⟩
    · simp only [Step.state, log_trace, recorded_trace, List.append_assoc]
    · simp only [frameEvents, submitEvents, List.append_assoc, List.cons_append,
        List.nil_append]
  | submitFailed ha hb rec hr =>
    refine ⟨beginEvents u inp.acquireResult ++ rec ++ [Event.guiRender u.currentFrame] ++
        [Event.vkEndCommandBuffer u.currentFrame,
          Event.vkQueueSubmit u.currentFrame u.currentFrame], ?_,
      Or.inl ⟨rfl, [Event.vkQueuePresentKHR u.currentFrame] ++
        recreateEvents inp.presentRecreate u, rec, Or.inl hr, Or.inr ?_⟩⟩
    · simp only [Step.state, log_trace, recorded_trace, List.append_assoc]
    · simp only [frameEvents, submitEvents, List.append_assoc, List.cons_append,
        List.nil_append]
  | presentFailed ha hb rec hr =>
    refine ⟨frameEvents inp rec u, ?_,
      Or.inl ⟨rfl, recreateEvents inp.presentRecreate u, rec, Or.inl hr, Or.inr rfl⟩⟩
    simp only [Step.state, log_trace, recorded_trace, frameEvents, List.append_assoc]
  | recreateFailed ha hb rec hr he hs hp err hre =>
    have ht := recreateSwapchain_trace inp.presentRecreate
      (((recorded inp rec u).log (submitEvents u)).setFramebufferResized false)
    rw [hre, hP] at ht
    refine ⟨frameEvents inp rec u ++ recreateEvents inp.presentRecreate u, ?_,
      Or.inl ⟨rfl, [], rec, Or.inl hr, Or.inr (by simp)⟩⟩
    rw [ht]
    simp only [setFramebufferResized_trace, log_trace, recorded_trace, frameEvents,
      List.append_assoc]
  | presentStale ha hb rec hr he hs hp v hre =>
    obtain ⟨⟨a1, a2, a3, a4, -⟩, -⟩ := recreateSwapchain_spec inp.presentRecreate
      (((recorded inp rec u).log (submitEvents u)).setFramebufferResized false)
    have ht := recreateSwapchain_trace inp.presentRecreate
      (((recorded inp rec u).log (submitEvents u)).setFramebufferResized false)
    rw [hre, hP] at ht
    rw [hre] at a1 a2 a3 a4
    simp only [Step.state, setFramebufferResized_currentFrame, log_currentFrame,
      recorded_currentFrame, setFramebufferResized_oldRenderPassQueue,
      log_oldRenderPassQueue, recorded_oldRenderPassQueue,
      setFramebufferResized_renderModeManager, log_renderModeManager,
      recorded_renderModeManager, setFramebufferResized_nextId, log_nextId,
      recorded_nextId, setFramebufferResized_trace, log_trace, recorded_trace] at ht a1 a2 a3 a4
    refine ⟨frameEvents inp rec u ++ recreateEvents inp.presentRecreate u ++
        cleanupEvents u ((u.currentFrame + 1) % N), ?_,
      Or.inr (Or.inr ⟨rfl, rec, _, hr, Or.inr rfl, rfl, by simp [Step.state, a1], ?_,
        by simp [Step.state, a2], by simp [Step.state, a4]⟩)⟩
    · simp only [Step.state, drain_trace, advanceFrame_trace, advanceFrame_oldRenderPassQueue,
        advanceFrame_currentFrame, ht, a1, a3, cleanupEvents, frameEvents, List.append_assoc]
    · simp [Step.state, a1, a3]; rfl
  | completed ha hb rec hr =>
    refine ⟨frameEvents inp rec u ++ [] ++ cleanupEvents u ((u.currentFrame + 1) % N), ?_,
      Or.inr (Or.inr ⟨rfl, rec, [], hr, Or.inl rfl, rfl, by simp [Step.state], ?_,
        by simp [Step.state], by simp [Step.state]⟩)⟩
    · simp only [Step.state, drain_trace, advanceFrame_trace, advanceFrame_oldRenderPassQueue,
        advanceFrame_currentFrame, cleanupEvents, log_oldRenderPassQueue,
        recorded_oldRenderPassQueue, log_currentFrame, recorded_currentFrame,
        log_trace, recorded_trace, frameEvents, List.append_assoc, List.append_nil]
    · simp [Step.state]; rfl

theorem recordEvents_cases (u : VulkanState) (rec : List Event)
    (h : recordEvents u = some rec ∨ rec = []) :
    rec = [] ∨
    rec = [Event.rayTracingRender u.currentFrame, Event.swapchainPassRender u.currentFrame] ∨
    ∃ a, u.renderModeManager = some a ∧ rec = [Event.passRender a.id u.currentFrame] := by
  rcases h with h | h
  · unfold recordEvents at h
    split at h
    · split at h
      · exact Or.inr (Or.inl (Option.some.inj h).symm)
      · cases h
    · cases hm : u.renderModeManager with
      | none => rw [hm] at h; cases h
      | some a =>
        rw [hm] at h
        exact Or.inr (Or.inr ⟨a, rfl, (Option.some.inj h).symm⟩)
  · exact Or.inl h

end VulkanState

/-! ## The loop keeps its obligations -/

namespace Watch

variable {α : Type}

theorem guarded_prefix (w : Watch α) (needs : Event → α → Bool) (tr l : List Event)
    (h : w.Guarded needs (tr ++ l)) : w.Guarded needs tr :=
  ((guarded_append_iff w needs tr l).mp h).1

end Watch

theorem traceInv_of_prefix (N : Nat) (tr l : List Event) (h : TraceInv N (tr ++ l)) :
    TraceInv N tr :=
  ⟨Watch.guarded_prefix _ _ _ _ h.retired,
    fun hN => Watch.guarded_prefix _ _ _ _ (h.retiredInCall hN),
    Watch.guarded_prefix _ _ _ _ h.recorded,
    Watch.guarded_prefix _ _ _ _ h.submitted⟩

theorem isRecreate_retirement (e : Event) (h : e.isRecreate = true) :
    retirement.Neutral e := by
  cases e <;> first | exact ⟨rfl, fun _ => rfl⟩ | cases h

theorem isRecreate_retirementInCall (e : Event) (h : e.isRecreate = true) :
    retirementInCall.Neutral e := by
  cases e <;> first | exact ⟨rfl, fun _ => rfl⟩ | cases h

theorem isRecreate_unsubmitted (e : Event) (h : e.isRecreate = true) :
    unsubmitted.Neutral e := by
  cases e <;> first | exact ⟨rfl, fun _ => rfl⟩ | cases h

theorem cleanup_retirement (id : Nat) : retirement.Neutral (Event.passCleanup id) :=
  ⟨rfl, fun _ => rfl⟩

theorem cleanup_retirementInCall (id : Nat) : retirementInCall.Neutral (Event.passCleanup id) :=
  ⟨rfl, fun _ => rfl⟩

theorem cleanup_recording (id : Nat) : recording.Neutral (Event.passCleanup id) :=
  ⟨rfl, fun _ => rfl⟩

theorem cleanup_unsubmitted (id : Nat) : unsubmitted.Neutral (Event.passCleanup id) :=
  ⟨rfl, fun _ => rfl⟩

namespace VulkanState

/-- The calls of `recreateSwapchain`: waits for events, `vkDeviceWaitIdle`, then the
calls that tear down and rebuild, none of which is `vkDeviceWaitIdle`. -/
theorem recreateEvents_split (inp : RecreateInput) (s : VulkanState) :
    ∃ rest, recreateEvents inp s =
        List.replicate inp.waits.length Event.glfwWaitEvents ++
          Event.vkDeviceWaitIdle :: rest ∧
      ∀ e ∈ rest, e.isRecreate = true ∧ e ≠ Event.vkDeviceWaitIdle := by
  refine ⟨match s.renderModeManager with
    | none => []
    | some pass => rebuildEvents inp pass.id, ?_, ?_⟩
  · unfold recreateEvents
    cases s.renderModeManager <;> simp
  · intro e he
    cases hm : s.renderModeManager with
    | none => simp [hm] at he
    | some p =>
      simp only [hm] at he
      rcases mem_rebuildEvents_isRebuild _ _ _ he with h | h | h | h | h | h | h | h <;>
        subst h <;> exact ⟨rfl, fun h => nomatch h⟩

theorem foldl_recreateEvents_retirement (inp : RecreateInput) (s : VulkanState)
    (acc : List (Nat × Nat)) :
    (recreateEvents inp s).foldl retirement.step acc = acc :=
  Watch.foldl_neutral _ _ _
    (fun e he => isRecreate_retirement e (recreateEvents_isRecreate _ _ _ he))

theorem foldl_recreateEvents_retirementInCall (inp : RecreateInput) (s : VulkanState)
    (acc : List Nat) :
    (recreateEvents inp s).foldl retirementInCall.step acc = acc :=
  Watch.foldl_neutral _ _ _
    (fun e he => isRecreate_retirementInCall e (recreateEvents_isRecreate _ _ _ he))

theorem foldl_recreateEvents_unsubmitted (inp : RecreateInput) (s : VulkanState)
    (acc : List Nat) :
    (recreateEvents inp s).foldl unsubmitted.step acc = acc :=
  Watch.foldl_neutral _ _ _
    (fun e he => isRecreate_unsubmitted e (recreateEvents_isRecreate _ _ _ he))

theorem foldl_recreateEvents_recording (inp : RecreateInput) (s : VulkanState)
    (acc : List (Nat × Nat)) :
    (recreateEvents inp s).foldl recording.step acc = [] := by
  obtain ⟨rest, h1, h2⟩ := recreateEvents_split inp s
  rw [h1, List.foldl_append, List.foldl_cons]
  have h3 : ∀ acc', recording.step acc' Event.vkDeviceWaitIdle = [] := by
    intro acc'
    simp [Watch.step, recording]
  rw [h3]
  apply Watch.foldl_neutral
  intro e he
  obtain ⟨h4, h5⟩ := h2 e he
  cases e <;> first | exact absurd rfl h5 | exact ⟨rfl, fun _ => rfl⟩ | cases h4

theorem guardedFrom_recreateEvents_unsubmitted (inp : RecreateInput) (s : VulkanState) :
    unsubmitted.GuardedFrom waitNeeds [] (recreateEvents inp s) :=
  Watch.guardedFrom_nil_acc _ _ _
    (fun e he => isRecreate_unsubmitted e (recreateEvents_isRecreate _ _ _ he))

theorem mem_cleanupEvents (s : VulkanState) (slot : Nat) (e : Event)
    (h : e ∈ cleanupEvents s slot) :
    ∃ p, p ∈ s.oldRenderPassQueue slot ∧ e = Event.passCleanup p.id := by
  obtain ⟨p, hp, rfl⟩ := List.mem_map.mp h
  exact ⟨p, hp, rfl⟩

end VulkanState

theorem cleanupNeeds_of_not_cleanup (e : Event) (h : e.isCleanup = false) (a : Nat × Nat) :
    cleanupNeeds e a = false := by
  cases e <;> first | rfl | cases h

theorem cleanupNeedsId_of_not_cleanup (e : Event) (h : e.isCleanup = false) (a : Nat) :
    cleanupNeedsId e a = false := by
  cases e <;> first | rfl | cases h

theorem isRecreate_not_cleanup (e : Event) (h : e.isRecreate = true) : e.isCleanup = false := by
  cases e <;> first | rfl | cases h

namespace VulkanState

theorem commit_not_cleanup (s : VulkanState) :
    ∀ e ∈ cameraEvents s ++ commitEvents s, e.isCleanup = false ∧ ∀ a, waitNeeds e a = false := by
  cases hm : s.renderModeManager <;>
    simp [cameraEvents, commitEvents, retireEvents, hm, Event.isCleanup, waitNeeds]

theorem camera_not_cleanup (s : VulkanState) :
    ∀ e ∈ cameraEvents s, e.isCleanup = false ∧ ∀ a, waitNeeds e a = false := by
  simp [cameraEvents, Event.isCleanup, waitNeeds]

theorem staleAcquire_not_cleanup (inp : FrameInput) (u : VulkanState) :
    ∀ e ∈ staleAcquireEvents inp u, e.isCleanup = false := by
  intro e he
  unfold staleAcquireEvents at he
  rw [List.mem_append] at he
  rcases he with he | he
  · revert e
    simp [Event.isCleanup]
  · exact isRecreate_not_cleanup e (recreateEvents_isRecreate _ _ _ he)

theorem frame_not_cleanup (inp : FrameInput) (rec : List Event) (u : VulkanState)
    (hrec : recordEvents u = some rec ∨ rec = []) :
    ∀ e ∈ frameEvents inp rec u ++ recreateEvents inp.presentRecreate u,
      e.isCleanup = false := by
  intro e he
  rw [List.mem_append] at he
  rcases he with he | he
  · revert e
    rcases recordEvents_cases u rec hrec with h | h | ⟨a, -, h⟩ <;> subst h <;>
      simp [frameEvents, beginEvents, submitEvents, Event.isCleanup]
  · exact isRecreate_not_cleanup e (recreateEvents_isRecreate _ _ _ he)

/-- A list of calls without `cleanup()` keeps the trace invariant, provided the waits in
it find every recording submitted. -/
theorem traceInv_append (N : Nat) (tr l : List Event) (h : TraceInv N tr)
    (hl : ∀ e ∈ l, e.isCleanup = false)
    (hs : unsubmitted.GuardedFrom waitNeeds (unsubmitted.pending tr) l) :
    TraceInv N (tr ++ l) :=
  ⟨Watch.guarded_append_of_needs_nothing _ _ _ _ h.retired
      (fun e he a => cleanupNeeds_of_not_cleanup e (hl e he) a),
    fun hN => Watch.guarded_append_of_needs_nothing _ _ _ _ (h.retiredInCall hN)
      (fun e he a => cleanupNeedsId_of_not_cleanup e (hl e he) a),
    Watch.guarded_append_of_needs_nothing _ _ _ _ h.recorded
      (fun e he a => cleanupNeeds_of_not_cleanup e (hl e he) a),
    (Watch.guarded_append_iff _ _ _ _).mpr ⟨h.submitted, hs⟩⟩

theorem commit_fault_inv (N : Nat) (s : VulkanState) (h : LoopInv N s) :
    TraceInv N (s.trace ++ cameraEvents s ++ commitEvents s) := by
  rw [List.append_assoc]
  apply traceInv_append N _ _ h.trace (fun e he => (commit_not_cleanup s e he).1)
  exact Watch.guardedFrom_of_needs_nothing _ _ _ _ (fun e he => (commit_not_cleanup s e he).2)

theorem pending_camera (s : VulkanState) :
    retirement.pending (s.trace ++ cameraEvents s) = retirement.pending s.trace ∧
    retirementInCall.pending (s.trace ++ cameraEvents s) = [] ∧
    recording.pending (s.trace ++ cameraEvents s) = recording.pending s.trace ∧
    unsubmitted.pending (s.trace ++ cameraEvents s) = unsubmitted.pending s.trace := by
  simp [Watch.pending_append, cameraEvents, Watch.step, retirement, retirementInCall,
    recording, unsubmitted]

theorem pending_commit (s : VulkanState) :
    retirement.pending (s.trace ++ (cameraEvents s ++ commitEvents s)) =
      retirement.pending s.trace ++
        (match s.renderModeManager with
          | some old => [(old.id, s.currentFrame)]
          | none => []) ∧
    retirementInCall.pending (s.trace ++ (cameraEvents s ++ commitEvents s)) =
      (match s.renderModeManager with
          | some old => [old.id]
          | none => []) ∧
    recording.pending (s.trace ++ (cameraEvents s ++ commitEvents s)) =
      recording.pending s.trace ∧
    unsubmitted.pending (s.trace ++ (cameraEvents s ++ commitEvents s)) =
      unsubmitted.pending s.trace := by
  cases hm : s.renderModeManager <;>
    simp [Watch.pending_append, cameraEvents, commitEvents, retireEvents, hm, Watch.step,
      retirement, retirementInCall, recording, unsubmitted]

theorem succ_mod_ne (N cf : Nat) (hN : 2 ≤ N) (hcf : cf < N) : (cf + 1) % N ≠ cf :=
  add_mod_ne_self N cf 1 hcf (by omega) (by omega)

theorem commit_inv (N : Nat) (s u : VulkanState) (h : LoopInv N s) (hc : Committed s u) :
    EnterInv N u := by
  obtain ⟨hcf, hc | hc⟩ := hc
  · obtain ⟨h1, h2, h3, h4⟩ := hc
    obtain ⟨p1, p2, p3, p4⟩ := pending_camera s
    refine ⟨by rw [hcf]; exact h.frame, ?_, ?_, ?_, ?_, ?_, ?_, ?_⟩
    · rw [h4]
      apply traceInv_append N _ _ h.trace (fun e he => (camera_not_cleanup s e he).1)
      exact Watch.guardedFrom_of_needs_nothing _ _ _ _
        (fun e he => (camera_not_cleanup s e he).2)
    · rw [h4, p1, h.retiredNone]; simp
    · intro _; rw [h4, p2]; simp
    · rw [h4, p4]; exact h.submittedAll
    · intro b p hp
      rw [h2] at hp
      obtain ⟨a1, a2, a3⟩ := h.buckets b p hp
      refine ⟨a1, by rw [h3]; exact a2, fun _ slot hs => ?_⟩
      rw [h4, p3] at hs
      rw [hcf]
      exact a3 slot hs
    · rw [h4, p3]; exact h.slots
    · intro a ha
      rw [h1] at ha
      rw [h2, h3]
      exact h.active a ha
  · obtain ⟨h1, h2, h3, h4⟩ := hc
    rw [List.append_assoc] at h4
    obtain ⟨p1, p2, p3, p4⟩ := pending_commit s
    have hq : ∀ b p, p ∈ u.oldRenderPassQueue b →
        (p ∈ s.oldRenderPassQueue b) ∨ (b = s.currentFrame ∧ s.renderModeManager = some p) := by
      intro b p hp
      rw [h2] at hp
      cases hm : s.renderModeManager with
      | none => rw [hm] at hp; exact Or.inl hp
      | some old =>
        rw [hm] at hp
        simp only [pushOld] at hp
        split at hp
        · next hb =>
          rcases List.mem_append.mp hp with hp | hp
          · exact Or.inl hp
          · exact Or.inr ⟨hb, by rw [List.mem_singleton.mp hp]⟩
        · exact Or.inl hp
    refine ⟨by rw [hcf]; exact h.frame, ?_, ?_, ?_, ?_, ?_, ?_, ?_⟩
    · rw [h4]
      apply traceInv_append N _ _ h.trace (fun e he => (commit_not_cleanup s e he).1)
      exact Watch.guardedFrom_of_needs_nothing _ _ _ _
        (fun e he => (commit_not_cleanup s e he).2)
    · rw [h4, p1, h.retiredNone, hcf]
      cases s.renderModeManager <;> simp
    · intro hN a ha p hp
      rw [h4, p2] at ha
      rw [hcf] at hp
      cases hm : s.renderModeManager with
      | none => rw [hm] at ha; cases ha
      | some old =>
        rw [hm] at ha
        rw [List.mem_singleton] at ha
        subst ha
        rcases hq _ p hp with hp | ⟨hb, -⟩
        · exact (h.active old hm).2 _ p hp
        · exact absurd hb (succ_mod_ne N _ hN h.frame)
    · rw [h4, p4]; exact h.submittedAll
    · intro b p hp
      rcases hq b p hp with hp | ⟨hb, hm⟩
      · obtain ⟨a1, a2, a3⟩ := h.buckets b p hp
        refine ⟨a1, by rw [h3]; omega, fun _ slot hs => ?_⟩
        rw [h4, p3] at hs
        rw [hcf]
        exact a3 slot hs
      · refine ⟨by rw [hb]; exact h.frame, by rw [h3]; have := (h.active p hm).1; omega,
          fun hne => absurd (hb.trans hcf.symm) hne⟩
    · rw [h4, p3]; exact h.slots
    · intro a ha
      rw [h1] at ha
      obtain rfl := (Option.some.inj ha)
      refine ⟨by rw [h3]; exact Nat.lt_succ_self _, fun b p hp => ?_⟩
      rcases hq b p hp with hp | ⟨-, hm⟩
      · exact Nat.ne_of_lt (h.buckets b p hp).2.1
      · exact Nat.ne_of_lt (h.active p hm).1

end VulkanState

theorem succ_mod_cases (N cf : Nat) (hcf : cf < N) :
    (cf + 1 < N ∧ (cf + 1) % N = cf + 1) ∨ (cf + 1 = N ∧ (cf + 1) % N = 0) := by
  by_cases h : cf + 1 < N
  · exact Or.inl ⟨h, Nat.mod_eq_of_lt h⟩
  · have h1 : cf + 1 = N := by omega
    exact Or.inr ⟨h1, by rw [h1, Nat.mod_self]⟩

theorem waitedBeforeDrain_next (N cf slot : Nat) (hcf : cf < N) (hs : slot < N)
    (h : waitedBeforeDrain cf slot ((cf + 1) % N)) : slot = cf := by
  unfold waitedBeforeDrain at h
  rcases succ_mod_cases N cf hcf with ⟨h1, h2⟩ | ⟨h1, h2⟩ <;> rw [h2] at h <;> omega

theorem waitedBeforeDrain_advance (N cf slot b : Nat) (hcf : cf < N) (hs : slot < N)
    (hne : slot ≠ cf) (h : waitedBeforeDrain cf slot b) :
    waitedBeforeDrain ((cf + 1) % N) slot b := by
  unfold waitedBeforeDrain at h ⊢
  rcases succ_mod_cases N cf hcf with ⟨h1, h2⟩ | ⟨h1, h2⟩ <;> rw [h2] <;> omega

theorem waitedBeforeDrain_retired (N cf slot : Nat) (hcf : cf < N) (hs : slot < N)
    (hne : slot ≠ cf) (hN : (cf + 1) % N ≠ cf) :
    waitedBeforeDrain ((cf + 1) % N) slot cf := by
  unfold waitedBeforeDrain
  rcases succ_mod_cases N cf hcf with ⟨h1, h2⟩ | ⟨h1, h2⟩ <;> rw [h2] at hN ⊢ <;> omega

namespace VulkanState

theorem staleAcquire_submitted (inp : FrameInput) (u : VulkanState) :
    unsubmitted.GuardedFrom waitNeeds [] (staleAcquireEvents inp u) ∧
    (staleAcquireEvents inp u).foldl unsubmitted.step [] = [] := by
  unfold staleAcquireEvents
  have hf : List.foldl unsubmitted.step [] [Event.vkWaitForFences u.currentFrame,
      Event.vkAcquireNextImageKHR u.currentFrame inp.acquireResult] = [] := by
    simp [Watch.step, unsubmitted]
  rw [Watch.guardedFrom_append, List.foldl_append, hf, foldl_recreateEvents_unsubmitted]
  exact ⟨⟨by simp [Watch.step, unsubmitted, waitNeeds],
    guardedFrom_recreateEvents_unsubmitted _ _⟩, rfl⟩

theorem frame_submitted (inp : FrameInput) (rec : List Event) (u : VulkanState)
    (hrec : recordEvents u = some rec ∨ rec = []) :
    unsubmitted.GuardedFrom waitNeeds []
      (frameEvents inp rec u ++ recreateEvents inp.presentRecreate u) ∧
    (frameEvents inp rec u).foldl unsubmitted.step [] = [] := by
  have hf : (frameEvents inp rec u).foldl unsubmitted.step [] = [] := by
    rcases recordEvents_cases u rec hrec with h | h | ⟨a, -, h⟩ <;> subst h <;>
      simp [frameEvents, beginEvents, submitEvents, Watch.step, unsubmitted]
  rw [Watch.guardedFrom_append, hf]
  refine ⟨⟨?_, guardedFrom_recreateEvents_unsubmitted _ _⟩, rfl⟩
  rcases recordEvents_cases u rec hrec with h | h | ⟨a, -, h⟩ <;> subst h <;>
    simp [frameEvents, beginEvents, submitEvents, Watch.step, unsubmitted, waitNeeds]

theorem staleAcquire_pending (inp : FrameInput) (u : VulkanState) :
    (∀ acc, (staleAcquireEvents inp u).foldl retirement.step acc =
      acc.filter (fun a => !(a.2 == u.currentFrame))) ∧
    (∀ acc, (staleAcquireEvents inp u).foldl recording.step acc = []) := by
  unfold staleAcquireEvents
  refine ⟨fun acc => ?_, fun acc => ?_⟩
  · rw [List.foldl_append, foldl_recreateEvents_retirement]
    simp [Watch.step, retirement]
  · rw [List.foldl_append, foldl_recreateEvents_recording]

theorem frame_pending (inp : FrameInput) (rec : List Event) (u : VulkanState)
    (hrec : recordEvents u = some rec ∨ rec = []) :
    (∀ acc, (frameEvents inp rec u).foldl retirement.step acc =
      acc.filter (fun a => !(a.2 == u.currentFrame))) ∧
    (∀ acc, (frameEvents inp rec u).foldl retirementInCall.step acc = acc) ∧
    (∀ acc, ∀ x ∈ (frameEvents inp rec u).foldl recording.step acc,
      (x ∈ acc ∧ x.2 ≠ u.currentFrame) ∨
      ∃ a, u.renderModeManager = some a ∧ x = (a.id, u.currentFrame)) := by
  have hmem : ∀ (acc : List (Nat × Nat)) (x : Nat × Nat),
      x ∈ acc.filter (fun a => !(a.2 == u.currentFrame)) → x ∈ acc ∧ x.2 ≠ u.currentFrame := by
    intro acc x hx
    obtain ⟨h1, h2⟩ := List.mem_filter.mp hx
    exact ⟨h1, by simpa using h2⟩
  rcases recordEvents_cases u rec hrec with h | h | ⟨a, ha, h⟩ <;> subst h
  · refine ⟨fun acc => ?_, fun acc => ?_, fun acc x hx => ?_⟩
    · simp [frameEvents, beginEvents, submitEvents, Watch.step, retirement]
    · simp [frameEvents, beginEvents, submitEvents, Watch.step, retirementInCall]
    · have e : (frameEvents inp [] u).foldl recording.step acc =
          acc.filter (fun a => !(a.2 == u.currentFrame)) := by
        simp [frameEvents, beginEvents, submitEvents, Watch.step, recording]
      rw [e] at hx
      exact Or.inl (hmem acc x hx)
  · refine ⟨fun acc => ?_, fun acc => ?_, fun acc x hx => ?_⟩
    · simp [frameEvents, beginEvents, submitEvents, Watch.step, retirement]
    · simp [frameEvents, beginEvents, submitEvents, Watch.step, retirementInCall]
    · have e : (frameEvents inp [Event.rayTracingRender u.currentFrame,
          Event.swapchainPassRender u.currentFrame] u).foldl recording.step acc =
          acc.filter (fun a => !(a.2 == u.currentFrame)) := by
        simp [frameEvents, beginEvents, submitEvents, Watch.step, recording]
      rw [e] at hx
      exact Or.inl (hmem acc x hx)
  · refine ⟨fun acc => ?_, fun acc => ?_, fun acc x hx => ?_⟩
    · simp [frameEvents, beginEvents, submitEvents, Watch.step, retirement]
    · simp [frameEvents, beginEvents, submitEvents, Watch.step, retirementInCall]
    · have e : (frameEvents inp [Event.passRender a.id u.currentFrame] u).foldl
          recording.step acc =
          acc.filter (fun a => !(a.2 == u.currentFrame)) ++ [(a.id, u.currentFrame)] := by
        simp [frameEvents, beginEvents, submitEvents, Watch.step, recording]
      rw [e] at hx
      rcases List.mem_append.mp hx with hx | hx
      · exact Or.inl (hmem acc x hx)
      · exact Or.inr ⟨a, ha, List.mem_singleton.mp hx⟩

theorem cleanupEvents_neutral (u : VulkanState) (slot : Nat) :
    (∀ e ∈ cleanupEvents u slot, retirement.Neutral e) ∧
    (∀ e ∈ cleanupEvents u slot, retirementInCall.Neutral e) ∧
    (∀ e ∈ cleanupEvents u slot, recording.Neutral e) ∧
    (∀ e ∈ cleanupEvents u slot, unsubmitted.Neutral e) := by
  refine ⟨fun e he => ?_, fun e he => ?_, fun e he => ?_, fun e he => ?_⟩ <;>
    obtain ⟨p, -, rfl⟩ := mem_cleanupEvents u slot e he
  · exact cleanup_retirement _
  · exact cleanup_retirementInCall _
  · exact cleanup_recording _
  · exact cleanup_unsubmitted _

theorem render_inv (N : Nat) (inp : FrameInput) (u : VulkanState) (r : Step) (L : List Event)
    (h : EnterInv N u) (hs : RenderShape N inp u r L) (ht : r.state.trace = u.trace ++ L) :
    TraceInv N r.state.trace ∧ (r.returned = true → LoopInv N r.state) := by
  have hA : TraceInv N (u.trace ++ staleAcquireEvents inp u) :=
    traceInv_append N _ _ h.trace (staleAcquire_not_cleanup inp u)
      (by rw [h.submittedAll]; exact (staleAcquire_submitted inp u).1)
  have hB : ∀ rec, (recordEvents u = some rec ∨ rec = []) →
      TraceInv N (u.trace ++ (frameEvents inp rec u ++ recreateEvents inp.presentRecreate u)) :=
    fun rec hrec => traceInv_append N _ _ h.trace (frame_not_cleanup inp rec u hrec)
      (by rw [h.submittedAll]; exact (frame_submitted inp rec u hrec).1)
  have hfil : (retirement.pending u.trace).filter (fun a => !(a.2 == u.currentFrame)) = [] := by
    rw [List.filter_eq_nil_iff]
    intro a ha
    simp [h.retiredSlot a ha]
  rcases hs with ⟨hret, M, rec, hrec, hL | hL⟩ | ⟨hret, hL, s1, s2, s3, s4⟩ |
    ⟨hret, rec, R, hrec, hR, hL, s1, s2, s3, s4⟩
  · refine ⟨?_, fun h' => by rw [hret] at h'; cases h'⟩
    rw [ht]
    apply traceInv_of_prefix N _ M
    rw [List.append_assoc, hL]; exact hA
  · refine ⟨?_, fun h' => by rw [hret] at h'; cases h'⟩
    rw [ht]
    apply traceInv_of_prefix N _ M
    rw [List.append_assoc, hL]; exact hB rec hrec
  · rw [hL] at ht
    obtain ⟨p2, p3⟩ := staleAcquire_pending inp u
    have q3 : recording.pending r.state.trace = [] := by
      rw [ht, Watch.pending_append, p3]
    refine ⟨by rw [ht]; exact hA, fun _ => ⟨by rw [s1]; exact h.frame, by rw [ht]; exact hA,
      ?_, ?_, ?_, ?_, ?_⟩⟩
    · rw [ht, Watch.pending_append, p2, hfil]
    · rw [ht, Watch.pending_append, h.submittedAll, (staleAcquire_submitted inp u).2]
    · intro b p hp
      rw [s2] at hp
      obtain ⟨a1, a2, -⟩ := h.buckets b p hp
      refine ⟨a1, by rw [s4]; exact a2, fun slot hsl => ?_⟩
      rw [q3] at hsl; cases hsl
    · intro a ha
      rw [q3] at ha; cases ha
    · intro a ha
      rw [s3] at ha
      rw [s2, s4]
      exact h.active a ha
  · obtain ⟨p2, p5, p3⟩ := frame_pending inp rec u (Or.inl hrec)
    obtain ⟨n2, n5, n3, n4⟩ := cleanupEvents_neutral u ((u.currentFrame + 1) % N)
    have hT : TraceInv N (u.trace ++ (frameEvents inp rec u ++ R)) := by
      rcases hR with hR | hR
      · have := hB rec (Or.inl hrec)
        rw [← List.append_assoc] at this
        rw [hR, List.append_nil]
        exact traceInv_of_prefix N _ _ this
      · rw [hR]; exact hB rec (Or.inl hrec)
    have ht2 : r.state.trace =
        (u.trace ++ (frameEvents inp rec u ++ R)) ++ cleanupEvents u ((u.currentFrame + 1) % N) := by
      rw [ht, hL]; simp only [List.append_assoc]
    have q2 : retirement.pending (u.trace ++ (frameEvents inp rec u ++ R)) = [] := by
      rw [Watch.pending_append, List.foldl_append, p2, hfil]
      rcases hR with hR | hR
      · rw [hR]; rfl
      · rw [hR, foldl_recreateEvents_retirement]
    have q5 : retirementInCall.pending (u.trace ++ (frameEvents inp rec u ++ R)) =
        retirementInCall.pending u.trace := by
      rw [Watch.pending_append, List.foldl_append, p5]
      rcases hR with hR | hR
      · rw [hR]; rfl
      · rw [hR, foldl_recreateEvents_retirementInCall]
    have q4 : unsubmitted.pending (u.trace ++ (frameEvents inp rec u ++ R)) = [] := by
      rw [Watch.pending_append, List.foldl_append, h.submittedAll,
        (frame_submitted inp rec u (Or.inl hrec)).2]
      rcases hR with hR | hR
      · rw [hR]; rfl
      · rw [hR, foldl_recreateEvents_unsubmitted]
    have q3 : ∀ x ∈ recording.pending (u.trace ++ (frameEvents inp rec u ++ R)),
        (x ∈ recording.pending u.trace ∧ x.2 ≠ u.currentFrame) ∨
        ∃ a, u.renderModeManager = some a ∧ x = (a.id, u.currentFrame) := by
      intro x hx
      rw [Watch.pending_append, List.foldl_append] at hx
      rcases hR with hR | hR
      · rw [hR] at hx
        exact p3 _ x hx
      · rw [hR, foldl_recreateEvents_recording] at hx
        cases hx
    -- the drain cleans up no render pass an open recording refers to
    have hclean : ∀ p ∈ u.oldRenderPassQueue ((u.currentFrame + 1) % N),
        ∀ x ∈ recording.pending (u.trace ++ (frameEvents inp rec u ++ R)), x.1 ≠ p.id := by
      intro p hp x hx hid
      rcases q3 x hx with ⟨hx1, hx2⟩ | ⟨a, ha, hx1⟩
      · have hslot := h.slots x hx1
        by_cases hb : (u.currentFrame + 1) % N = u.currentFrame
        · rcases succ_mod_cases N u.currentFrame h.frame with ⟨h1, h2⟩ | ⟨h1, h2⟩
          · omega
          · omega
        · have := (h.buckets _ p hp).2.2 hb x.2 (by rw [← hid]; exact hx1)
          exact hx2 (waitedBeforeDrain_next N _ _ h.frame hslot this)
      · rw [hx1] at hid
        exact (h.active a ha).2 _ p hp hid.symm
    have hfinal : TraceInv N r.state.trace := by
      rw [ht2]
      refine ⟨?_, fun hN => ?_, ?_, ?_⟩
      · apply Watch.guarded_append_neutral _ _ _ _ hT.retired n2
        intro e _ a ha
        rw [q2] at ha; cases ha
      · apply Watch.guarded_append_neutral _ _ _ _ (hT.retiredInCall hN) n5
        intro e he a ha
        obtain ⟨p, hp, rfl⟩ := mem_cleanupEvents u _ e he
        rw [q5] at ha
        have := h.retiredInCall hN a ha p hp
        simp only [cleanupNeedsId, beq_eq_false_iff_ne, ne_eq]
        exact fun h' => this h'.symm
      · apply Watch.guarded_append_neutral _ _ _ _ hT.recorded n3
        intro e he a ha
        obtain ⟨p, hp, rfl⟩ := mem_cleanupEvents u _ e he
        simp only [cleanupNeeds, beq_eq_false_iff_ne, ne_eq]
        exact hclean p hp a ha
      · apply Watch.guarded_append_neutral _ _ _ _ hT.submitted n4
        intro e he a _
        obtain ⟨p, -, rfl⟩ := mem_cleanupEvents u _ e he
        rfl
    have r3 : recording.pending r.state.trace =
        recording.pending (u.trace ++ (frameEvents inp rec u ++ R)) := by
      rw [ht2, Watch.pending_append, Watch.foldl_neutral _ _ _ n3]
    refine ⟨hfinal, fun _ => ⟨by rw [s1]; exact Nat.mod_lt _ (by have := h.frame; omega),
      hfinal, ?_, ?_, ?_, ?_, ?_⟩⟩
    · rw [ht2, Watch.pending_append, Watch.foldl_neutral _ _ _ n2, q2]
    · rw [ht2, Watch.pending_append, Watch.foldl_neutral _ _ _ n4, q4]
    · intro b p hp
      rw [s2] at hp
      simp only [clearBucket] at hp
      split at hp
      · cases hp
      · next hb =>
        obtain ⟨a1, a2, a3⟩ := h.buckets b p hp
        refine ⟨a1, by rw [s4]; exact a2, fun slot hsl => ?_⟩
        rw [r3] at hsl
        rw [s1]
        rcases q3 _ hsl with ⟨hx1, hx2⟩ | ⟨a, ha, hx1⟩
        · have hslot := h.slots _ hx1
          by_cases hbc : b = u.currentFrame
          · subst hbc
            exact waitedBeforeDrain_retired N _ _ h.frame hslot hx2 (fun h' => hb h'.symm)
          · exact waitedBeforeDrain_advance N _ _ _ h.frame hslot hx2 (a3 hbc slot hx1)
        · have hid : p.id = a.id := congrArg Prod.fst hx1
          exact absurd hid ((h.active a ha).2 b p hp)
    · intro x hx
      rw [r3] at hx
      rcases q3 x hx with ⟨hx1, -⟩ | ⟨a, -, hx1⟩
      · exact h.slots x hx1
      · rw [hx1]; exact h.frame
    · intro a ha
      rw [s3] at ha
      rw [s4]
      refine ⟨(h.active a ha).1, fun b p hp => ?_⟩
      rw [s2] at hp
      simp only [clearBucket] at hp
      split at hp
      · cases hp
      · exact (h.active a ha).2 b p hp

end VulkanState

namespace VulkanState

theorem graphicsRender_inv (N : Nat) (inp : FrameInput) (s : VulkanState) (h : LoopInv N s) :
    TraceInv N (GraphicsSystem.render N inp s).state.trace ∧
    ((GraphicsSystem.render N inp s).returned = true →
      LoopInv N (GraphicsSystem.render N inp s).state) := by
  rcases graphicsRender_cases N inp s with ⟨h1, h2⟩ | ⟨u, hc, he⟩
  · rw [h2]
    exact ⟨commit_fault_inv N s h, fun h' => by rw [h1] at h'; cases h'⟩
  · rw [he]
    obtain ⟨L, hL, hs⟩ := render_shape N inp u
    exact render_inv N inp u _ L (commit_inv N s u h hc) hs hL

theorem fireAll_inv (N : Nat) (cs : List Callback) (s : VulkanState) (h : LoopInv N s) :
    LoopInv N (s.fireAll cs) := by
  obtain ⟨⟨a1, a2, a3, a4, -⟩, a5⟩ := fireAll_sameFrame cs s
  refine ⟨by rw [a1]; exact h.frame, by rw [a5]; exact h.trace, by rw [a5]; exact h.retiredNone,
    by rw [a5]; exact h.submittedAll, ?_, by rw [a5]; exact h.slots, ?_⟩
  · rw [a1, a3, a4, a5]; exact h.buckets
  · rw [a2, a3, a4]; exact h.active

theorem runLoop_inv (N : Nat) (its : List Iteration) (s : VulkanState) (h : LoopInv N s) :
    TraceInv N (runLoop N its s).state.trace ∧
    ((runLoop N its s).returned = true → LoopInv N (runLoop N its s).state) := by
  induction its generalizing s with
  | nil => exact ⟨h.trace, fun _ => h⟩
  | cons it rest ih =>
    obtain ⟨g1, g2⟩ := graphicsRender_inv N it.frame _ (fireAll_inv N it.polled s h)
    simp only [runLoop]
    cases hr : GraphicsSystem.render N it.frame (s.fireAll it.polled) with
    | error e =>
      rw [hr] at g1
      exact ⟨g1, fun h' => by cases h'⟩
    | ok v =>
      rw [hr] at g2
      exact ih v (g2 rfl)

theorem boot_trace (exts : List String) :
    (boot exts).trace = [Event.construct 0 PassKind.Forward, Event.passInit 0] := by
  have h0 : (init exts).gui.isRayTracingMode = false := by
    simp [init, checkDeviceExtensionSupport, setRayTracingAvailable,
      VulkanGUI.setRayTracingAvailable, VulkanGUI.isRayTracingMode, DEFALT_MODES]
  have h1 : (createRenderModeResource false (init exts)) = .ok (init exts).switched := by
    unfold createRenderModeResource switched
    simp [h0]
  have h2 : (boot exts) = if (init exts).switched.gui.isRayTracingAvailable then
      (init exts).switched.makeRayTracingPipeline else (init exts).switched := by
    unfold boot createLevelResource
    rw [h1]
    simp only []
    split <;> rfl
  have ht := switched_trace (init exts)
  rw [h2]
  split <;>
    simp [ht, VulkanGUI.getMode] <;>
    simp [init, checkDeviceExtensionSupport, setRayTracingAvailable,
      VulkanGUI.setRayTracingAvailable, kindOfMode, retireEvents]

theorem boot_inv (N : Nat) (hN : 1 ≤ N) (exts : List String) : LoopInv N (boot exts) := by
  obtain ⟨b1, -, b3, b4, -, b6⟩ := boot_spec exts
  have ht := boot_trace exts
  have hnil : TraceInv N [] :=
    ⟨Watch.guarded_nil _ _, fun _ => Watch.guarded_nil _ _, Watch.guarded_nil _ _,
      Watch.guarded_nil _ _⟩
  have htr : TraceInv N (boot exts).trace := by
    rw [ht]
    have := traceInv_append N [] [Event.construct 0 PassKind.Forward, Event.passInit 0] hnil
      (by simp [Event.isCleanup]) (by simp [waitNeeds])
    simpa using this
  have p3 : recording.pending (boot exts).trace = [] := by
    rw [ht]; simp [Watch.pending, Watch.step, recording]
  refine ⟨by rw [b4]; omega, htr, ?_, ?_, ?_, ?_, ?_⟩
  · rw [ht]; simp [Watch.pending, Watch.step, retirement]
  · rw [ht]; simp [Watch.pending, Watch.step, unsubmitted]
  · intro b p hp
    rw [b1] at hp; cases hp
  · intro a ha
    rw [p3] at ha; cases ha
  · intro a ha
    rw [b3] at ha
    obtain rfl := Option.some.inj ha
    refine ⟨by rw [b6]; exact Nat.lt_succ_self _, fun b p hp => ?_⟩
    rw [b1] at hp; cases hp

/-- After every run of the loop, also one that ends in a fault, the trace is guarded. -/
theorem run_traceInv (N : Nat) (hN : 1 ≤ N) (exts : List String) (its : List Iteration) :
    TraceInv N (runLoop N its (boot exts)).state.trace :=
  (runLoop_inv N its (boot exts) (boot_inv N hN exts)).1

end VulkanState

open VulkanState

/-- C2. With `N ≥ 2` frame slots, in every run of the loop of `GraphicsSystem::render`
calls after `createLevelResource`, whatever switch requests and results of Vulkan calls
arrive: when `cleanup()` is called on a render pass that was retired into
`oldRenderPassQueue[slot]`, then between the retirement and the `cleanup()` the trace
has a wait on `inFlightFences[slot]`, and it has the `updateCamera` of a later
`GraphicsSystem::render`, so the drain that ends the iteration of the retirement does
not clean the render pass up. -/
theorem retired_pass_cleanup_follows_slot_fence_wait (N : Nat) (hN : 2 ≤ N)
    (exts : List String) (its : List Iteration) (pre mid post : List Event) (id slot : Nat)
    (htr : (runLoop N its (boot exts)).state.trace =
      pre ++ Event.retire id slot :: (mid ++ Event.passCleanup id :: post)) :
    Event.vkWaitForFences slot ∈ mid ∧ ∃ later, Event.memcpyCameraUBO later ∈ mid := by
  have hinv := run_traceInv N (by omega) exts its
  constructor
  · obtain ⟨e, he, hc⟩ := Watch.guarded_closed_between retirement cleanupNeeds _
      hinv.retired pre mid post _ _ (id, slot) htr rfl (by simp [cleanupNeeds])
    cases e <;> simp [retirement] at hc
    subst hc
    exact he
  · obtain ⟨e, he, hc⟩ := Watch.guarded_closed_between retirementInCall cleanupNeedsId _
      (hinv.retiredInCall hN) pre mid post _ _ id htr rfl (by simp [cleanupNeedsId])
    cases e <;> simp [retirementInCall] at hc
    exact ⟨_, he⟩

set_option maxRecDepth 20000 in
theorem retired_pass_cleanup_follows_slot_fence_wait_witness :
    (runLoop 2 switchThenCycle (boot deviceExtensions)).state.trace =
      switchCycleHead ++ Event.retire 0 0 ::
        (switchCycleTwoSlots ++ Event.passCleanup 0 :: []) ∧
    Event.vkWaitForFences 0 ∈ switchCycleTwoSlots ∧
    ∃ later, Event.memcpyCameraUBO later ∈ switchCycleTwoSlots :=
  ⟨by decide, retired_pass_cleanup_follows_slot_fence_wait 2 (by decide) deviceExtensions
    switchThenCycle switchCycleHead switchCycleTwoSlots [] 0 0 (by decide)⟩

/-- C3. With `N ≥ 1` frame slots, in every run of the loop of `GraphicsSystem::render`
calls after `createLevelResource`, whatever switch requests, stale acquires and results
of Vulkan calls arrive: when `cleanup()` is called on a render pass, every earlier
recording of that render pass into the command buffer of a slot was followed, before the
`cleanup()`, by the submission of that command buffer with the fence of the slot, and
after the submission by a wait on that fence or by `vkDeviceWaitIdle`. -/
theorem cleanup_follows_wait_on_every_submission (N : Nat) (hN : 1 ≤ N)
    (exts : List String) (its : List Iteration) (pre mid post : List Event) (id slot : Nat)
    (htr : (runLoop N its (boot exts)).state.trace =
      pre ++ Event.passRender id slot :: (mid ++ Event.passCleanup id :: post)) :
    ∃ mid1 e mid2, mid = mid1 ++ e :: mid2 ∧ Event.vkQueueSubmit slot slot ∈ mid1 ∧
      (e = Event.vkWaitForFences slot ∨ e = Event.vkDeviceWaitIdle) := by
  have hinv := run_traceInv N hN exts its
  obtain ⟨e, he, hc⟩ := Watch.guarded_closed_between recording cleanupNeeds _
    hinv.recorded pre mid post _ _ (id, slot) htr rfl (by simp [cleanupNeeds])
  obtain ⟨mid1, mid2, hmid⟩ := List.append_of_mem he
  have hwait : e = Event.vkWaitForFences slot ∨ e = Event.vkDeviceWaitIdle := by
    cases e <;> simp [recording] at hc
    · subst hc; exact Or.inl rfl
    · exact Or.inr rfl
  have hneeds : waitNeeds e slot = true := by
    rcases hwait with h | h <;> subst h <;> simp [waitNeeds]
  have htr2 : (runLoop N its (boot exts)).state.trace =
      pre ++ Event.passRender id slot :: (mid1 ++ e :: (mid2 ++ Event.passCleanup id :: post)) := by
    rw [htr, hmid]; simp
  obtain ⟨e', he', hc'⟩ := Watch.guarded_closed_between unsubmitted waitNeeds _
    hinv.submitted pre mid1 _ _ _ slot htr2 rfl hneeds
  refine ⟨mid1, e, mid2, hmid, ?_, hwait⟩
  cases e' <;> simp [unsubmitted] at hc'
  obtain ⟨rfl, rfl⟩ := hc'
  exact he'

set_option maxRecDepth 20000 in
theorem cleanup_follows_wait_on_every_submission_witness :
    (runLoop 1 cycleThenSwitch (boot deviceExtensions)).state.trace =
      firstCycleHead ++ Event.passRender 0 0 ::
        (switchCycleOneSlot ++ Event.passCleanup 0 :: []) ∧
    ∃ mid1 e mid2, switchCycleOneSlot = mid1 ++ e :: mid2 ∧
      Event.vkQueueSubmit 0 0 ∈ mid1 ∧
      (e = Event.vkWaitForFences 0 ∨ e = Event.vkDeviceWaitIdle) :=
  ⟨by decide, cleanup_follows_wait_on_every_submission 1 (by decide) deviceExtensions
    cycleThenSwitch firstCycleHead switchCycleOneSlot [] 0 0 (by decide)⟩

/-! ## Recordings follow the fence wait -/

theorem recordsAfterWait_append (tr l : List Event) (h : RecordsAfterWait tr)
    (hl : ∀ e ∈ l, e.isReset = false) : RecordsAfterWait (tr ++ l) := by
  intro pre post S heq
  rcases List.append_eq_append_iff.mp heq with ⟨a', h1, h2⟩ | ⟨c', h1, h2⟩
  · have := hl (Event.vkResetCommandBuffer S) (by rw [h2]; simp)
    cases this
  · cases c' with
    | nil =>
      simp only [List.nil_append] at h2
      have := hl (Event.vkResetCommandBuffer S) (by rw [← h2]; exact List.mem_cons_self _ _)
      cases this
    | cons x c'' =>
      simp only [List.cons_append, List.cons.injEq] at h2
      obtain ⟨rfl, -⟩ := h2
      exact h pre c'' S h1

theorem recordsAfterWait_begin (tr : List Event) (cf : Nat) (r : VkResult)
    (h : RecordsAfterWait tr) :
    RecordsAfterWait (tr ++ [Event.vkWaitForFences cf, Event.vkAcquireNextImageKHR cf r,
      Event.vkResetFences cf, Event.vkResetCommandBuffer cf, Event.vkBeginCommandBuffer cf]) := by
  intro pre post S heq
  rcases List.append_eq_append_iff.mp heq with ⟨a', h1, h2⟩ | ⟨c', h1, h2⟩
  · rcases a' with _ | ⟨x, _ | ⟨y, _ | ⟨z, _ | ⟨w, _ | ⟨v, a''⟩⟩⟩⟩⟩ <;>
      simp at h2
    obtain ⟨rfl, rfl, rfl, rfl, -⟩ := h2
    exact ⟨tr, r, h1⟩
  · cases c' with
    | nil =>
      simp at h2
    | cons x c'' =>
      simp only [List.cons_append, List.cons.injEq] at h2
      obtain ⟨rfl, -⟩ := h2
      exact h pre c'' S h1

theorem fenceInv_nil : FenceInv [] :=
  ⟨fun pre post S h => (by cases pre <;> cases h), fun e he => (by cases he)⟩

theorem fenceInv_append (tr l : List Event) (h : FenceInv tr)
    (hl : ∀ e ∈ l, e.isReset = false ∧ e.isForeignSubmit = false) : FenceInv (tr ++ l) :=
  ⟨recordsAfterWait_append tr l h.records (fun e he => (hl e he).1), fun e he =>
    (List.mem_append.mp he).elim (h.submits e) (fun he => (hl e he).2)⟩

theorem fenceInv_of_prefix (tr l : List Event) (h : FenceInv (tr ++ l)) : FenceInv tr :=
  ⟨fun pre post S heq => h.records pre (post ++ l) S (by rw [heq]; simp),
    fun e he => h.submits e (List.mem_append_left _ he)⟩

theorem isRecreate_not_reset (e : Event) (h : e.isRecreate = true) :
    e.isReset = false ∧ e.isForeignSubmit = false := by
  cases e <;> first | exact ⟨rfl, rfl⟩ | cases h

namespace VulkanState

theorem fenceInv_frame (inp : FrameInput) (rec : List Event) (u : VulkanState) (tr : List Event)
    (hrec : recordEvents u = some rec ∨ rec = []) (h : FenceInv tr) :
    FenceInv (tr ++ (frameEvents inp rec u ++ recreateEvents inp.presentRecreate u)) := by
  have hb : ∀ e ∈ beginEvents u inp.acquireResult, e.isForeignSubmit = false := by
    simp [beginEvents, Event.isForeignSubmit]
  have h1 : FenceInv (tr ++ beginEvents u inp.acquireResult) :=
    ⟨recordsAfterWait_begin tr _ _ h.records, fun e he =>
      (List.mem_append.mp he).elim (h.submits e) (hb e)⟩
  have h2 : tr ++ (frameEvents inp rec u ++ recreateEvents inp.presentRecreate u) =
      (tr ++ beginEvents u inp.acquireResult) ++
        ((rec ++ [Event.guiRender u.currentFrame] ++ submitEvents u) ++
          recreateEvents inp.presentRecreate u) := by
    simp only [frameEvents, List.append_assoc]
  rw [h2]
  apply fenceInv_append _ _ h1
  intro e he
  rw [List.mem_append] at he
  rcases he with he | he
  · revert e
    rcases recordEvents_cases u rec hrec with h | h | ⟨a, -, h⟩ <;> subst h <;>
      simp [submitEvents, Event.isReset, Event.isForeignSubmit]
  · exact isRecreate_not_reset e (recreateEvents_isRecreate _ _ _ he)

theorem fenceInv_staleAcquire (inp : FrameInput) (u : VulkanState) (tr : List Event)
    (h : FenceInv tr) : FenceInv (tr ++ staleAcquireEvents inp u) := by
  apply fenceInv_append _ _ h
  intro e he
  unfold staleAcquireEvents at he
  rw [List.mem_append] at he
  rcases he with he | he
  · revert e
    simp [Event.isReset, Event.isForeignSubmit]
  · exact isRecreate_not_reset e (recreateEvents_isRecreate _ _ _ he)

theorem fenceInv_commit (s : VulkanState) (tr : List Event) (h : FenceInv tr) :
    FenceInv (tr ++ (cameraEvents s ++ commitEvents s)) := by
  apply fenceInv_append _ _ h
  cases hm : s.renderModeManager <;>
    simp [cameraEvents, commitEvents, retireEvents, hm, Event.isReset, Event.isForeignSubmit]

theorem fenceInv_render (N : Nat) (inp : FrameInput) (u : VulkanState) (r : Step)
    (L : List Event) (h : FenceInv u.trace) (hs : RenderShape N inp u r L)
    (ht : r.state.trace = u.trace ++ L) : FenceInv r.state.trace := by
  rw [ht]
  rcases hs with ⟨-, M, rec, hrec, hL | hL⟩ | ⟨-, hL, -⟩ | ⟨-, rec, R, hrec, hR, hL, -⟩
  · apply fenceInv_of_prefix _ M
    rw [List.append_assoc, hL]
    exact fenceInv_staleAcquire inp u _ h
  · apply fenceInv_of_prefix _ M
    rw [List.append_assoc, hL]
    exact fenceInv_frame inp rec u _ hrec h
  · rw [hL]
    exact fenceInv_staleAcquire inp u _ h
  · have hT : FenceInv (u.trace ++ (frameEvents inp rec u ++ R)) := by
      rcases hR with hR | hR
      · have := fenceInv_frame inp rec u _ (Or.inl hrec) h
        rw [← List.append_assoc] at this
        rw [hR, List.append_nil]
        exact fenceInv_of_prefix _ _ this
      · rw [hR]; exact fenceInv_frame inp rec u _ (Or.inl hrec) h
    have hassoc : u.trace ++ (frameEvents inp rec u ++ R ++
        cleanupEvents u ((u.currentFrame + 1) % N)) =
        (u.trace ++ (frameEvents inp rec u ++ R)) ++
          cleanupEvents u ((u.currentFrame + 1) % N) := by
      simp only [List.append_assoc]
    rw [hL, hassoc]
    apply fenceInv_append _ _ hT
    intro e he
    obtain ⟨p, -, rfl⟩ := mem_cleanupEvents u _ e he
    exact ⟨rfl, rfl⟩

theorem fenceInv_graphicsRender (N : Nat) (inp : FrameInput) (s : VulkanState)
    (h : FenceInv s.trace) : FenceInv (GraphicsSystem.render N inp s).state.trace := by
  rcases graphicsRender_cases N inp s with ⟨-, h2⟩ | ⟨u, ⟨-, hc⟩, he⟩
  · rw [h2, List.append_assoc]
    exact fenceInv_commit s _ h
  · rw [he]
    obtain ⟨L, hL, hs⟩ := render_shape N inp u
    apply fenceInv_render N inp u _ L _ hs hL
    rcases hc with ⟨-, -, -, h4⟩ | ⟨-, -, -, h4⟩
    · have := fenceInv_commit s _ h
      rw [← List.append_assoc] at this
      rw [h4]
      exact fenceInv_of_prefix _ _ this
    · rw [h4, List.append_assoc]
      exact fenceInv_commit s _ h

theorem fenceInv_runLoop (N : Nat) (its : List Iteration) (s : VulkanState)
    (h : FenceInv s.trace) : FenceInv (runLoop N its s).state.trace := by
  induction its generalizing s with
  | nil => exact h
  | cons it rest ih =>
    have g := fenceInv_graphicsRender N it.frame (s.fireAll it.polled)
      (by rw [(fireAll_sameFrame it.polled s).2]; exact h)
    simp only [runLoop]
    cases hr : GraphicsSystem.render N it.frame (s.fireAll it.polled) with
    | error e => rw [hr] at g; exact g
    | ok v => rw [hr] at g; exact ih v g

theorem fenceInv_boot (exts : List String) : FenceInv (boot exts).trace := by
  rw [boot_trace]
  have := fenceInv_append [] [Event.construct 0 PassKind.Forward, Event.passInit 0]
    fenceInv_nil (by simp [Event.isReset, Event.isForeignSubmit])
  simpa using this

end VulkanState

open VulkanState

/-- C1. For every number `N` of frame slots and every run of the loop of render calls
after `createLevelResource`, whatever the results of the Vulkan calls: a recording into
the command buffer of slot `S` (its `vkResetCommandBuffer`) comes directly after the wait
on `inFlightFences[S]`, the acquire and the reset of that fence, which are calls of the
same `render`; every earlier queue submission of the command buffer of slot `S` was
handed that fence, `inFlightFences[S]`, and the wait on it lies between that submission
and the recording. -/
theorem recording_follows_wait_on_slot_fence (N : Nat) (exts : List String)
    (its : List Iteration) (pre post : List Event) (S : Nat)
    (htr : (runLoop N its (boot exts)).state.trace =
      pre ++ Event.vkResetCommandBuffer S :: post) :
    (∃ before r, pre = before ++ [Event.vkWaitForFences S, Event.vkAcquireNextImageKHR S r,
      Event.vkResetFences S]) ∧
    ∀ before mid fence, pre = before ++ Event.vkQueueSubmit S fence :: mid →
      fence = S ∧ Event.vkWaitForFences S ∈ mid := by
  have hinv := fenceInv_runLoop N its (boot exts) (fenceInv_boot exts)
  obtain ⟨b0, r, hb⟩ := hinv.records pre post S htr
  refine ⟨⟨b0, r, hb⟩, fun before mid fence hpre => ?_⟩
  constructor
  · have := hinv.submits (Event.vkQueueSubmit S fence) (by rw [htr, hpre]; simp)
    simp [Event.isForeignSubmit] at this
    exact this.symm
  · rw [hb] at hpre
    rcases List.append_eq_append_iff.mp hpre with ⟨a', h1, h2⟩ | ⟨c', h1, h2⟩
    · have : Event.vkQueueSubmit S fence ∈ [Event.vkWaitForFences S,
          Event.vkAcquireNextImageKHR S r, Event.vkResetFences S] := by rw [h2]; simp
      simp at this
    · cases c' with
      | nil => simp at h2
      | cons x c'' =>
        simp only [List.cons_append, List.cons.injEq] at h2
        rw [h2.2]
        simp

set_option maxRecDepth 20000 in
theorem recording_follows_wait_on_slot_fence_witness :
    (runLoop 1 twoCycles (boot deviceExtensions)).state.trace =
      secondRecordingHead ++ Event.vkResetCommandBuffer 0 :: secondRecordingTail ∧
    (∃ before r, secondRecordingHead = before ++ [Event.vkWaitForFences 0,
      Event.vkAcquireNextImageKHR 0 r, Event.vkResetFences 0]) ∧
    ∀ before mid fence, secondRecordingHead = before ++ Event.vkQueueSubmit 0 fence :: mid →
      fence = 0 ∧ Event.vkWaitForFences 0 ∈ mid :=
  ⟨by decide, recording_follows_wait_on_slot_fence 1 deviceExtensions twoCycles
    secondRecordingHead secondRecordingTail 0 (by decide)⟩

namespace VulkanState

theorem graphicsRender_frame_lt (N : Nat) (hN : 1 ≤ N) (inp : FrameInput) (s : VulkanState)
    (h : s.currentFrame < N) : (GraphicsSystem.render N inp s).state.currentFrame < N := by
  have hmod : (s.currentFrame + 1) % N < N := Nat.mod_lt _ (by omega)
  rw [GraphicsSystem.render_eq, cleanupRenderModeResource_eq]
  have key : ∀ u : VulkanState, u.currentFrame = s.currentFrame →
      (render N inp u).state.currentFrame < N := by
    intro u hu
    obtain ⟨-, -, -, h4⟩ := render_frame N inp u
    rcases h4 with ⟨h5, -⟩ | ⟨-, h5, -⟩
    · rw [h5, hu]; exact h
    · rw [h5, hu]; exact hmod
  by_cases h1 : s.updateCamera.shouldSwitchRenderPass = true
  · rw [if_pos h1]
    by_cases h2 : s.updateCamera.gui.isRayTracingMode = true
    · rw [if_pos h2]; exact key _ (by simp)
    · rw [if_neg h2]
      by_cases h3 : inp.initFails = true
      · rw [if_pos h3]; simpa [Step.state] using h
      · rw [if_neg h3]; exact key _ (by simp)
  · rw [if_neg h1]; exact key _ (by simp)

theorem runLoop_frame_lt (N : Nat) (hN : 1 ≤ N) (its : List Iteration) (s : VulkanState)
    (h : s.currentFrame < N) : (runLoop N its s).state.currentFrame < N := by
  induction its generalizing s with
  | nil => exact h
  | cons it rest ih =>
    have g := graphicsRender_frame_lt N hN it.frame (s.fireAll it.polled)
      (by rw [(fireAll_sameFrame it.polled s).1.currentFrame]; exact h)
    simp only [runLoop]
    cases hr : GraphicsSystem.render N it.frame (s.fireAll it.polled) with
    | error e => rw [hr] at g; exact g
    | ok v => rw [hr] at g; exact ih v g

end VulkanState

open VulkanState

/-- C11. With `N ≥ 1` frame slots, a `VulkanState::render` that returns after an acquire
that was not out of date, that is, one that reached presentation and raised nothing, sets
`currentFrame` to `(currentFrame + 1) mod N`, which is below `N`; on return the bucket of
the new `currentFrame` is empty, every other bucket is as it was before the call, and the
calls the render logged end with one `cleanup()` per entry of that bucket, in order, with
no other `cleanup()` before them. In every run of the loop after `createLevelResource`
`currentFrame` stays below `N`. -/
theorem render_advances_frame_and_drains_bucket (N : Nat) (hN : 1 ≤ N) (inp : FrameInput)
    (s v : VulkanState) (hret : render N inp s = .ok v)
    (hacq : inp.acquireResult ≠ VK_ERROR_OUT_OF_DATE_KHR) :
    v.currentFrame = (s.currentFrame + 1) % N ∧ v.currentFrame < N ∧
    v.oldRenderPassQueue v.currentFrame = [] ∧
    (∀ b, b ≠ v.currentFrame → v.oldRenderPassQueue b = s.oldRenderPassQueue b) ∧
    (∃ L, v.trace = s.trace ++ L ++
        (s.oldRenderPassQueue v.currentFrame).map (fun p => Event.passCleanup p.id) ∧
      ∀ e ∈ L, e.isCleanup = false) ∧
    ∀ exts its, (runLoop N its (boot exts)).state.currentFrame < N := by
  have hrun : ∀ exts its, (runLoop N its (boot exts)).state.currentFrame < N :=
    fun exts its => runLoop_frame_lt N hN its _ (by rw [(boot_spec exts).2.2.2.1]; omega)
  have hmod : (s.currentFrame + 1) % N < N := Nat.mod_lt _ (by omega)
  have hpath := render_path N inp s
  generalize hr : render N inp s = r at hpath
  rw [hret] at hr
  have hP : ∀ rec, recreateEvents inp.presentRecreate
      (((recorded inp rec s).log (submitEvents s)).setFramebufferResized false) =
      recreateEvents inp.presentRecreate s :=
    fun rec => recreateEvents_congr _ _ _ (by simp)
  have fin : ∀ rec R, recordEvents s = some rec →
      (R = [] ∨ R = recreateEvents inp.presentRecreate s) →
      v.trace = s.trace ++ (frameEvents inp rec s ++ R) ++
        cleanupEvents s ((s.currentFrame + 1) % N) →
      v.currentFrame = (s.currentFrame + 1) % N →
      v.oldRenderPassQueue = clearBucket ((s.currentFrame + 1) % N) s.oldRenderPassQueue →
      v.currentFrame = (s.currentFrame + 1) % N ∧ v.currentFrame < N ∧
      v.oldRenderPassQueue v.currentFrame = [] ∧
      (∀ b, b ≠ v.currentFrame → v.oldRenderPassQueue b = s.oldRenderPassQueue b) ∧
      (∃ L, v.trace = s.trace ++ L ++
          (s.oldRenderPassQueue v.currentFrame).map (fun p => Event.passCleanup p.id) ∧
        ∀ e ∈ L, e.isCleanup = false) ∧
      ∀ exts its, (runLoop N its (boot exts)).state.currentFrame < N := by
    intro rec R hrec hR hL s1 s2
    refine ⟨s1, by rw [s1]; exact hmod, by rw [s2, s1]; simp [clearBucket], ?_, ?_, hrun⟩
    · intro b hb
      rw [s1] at hb
      rw [s2]; simp [clearBucket, hb]
    · refine ⟨frameEvents inp rec s ++ R, ?_, ?_⟩
      · rw [hL, s1, cleanupEvents]
      · have hall := frame_not_cleanup inp rec s (Or.inl hrec)
        intro e he
        rcases hR with hR | hR
        · rw [hR, List.append_nil] at he
          exact hall e (List.mem_append_left _ he)
        · rw [hR] at he
          exact hall e he
  cases hpath with
  | acquireStale ha => exact absurd ha hacq
  | acquireFailed => cases hr
  | beginFailed => cases hr
  | nullPointer => cases hr
  | endFailed => cases hr
  | submitFailed => cases hr
  | presentFailed => cases hr
  | recreateFailed => cases hr
  | presentStale ha hb rec hrec he hsub hp w hre =>
    obtain rfl := Except.ok.inj hr
    obtain ⟨⟨a1, -, a3, -, -⟩, -⟩ := recreateSwapchain_spec inp.presentRecreate
      (((recorded inp rec s).log (submitEvents s)).setFramebufferResized false)
    have ht := recreateSwapchain_trace inp.presentRecreate
      (((recorded inp rec s).log (submitEvents s)).setFramebufferResized false)
    rw [hre, hP] at ht
    rw [hre] at a1 a3
    simp only [Step.state, setFramebufferResized_currentFrame, log_currentFrame,
      recorded_currentFrame, setFramebufferResized_oldRenderPassQueue,
      log_oldRenderPassQueue, recorded_oldRenderPassQueue,
      setFramebufferResized_trace, log_trace, recorded_trace] at ht a1 a3
    apply fin rec (recreateEvents inp.presentRecreate s) hrec (Or.inr rfl)
    · simp only [drain_trace, advanceFrame_trace, advanceFrame_oldRenderPassQueue,
        advanceFrame_currentFrame, ht, a1, a3, cleanupEvents, frameEvents, List.append_assoc]
    · simp [a1]
    · simp [a1, a3]; rfl
  | completed ha hb rec hrec =>
    obtain rfl := Except.ok.inj hr
    apply fin rec [] hrec (Or.inl rfl)
    · simp only [drain_trace, advanceFrame_trace, advanceFrame_oldRenderPassQueue,
        advanceFrame_currentFrame, cleanupEvents, log_oldRenderPassQueue,
        recorded_oldRenderPassQueue, log_currentFrame, recorded_currentFrame,
        log_trace, recorded_trace, frameEvents, List.append_assoc, List.append_nil]
    · simp
    · simp; rfl

/-- Witness of C11: with one frame slot, the render after a committed switch drains the
bucket that holds the retired Forward render pass. -/
theorem render_advances_frame_and_drains_bucket_witness :
    render 1 {} committedSwitch = .ok (render 1 {} committedSwitch).state ∧
    ({} : FrameInput).acquireResult ≠ VK_ERROR_OUT_OF_DATE_KHR ∧
    committedSwitch.oldRenderPassQueue 0 = [{ id := 0, kind := PassKind.Forward }] ∧
    (render 1 {} committedSwitch).state.oldRenderPassQueue
      (render 1 {} committedSwitch).state.currentFrame = [] :=
  ⟨rfl, by decide, rfl,
    (render_advances_frame_and_drains_bucket 1 (by decide) {} committedSwitch
      (render 1 {} committedSwitch).state rfl (by decide)).2.2.1⟩

open VulkanState

namespace VulkanState

/-- A `render` that reaches `vkQueuePresentKHR` with the resize flag set: it clears the
flag and calls `recreateSwapchain`, whatever the present returned. -/
theorem render_resized_recreates (N : Nat) (inp : FrameInput) (s : VulkanState)
    (rec : List Event)
    (ha : inp.acquireResult = VK_SUCCESS ∨ inp.acquireResult = VK_SUBOPTIMAL_KHR)
    (hb : inp.beginResult = VK_SUCCESS) (hrec : recordEvents s = some rec)
    (he : inp.endResult = VK_SUCCESS) (hs : inp.submitResult = VK_SUCCESS)
    (hf : s.framebufferResized = true) :
    (∀ v, recreateSwapchain inp.presentRecreate
        (((recorded inp rec s).log (submitEvents s)).setFramebufferResized false) = .ok v →
      render N inp s = .ok (v.advanceFrame N).drain) ∧
    (∀ e, recreateSwapchain inp.presentRecreate
        (((recorded inp rec s).log (submitEvents s)).setFramebufferResized false) = .error e →
      render N inp s = .error e) ∧
    (∃ cleanups, (render N inp s).state.trace =
      s.trace ++ beginEvents s inp.acquireResult ++ rec ++ [Event.guiRender s.currentFrame] ++
        submitEvents s ++ recreateEvents inp.presentRecreate s ++ cleanups ∧
      ∀ e ∈ cleanups, ∃ id, e = Event.passCleanup id) ∧
    (inp.presentRecreate.waits = [] → (render N inp s).state.framebufferResized = false) := by
  have hpres : presentStale inp ((recorded inp rec s).log (submitEvents s)) := by
    simpa [presentStale, recorded] using Or.inr (Or.inr hf)
  have hrender := render_reaches_present N inp s rec ha hb hrec he hs
  rw [presentAndAdvance_stale N inp _ hpres] at hrender
  have ht := recreateSwapchain_trace inp.presentRecreate
    (((recorded inp rec s).log (submitEvents s)).setFramebufferResized false)
  have hre : recreateEvents inp.presentRecreate
      (((recorded inp rec s).log (submitEvents s)).setFramebufferResized false) =
      recreateEvents inp.presentRecreate s := by
    simp [recreateEvents, recorded]
  rw [hre] at ht
  refine ⟨?_, ?_, ?_, ?_⟩
  · intro v hv
    rw [hrender, hv]
  · intro e hv
    rw [hrender, hv]
  · rw [hrender]
    cases hr : recreateSwapchain inp.presentRecreate
        (((recorded inp rec s).log (submitEvents s)).setFramebufferResized false) with
    | error err =>
      rw [hr] at ht
      refine ⟨[], ?_, by simp⟩
      simp only [Step.state] at ht ⊢
      rw [ht]; simp [recorded]
    | ok v =>
      rw [hr] at ht
      refine ⟨(v.oldRenderPassQueue ((v.currentFrame + 1) % N)).map
        (fun p => Event.passCleanup p.id), ?_, ?_⟩
      · simp only [Step.state] at ht ⊢
        rw [drain_trace, advanceFrame_trace, ht]; simp [recorded]
      · intro e hmem
        obtain ⟨p, -, hp⟩ := List.mem_map.mp hmem
        exact ⟨p.id, hp.symm⟩
  · intro hw
    rw [hrender]
    have hfl := recreateSwapchain_framebufferResized inp.presentRecreate
      (((recorded inp rec s).log (submitEvents s)).setFramebufferResized false) hw
    cases hr : recreateSwapchain inp.presentRecreate
        (((recorded inp rec s).log (submitEvents s)).setFramebufferResized false) with
    | error err => rw [hr] at hfl; simpa [Step.state] using hfl
    | ok v => rw [hr] at hfl; simpa [Step.state] using hfl

theorem idle_mem_recreateEvents (inp : RecreateInput) (s : VulkanState) :
    Event.vkDeviceWaitIdle ∈ recreateEvents inp s := by
  unfold recreateEvents
  simp

end VulkanState

open VulkanState

/-- C13, as amended. The function `render` raises `std::runtime_error` whenever
`vkAcquireNextImageKHR` returns a result that is neither success nor a staleness code,
whenever begin, end or submit of the command buffer fails, and whenever
`vkQueuePresentKHR` returns such a result while the resize flag of the window is not
set. When the resize flag is set and `render` reaches `vkQueuePresentKHR` (the acquire
was usable, begin, the recording, end and submit succeeded), then whatever
`vkQueuePresentKHR` returned `render` clears the flag and calls `recreateSwapchain` on
the state with the flag cleared: it returns, after advancing `currentFrame` and draining
the bucket, when `recreateSwapchain` returns, and raises only what `recreateSwapchain`
raises; the calls of `recreateSwapchain`, `vkDeviceWaitIdle` among them, follow
`vkQueuePresentKHR` in the trace; and the flag is clear at the end unless a callback
during the waits of `recreateSwapchain` sets it again. -/
theorem render_raises_on_failure (N : Nat) (inp : FrameInput) (s : VulkanState) :
    (callFails inp s → ∃ what t, render N inp s = .error (Fault.runtimeError what, t)) ∧
    (∀ rec, (inp.acquireResult = VK_SUCCESS ∨ inp.acquireResult = VK_SUBOPTIMAL_KHR) →
      inp.beginResult = VK_SUCCESS → recordEvents s = some rec →
      inp.endResult = VK_SUCCESS → inp.submitResult = VK_SUCCESS →
      s.framebufferResized = true →
      ((recorded inp rec s).log (submitEvents s)).framebufferResized = true ∧
      (((recorded inp rec s).log (submitEvents s)).setFramebufferResized
        false).framebufferResized = false ∧
      (∀ v, recreateSwapchain inp.presentRecreate
          (((recorded inp rec s).log (submitEvents s)).setFramebufferResized false) = .ok v →
        render N inp s = .ok (v.advanceFrame N).drain) ∧
      (∀ e, recreateSwapchain inp.presentRecreate
          (((recorded inp rec s).log (submitEvents s)).setFramebufferResized false) =
            .error e →
        render N inp s = .error e) ∧
      (∃ cleanups, (render N inp s).state.trace =
        s.trace ++ beginEvents s inp.acquireResult ++ rec ++
          [Event.guiRender s.currentFrame] ++ submitEvents s ++
          recreateEvents inp.presentRecreate s ++ cleanups ∧
        ∀ e ∈ cleanups, ∃ id, e = Event.passCleanup id) ∧
      Event.vkDeviceWaitIdle ∈ recreateEvents inp.presentRecreate s ∧
      (inp.presentRecreate.waits = [] →
        (render N inp s).state.framebufferResized = false)) := by
  refine ⟨fun h => ?_, fun rec ha hb hrec he hs hf => ?_⟩
  · have hpath := render_path N inp s
    generalize render N inp s = r at hpath
    have hok : ∀ x : VkResult, (x = VK_SUCCESS ∨ x = VK_SUBOPTIMAL_KHR) → ¬ isFailure x :=
      fun x hx hf => hx.elim hf.1 hf.2.1
    cases hpath with
    | acquireStale ha =>
      exfalso
      rcases h with h | ⟨h, -⟩
      · exact h.2.2 ha
      · rw [ha] at h; revert h; decide
    | acquireFailed => exact ⟨_, _, rfl⟩
    | beginFailed => exact ⟨_, _, rfl⟩
    | nullPointer ha hb hrec =>
      exfalso
      rcases h with h | ⟨-, h | ⟨-, h, -⟩⟩
      · exact hok _ ha h
      · exact h hb
      · exact h hrec
    | endFailed => exact ⟨_, _, rfl⟩
    | submitFailed => exact ⟨_, _, rfl⟩
    | presentFailed => exact ⟨_, _, rfl⟩
    | recreateFailed ha hb rec hrec he hs hp =>
      exfalso
      rcases h with h | ⟨-, h | ⟨-, -, h | ⟨-, h | ⟨-, h1, h2⟩⟩⟩⟩
      · exact hok _ ha h
      · exact h hb
      · exact h he
      · exact h hs
      · rcases hp with hp | hp | hp
        · exact h1.2.2 hp
        · exact h1.2.1 hp
        · rw [h2] at hp; cases hp
    | presentStale ha hb rec hrec he hs hp =>
      exfalso
      rcases h with h | ⟨-, h | ⟨-, -, h | ⟨-, h | ⟨-, h1, h2⟩⟩⟩⟩
      · exact hok _ ha h
      · exact h hb
      · exact h he
      · exact h hs
      · rcases hp with hp | hp | hp
        · exact h1.2.2 hp
        · exact h1.2.1 hp
        · rw [h2] at hp; cases hp
    | completed ha hb rec hrec he hs hp =>
      exfalso
      rcases h with h | ⟨-, h | ⟨-, -, h | ⟨-, h | ⟨-, h1, -⟩⟩⟩⟩
      · exact hok _ ha h
      · exact h hb
      · exact h he
      · exact h hs
      · exact h1.1 hp
  · obtain ⟨r1, r2, r3, r4⟩ := render_resized_recreates N inp s rec ha hb hrec he hs hf
    exact ⟨by simpa using hf, by simp, r1, r2, r3, idle_mem_recreateEvents _ _, r4⟩

set_option maxRecDepth 20000 in
/-- Witness of C13 as amended: the first frame after start-up, presented with
`VK_ERROR_DEVICE_LOST`. While the resize flag is not set, `render` raises; with the flag
set, `render` returns with the flag cleared. -/
theorem render_raises_on_failure_witness :
    callFails { presentResult := VK_ERROR_DEVICE_LOST } (boot deviceExtensions) ∧
    (∃ what t, render 2 { presentResult := VK_ERROR_DEVICE_LOST } (boot deviceExtensions) =
      .error (Fault.runtimeError what, t)) ∧
    resizedAfterBoot.framebufferResized = true ∧
    recordEvents resizedAfterBoot = some [Event.passRender 0 0] ∧
    (render 2 { presentResult := VK_ERROR_DEVICE_LOST } resizedAfterBoot).state.framebufferResized
      = false :=
  ⟨by decide, (render_raises_on_failure 2 { presentResult := VK_ERROR_DEVICE_LOST }
      (boot deviceExtensions)).1 (by decide), by decide, by decide,
    ((render_raises_on_failure 2 { presentResult := VK_ERROR_DEVICE_LOST }
      resizedAfterBoot).2 [Event.passRender 0 0] (Or.inl rfl) rfl (by decide) rfl rfl
      (by decide)).2.2.2.2.2.2 rfl⟩

/-- Counterexample to C13 as stated: the resize flag of the window is set and
`vkQueuePresentKHR` returns `VK_ERROR_DEVICE_LOST`, which is neither success nor a
staleness code; `render` clears the flag, recreates the swapchain and returns. -/
theorem render_swallows_present_failure_when_resized :
    isFailure VK_ERROR_DEVICE_LOST ∧
    resizedAfterBoot.framebufferResized = true ∧
    (render 2 { presentResult := VK_ERROR_DEVICE_LOST } resizedAfterBoot).returned = true ∧
    Event.vkDeviceWaitIdle ∈
      (render 2 { presentResult := VK_ERROR_DEVICE_LOST } resizedAfterBoot).state.trace := by
  decide

open VulkanState

/-- C20. A `recreateSwapchain` that returns has made, after its waits for a framebuffer
of non-zero size, exactly these calls in this order: `vkDeviceWaitIdle`; the release of
the image resources of the active render pass and of the compositing render pass;
`cleanupSwapchain`, which destroys the old image views and swapchain; `createSwapchain`
and `createSwapchainImageViews`; the rebuild of the image resources of the same active
render pass and of the compositing render pass; and last the rebuild of the overlay
framebuffers. A call that raises has made a beginning of this sequence. -/
theorem recreateSwapchain_call_order (inp : RecreateInput) (s v : VulkanState)
    (hret : recreateSwapchain inp s = .ok v) :
    (∃ pass, s.renderModeManager = some pass ∧
      v.trace = s.trace ++ List.replicate inp.waits.length Event.glfwWaitEvents ++
        fullRecreateEvents pass.id) ∧
    ∀ (inp2 : RecreateInput) (t : VulkanState) (pass : Pass),
      t.renderModeManager = some pass →
      ∃ done, (recreateSwapchain inp2 t).state.trace =
          t.trace ++ List.replicate inp2.waits.length Event.glfwWaitEvents ++ done ∧
        done <+: fullRecreateEvents pass.id := by
  constructor
  · have ht := recreateSwapchain_trace inp s
    have hf : ¬ (s.renderModeManager = none ∨ inp.failAt ≠ none) := by
      intro h
      have := recreateSwapchain_faults inp s h
      rw [hret] at this
      cases this
    rw [hret] at ht
    simp only [Step.state] at ht
    cases hm : s.renderModeManager with
    | none => exact absurd (Or.inl hm) hf
    | some pass =>
      have hfa : inp.failAt = none := by
        by_contra hne
        exact hf (Or.inr hne)
      refine ⟨pass, rfl, ?_⟩
      rw [ht]
      simp [recreateEvents, hm, rebuildEvents, hfa, fullRecreateEvents]
  · intro inp2 t pass hm
    refine ⟨Event.vkDeviceWaitIdle :: rebuildEvents inp2 pass.id, ?_, ?_⟩
    · rw [recreateSwapchain_trace]
      simp [recreateEvents, hm]
    · unfold rebuildEvents fullRecreateEvents
      by_cases h1 : inp2.failAt = some .createSwapchain
      · simp only [h1, if_true]
        exact ⟨[_, _, _, _], rfl⟩
      by_cases h2 : inp2.failAt = some .createSwapchainImageViews
      · simp only [if_neg h1, h2, if_true]
        exact ⟨[_, _, _], rfl⟩
      by_cases h3 : inp2.failAt = some .passCreateImageResources
      · simp only [if_neg h1, if_neg h2, h3, if_true]
        exact ⟨[_, _], rfl⟩
      by_cases h4 : inp2.failAt = some .swapchainPassCreateImageResources
      · simp only [if_neg h1, if_neg h2, if_neg h3, h4, if_true]
        exact ⟨[_], rfl⟩
      · simp only [if_neg h1, if_neg h2, if_neg h3, if_neg h4]
        exact ⟨[], rfl⟩

/-- Witness of C20: the recreation of the swapchain right after start-up. -/
theorem recreateSwapchain_call_order_witness :
    recreateSwapchain {} (boot deviceExtensions) =
      .ok (recreateSwapchain {} (boot deviceExtensions)).state ∧
    (recreateSwapchain {} (boot deviceExtensions)).state.trace =
      (boot deviceExtensions).trace ++ fullRecreateEvents 0 := by
  refine ⟨rfl, ?_⟩
  obtain ⟨pass, h1, h2⟩ := (recreateSwapchain_call_order {} (boot deviceExtensions)
    (recreateSwapchain {} (boot deviceExtensions)).state rfl).1
  have hp : pass = { id := 0, kind := PassKind.Forward } := by
    have := (boot_spec deviceExtensions).2.2.1
    rw [h1] at this
    exact Option.some.inj this
  rw [h2, hp]
  rfl

open VulkanState

set_option maxRecDepth 20000 in
/-- C15 fails on the code. With two frame slots and three cycles after start-up, the
third cycle writes the camera buffer and the camera-matrix buffer of slot 0 before its
wait on `inFlightFences[0]`: between the submission of the command buffer of slot 0 in
the first cycle and these writes no wait on that fence and no `vkDeviceWaitIdle` is
made. The render pass, whose `render` writes the model matrices of slot 0, is called
after the wait. In every `GraphicsSystem::render` the two writes of `updateCamera` are
the first calls. -/
theorem camera_buffers_written_before_fence_wait :
    (runLoop 2 threeCycles (boot deviceExtensions)).state.trace =
      firstSubmissionHead ++ Event.vkQueueSubmit 0 0 ::
        (betweenSlotZeroUses ++ Event.memcpyCameraUBO 0 :: thirdCycleTail) ∧
    Event.vkWaitForFences 0 ∉ betweenSlotZeroUses ∧
    Event.vkDeviceWaitIdle ∉ betweenSlotZeroUses ∧
    thirdCycleTail.take 2 = [Event.memcpyCameraMatrixUBO 0, Event.vkWaitForFences 0] ∧
    ∀ (N : Nat) (inp : FrameInput) (s : VulkanState),
      ∃ rest, (GraphicsSystem.render N inp s).state.trace =
        s.trace ++ Event.memcpyCameraUBO s.currentFrame ::
          Event.memcpyCameraMatrixUBO s.currentFrame :: rest := by
  refine ⟨by decide, by decide, by decide, rfl, fun N inp s => ?_⟩
  rcases graphicsRender_cases N inp s with ⟨-, h2⟩ | ⟨u, ⟨-, hc⟩, he⟩
  · exact ⟨commitEvents s, by rw [h2]; simp [cameraEvents]⟩
  · obtain ⟨L, hL, -⟩ := render_shape N inp u
    rw [he, hL]
    rcases hc with ⟨-, -, -, h4⟩ | ⟨-, -, -, h4⟩
    · exact ⟨L, by rw [h4]; simp [cameraEvents]⟩
    · exact ⟨commitEvents s ++ L, by rw [h4]; simp [cameraEvents]⟩

namespace VulkanState

theorem graphicsRender_rayTracingPipeline (N : Nat) (inp : FrameInput) (s : VulkanState) :
    (GraphicsSystem.render N inp s).state.rayTracingPipeline = s.rayTracingPipeline := by
  rw [GraphicsSystem.render_eq, cleanupRenderModeResource_eq]
  have key : ∀ u : VulkanState, u.rayTracingPipeline = s.rayTracingPipeline →
      (render N inp u).state.rayTracingPipeline = s.rayTracingPipeline :=
    fun u hu => (render_frame N inp u).2.2.1.trans hu
  by_cases h1 : s.updateCamera.shouldSwitchRenderPass = true
  · rw [if_pos h1]
    by_cases h2 : s.updateCamera.gui.isRayTracingMode = true
    · rw [if_pos h2]; exact key _ (by simp)
    · rw [if_neg h2]
      by_cases h3 : inp.initFails = true
      · rw [if_pos h3]; simp [Step.state]
      · rw [if_neg h3]; exact key _ (by simp)
  · rw [if_neg h1]; exact key _ (by simp)

theorem runLoop_rayTracingPipeline (N : Nat) (its : List Iteration) (s : VulkanState) :
    (runLoop N its s).state.rayTracingPipeline = s.rayTracingPipeline := by
  induction its generalizing s with
  | nil => rfl
  | cons it rest ih =>
    have g := graphicsRender_rayTracingPipeline N it.frame (s.fireAll it.polled)
    rw [(fireAll_sameFrame it.polled s).1.rayTracingPipeline] at g
    simp only [runLoop]
    cases hr : GraphicsSystem.render N it.frame (s.fireAll it.polled) with
    | error e => rw [hr] at g; exact g
    | ok v => rw [hr] at g; exact (ih v).trans g

theorem cleanup_without_rayTracingPipeline (N : Nat) (s : VulkanState)
    (h : s.rayTracingPipeline = false) :
    GraphicsSystem.cleanup N s = .error (Fault.nullDereference "rayTracingPipeline",
      s.log [Event.vkDeviceWaitIdle, Event.guiCleanup]) := by
  unfold GraphicsSystem.cleanup cleanup
  simp only [emit_eq_log, log_log, log_rayTracingPipeline, h, Bool.false_eq_true, if_false]
  rfl

end VulkanState

open VulkanState

/-- C14 fails on the code. On a device that offers `VK_KHR_swapchain` and none of the
ray tracing extensions, `isRayTracingAvailable()` is false, `createLevelResource` does
not create the ray tracing pipeline and no iteration of the loop creates it; but
`VulkanState::cleanup` calls `rayTracingPipeline->cleanup()` all the same: after every
run of the loop, `GraphicsSystem::cleanup` waits for the device, calls `gui.cleanup` and
then dereferences the null `rayTracingPipeline`. -/
theorem cleanup_dereferences_null_rayTracingPipeline :
    (boot deviceExtensions).gui.isRayTracingAvailable = false ∧
    (∀ (N : Nat) (its : List Iteration),
      (runLoop N its (boot deviceExtensions)).state.rayTracingPipeline = false) ∧
    ∀ (N : Nat) (its : List Iteration),
      GraphicsSystem.cleanup N (runLoop N its (boot deviceExtensions)).state =
        .error (Fault.nullDereference "rayTracingPipeline",
          (runLoop N its (boot deviceExtensions)).state.log
            [Event.vkDeviceWaitIdle, Event.guiCleanup]) := by
  have h0 : (boot deviceExtensions).rayTracingPipeline = false := by decide
  have h1 : ∀ (N : Nat) (its : List Iteration),
      (runLoop N its (boot deviceExtensions)).state.rayTracingPipeline = false :=
    fun N its => (runLoop_rayTracingPipeline N its _).trans h0
  exact ⟨by decide, h1, fun N its => cleanup_without_rayTracingPipeline N _ (h1 N its)⟩

/-! ## The overlay in the recording of a frame -/

namespace VulkanState

theorem recreateEvents_not_guiRender (inp : RecreateInput) (s : VulkanState) :
    ∀ e ∈ recreateEvents inp s, e.isGuiRender = false := by
  unfold recreateEvents
  intro e he
  rw [List.mem_append, List.mem_append] at he
  rcases he with (he | he) | he
  · obtain rfl := List.eq_of_mem_replicate he
    rfl
  · rw [List.mem_singleton] at he
    subst he
    rfl
  · cases hm : s.renderModeManager with
    | none => rw [hm] at he; cases he
    | some p =>
      rw [hm] at he
      revert e
      simp only [rebuildEvents]
      split_ifs <;> simp [Event.isGuiRender]

theorem cleanupEvents_not_guiRender (s : VulkanState) (slot : Nat) :
    ∀ e ∈ cleanupEvents s slot, e.isGuiRender = false := by
  intro e he
  unfold cleanupEvents at he
  rw [List.mem_map] at he
  obtain ⟨p, -, rfl⟩ := he
  rfl

theorem recordEvents_not_guiRender (s : VulkanState) (rec : List Event)
    (h : recordEvents s = some rec) : ∀ e ∈ rec, e.isGuiRender = false := by
  rcases recordEvents_cases s rec (Or.inl h) with h | h | ⟨a, -, h⟩ <;> subst h <;>
    simp [Event.isGuiRender]

/-- A `render` that gets past the recording of the strategy logs `gui.render` and then
`vkEndCommandBuffer`, and no other `gui.render`. -/
theorem render_trace_after_recording (N : Nat) (inp : FrameInput) (s : VulkanState)
    (rec : List Event)
    (ha : inp.acquireResult = VK_SUCCESS ∨ inp.acquireResult = VK_SUBOPTIMAL_KHR)
    (hb : inp.beginResult = VK_SUCCESS) (hrec : recordEvents s = some rec) :
    ∃ rest, (render N inp s).state.trace =
        s.trace ++ (beginEvents s inp.acquireResult ++ rec) ++
          Event.guiRender s.currentFrame :: Event.vkEndCommandBuffer s.currentFrame :: rest ∧
      ∀ e ∈ rest, e.isGuiRender = false := by
  have hne : inp.acquireResult ≠ VK_ERROR_OUT_OF_DATE_KHR := by
    rcases ha with h | h <;> rw [h] <;> decide
  have hP : ∀ rec, recreateEvents inp.presentRecreate
      (((recorded inp rec s).log (submitEvents s)).setFramebufferResized false) =
      recreateEvents inp.presentRecreate s :=
    fun rec => recreateEvents_congr _ _ _ (by simp)
  have hpath := render_path N inp s
  generalize render N inp s = r at hpath
  cases hpath with
  | acquireStale h => exact absurd h hne
  | acquireFailed _ h1 h2 => rcases ha with h | h <;> contradiction
  | beginFailed _ h => exact absurd hb h
  | nullPointer _ _ h => rw [hrec] at h; cases h
  | endFailed _ _ rec1 hrec1 =>
    obtain rfl : rec1 = rec := Option.some.inj (hrec1.symm.trans hrec)
    exact ⟨[], by simp [Step.state], by simp⟩
  | submitFailed _ _ rec1 hrec1 =>
    obtain rfl : rec1 = rec := Option.some.inj (hrec1.symm.trans hrec)
    exact ⟨[Event.vkQueueSubmit s.currentFrame s.currentFrame], by simp [Step.state],
      by simp [Event.isGuiRender]⟩
  | presentFailed _ _ rec1 hrec1 =>
    obtain rfl : rec1 = rec := Option.some.inj (hrec1.symm.trans hrec)
    exact ⟨[Event.vkQueueSubmit s.currentFrame s.currentFrame,
      Event.vkQueuePresentKHR s.currentFrame], by simp [Step.state, submitEvents],
      by simp [Event.isGuiRender]⟩
  | recreateFailed _ _ rec1 hrec1 _ _ _ err hre =>
    obtain rfl : rec1 = rec := Option.some.inj (hrec1.symm.trans hrec)
    have ht := recreateSwapchain_trace inp.presentRecreate
      (((recorded inp rec1 s).log (submitEvents s)).setFramebufferResized false)
    rw [hre, hP] at ht
    refine ⟨[Event.vkQueueSubmit s.currentFrame s.currentFrame,
      Event.vkQueuePresentKHR s.currentFrame] ++ recreateEvents inp.presentRecreate s, ?_, ?_⟩
    · rw [ht]; simp [submitEvents]
    · intro e he
      rw [List.mem_append] at he
      rcases he with he | he
      · revert e; simp [Event.isGuiRender]
      · exact recreateEvents_not_guiRender _ _ e he
  | presentStale _ _ rec1 hrec1 _ _ _ w hre =>
    obtain rfl : rec1 = rec := Option.some.inj (hrec1.symm.trans hrec)
    have ht := recreateSwapchain_trace inp.presentRecreate
      (((recorded inp rec1 s).log (submitEvents s)).setFramebufferResized false)
    rw [hre, hP] at ht
    simp only [Step.state] at ht
    refine ⟨[Event.vkQueueSubmit s.currentFrame s.currentFrame,
      Event.vkQueuePresentKHR s.currentFrame] ++ recreateEvents inp.presentRecreate s ++
      cleanupEvents (w.advanceFrame N) (w.advanceFrame N).currentFrame, ?_, ?_⟩
    · simp [Step.state, ht, submitEvents, cleanupEvents]
    · intro e he
      rw [List.mem_append, List.mem_append] at he
      rcases he with (he | he) | he
      · revert e; simp [Event.isGuiRender]
      · exact recreateEvents_not_guiRender _ _ e he
      · exact cleanupEvents_not_guiRender _ _ e he
  | completed _ _ rec1 hrec1 =>
    obtain rfl : rec1 = rec := Option.some.inj (hrec1.symm.trans hrec)
    refine ⟨[Event.vkQueueSubmit s.currentFrame s.currentFrame,
      Event.vkQueuePresentKHR s.currentFrame] ++
      cleanupEvents (((recorded inp rec1 s).log (submitEvents s)).advanceFrame N)
        (((recorded inp rec1 s).log (submitEvents s)).advanceFrame N).currentFrame, ?_, ?_⟩
    · simp [Step.state, submitEvents, cleanupEvents]
    · intro e he
      rw [List.mem_append] at he
      rcases he with he | he
      · revert e; simp [Event.isGuiRender]
      · exact cleanupEvents_not_guiRender _ _ e he

end VulkanState

theorem forward_render_ops (sz cf : Nat) (models : List AssetData) :
    ∀ o ∈ ForwardRenderPass.render sz cf models, o.isOverlay = false ∧ o.onBuffer cf = true := by
  intro o ho
  simp only [ForwardRenderPass.render, List.mem_append, List.mem_flatMap] at ho
  rcases ho with (ho | ⟨im, -, ho⟩) | ho <;> revert o <;>
    simp [ForwardRenderPass.drawModel, Op.isOverlay, Op.onBuffer]

theorem shadow_render_ops (sz N cf : Nat) (models : List AssetData) (layout : VkImageLayout) :
    ∀ o ∈ (BaseShadowRenderPass.generateShadowMap sz N cf models layout).1,
      o.isOverlay = false ∧ o.onBuffer cf = true := by
  intro o ho
  simp only [BaseShadowRenderPass.generateShadowMap, List.mem_append, List.mem_flatMap] at ho
  rcases ho with (((ho | ho) | ho) | ⟨im, -, ho⟩) | ho
  · split_ifs at ho
    · revert o; simp [BaseShadowRenderPass.resetLayout, Op.isOverlay, Op.onBuffer]
    · cases ho
  · simp only [BaseShadowRenderPass.updateLightMatrix, List.mem_map] at ho
    obtain ⟨i, -, rfl⟩ := ho
    exact ⟨rfl, rfl⟩
  · revert o; simp [Op.isOverlay, Op.onBuffer]
  · revert o
    simp [BaseShadowRenderPass.drawModel, AssetData.updateModelTransformMatrix, Op.isOverlay,
      Op.onBuffer]
  · revert o; simp [Op.isOverlay, Op.onBuffer]

theorem deferred_render_ops (sz N cf : Nat) (models : List AssetData) (layout : VkImageLayout) :
    ∀ o ∈ (DeferredRenderPass.render sz N cf models layout).1,
      o.isOverlay = false ∧ o.onBuffer cf = true := by
  intro o ho
  simp only [DeferredRenderPass.render, List.mem_append] at ho
  rcases ho with ho | ho
  · exact shadow_render_ops sz N cf models layout o ho
  · simp only [DeferredRenderPass.subpasses, List.mem_append, List.mem_flatMap] at ho
    rcases ho with (ho | ⟨im, -, ho⟩) | ho <;> revert o <;>
      simp [DeferredRenderPass.drawModel, Op.isOverlay, Op.onBuffer]

theorem pixel_render_ops (sz cf : Nat) (models : List AssetData) :
    ∀ o ∈ PixelRenderPass.render sz cf models, o.isOverlay = false ∧ o.onBuffer cf = true := by
  intro o ho
  simp only [PixelRenderPass.render, GBufferRenderPass.generateGBuffer,
    GBufferRenderPass.geometryPass, List.mem_append, List.mem_flatMap] at ho
  rcases ho with (((ho | ⟨im, -, ho⟩) | ho) | ho) | ho <;> revert o <;>
    simp [GBufferRenderPass.drawModel, GBufferRenderPass.transitionGBufferToSampler,
      VulkanUtils.transitionLayout, PixelRenderPass.compositingPass, Op.isOverlay, Op.onBuffer]

theorem strategy_render_ops (kind : PassKind) (sz N cf : Nat) (models : List AssetData)
    (layout : VkImageLayout) :
    ∀ o ∈ BaseRenderPass.render kind sz N cf models layout,
      o.isOverlay = false ∧ o.onBuffer cf = true := by
  cases kind
  · exact forward_render_ops sz cf models
  · exact deferred_render_ops sz N cf models layout
  · exact pixel_render_ops sz cf models

theorem rayTracing_render_ops (cf : Nat) :
    ∀ o ∈ RayTracingPipeline.render cf cf ++ SwapchainRenderPass.render cf cf,
      o.isOverlay = false ∧ o.onBuffer cf = true := by
  simp [RayTracingPipeline.render, SwapchainRenderPass.render, VulkanUtils.transitionLayout,
    Op.isOverlay, Op.onBuffer]

open VulkanState

/-- C12. In every `VulkanState::render` whose acquire and `vkBeginCommandBuffer` succeed
and whose recording calls go through non-null pointers, in the ray-tracing branch as in
the rasterisation branch: the calls logged after `vkBeginCommandBuffer` are those of the
strategy (`rayTracingPipeline->render` and `swapchainRenderPass->render`, or
`renderModeManager->render`), then `gui.render`, then `vkEndCommandBuffer`, all with the
slot `currentFrame`, and the call logs no other `gui.render`. The operations recorded are
those of the strategy followed by those of `VulkanGUI::render`; every command is recorded
into `commandBuffers[currentFrame]`; the operations of the overlay occur once each, after
all operations of the strategy. No `render` of a strategy, of the ray tracing pipeline or
of the composite pass performs an operation of the overlay. -/
theorem overlay_recorded_once_after_strategy (N sz : Nat) (inp : FrameInput) (s : VulkanState)
    (rec : List Event) (models : List AssetData) (shadowLayout : VkImageLayout)
    (ha : inp.acquireResult = VK_SUCCESS ∨ inp.acquireResult = VK_SUBOPTIMAL_KHR)
    (hb : inp.beginResult = VK_SUCCESS) (hrec : recordEvents s = some rec) :
    (∃ rest, (render N inp s).state.trace =
        s.trace ++ (beginEvents s inp.acquireResult ++ rec) ++
          Event.guiRender s.currentFrame :: Event.vkEndCommandBuffer s.currentFrame :: rest ∧
        ∀ e ∈ beginEvents s inp.acquireResult ++ rec ++ rest, e.isGuiRender = false) ∧
    (rec = [Event.rayTracingRender s.currentFrame, Event.swapchainPassRender s.currentFrame] ∨
      ∃ pass, s.renderModeManager = some pass ∧
        rec = [Event.passRender pass.id s.currentFrame]) ∧
    (∃ strategy, recordOps sz N models shadowLayout s =
        some (strategy ++ VulkanGUI.render s.currentFrame) ∧
      (∀ o ∈ strategy, o.isOverlay = false) ∧
      (∀ o ∈ strategy ++ VulkanGUI.render s.currentFrame, o.onBuffer s.currentFrame = true) ∧
      (strategy ++ VulkanGUI.render s.currentFrame).filter Op.isOverlay =
        [Op.record s.currentFrame (Cmd.vkCmdBeginRenderPass RenderPassHandle.gui 0),
         Op.imguiFrame,
         Op.record s.currentFrame Cmd.ImGui_ImplVulkan_RenderDrawData]) ∧
    (∀ kind sz1 N1 cf ms layout, ∀ o ∈ BaseRenderPass.render kind sz1 N1 cf ms layout,
      o.isOverlay = false) ∧
    ∀ cf, ∀ o ∈ RayTracingPipeline.render cf cf ++ SwapchainRenderPass.render cf cf,
      o.isOverlay = false := by
  have hgui : ∀ o ∈ VulkanGUI.render s.currentFrame, o.onBuffer s.currentFrame = true := by
    simp [VulkanGUI.render, Op.onBuffer]
  have hfilter : ∀ strategy : List Op, (∀ o ∈ strategy, o.isOverlay = false) →
      (strategy ++ VulkanGUI.render s.currentFrame).filter Op.isOverlay =
        [Op.record s.currentFrame (Cmd.vkCmdBeginRenderPass RenderPassHandle.gui 0),
         Op.imguiFrame,
         Op.record s.currentFrame Cmd.ImGui_ImplVulkan_RenderDrawData] := by
    intro strategy h
    have h0 : strategy.filter Op.isOverlay = [] := by
      rw [List.filter_eq_nil_iff]
      intro o ho
      rw [h o ho]
      exact Bool.false_ne_true
    rw [List.filter_append, h0]
    rfl
  have hops : ∀ strategy : List Op,
      (∀ o ∈ strategy, o.isOverlay = false ∧ o.onBuffer s.currentFrame = true) →
      recordOps sz N models shadowLayout s = some (strategy ++ VulkanGUI.render s.currentFrame) →
      ∃ strategy, recordOps sz N models shadowLayout s =
        some (strategy ++ VulkanGUI.render s.currentFrame) ∧
      (∀ o ∈ strategy, o.isOverlay = false) ∧
      (∀ o ∈ strategy ++ VulkanGUI.render s.currentFrame, o.onBuffer s.currentFrame = true) ∧
      (strategy ++ VulkanGUI.render s.currentFrame).filter Op.isOverlay =
        [Op.record s.currentFrame (Cmd.vkCmdBeginRenderPass RenderPassHandle.gui 0),
         Op.imguiFrame,
         Op.record s.currentFrame Cmd.ImGui_ImplVulkan_RenderDrawData] := by
    intro strategy h heq
    refine ⟨strategy, heq, fun o ho => (h o ho).1, ?_, hfilter strategy fun o ho => (h o ho).1⟩
    intro o ho
    rw [List.mem_append] at ho
    rcases ho with ho | ho
    · exact (h o ho).2
    · exact hgui o ho
  obtain ⟨rest, ht, hrest⟩ := render_trace_after_recording N inp s rec ha hb hrec
  refine ⟨⟨rest, ht, ?_⟩, ?_, ?_, fun kind sz1 N1 cf ms layout o ho =>
    (strategy_render_ops kind sz1 N1 cf ms layout o ho).1,
    fun cf o ho => (rayTracing_render_ops cf o ho).1⟩
  · intro e he
    rw [List.mem_append, List.mem_append] at he
    rcases he with (he | he) | he
    · revert e; simp [beginEvents, Event.isGuiRender]
    · exact recordEvents_not_guiRender s rec hrec e he
    · exact hrest e he
  · rcases recordEvents_cases s rec (Or.inl hrec) with h | h | h
    · subst h
      exfalso
      unfold recordEvents at hrec
      split_ifs at hrec
      all_goals first
        | cases hrec
        | (cases hm : s.renderModeManager with
            | none => rw [hm] at hrec; cases hrec
            | some a => rw [hm] at hrec; cases hrec)
    · exact Or.inl h
    · exact Or.inr h
  · by_cases hrt : s.gui.isRayTracingMode = true
    · by_cases hp : s.rayTracingPipeline = true
      · exact hops _ (rayTracing_render_ops s.currentFrame) (by simp [recordOps, hrt, hp])
      · exfalso
        simp [recordEvents, hrt, hp] at hrec
    · cases hm : s.renderModeManager with
      | none =>
        exfalso
        simp [recordEvents, hrt, hm] at hrec
      | some pass =>
        exact hops _ (strategy_render_ops pass.kind sz N s.currentFrame models shadowLayout)
          (by simp [recordOps, hrt, hm])

/-- C12, at a concrete call: the first frame after start-up, with two objects. -/
theorem overlay_recorded_once_after_strategy_witness :
    (∃ rest, (render 2 {} (boot deviceExtensions)).state.trace =
        (boot deviceExtensions).trace ++
          (beginEvents (boot deviceExtensions) VK_SUCCESS ++ [Event.passRender 0 0]) ++
          Event.guiRender 0 :: Event.vkEndCommandBuffer 0 :: rest ∧
        ∀ e ∈ beginEvents (boot deviceExtensions) VK_SUCCESS ++ [Event.passRender 0 0] ++ rest,
          e.isGuiRender = false) ∧
    (recordOps 64 2 [{ indexCount := 36 }, { indexCount := 6 }]
        VkImageLayout.DEPTH_STENCIL_ATTACHMENT_OPTIMAL (boot deviceExtensions)).isSome = true := by
  have h := overlay_recorded_once_after_strategy 2 64 {} (boot deviceExtensions)
    [Event.passRender 0 0] [{ indexCount := 36 }, { indexCount := 6 }]
    VkImageLayout.DEPTH_STENCIL_ATTACHMENT_OPTIMAL (Or.inl rfl) rfl (by decide)
  exact ⟨h.1, by decide⟩

/-! ## The geometry buffer of the Pixel strategy -/

theorem barriersOn_append (image : Image) (xs ys : List Op) :
    barriersOn image (xs ++ ys) = barriersOn image xs ++ barriersOn image ys := by
  simp [barriersOn, List.filterMap_append]

theorem barriersOn_eq_nil (image : Image) (xs : List Op)
    (h : ∀ o ∈ xs, Op.barrierOn image o = none) : barriersOn image xs = [] := by
  induction xs with
  | nil => rfl
  | cons x xs ih =>
    simp only [barriersOn, List.filterMap_cons, h x (List.mem_cons_self _ _)]
    exact ih fun o ho => h o (List.mem_cons_of_mem _ ho)

theorem geometryPass_no_barrier (image : Image) (sz cf : Nat) (models : List AssetData) :
    barriersOn image (GBufferRenderPass.geometryPass sz cf models) = [] := by
  apply barriersOn_eq_nil
  intro o ho
  simp only [GBufferRenderPass.geometryPass, List.mem_append, List.mem_flatMap] at ho
  rcases ho with (ho | ⟨im, -, ho⟩) | ho <;> revert o <;>
    simp [GBufferRenderPass.drawModel, Op.barrierOn]

theorem compositingPass_no_barrier (image : Image) (cf : Nat) :
    barriersOn image (PixelRenderPass.compositingPass cf) = [] := by
  apply barriersOn_eq_nil
  simp [PixelRenderPass.compositingPass, Op.barrierOn]

theorem geometryPass_getLast (sz cf : Nat) (models : List AssetData) :
    (GBufferRenderPass.geometryPass sz cf models).getLast? =
      some (Op.record cf Cmd.vkCmdEndRenderPass) := by
  unfold GBufferRenderPass.geometryPass
  exact List.getLast?_concat _

/-- C16. For every object list and slot, `PixelRenderPass::render` performs the geometry
render pass of `generateGBuffer`, which ends with `vkCmdEndRenderPass`, then the barriers
of `transitionGBufferToSampler`, then the compositing pass, which starts with
`vkCmdBeginRenderPass`. For each of the five images there is exactly one barrier on it,
and its old layout is the final layout of the image in the geometry render pass. For
albedo, position, normal and material the new layout is the layout declared in the
descriptor set `getGBuffer()`. For depth it is not: the barrier moves the image to
`VK_IMAGE_LAYOUT_SHADER_READ_ONLY_OPTIMAL`, the descriptor set declares
`VK_IMAGE_LAYOUT_DEPTH_STENCIL_READ_ONLY_OPTIMAL`. -/
theorem gBuffer_depth_barrier_mismatches_descriptor_layout :
    (∀ sz cf models, PixelRenderPass.render sz cf models =
      GBufferRenderPass.geometryPass sz cf models ++
        GBufferRenderPass.transitionGBufferToSampler cf ++ PixelRenderPass.compositingPass cf) ∧
    (∀ sz cf models, (GBufferRenderPass.geometryPass sz cf models).getLast? =
      some (Op.record cf Cmd.vkCmdEndRenderPass)) ∧
    (∀ cf, (PixelRenderPass.compositingPass cf).head? =
      some (Op.record cf (Cmd.vkCmdBeginRenderPass RenderPassHandle.pixel 2))) ∧
    (∀ sz cf models img, ∃ b,
      barriersOn (Image.gBuffer img) (PixelRenderPass.render sz cf models) = [b] ∧
      barriersOn (Image.gBuffer img) (GBufferRenderPass.transitionGBufferToSampler cf) = [b] ∧
      b.oldLayout = GBufferRenderPass.finalLayout img ∧
      (img ≠ GBufferImage.depth → b.newLayout = GBufferRenderPass.descriptorImageLayout img) ∧
      (img = GBufferImage.depth → b.newLayout = VkImageLayout.SHADER_READ_ONLY_OPTIMAL)) ∧
    GBufferRenderPass.descriptorImageLayout GBufferImage.depth =
      VkImageLayout.DEPTH_STENCIL_READ_ONLY_OPTIMAL ∧
    VkImageLayout.SHADER_READ_ONLY_OPTIMAL ≠ VkImageLayout.DEPTH_STENCIL_READ_ONLY_OPTIMAL := by
  refine ⟨fun sz cf models => rfl, geometryPass_getLast, fun cf => rfl, ?_, rfl, by decide⟩
  intro sz cf models img
  have h : barriersOn (Image.gBuffer img) (PixelRenderPass.render sz cf models) =
      barriersOn (Image.gBuffer img) (GBufferRenderPass.transitionGBufferToSampler cf) := by
    simp only [PixelRenderPass.render, GBufferRenderPass.generateGBuffer, barriersOn_append,
      geometryPass_no_barrier, compositingPass_no_barrier, List.nil_append, List.append_nil]
  rw [h]
  cases img <;>
    exact ⟨_, rfl, rfl, rfl, by simp [GBufferRenderPass.descriptorImageLayout], by simp⟩

/-! ## The attachments of the Deferred render pass -/

section

open DeferredRenderPass

/-- C17. In the render pass that `DeferredRenderPass::createRenderPass` creates, the
writes that a later subpass reads as an input attachment are: albedo, position, normal
and material, written by subpass 0 as colour attachments, read by subpass 2, normal also
by subpass 1; depth, written by subpass 0 as depth-stencil attachment, read by subpasses
1 and 2; occlusion, written by subpass 1, read by subpass 2. For each read of a colour
attachment a chain of declared dependencies leads from the producer to the consumer,
whose source masks cover the colour attachment write and whose destination masks cover
the input attachment read. For the two reads of depth there is none: no declared
dependency has `VK_ACCESS_DEPTH_STENCIL_ATTACHMENT_WRITE_BIT` in its source access mask
or a fragment test stage in its source stage mask. -/
theorem deferred_dependencies_miss_depth_write :
    (∀ depthFormat swapchainImageFormat,
      (createRenderPass depthFormat swapchainImageFormat).subpasses = subpassDescriptions ∧
      (createRenderPass depthFormat swapchainImageFormat).dependencies = dependencies) ∧
    attachmentReads subpassDescriptions 6 =
      [ { attachment := BINDING.ALBEDO, depth := false, producer := 0, consumer := 2 },
        { attachment := BINDING.POSITION, depth := false, producer := 0, consumer := 2 },
        { attachment := BINDING.NORMAL, depth := false, producer := 0, consumer := 1 },
        { attachment := BINDING.NORMAL, depth := false, producer := 0, consumer := 2 },
        { attachment := BINDING.MATERIAL, depth := false, producer := 0, consumer := 2 },
        { attachment := BINDING.DEPTH, depth := true, producer := 0, consumer := 1 },
        { attachment := BINDING.DEPTH, depth := true, producer := 0, consumer := 2 },
        { attachment := BINDING.SSAO, depth := false, producer := 1, consumer := 2 } ] ∧
    (∀ r ∈ attachmentReads subpassDescriptions 6, r.covered dependencies = !r.depth) ∧
    (∀ d ∈ dependencies,
      VkAccessFlagBits.DEPTH_STENCIL_ATTACHMENT_WRITE ∉ d.srcAccessMask ∧
      VkPipelineStageFlagBits.EARLY_FRAGMENT_TESTS ∉ d.srcStageMask ∧
      VkPipelineStageFlagBits.LATE_FRAGMENT_TESTS ∉ d.srcStageMask) := by
  refine ⟨fun _ _ => ⟨rfl, rfl⟩, by decide, by decide, by decide⟩

/-- C18. In the render pass that `DeferredRenderPass::createRenderPass` creates, each of
the six geometry attachments (albedo, position, normal, material, depth, occlusion) is
written by exactly one subpass, through exactly one reference, and is read as an input
attachment by a subpass with a greater index; every input attachment reference that
names an attachment names a read-only layout, which differs from the layout of every
reference through which the attachment is written. The attachment descriptions, the
image views of every framebuffer and the clear values are seven each; at every index the
format of the attachment description is the format the view was created with, and the
clear value is the one for the aspect of the view; the indices of `enum BINDING` name
the views of the same name. -/
theorem deferred_attachments_single_producer_read_only_consumers :
    (∀ depthFormat swapchainImageFormat,
      (createRenderPass depthFormat swapchainImageFormat).subpasses = subpassDescriptions) ∧
    (∀ a, a < 6 →
      (writers subpassDescriptions a).length = 1 ∧
      (∀ i ∈ writers subpassDescriptions a,
        (∀ sp ∈ subpassDescriptions.get? i, (sp.writeRefs a).length = 1) ∧
        ∃ j ∈ readers subpassDescriptions a, i < j) ∧
      ∀ sp ∈ subpassDescriptions, ∀ r ∈ sp.inputRefs a,
        r.layout.isReadOnly = true ∧
        ∀ sq ∈ subpassDescriptions, ∀ w ∈ sq.writeRefs a, r.layout ≠ w.layout) ∧
    (∀ sp ∈ subpassDescriptions, ∀ r ∈ sp.inputAttachments, ∀ a ∈ r.attachment, a < 6) ∧
    (∀ depthFormat swapchainImageFormat i,
      (createRenderPass depthFormat swapchainImageFormat).attachments.length = 7 ∧
      (framebufferAttachments i).length = 7 ∧ clearValues.length = 7 ∧
      (createRenderPass depthFormat swapchainImageFormat).attachments.map (fun d => d.format) =
        (framebufferAttachments i).map
          (fun v => (v.created depthFormat swapchainImageFormat).1) ∧
      clearValues = (framebufferAttachments i).map
          (fun v => (v.created depthFormat swapchainImageFormat).2.clearValue) ∧
      (framebufferAttachments i).get? BINDING.ALBEDO = some View.albedo ∧
      (framebufferAttachments i).get? BINDING.POSITION = some View.position ∧
      (framebufferAttachments i).get? BINDING.NORMAL = some View.normal ∧
      (framebufferAttachments i).get? BINDING.MATERIAL = some View.material ∧
      (framebufferAttachments i).get? BINDING.DEPTH = some View.depth ∧
      (framebufferAttachments i).get? BINDING.SSAO = some View.ssao) := by
  refine ⟨fun _ _ => rfl, by decide, by decide, ?_⟩
  intro d f i
  exact ⟨rfl, rfl, rfl, rfl, rfl, rfl, rfl, rfl, rfl, rfl, rfl⟩

end

/-! ## Recreating the swapchain -/

namespace SurfaceState

theorem diff_self_eq_nil (l : List Nat) : l.diff l = [] := by
  induction l with
  | nil => rfl
  | cons a l ih => rw [List.diff_cons, List.erase_cons_head]; exact ih

theorem destroyAll_spec (vs : List Nat) (s : SurfaceState) :
    vs.foldl (fun st v => st.vkDestroyImageView v) s =
      { s with liveImageViews := s.liveImageViews.diff vs
               destroyedImageViews := s.destroyedImageViews ++ vs } := by
  induction vs generalizing s with
  | nil => simp
  | cons v vs ih =>
    rw [List.foldl_cons, ih]
    simp [vkDestroyImageView, List.diff_cons]

theorem createViews_spec (images views : List Nat) (s : SurfaceState) :
    createViews images (views, s) =
      (views ++ List.range' s.nextHandle images.length,
       { s with nextHandle := s.nextHandle + images.length
                liveImageViews := s.liveImageViews ++ List.range' s.nextHandle images.length }) := by
  induction images generalizing views s with
  | nil => simp [createViews]
  | cons i images ih =>
    rw [createViews, ih]
    simp [createImageView, List.range'_succ, Nat.add_assoc, Nat.add_comm 1]

theorem chooseSwapSurfaceFormat_isSome (formats : List VkSurfaceFormatKHR) (h : formats ≠ []) :
    ∃ f, chooseSwapSurfaceFormat formats = some f := by
  unfold chooseSwapSurfaceFormat
  split
  · exact ⟨_, rfl⟩
  · cases formats with
    | nil => exact absurd rfl h
    | cons f rest => exact ⟨f, rfl⟩

/-- One `recreateSwapchain` on a surface that offers a format, with a
`vkCreateSwapchainKHR` that succeeds: the call returns, and the state it returns in. -/
theorem recreateSwapchain_spec_ok (a : SurfaceAnswers) (s : SurfaceState)
    (f : VkSurfaceFormatKHR) (hf : chooseSwapSurfaceFormat a.support.formats = some f)
    (hc : a.createResult = VK_SUCCESS) :
    ∃ s1, s.recreateSwapchain a = .ok s1 ∧
      s1.swapchain.extent = chooseSwapExtent a.support.capabilities a.framebufferSize ∧
      s1.swapchain.imageFormat = f.format ∧
      s1.swapchain.minImageCount = requestedImageCount a.support.capabilities ∧
      s1.swapchain.images = List.range' (s.nextHandle + 1) a.imageCount ∧
      s1.swapchain.imageViews = List.range' (s.nextHandle + 1 + a.imageCount) a.imageCount ∧
      s1.nextHandle = s.nextHandle + 1 + a.imageCount + a.imageCount ∧
      s1.liveImageViews = s.liveImageViews.diff s.swapchain.imageViews ++
        List.range' (s.nextHandle + 1 + a.imageCount) a.imageCount ∧
      s1.destroyedImageViews = s.destroyedImageViews ++ s.swapchain.imageViews ∧
      s1.createInfos = s.createInfos ++
        [{ minImageCount := requestedImageCount a.support.capabilities,
           imageFormat := f.format, imageColorSpace := f.colorSpace,
           imageExtent := chooseSwapExtent a.support.capabilities a.framebufferSize,
           presentMode := chooseSwapPresentMode a.support.presentModes }] := by
  cases hr : s.recreateSwapchain a with
  | error e =>
    simp [recreateSwapchain, cleanupSwapchain, destroyAll_spec, createSwapchain, hf, hc,
      bind, Except.bind, pure, Except.pure] at hr
  | ok s1 =>
    refine ⟨s1, rfl, ?_⟩
    simp only [recreateSwapchain, cleanupSwapchain, destroyAll_spec, createSwapchain, hf, hc,
      ne_eq, not_true_eq_false, if_false, bind, Except.bind, pure, Except.pure] at hr
    obtain rfl := Except.ok.inj hr
    simp [createSwapchainImageViews, createViews_spec]

theorem consistent_after_recreate (s s1 : SurfaceState) (n : Nat) (hs : s.Consistent)
    (h1 : s1.swapchain.imageViews = List.range' (s.nextHandle + 1 + n) n)
    (h2 : s1.nextHandle = s.nextHandle + 1 + n + n)
    (h3 : s1.liveImageViews = s.liveImageViews.diff s.swapchain.imageViews ++
      List.range' (s.nextHandle + 1 + n) n)
    (h4 : s1.destroyedImageViews = s.destroyedImageViews ++ s.swapchain.imageViews) :
    s1.Consistent := by
  refine ⟨?_, ?_, ?_, ?_, ?_, ?_⟩
  · rw [h3, h1, hs.live, diff_self_eq_nil, List.nil_append]
  · rw [h1]; exact List.nodup_range' _ _
  · intro v hv
    rw [h1, List.mem_range'_1] at hv
    omega
  · rw [h4, List.nodup_append]
    exact ⟨hs.destroyedOnce, hs.nodup, fun v hv hv' => hs.disjoint v hv hv'⟩
  · intro v hv
    rw [h4, List.mem_append] at hv
    rw [h2]
    rcases hv with hv | hv
    · have := hs.destroyedOld v hv; omega
    · have := hs.fresh v hv; omega
  · intro v hv hv'
    rw [h4, List.mem_append] at hv
    rw [h1, List.mem_range'_1] at hv'
    rcases hv with hv | hv
    · have := hs.destroyedOld v hv; omega
    · have := hs.fresh v hv; omega

/-- The first `createSwapchain(); createSwapchainImageViews();` of `VulkanState::init`,
on a device without objects, leaves the image views of the swapchain as the live ones. -/
theorem first_creation_consistent (a : SurfaceAnswers) (s0 : SurfaceState)
    (h : createSwapchain a {} = .ok s0) : s0.createSwapchainImageViews.Consistent := by
  unfold createSwapchain at h
  split at h
  · cases h
  · split_ifs at h
    obtain rfl := Except.ok.inj h
    refine ⟨?_, ?_, ?_, ?_, ?_, ?_⟩
    · simp [createSwapchainImageViews, createViews_spec]
    · simp only [createSwapchainImageViews, createViews_spec, List.nil_append]
      exact List.nodup_range' _ _
    · intro v hv
      simp only [createSwapchainImageViews, createViews_spec, List.nil_append,
        List.mem_range'_1] at hv
      simp only [createSwapchainImageViews, createViews_spec]
      omega
    · simp [createSwapchainImageViews, createViews_spec]
    · simp [createSwapchainImageViews, createViews_spec]
    · simp [createSwapchainImageViews, createViews_spec]

end SurfaceState

open SurfaceState

/-- C19. Two consecutive `recreateSwapchain` calls on a state whose live image views are
those of the swapchain, made with the same answer of `querySwapchainSupport`
(capabilities, formats, present modes) and of `glfwGetFramebufferSize`, with at least one
format offered and `vkCreateSwapchainKHR` succeeding, both return; after both the
swapchain has the same extent, the same image format and the same image count
`minImageCount`, and `vkCreateSwapchainKHR` was passed the same create info; when the
driver hands out the same number of images, the swapchain has as many images and image
views. After each call the live image views are exactly those of the new swapchain, one
per image, and every image view of the swapchain before the call has been destroyed
exactly once, also after both calls. The state after each call is again one whose live
image views are those of the swapchain. -/
theorem recreateSwapchain_twice_same_swapchain_no_leak (a1 a2 : SurfaceAnswers)
    (s : SurfaceState) (hs : s.Consistent)
    (hsupport : a2.support = a1.support) (hsize : a2.framebufferSize = a1.framebufferSize)
    (hformats : a1.support.formats ≠ [])
    (hc1 : a1.createResult = VK_SUCCESS) (hc2 : a2.createResult = VK_SUCCESS) :
    ∃ s1 s2, s.recreateSwapchain a1 = .ok s1 ∧ s1.recreateSwapchain a2 = .ok s2 ∧
      s2.swapchain.extent = s1.swapchain.extent ∧
      s2.swapchain.imageFormat = s1.swapchain.imageFormat ∧
      s2.swapchain.minImageCount = s1.swapchain.minImageCount ∧
      s2.createInfos.getLast? = s1.createInfos.getLast? ∧
      (a2.imageCount = a1.imageCount →
        s2.swapchain.images.length = s1.swapchain.images.length ∧
        s2.swapchain.imageViews.length = s1.swapchain.imageViews.length) ∧
      s1.liveImageViews = s1.swapchain.imageViews ∧
      s1.swapchain.imageViews.length = s1.swapchain.images.length ∧
      s1.swapchain.imageViews.Nodup ∧
      (∀ v ∈ s.swapchain.imageViews, v ∉ s1.liveImageViews ∧
        s1.destroyedImageViews.count v = 1 ∧ s2.destroyedImageViews.count v = 1) ∧
      s2.liveImageViews = s2.swapchain.imageViews ∧
      s2.swapchain.imageViews.length = s2.swapchain.images.length ∧
      s2.swapchain.imageViews.Nodup ∧
      (∀ v ∈ s1.swapchain.imageViews, v ∉ s2.liveImageViews ∧
        s2.destroyedImageViews.count v = 1) ∧
      s1.Consistent ∧ s2.Consistent := by
  obtain ⟨f, hf⟩ := chooseSwapSurfaceFormat_isSome _ hformats
  have hf2 : chooseSwapSurfaceFormat a2.support.formats = some f := by rw [hsupport]; exact hf
  obtain ⟨s1, e1, x1, f1, m1, i1, v1, n1, l1, d1, c1⟩ := recreateSwapchain_spec_ok a1 s f hf hc1
  obtain ⟨s2, e2, x2, f2, m2, i2, v2, n2, l2, d2, c2⟩ := recreateSwapchain_spec_ok a2 s1 f hf2 hc2
  have k1 : s1.Consistent := consistent_after_recreate s s1 a1.imageCount hs v1 n1 l1 d1
  have k2 : s2.Consistent := consistent_after_recreate s1 s2 a2.imageCount k1 v2 n2 l2 d2
  have old1 : ∀ v ∈ s.swapchain.imageViews, v ∈ s1.destroyedImageViews := by
    intro v hv
    rw [d1]
    exact List.mem_append_right _ hv
  have old2 : ∀ v ∈ s1.destroyedImageViews, v ∈ s2.destroyedImageViews := by
    intro v hv
    rw [d2]
    exact List.mem_append_left _ hv
  have old3 : ∀ v ∈ s1.swapchain.imageViews, v ∈ s2.destroyedImageViews := by
    intro v hv
    rw [d2]
    exact List.mem_append_right _ hv
  refine ⟨s1, s2, e1, e2, ?_, ?_, ?_, ?_, ?_, k1.live, ?_, k1.nodup, ?_, k2.live, ?_,
    k2.nodup, ?_, k1, k2⟩
  · rw [x2, x1, hsupport, hsize]
  · rw [f2, f1]
  · rw [m2, m1, hsupport]
  · rw [c2, c1, hsupport, hsize]
    simp
  · intro h
    rw [i2, i1, v2, v1, h]
    simp
  · rw [v1, i1]; simp
  · intro v hv
    refine ⟨?_, List.count_eq_one_of_mem k1.destroyedOnce (old1 v hv),
      List.count_eq_one_of_mem k2.destroyedOnce (old2 v (old1 v hv))⟩
    rw [k1.live]
    exact k1.disjoint v (old1 v hv)
  · rw [v2, i2]; simp
  · intro v hv
    refine ⟨?_, List.count_eq_one_of_mem k2.destroyedOnce (old3 v hv)⟩
    rw [k2.live]
    exact k2.disjoint v (old3 v hv)

/-- C19, at a concrete surface: the swapchain of three images is recreated twice. -/
theorem recreateSwapchain_twice_same_swapchain_no_leak_witness :
    ∃ s1 s2, firstSwapchain.recreateSwapchain fixedSurface = .ok s1 ∧
      s1.recreateSwapchain fixedSurface = .ok s2 ∧
      s2.swapchain.extent = s1.swapchain.extent ∧
      s2.swapchain.imageFormat = s1.swapchain.imageFormat ∧
      s2.swapchain.minImageCount = s1.swapchain.minImageCount ∧
      s1.liveImageViews = s1.swapchain.imageViews ∧
      s2.liveImageViews = s2.swapchain.imageViews := by
  obtain ⟨s1, s2, e1, e2, h1, h2, h3, -, -, h4, -, -, -, h5, -, -, -, -⟩ :=
    recreateSwapchain_twice_same_swapchain_no_leak fixedSurface fixedSurface firstSwapchain
      ⟨rfl, by decide, by decide, by decide, by decide, by decide⟩ rfl rfl (by decide) rfl rfl
  exact ⟨s1, s2, e1, e2, h1, h2, h3, h4, h5⟩

/-! ## The spheres and their instances -/

namespace RayTracingPipeline

theorem visitCell_eq {F : Type} (ops : FloatOps F) (rng : Nat → F)
    (st : List (SphereSSBO F) × Nat) (cell : Int × Int) :
    visitCell ops rng st cell = (st.1 ++ [cellSphere ops rng cell st.2], st.2 + 5) := by
  simp [visitCell, exceedsNineTenths, Vec3.length]

theorem foldl_visitCell {F : Type} (ops : FloatOps F) (rng : Nat → F) (cs : List (Int × Int))
    (acc : List (SphereSSBO F)) (k : Nat) :
    cs.foldl (visitCell ops rng) (acc, k) =
      (acc ++ cs.enum.map (fun p => cellSphere ops rng p.2 (k + 5 * p.1)), k + 5 * cs.length) := by
  induction cs generalizing acc k with
  | nil => simp
  | cons c cs ih =>
    rw [List.foldl_cons, visitCell_eq, ih]
    simp only [List.enum_cons, List.map_cons, List.length_cons, List.append_assoc,
      List.singleton_append, Nat.mul_zero, Nat.add_zero]
    refine Prod.ext ?_ (by simp; omega)
    simp only [List.append_cancel_left_eq, List.cons.injEq, true_and]
    rw [← List.map_fst_add_enum_eq_enumFrom, List.map_map]
    apply List.map_congr_left
    intro p _
    simp only [Function.comp, Prod.map_fst, Prod.map_snd, id]
    congr 1
    omega

set_option maxRecDepth 100000 in
theorem cells_length : cells.length = 484 := by
  decide

theorem createSpheres_eq {F : Type} (ops : FloatOps F) (rng : Nat → F)
    (spheres : List (SphereSSBO F)) :
    createSpheres ops rng spheres =
      spheres ++ groundSphere ops ::
        cells.enum.map (fun p => cellSphere ops rng p.2 (5 * p.1)) := by
  simp [createSpheres, foldl_visitCell]

theorem createTLAS_get? {F : Type} (ops : FloatOps F) (blas : Nat)
    (spheres : List (SphereSSBO F)) (h : spheres.length < 2 ^ 24) (i : Nat) (s : SphereSSBO F)
    (hs : spheres[i]? = some s) :
    (spheres.enum.map fun p => makeInstance ops blas p.1 p.2)[i]? =
      some { transform :=
               [[ops.mul s.radius (ops.ofDecimal 2), ops.ofDecimal 0, ops.ofDecimal 0, s.center.x],
                [ops.ofDecimal 0, ops.mul s.radius (ops.ofDecimal 2), ops.ofDecimal 0, s.center.y],
                [ops.ofDecimal 0, ops.ofDecimal 0, ops.mul s.radius (ops.ofDecimal 2),
                 s.center.z]],
             instanceCustomIndex := i, mask := 255,
             instanceShaderBindingTableRecordOffset := i % 3,
             accelerationStructureReference := blas } := by
  have hi : i < spheres.length := by
    rcases Nat.lt_or_ge i spheres.length with h1 | h1
    · exact h1
    · rw [List.getElem?_eq_none h1] at hs; cases hs
  have h3 : i % 3 < 2 ^ 24 := by omega
  have h24 : i < 2 ^ 24 := by omega
  rw [List.getElem?_map, List.getElem?_enum, hs]
  simp [makeInstance, Nat.mod_eq_of_lt h24, Nat.mod_eq_of_lt h3]
  omega

end RayTracingPipeline

open RayTracingPipeline

/-- C21. For every sphere list of length `n < 2^24` and every address of the bottom-level
structure, the loop of `createTLAS` ends with `n` instances. The instance of `spheres[i]`
has the transform with the rows `(2r, 0, 0, x)`, `(0, 2r, 0, y)`, `(0, 0, 2r, z)`, where
`r` is the radius, `2r` the product `radius * 2.0f` and `(x, y, z)` the centre of the
sphere; its custom index is `i`, its reference the address of the one bottom-level
structure, its shader binding table record offset `i mod 3`, which is below the number
of hit groups of `createPipeline`, 3. The transforms do not depend on anything but the
sphere list: builds with other addresses yield the same transforms. -/
theorem createTLAS_one_instance_per_sphere {F : Type} (ops : FloatOps F)
    (blasDeviceAddress : Nat) (spheres : List (SphereSSBO F)) (h : spheres.length < 2 ^ 24) :
    ∃ instances, createTLAS ops blasDeviceAddress spheres = some instances ∧
      instances.length = spheres.length ∧
      (∀ i s, spheres[i]? = some s →
        instances[i]? =
          some { transform :=
                   [[ops.mul s.radius (ops.ofDecimal 2), ops.ofDecimal 0, ops.ofDecimal 0,
                     s.center.x],
                    [ops.ofDecimal 0, ops.mul s.radius (ops.ofDecimal 2), ops.ofDecimal 0,
                     s.center.y],
                    [ops.ofDecimal 0, ops.ofDecimal 0, ops.mul s.radius (ops.ofDecimal 2),
                     s.center.z]],
                 instanceCustomIndex := i, mask := 255,
                 instanceShaderBindingTableRecordOffset := i % 3,
                 accelerationStructureReference := blasDeviceAddress } ∧
        i % 3 < hitGroupCount) ∧
      hitGroupCount = 3 ∧
      ∀ otherAddress, ∃ others, createTLAS ops otherAddress spheres = some others ∧
        others.map (fun x => x.transform) = instances.map (fun x => x.transform) := by
  have h32 : spheres.length < 2 ^ 32 := by omega
  have hg : hitGroupCount = 3 := by decide
  refine ⟨_, if_pos h32, by simp, fun i s hs => ⟨createTLAS_get? ops _ spheres h i s hs, ?_⟩,
    hg, fun other => ⟨_, if_pos h32, ?_⟩⟩
  · rw [hg]; exact Nat.mod_lt _ (by decide)
  · simp [makeInstance]

/-- C21, at a concrete list: the ground sphere and one small sphere, with exact
arithmetic in place of `float`. -/
theorem createTLAS_one_instance_per_sphere_witness :
    ∃ instances, createTLAS exactOps 4096 twoSpheres = some instances ∧
      instances.length = 2 ∧
      instances[1]? =
        some { transform := [[2 / 5, 0, 0, 1], [0, 2 / 5, 0, 1 / 5], [0, 0, 2 / 5, -2]],
               instanceCustomIndex := 1, mask := 255,
               instanceShaderBindingTableRecordOffset := 1,
               accelerationStructureReference := 4096 } := by
  obtain ⟨instances, h1, h2, h3, -⟩ :=
    createTLAS_one_instance_per_sphere exactOps 4096 twoSpheres (by decide)
  refine ⟨instances, h1, h2, ?_⟩
  rw [(h3 1 smallSphere rfl).1]
  simp [exactOps, smallSphere]
  norm_num

/-- C28. Whatever the calls `dis(gen)` return, `createSpheres` on an empty vector yields
485 spheres: first the ground sphere with centre `(0, -1000, 0)` and radius `1000`, then
for each of the `22 * 22` cells, in the order of the loops, one sphere of radius `0.2f`
at the position of the cell. The test before the `push_back` compares
`glm::vec3::length()`, the number of components, with `0.9f`, and so admits every
position. -/
theorem createSpheres_count_independent_of_rng {F : Type} (ops : FloatOps F) (rng : Nat → F) :
    (createSpheres ops rng []).length = 485 ∧
    createSpheres ops rng [] =
      groundSphere ops :: cells.enum.map (fun p => cellSphere ops rng p.2 (5 * p.1)) ∧
    (groundSphere ops).center =
      { x := ops.ofDecimal 0, y := ops.ofDecimal (-1000), z := ops.ofDecimal 0 } ∧
    (groundSphere ops).radius = ops.ofDecimal 1000 ∧
    (∀ s ∈ (createSpheres ops rng []).tail, s.radius = ops.ofDecimal (1 / 5)) ∧
    cells.length = 22 * 22 ∧
    ∀ v : Vec3 F, exceedsNineTenths v.length = true := by
  have he := createSpheres_eq ops rng []
  rw [List.nil_append] at he
  refine ⟨?_, he, rfl, rfl, ?_, cells_length, fun v => rfl⟩
  · rw [he]
    simp [cells_length]
  · intro s hs
    rw [he, List.tail_cons, List.mem_map] at hs
    obtain ⟨p, -, rfl⟩ := hs
    rfl

/-! ## The layout of the shader binding table -/

theorem land_mask_eq (x k : Nat) (hx : x < 2 ^ 32) (hk : k ≤ 32) :
    x &&& (2 ^ 32 - 2 ^ k) = x / 2 ^ k * 2 ^ k := by
  apply Nat.eq_of_testBit_eq
  intro i
  have h1 : 2 ^ 32 - 2 ^ k = 2 ^ 32 - ((2 ^ k - 1) + 1) := by
    have : 1 ≤ 2 ^ k := Nat.one_le_two_pow
    omega
  have h2 : 2 ^ k - 1 < 2 ^ 32 := by
    have : 2 ^ k ≤ 2 ^ 32 := Nat.pow_le_pow_right (by decide) hk
    omega
  rw [Nat.testBit_and, h1, Nat.testBit_two_pow_sub_succ h2, Nat.testBit_two_pow_sub_one,
    Nat.mul_comm, Nat.testBit_mul_pow_two, ← Nat.shiftRight_eq_div_pow, Nat.testBit_shiftRight]
  by_cases hik : k ≤ i
  · by_cases hi : i < 32
    · have : ¬ i < k := by omega
      simp [hik, hi, this, Nat.add_sub_cancel' hik]
    · have hxi : x.testBit i = false :=
        Nat.testBit_lt_two_pow
          (Nat.lt_of_lt_of_le hx (Nat.pow_le_pow_right (by decide) (by omega)))
      simp [hik, hi, hxi, Nat.add_sub_cancel' hik]
  · have : i < k := by omega
    simp [hik, this]

theorem alignup_eq_roundUp (s a : Nat) (ha : ∃ k, a = 2 ^ k) (h : s + a ≤ 2 ^ 32)
    (hs : 1 ≤ s) : RayTracingPipeline.alignup s a = roundUp s a := by
  obtain ⟨k, rfl⟩ := ha
  have h1 : 1 ≤ 2 ^ k := Nat.one_le_two_pow
  have hk : k ≤ 32 := by
    by_contra hc
    have : 2 ^ 33 ≤ 2 ^ k := Nat.pow_le_pow_right (by decide) (by omega)
    omega
  have e1 : (s + 2 ^ k + (2 ^ 32 - 1)) % 2 ^ 32 = s + 2 ^ k - 1 := by omega
  have e2 : (2 ^ k + (2 ^ 32 - 1)) % 2 ^ 32 = 2 ^ k - 1 := by omega
  have e3 : 2 ^ 32 - 1 - (2 ^ k - 1) = 2 ^ 32 - 2 ^ k := by omega
  unfold RayTracingPipeline.alignup roundUp
  rw [e1, e2, e3]
  exact land_mask_eq _ k (by omega) hk

theorem roundUp_dvd (s a : Nat) : a ∣ roundUp s a := Dvd.intro_left _ rfl

theorem le_roundUp (s a : Nat) (ha : 1 ≤ a) : s ≤ roundUp s a := by
  unfold roundUp
  have h := Nat.div_add_mod (s + a - 1) a
  have h2 := Nat.mod_lt (s + a - 1) (show 0 < a by omega)
  rw [Nat.mul_comm] at h
  omega

theorem roundUp_lt (s a : Nat) (ha : 1 ≤ a) : roundUp s a < s + a := by
  unfold roundUp
  have h := Nat.div_add_mod (s + a - 1) a
  rw [Nat.mul_comm] at h
  omega

namespace RayTracingPipeline

/-- What `createSBT` computes when no sum or product wraps. -/
theorem createSBT_eq (p : RayTracingProperties) (A : Nat) (h : p.Valid) :
    createSBT p A =
      { raygenSBT :=
          { deviceAddress := A,
            stride := roundUp (roundUp p.shaderGroupHandleSize p.shaderGroupHandleAlignment)
              p.shaderGroupBaseAlignment,
            size := roundUp (roundUp p.shaderGroupHandleSize p.shaderGroupHandleAlignment)
              p.shaderGroupBaseAlignment },
        missSBT :=
          { deviceAddress :=
              (A + roundUp (roundUp p.shaderGroupHandleSize p.shaderGroupHandleAlignment)
                p.shaderGroupBaseAlignment) % 2 ^ 64,
            stride := roundUp p.shaderGroupHandleSize p.shaderGroupHandleAlignment,
            size := roundUp (roundUp p.shaderGroupHandleSize p.shaderGroupHandleAlignment)
              p.shaderGroupBaseAlignment },
        hitSBT :=
          { deviceAddress :=
              (A + roundUp (roundUp p.shaderGroupHandleSize p.shaderGroupHandleAlignment)
                p.shaderGroupBaseAlignment +
               roundUp (roundUp p.shaderGroupHandleSize p.shaderGroupHandleAlignment)
                p.shaderGroupBaseAlignment) % 2 ^ 64,
            stride := roundUp p.shaderGroupHandleSize p.shaderGroupHandleAlignment,
            size := roundUp (3 * roundUp p.shaderGroupHandleSize p.shaderGroupHandleAlignment)
              p.shaderGroupBaseAlignment },
        callableSBT := {},
        dataSize := 5 * p.shaderGroupHandleSize,
        sbtSize :=
          roundUp (roundUp p.shaderGroupHandleSize p.shaderGroupHandleAlignment)
            p.shaderGroupBaseAlignment +
          roundUp (roundUp p.shaderGroupHandleSize p.shaderGroupHandleAlignment)
            p.shaderGroupBaseAlignment +
          roundUp (3 * roundUp p.shaderGroupHandleSize p.shaderGroupHandleAlignment)
            p.shaderGroupBaseAlignment,
        copies :=
          [{ dst := 0, src := 0, size := p.shaderGroupHandleSize },
           { dst := roundUp (roundUp p.shaderGroupHandleSize p.shaderGroupHandleAlignment)
               p.shaderGroupBaseAlignment,
             src := p.shaderGroupHandleSize, size := p.shaderGroupHandleSize },
           { dst := roundUp (roundUp p.shaderGroupHandleSize p.shaderGroupHandleAlignment)
               p.shaderGroupBaseAlignment +
               roundUp (roundUp p.shaderGroupHandleSize p.shaderGroupHandleAlignment)
               p.shaderGroupBaseAlignment,
             src := 2 * p.shaderGroupHandleSize, size := p.shaderGroupHandleSize },
           { dst := roundUp (roundUp p.shaderGroupHandleSize p.shaderGroupHandleAlignment)
               p.shaderGroupBaseAlignment +
               roundUp (roundUp p.shaderGroupHandleSize p.shaderGroupHandleAlignment)
               p.shaderGroupBaseAlignment +
               roundUp p.shaderGroupHandleSize p.shaderGroupHandleAlignment,
             src := 3 * p.shaderGroupHandleSize, size := p.shaderGroupHandleSize },
           { dst := roundUp (roundUp p.shaderGroupHandleSize p.shaderGroupHandleAlignment)
               p.shaderGroupBaseAlignment +
               roundUp (roundUp p.shaderGroupHandleSize p.shaderGroupHandleAlignment)
               p.shaderGroupBaseAlignment +
               2 * roundUp p.shaderGroupHandleSize p.shaderGroupHandleAlignment,
             src := 4 * p.shaderGroupHandleSize, size := p.shaderGroupHandleSize }] } := by
  obtain ⟨hha, hba, h1, h2, h3, h4⟩ := h
  generalize hs : p.shaderGroupHandleSize = s at *
  generalize ha : p.shaderGroupHandleAlignment = a at *
  generalize hb : p.shaderGroupBaseAlignment = b at *
  have ha1 : 1 ≤ a := by obtain ⟨k, rfl⟩ := hha; exact Nat.one_le_two_pow
  have hb1 : 1 ≤ b := by obtain ⟨k, rfl⟩ := hba; exact Nat.one_le_two_pow
  have g1 := le_roundUp s a ha1
  have e1 : alignup s a = roundUp s a := alignup_eq_roundUp s a hha h2 h1
  generalize hq : roundUp s a = q at *
  have e2 : alignup q b = roundUp q b := alignup_eq_roundUp q b hba (by omega) (by omega)
  have e3 : alignup (3 * q) b = roundUp (3 * q) b :=
    alignup_eq_roundUp (3 * q) b hba (by omega) (by omega)
  have g2 := roundUp_lt q b hb1
  have g3 := roundUp_lt (3 * q) b hb1
  have m1 : (1 * q) % 2 ^ 32 = q := by omega
  have m3 : (3 * q) % 2 ^ 32 = 3 * q := by omega
  have m5 : ((1 + 1 + 3) % 2 ^ 32 * s) % 2 ^ 32 = 5 * s := by omega
  have c0 : (0 * s) % 2 ^ 32 = 0 := by omega
  have c1 : ((1 + 0) * s) % 2 ^ 32 = s := by omega
  have c2 : ((1 + 1 + 0) * s) % 2 ^ 32 = 2 * s := by omega
  have c3 : ((1 + 1 + 1) * s) % 2 ^ 32 = 3 * s := by omega
  have c4 : ((1 + 1 + 2) * s) % 2 ^ 32 = 4 * s := by omega
  have z : (roundUp q b + roundUp q b + roundUp (3 * q) b + 0) % 2 ^ 64 =
      roundUp q b + roundUp q b + roundUp (3 * q) b := by omega
  simp only [createSBT, hs, ha, hb, e1, e2, e3]
  simp only [m1, m3, e2, e3, m5, z]
  simp only [List.range_succ, List.range_zero, List.map_append, List.map_cons, List.map_nil,
    List.nil_append, List.cons_append]
  rw [c0, c1, c2, c3, c4, Nat.zero_mul, Nat.one_mul, Nat.add_zero, Nat.add_zero]

end RayTracingPipeline

namespace RayTracingProperties

theorem typical_valid : typical.Valid :=
  ⟨⟨5, rfl⟩, ⟨6, rfl⟩, by decide, by decide, by decide, by decide⟩

end RayTracingProperties

open RayTracingPipeline

/-- C22. For all limits with power-of-two handle and base alignment, handle size at
least 1 and no 32-bit overflow, and every buffer address at which the table fits below
`2^64`: `createSBT` sets `raygen.stride = raygen.size`; `miss.stride` and `hit.stride`
are the handle size rounded up to the handle alignment, the least multiple of the
alignment that is not below the handle size; the sizes of the ray-generation, miss, hit
and callable regions are multiples of the base alignment, and the first three hold 1, 1
and 3 handles at the region stride; the ray-generation region starts at the buffer
address, the miss region at its end, the hit region at the end of the miss region, and
the hit region ends with the buffer; the callable region is left as initialised, with
size, stride and device address 0; the buffer size is the sum of the four region sizes. -/
theorem createSBT_regions_aligned_and_contiguous (p : RayTracingProperties) (sbtAddress : Nat)
    (h : p.Valid) (hfit : sbtAddress + (createSBT p sbtAddress).sbtSize ≤ 2 ^ 64) :
    (createSBT p sbtAddress).raygenSBT.stride = (createSBT p sbtAddress).raygenSBT.size ∧
    (createSBT p sbtAddress).missSBT.stride =
      roundUp p.shaderGroupHandleSize p.shaderGroupHandleAlignment ∧
    (createSBT p sbtAddress).hitSBT.stride =
      roundUp p.shaderGroupHandleSize p.shaderGroupHandleAlignment ∧
    (p.shaderGroupHandleAlignment ∣ roundUp p.shaderGroupHandleSize p.shaderGroupHandleAlignment ∧
      p.shaderGroupHandleSize ≤ roundUp p.shaderGroupHandleSize p.shaderGroupHandleAlignment ∧
      roundUp p.shaderGroupHandleSize p.shaderGroupHandleAlignment <
        p.shaderGroupHandleSize + p.shaderGroupHandleAlignment) ∧
    (p.shaderGroupBaseAlignment ∣ (createSBT p sbtAddress).raygenSBT.size ∧
      p.shaderGroupBaseAlignment ∣ (createSBT p sbtAddress).missSBT.size ∧
      p.shaderGroupBaseAlignment ∣ (createSBT p sbtAddress).hitSBT.size ∧
      p.shaderGroupBaseAlignment ∣ (createSBT p sbtAddress).callableSBT.size) ∧
    (p.shaderGroupHandleSize ≤ (createSBT p sbtAddress).raygenSBT.stride ∧
      1 * (createSBT p sbtAddress).raygenSBT.stride ≤ (createSBT p sbtAddress).raygenSBT.size ∧
      p.shaderGroupHandleSize ≤ (createSBT p sbtAddress).missSBT.stride ∧
      1 * (createSBT p sbtAddress).missSBT.stride ≤ (createSBT p sbtAddress).missSBT.size ∧
      p.shaderGroupHandleSize ≤ (createSBT p sbtAddress).hitSBT.stride ∧
      3 * (createSBT p sbtAddress).hitSBT.stride ≤ (createSBT p sbtAddress).hitSBT.size) ∧
    ((createSBT p sbtAddress).raygenSBT.deviceAddress = sbtAddress ∧
      (createSBT p sbtAddress).missSBT.deviceAddress =
        sbtAddress + (createSBT p sbtAddress).raygenSBT.size ∧
      (createSBT p sbtAddress).hitSBT.deviceAddress =
        sbtAddress + (createSBT p sbtAddress).raygenSBT.size +
          (createSBT p sbtAddress).missSBT.size ∧
      (createSBT p sbtAddress).hitSBT.deviceAddress + (createSBT p sbtAddress).hitSBT.size =
        sbtAddress + (createSBT p sbtAddress).sbtSize) ∧
    (createSBT p sbtAddress).callableSBT = { deviceAddress := 0, stride := 0, size := 0 } ∧
    (createSBT p sbtAddress).sbtSize =
      (createSBT p sbtAddress).raygenSBT.size + (createSBT p sbtAddress).missSBT.size +
        (createSBT p sbtAddress).hitSBT.size + (createSBT p sbtAddress).callableSBT.size := by
  rw [createSBT_eq p sbtAddress h] at hfit ⊢
  obtain ⟨hha, hba, h1, h2, h3, h4⟩ := h
  have ha1 : 1 ≤ p.shaderGroupHandleAlignment := by
    obtain ⟨k, hk⟩ := hha; rw [hk]; exact Nat.one_le_two_pow
  have hb1 : 1 ≤ p.shaderGroupBaseAlignment := by
    obtain ⟨k, hk⟩ := hba; rw [hk]; exact Nat.one_le_two_pow
  have g1 := le_roundUp p.shaderGroupHandleSize p.shaderGroupHandleAlignment ha1
  have g2 := roundUp_lt p.shaderGroupHandleSize p.shaderGroupHandleAlignment ha1
  have g3 := le_roundUp (roundUp p.shaderGroupHandleSize p.shaderGroupHandleAlignment)
    p.shaderGroupBaseAlignment hb1
  have g4 := le_roundUp (3 * roundUp p.shaderGroupHandleSize p.shaderGroupHandleAlignment)
    p.shaderGroupBaseAlignment hb1
  simp only at hfit ⊢
  refine ⟨trivial, trivial, trivial, ⟨roundUp_dvd _ _, g1, g2⟩,
    ⟨roundUp_dvd _ _, roundUp_dvd _ _, roundUp_dvd _ _, Nat.dvd_zero _⟩,
    ⟨by omega, by omega, by omega, by omega, by omega, by omega⟩,
    ⟨trivial, by omega, by omega, by omega⟩, trivial, by omega⟩

/-- C22, at concrete limits: handles of 32 bytes aligned to 32, regions aligned to 64, the
buffer at address 65536. -/
theorem createSBT_regions_aligned_and_contiguous_witness :
    (createSBT RayTracingProperties.typical 65536).raygenSBT =
      { deviceAddress := 65536, stride := 64, size := 64 } ∧
    (createSBT RayTracingProperties.typical 65536).missSBT.stride = 32 ∧
    (createSBT RayTracingProperties.typical 65536).hitSBT.deviceAddress =
      65536 + (createSBT RayTracingProperties.typical 65536).raygenSBT.size +
        (createSBT RayTracingProperties.typical 65536).missSBT.size :=
  ⟨by decide,
    (createSBT_regions_aligned_and_contiguous RayTracingProperties.typical 65536
      RayTracingProperties.typical_valid (by decide)).2.1.trans (by decide),
    (createSBT_regions_aligned_and_contiguous RayTracingProperties.typical 65536
      RayTracingProperties.typical_valid (by decide)).2.2.2.2.2.2.1.2.2.1⟩

/-- With handles of 32 bytes aligned to 32, regions aligned to 64 and the buffer at address
65536, the three regions before the callable region have the sizes 64, 64 and 128, and the
device address of the callable region is 0, not `65536 + 64 + 64 + 128`. -/
theorem createSBT_callable_region_has_no_address :
    RayTracingProperties.typical.shaderGroupHandleAlignment = 2 ^ 5 ∧
    RayTracingProperties.typical.shaderGroupBaseAlignment = 2 ^ 6 ∧
    (createSBT RayTracingProperties.typical 65536).raygenSBT.size = 64 ∧
    (createSBT RayTracingProperties.typical 65536).missSBT.size = 64 ∧
    (createSBT RayTracingProperties.typical 65536).hitSBT.size = 128 ∧
    (createSBT RayTracingProperties.typical 65536).callableSBT.deviceAddress = 0 ∧
    (createSBT RayTracingProperties.typical 65536).callableSBT.deviceAddress ≠
      65536 + (createSBT RayTracingProperties.typical 65536).raygenSBT.size +
        (createSBT RayTracingProperties.typical 65536).missSBT.size +
        (createSBT RayTracingProperties.typical 65536).hitSBT.size := by
  decide

/-- C23. Under the same conditions on the limits, `createSBT` makes five copies of
`handleSize` bytes each: handle 0 to offset 0 of the mapped buffer, handle 1 to
`raygen.size`, handles 2, 3, 4 to `raygen.size + miss.size + c * hit.stride` for
`c = 0, 1, 2`; handle `i` is read at offset `i * handleSize` of the vector `handles`.
The first destination range lies in the ray-generation region, the second in the miss
region, the last three in the hit region; the five destination ranges are pairwise
disjoint and lie inside `[0, sbtSize)`; every source range lies inside the
`handleCount * handleSize = 5 * handleSize` bytes of `handles`. -/
theorem createSBT_copies_stay_in_their_regions (p : RayTracingProperties) (sbtAddress : Nat)
    (h : p.Valid) :
    (createSBT p sbtAddress).copies =
      [{ dst := 0, src := 0 * p.shaderGroupHandleSize, size := p.shaderGroupHandleSize },
       { dst := (createSBT p sbtAddress).raygenSBT.size, src := 1 * p.shaderGroupHandleSize,
         size := p.shaderGroupHandleSize },
       { dst := (createSBT p sbtAddress).raygenSBT.size + (createSBT p sbtAddress).missSBT.size +
           0 * (createSBT p sbtAddress).hitSBT.stride,
         src := 2 * p.shaderGroupHandleSize, size := p.shaderGroupHandleSize },
       { dst := (createSBT p sbtAddress).raygenSBT.size + (createSBT p sbtAddress).missSBT.size +
           1 * (createSBT p sbtAddress).hitSBT.stride,
         src := 3 * p.shaderGroupHandleSize, size := p.shaderGroupHandleSize },
       { dst := (createSBT p sbtAddress).raygenSBT.size + (createSBT p sbtAddress).missSBT.size +
           2 * (createSBT p sbtAddress).hitSBT.stride,
         src := 4 * p.shaderGroupHandleSize, size := p.shaderGroupHandleSize }] ∧
    (∀ c ∈ (createSBT p sbtAddress).copies.take 1,
      c.dst + c.size ≤ (createSBT p sbtAddress).raygenSBT.size) ∧
    (∀ c ∈ ((createSBT p sbtAddress).copies.drop 1).take 1,
      (createSBT p sbtAddress).raygenSBT.size ≤ c.dst ∧
      c.dst + c.size ≤
        (createSBT p sbtAddress).raygenSBT.size + (createSBT p sbtAddress).missSBT.size) ∧
    (∀ c ∈ (createSBT p sbtAddress).copies.drop 2,
      (createSBT p sbtAddress).raygenSBT.size + (createSBT p sbtAddress).missSBT.size ≤ c.dst ∧
      c.dst + c.size ≤
        (createSBT p sbtAddress).raygenSBT.size + (createSBT p sbtAddress).missSBT.size +
          (createSBT p sbtAddress).hitSBT.size) ∧
    (createSBT p sbtAddress).copies.Pairwise HandleCopy.disjointFrom ∧
    (∀ c ∈ (createSBT p sbtAddress).copies,
      c.size = p.shaderGroupHandleSize ∧ c.dst + c.size ≤ (createSBT p sbtAddress).sbtSize ∧
      c.src + c.size ≤ (createSBT p sbtAddress).dataSize) ∧
    (createSBT p sbtAddress).dataSize = 5 * p.shaderGroupHandleSize := by
  rw [createSBT_eq p sbtAddress h]
  obtain ⟨hha, hba, h1, h2, h3, h4⟩ := h
  have ha1 : 1 ≤ p.shaderGroupHandleAlignment := by
    obtain ⟨k, hk⟩ := hha; rw [hk]; exact Nat.one_le_two_pow
  have hb1 : 1 ≤ p.shaderGroupBaseAlignment := by
    obtain ⟨k, hk⟩ := hba; rw [hk]; exact Nat.one_le_two_pow
  have g1 := le_roundUp p.shaderGroupHandleSize p.shaderGroupHandleAlignment ha1
  have g3 := le_roundUp (roundUp p.shaderGroupHandleSize p.shaderGroupHandleAlignment)
    p.shaderGroupBaseAlignment hb1
  have g4 := le_roundUp (3 * roundUp p.shaderGroupHandleSize p.shaderGroupHandleAlignment)
    p.shaderGroupBaseAlignment hb1
  generalize roundUp (3 * roundUp p.shaderGroupHandleSize p.shaderGroupHandleAlignment)
    p.shaderGroupBaseAlignment = H at *
  generalize roundUp (roundUp p.shaderGroupHandleSize p.shaderGroupHandleAlignment)
    p.shaderGroupBaseAlignment = R at *
  generalize roundUp p.shaderGroupHandleSize p.shaderGroupHandleAlignment = q at *
  generalize p.shaderGroupHandleSize = s at *
  simp only [List.take, List.drop, List.mem_cons, List.mem_singleton, List.not_mem_nil,
    or_false, forall_eq_or_imp, forall_eq, List.pairwise_cons, HandleCopy.disjointFrom,
    Nat.zero_mul, Nat.one_mul, Nat.add_zero, Nat.zero_add]
  refine ⟨trivial, ?_, ?_, ?_, ?_, ?_, trivial⟩
  · omega
  · omega
  · omega
  · simp only [List.Pairwise.nil, and_true, IsEmpty.forall_iff, implies_true]
    omega
  · simp only [true_and]
    omega

/-- C23, at concrete limits: handles of 32 bytes aligned to 32, regions aligned to 64. -/
theorem createSBT_copies_stay_in_their_regions_witness :
    (createSBT RayTracingProperties.typical 65536).copies =
      [{ dst := 0, src := 0, size := 32 }, { dst := 64, src := 32, size := 32 },
       { dst := 128, src := 64, size := 32 }, { dst := 160, src := 96, size := 32 },
       { dst := 192, src := 128, size := 32 }] ∧
    (createSBT RayTracingProperties.typical 65536).copies.Pairwise HandleCopy.disjointFrom :=
  ⟨by decide,
    (createSBT_copies_stay_in_their_regions RayTracingProperties.typical 65536
      RayTracingProperties.typical_valid).2.2.2.2.1⟩

/-! ## The objects in the recording of a strategy -/

theorem flatMap_singleton_map {α β : Type} (l : List α) (f : α → β) :
    (l.flatMap fun a => [f a]) = l.map f := by
  induction l with
  | nil => rfl
  | cons a l ih => simp [List.flatMap_cons, ih]

theorem flatMap_nil_const {α β : Type} (l : List α) :
    (l.flatMap fun _ => ([] : List β)) = [] := by
  induction l with
  | nil => rfl
  | cons a l ih => simp [List.flatMap_cons, ih]

theorem modelMatrixOffset_eq (sz n i : Nat) (h : (n - 1) * sz < 2 ^ 32) (hi : i < n) :
    modelMatrixOffset sz i = i * sz := by
  unfold modelMatrixOffset
  apply Nat.mod_eq_of_lt
  have : i * sz ≤ (n - 1) * sz := Nat.mul_le_mul_right _ (by omega)
  omega

namespace ForwardRenderPass

theorem render_writes (sz cf : Nat) (models : List AssetData) :
    (render sz cf models).filterMap Op.modelMatrixWrite? =
      models.enum.map (fun p => (cf, modelMatrixOffset sz p.1, p.1)) := by
  simp only [render, List.filterMap_append, List.filterMap_flatMap, drawModel,
    List.filterMap_cons, List.filterMap_nil, Op.modelMatrixWrite?, List.nil_append,
    List.append_nil]
  exact flatMap_singleton_map _ _

theorem render_offsets (sz cf : Nat) (models : List AssetData) :
    (render sz cf models).filterMap Op.dynamicOffset? =
      models.enum.map (fun p => modelMatrixOffset sz p.1) := by
  simp only [render, List.filterMap_append, List.filterMap_flatMap, drawModel,
    List.filterMap_cons, List.filterMap_nil, Op.dynamicOffset?, List.nil_append,
    List.append_nil]
  exact flatMap_singleton_map _ _

theorem render_draws (sz cf : Nat) (models : List AssetData) :
    (render sz cf models).filterMap Op.drawIndexed? =
      models.map (fun m => m.indexCount % 2 ^ 32) := by
  simp only [render, List.filterMap_append, List.filterMap_flatMap, drawModel,
    List.filterMap_cons, List.filterMap_nil, Op.drawIndexed?, List.nil_append,
    List.append_nil]
  rw [flatMap_singleton_map]
  have h : (fun a : Nat × AssetData => a.2.indexCount % 2 ^ 32) =
      (fun m : AssetData => m.indexCount % 2 ^ 32) ∘ Prod.snd := rfl
  rw [h, ← List.map_map, List.enum_map_snd]

theorem drawModel_mem_render (sz cf : Nat) (models : List AssetData) (i : Nat) (m : AssetData)
    (h : models[i]? = some m) : ∀ o ∈ drawModel sz cf i m, o ∈ render sz cf models := by
  intro o ho
  simp only [render, List.mem_append, List.mem_flatMap]
  exact Or.inl (Or.inr ⟨(i, m), List.mk_mem_enum_iff_getElem?.mpr h, ho⟩)

end ForwardRenderPass

/-- C24, as amended. For every object list of length `n ≤ modelCount` whose last offset
`(n - 1) * sizeof(TransformMatrixBuffer)` is below `2^32` and whose index counts are below
`2^32`, and every slot: `ForwardRenderPass::render` writes the model matrix of object `i`
at byte offset `i * sizeof(TransformMatrixBuffer)` of the buffer of the slot, once per
object and in list order, and binds the same value as the dynamic offset; the offset is
the one `AssetData::updateModelTransformMatrix` returns; the regions of distinct objects
are disjoint and lie inside the `sizeof(TransformMatrixBuffer) * modelCount` bytes of the
buffer; and the indexed draws recorded are one per object, in list order, each with the
index count of its object. -/
theorem forward_render_offsets_and_draws (sz modelCount cf : Nat) (models : List AssetData)
    (hn : models.length ≤ modelCount) (hfit : (models.length - 1) * sz < 2 ^ 32)
    (hidx : ∀ m ∈ models, m.indexCount < 2 ^ 32) :
    (ForwardRenderPass.render sz cf models).filterMap Op.modelMatrixWrite? =
      models.enum.map (fun p => (cf, p.1 * sz, p.1)) ∧
    (ForwardRenderPass.render sz cf models).filterMap Op.dynamicOffset? =
      (List.range models.length).map (fun i => i * sz) ∧
    (ForwardRenderPass.render sz cf models).filterMap Op.drawIndexed? =
      models.map (fun m => m.indexCount) ∧
    (∀ i m, models[i]? = some m →
      (∀ o ∈ ForwardRenderPass.drawModel sz cf i m, o ∈ ForwardRenderPass.render sz cf models) ∧
      (ForwardRenderPass.drawModel sz cf i m).head? = some (Op.memcpyModelMatrix cf (i * sz) i) ∧
      Op.record cf (Cmd.vkCmdBindDescriptorSets 0 (DescriptorSet.commonModelMatrix cf)
        (some (i * sz))) ∈ ForwardRenderPass.drawModel sz cf i m ∧
      (ForwardRenderPass.drawModel sz cf i m).getLast? =
        some (Op.record cf (Cmd.vkCmdDrawIndexed m.indexCount)) ∧
      (AssetData.updateModelTransformMatrix sz i cf).2 = i * sz ∧
      i * sz + sz ≤ sz * modelCount ∧
      ∀ j, j < models.length → j ≠ i → i * sz + sz ≤ j * sz ∨ j * sz + sz ≤ i * sz) := by
  have hoff : ∀ p ∈ models.enum, modelMatrixOffset sz p.1 = p.1 * sz := fun p hp =>
    modelMatrixOffset_eq sz models.length p.1 hfit (List.fst_lt_of_mem_enum hp)
  refine ⟨?_, ?_, ?_, ?_⟩
  · rw [ForwardRenderPass.render_writes]
    exact List.map_congr_left fun p hp => by rw [hoff p hp]
  · rw [ForwardRenderPass.render_offsets, ← List.enum_map_fst, List.map_map]
    exact List.map_congr_left fun p hp => by rw [Function.comp, hoff p hp]
  · rw [ForwardRenderPass.render_draws]
    exact List.map_congr_left fun m hm => Nat.mod_eq_of_lt (hidx m hm)
  · intro i m hm
    have hi : i < models.length := by
      rcases Nat.lt_or_ge i models.length with h | h
      · exact h
      · rw [List.getElem?_eq_none h] at hm; cases hm
    have hmem : m ∈ models := List.mem_iff_getElem?.mpr ⟨i, hm⟩
    have hc : m.indexCount % 2 ^ 32 = m.indexCount := Nat.mod_eq_of_lt (hidx m hmem)
    have ho := modelMatrixOffset_eq sz models.length i hfit hi
    have hin : (i + 1) * sz ≤ modelCount * sz := Nat.mul_le_mul_right _ (by omega)
    rw [Nat.succ_mul] at hin
    refine ⟨ForwardRenderPass.drawModel_mem_render sz cf models i m hm, ?_, ?_, ?_, ?_, ?_, ?_⟩
    · simp [ForwardRenderPass.drawModel, ho]
    · simp [ForwardRenderPass.drawModel, ho]
    · simp only [ForwardRenderPass.drawModel, hc]
      rfl
    · simpa [AssetData.updateModelTransformMatrix, modelMatrixOffset] using ho
    · rw [Nat.mul_comm sz modelCount]; exact hin
    · intro j _ hji
      rcases Nat.lt_or_gt_of_ne hji with h | h
      · have := Nat.mul_le_mul_right sz (show j + 1 ≤ i from h)
        rw [Nat.succ_mul] at this
        exact Or.inr this
      · have := Nat.mul_le_mul_right sz (show i + 1 ≤ j from h)
        rw [Nat.succ_mul] at this
        exact Or.inl this

/-- C24, at a concrete list: two objects, matrices of 64 bytes, slot 1. -/
theorem forward_render_offsets_and_draws_witness :
    (ForwardRenderPass.render 64 1 twoObjects).filterMap Op.modelMatrixWrite? =
      [(1, 0, 0), (1, 64, 1)] ∧
    (ForwardRenderPass.render 64 1 twoObjects).filterMap Op.dynamicOffset? = [0, 64] ∧
    (ForwardRenderPass.render 64 1 twoObjects).filterMap Op.drawIndexed? = [36, 6] := by
  obtain ⟨h1, h2, h3, -⟩ :=
    forward_render_offsets_and_draws 64 2 1 twoObjects (by decide) (by decide) (by decide)
  exact ⟨h1.trans (by decide), h2.trans (by decide), h3.trans (by decide)⟩

/-- With matrices of 64 bytes and `2^26 + 1` objects, in a buffer sized for that many,
`ForwardRenderPass::render` writes the matrix of object `2^26` at byte offset 0 and binds
0 as its dynamic offset, where it also writes the matrix of object 0: the offset
`2^26 * 64` does not fit the `uint32_t offset`. And for one object with `2^32 + 3`
indices it records an indexed draw of 3 indices: the index count does not fit the
`uint32_t` argument of `vkCmdDrawIndexed`. -/
theorem forward_render_uint32_arguments_wrap :
    manyObjects.length ≤ 2 ^ 26 + 1 ∧
    Op.memcpyModelMatrix 0 0 (2 ^ 26) ∈ ForwardRenderPass.render 64 0 manyObjects ∧
    Op.memcpyModelMatrix 0 0 0 ∈ ForwardRenderPass.render 64 0 manyObjects ∧
    2 ^ 26 * 64 ≠ 0 ∧
    (ForwardRenderPass.render 64 0 hugeObject).filterMap Op.drawIndexed? = [3] ∧
    hugeObject.map (fun m => m.indexCount) = [2 ^ 32 + 3] := by
  have e : modelMatrixOffset 64 (2 ^ 26) = 0 := by decide
  have e0 : modelMatrixOffset 64 0 = 0 := by decide
  have g : manyObjects[2 ^ 26]? = some { indexCount := 3 } := by
    unfold manyObjects
    rw [List.getElem?_replicate]
    exact if_pos (by decide)
  have g0 : manyObjects[0]? = some { indexCount := 3 } := by
    unfold manyObjects
    rw [List.getElem?_replicate]
    exact if_pos (by decide)
  refine ⟨?_, ?_, ?_, by decide, by decide, by decide⟩
  · unfold manyObjects
    rw [List.length_replicate]
  · apply ForwardRenderPass.drawModel_mem_render 64 0 manyObjects (2 ^ 26) _ g
    rw [ForwardRenderPass.drawModel, e]
    exact List.mem_cons_self _ _
  · apply ForwardRenderPass.drawModel_mem_render 64 0 manyObjects 0 _ g0
    rw [ForwardRenderPass.drawModel, e0]
    exact List.mem_cons_self _ _

theorem shadow_draws_flatMap_isNextSubpass (sz cf : Nat) (l : List (Nat × AssetData)) :
    ∀ o ∈ l.flatMap (fun im => BaseShadowRenderPass.drawModel sz cf im.1 im.2),
      o.isNextSubpass = false ∧ o.beginRenderPass? = none := by
  intro o ho
  rw [List.mem_flatMap] at ho
  obtain ⟨im, -, ho⟩ := ho
  revert o
  simp [BaseShadowRenderPass.drawModel, AssetData.updateModelTransformMatrix,
    Op.isNextSubpass, Op.beginRenderPass?]

theorem generateShadowMap_control (sz N cf : Nat) (models : List AssetData)
    (shadowLayout : VkImageLayout) :
    ∀ o ∈ (BaseShadowRenderPass.generateShadowMap sz N cf models shadowLayout).1,
      o.isNextSubpass = false ∧ o.beginRenderPass? ≠ some RenderPassHandle.deferred := by
  intro o ho
  simp only [BaseShadowRenderPass.generateShadowMap, List.mem_append] at ho
  rcases ho with (((ho | ho) | ho) | ho) | ho
  · split_ifs at ho
    · revert o; simp [BaseShadowRenderPass.resetLayout, Op.isNextSubpass, Op.beginRenderPass?]
    · cases ho
  · simp only [BaseShadowRenderPass.updateLightMatrix, List.mem_map] at ho
    obtain ⟨i, -, rfl⟩ := ho
    simp [Op.isNextSubpass, Op.beginRenderPass?]
  · revert o; simp [Op.isNextSubpass, Op.beginRenderPass?]
  · have := shadow_draws_flatMap_isNextSubpass sz cf _ o ho
    simp [this.1, this.2]
  · revert o; simp [Op.isNextSubpass, Op.beginRenderPass?]

theorem deferred_draws_flatMap_control (sz cf : Nat) (l : List (Nat × AssetData)) :
    ∀ o ∈ l.flatMap (fun im => DeferredRenderPass.drawModel sz cf im.1 im.2),
      o.isRenderPassControl = false := by
  intro o ho
  rw [List.mem_flatMap] at ho
  obtain ⟨im, -, ho⟩ := ho
  revert o
  simp [DeferredRenderPass.drawModel, Op.isRenderPassControl]

theorem deferred_draws_flatMap_drawIndexed (sz cf : Nat) (models : List AssetData) :
    (models.enum.flatMap (fun im => DeferredRenderPass.drawModel sz cf im.1 im.2)).filterMap
      Op.drawIndexed? = models.map (fun m => m.indexCount % 2 ^ 32) := by
  simp only [List.filterMap_flatMap, DeferredRenderPass.drawModel,
    List.filterMap_cons, List.filterMap_nil, Op.drawIndexed?]
  rw [flatMap_singleton_map]
  have h : (fun a : Nat × AssetData => a.2.indexCount % 2 ^ 32) =
      (fun m : AssetData => m.indexCount % 2 ^ 32) ∘ Prod.snd := rfl
  rw [h, ← List.map_map, List.enum_map_snd]

theorem deferred_draws_flatMap_draw (sz cf : Nat) (l : List (Nat × AssetData)) :
    (l.flatMap (fun im => DeferredRenderPass.drawModel sz cf im.1 im.2)).filterMap
      Op.draw? = [] := by
  simp only [List.filterMap_flatMap, DeferredRenderPass.drawModel,
    List.filterMap_cons, List.filterMap_nil, Op.draw?]
  exact flatMap_nil_const _

theorem deferred_draws_flatMap_pipeline (sz cf : Nat) (l : List (Nat × AssetData)) :
    (l.flatMap (fun im => DeferredRenderPass.drawModel sz cf im.1 im.2)).filterMap
      Op.pipeline? = [] := by
  simp only [List.filterMap_flatMap, DeferredRenderPass.drawModel,
    List.filterMap_cons, List.filterMap_nil, Op.pipeline?]
  exact flatMap_nil_const _

/-- C25. For every object list, what `DeferredRenderPass::render` records is the shadow-map
generation, which neither begins the deferred render pass nor moves to a next subpass,
then `vkCmdBeginRenderPass` of the deferred render pass, three segments separated by two
`vkCmdNextSubpass` (the subpass count minus one), and `vkCmdEndRenderPass`; no segment
begins, continues or ends a render pass; segment `j` binds exactly the pipeline that
`createGraphicsPipeline` created for subpass index `j`; segment 0 records one indexed draw
per object, in list order and with the index count of the object converted to `uint32_t`,
and no other draw; segments 1 and 2 record one draw of 4 vertices each and no indexed
draw. -/
theorem deferred_render_shadow_then_three_subpasses (sz N cf : Nat) (models : List AssetData)
    (shadowLayout : VkImageLayout) :
    ∃ seg0 seg1 seg2 : List Op,
      (DeferredRenderPass.render sz N cf models shadowLayout).1 =
        (BaseShadowRenderPass.generateShadowMap sz N cf models shadowLayout).1 ++
          ([Op.record cf (Cmd.vkCmdBeginRenderPass RenderPassHandle.deferred 7)] ++ seg0 ++
           [Op.record cf Cmd.vkCmdNextSubpass] ++ seg1 ++
           [Op.record cf Cmd.vkCmdNextSubpass] ++ seg2 ++
           [Op.record cf Cmd.vkCmdEndRenderPass]) ∧
      (∀ o ∈ (BaseShadowRenderPass.generateShadowMap sz N cf models shadowLayout).1,
        o.isNextSubpass = false ∧ o.beginRenderPass? ≠ some RenderPassHandle.deferred) ∧
      (∀ o ∈ seg0 ++ seg1 ++ seg2, o.isRenderPassControl = false) ∧
      2 = DeferredRenderPass.subpassDescriptions.length - 1 ∧
      seg0.filterMap Op.pipeline? = DeferredRenderPass.pipelinesOfSubpass 0 ∧
      seg1.filterMap Op.pipeline? = DeferredRenderPass.pipelinesOfSubpass 1 ∧
      seg2.filterMap Op.pipeline? = DeferredRenderPass.pipelinesOfSubpass 2 ∧
      seg0.filterMap Op.drawIndexed? = models.map (fun m => m.indexCount % 2 ^ 32) ∧
      (seg0.filterMap Op.drawIndexed?).length = models.length ∧
      seg0.filterMap Op.draw? = [] ∧
      seg1.filterMap Op.drawIndexed? = [] ∧ seg1.filterMap Op.draw? = [4] ∧
      seg2.filterMap Op.drawIndexed? = [] ∧ seg2.filterMap Op.draw? = [4] := by
  refine ⟨[Op.record cf Cmd.vkCmdSetViewport, Op.record cf Cmd.vkCmdSetScissor,
      Op.record cf (Cmd.vkCmdBindPipeline PipelineHandle.deferredGBuffer)] ++
      models.enum.flatMap (fun im => DeferredRenderPass.drawModel sz cf im.1 im.2),
    [Op.record cf (Cmd.vkCmdBindPipeline PipelineHandle.deferredSsao),
     Op.record cf (Cmd.vkCmdBindDescriptorSets 0 (DescriptorSet.commonCameraMatrix cf) none),
     Op.record cf (Cmd.vkCmdBindDescriptorSets 1 (DescriptorSet.commonCamera cf) none),
     Op.record cf (Cmd.vkCmdBindDescriptorSets 2 (DescriptorSet.ssao cf) none),
     Op.record cf Cmd.vkCmdPushConstants,
     Op.record cf (Cmd.vkCmdDraw 4)],
    [Op.record cf (Cmd.vkCmdBindPipeline PipelineHandle.deferredLighting),
     Op.record cf (Cmd.vkCmdBindDescriptorSets 0 (DescriptorSet.commonCameraMatrix cf) none),
     Op.record cf (Cmd.vkCmdBindDescriptorSets 1 (DescriptorSet.commonCamera cf) none),
     Op.record cf (Cmd.vkCmdBindDescriptorSets 2 (DescriptorSet.commonLight cf) none),
     Op.record cf (Cmd.vkCmdBindDescriptorSets 3 (DescriptorSet.lighting cf) none),
     Op.record cf (Cmd.vkCmdBindDescriptorSets 4 (DescriptorSet.shadowMap cf) none),
     Op.record cf (Cmd.vkCmdBindDescriptorSets 5 (DescriptorSet.lightMatrix cf) none),
     Op.record cf (Cmd.vkCmdDraw 4)],
    ?_, generateShadowMap_control sz N cf models shadowLayout, ?_, by decide, ?_,
    by simp [Op.pipeline?, DeferredRenderPass.pipelinesOfSubpass,
      DeferredRenderPass.createGraphicsPipeline],
    by simp [Op.pipeline?, DeferredRenderPass.pipelinesOfSubpass,
      DeferredRenderPass.createGraphicsPipeline], ?_, ?_, ?_, by simp [Op.drawIndexed?],
    by simp [Op.draw?], by simp [Op.drawIndexed?], by simp [Op.draw?]⟩
  · simp [DeferredRenderPass.render, DeferredRenderPass.subpasses]
  · intro o ho
    rw [List.mem_append, List.mem_append, List.mem_append] at ho
    rcases ho with ((ho | ho) | ho) | ho
    · revert o; simp [Op.isRenderPassControl]
    · exact deferred_draws_flatMap_control sz cf _ o ho
    · revert o; simp [Op.isRenderPassControl]
    · revert o; simp [Op.isRenderPassControl]
  · rw [List.filterMap_append, deferred_draws_flatMap_pipeline]
    simp [Op.pipeline?, DeferredRenderPass.pipelinesOfSubpass,
      DeferredRenderPass.createGraphicsPipeline]
  · rw [List.filterMap_append, deferred_draws_flatMap_drawIndexed]
    simp [Op.drawIndexed?]
  · rw [List.filterMap_append, deferred_draws_flatMap_drawIndexed]
    simp [Op.drawIndexed?]
  · rw [List.filterMap_append, deferred_draws_flatMap_draw]
    simp [Op.draw?]

/-! ## Descriptor pools against the sets allocated from them -/

theorem allocatedDescriptors_append (t : VkDescriptorType)
    (a b : List (List VkDescriptorSetLayoutBinding)) :
    allocatedDescriptors t (a ++ b) = allocatedDescriptors t a + allocatedDescriptors t b := by
  simp [allocatedDescriptors]

theorem allocatedDescriptors_replicate (t : VkDescriptorType) (n : Nat)
    (l : List VkDescriptorSetLayoutBinding) :
    allocatedDescriptors t (List.replicate n l) = n * layoutDescriptors t l := by
  simp [allocatedDescriptors]

/-- C27. For every `N`, the sets `DeferredRenderPass::createDescriptorSets` allocates hold
`8 * N` input-attachment descriptors (2 in each of the `N` ssao sets and 6 in each of the
`N` lighting sets), and the pool of `createDescriptorPool` is created with at most `7 * N`
of them; the sets `GBufferRenderPass::createDescriptorSets` allocates hold `5 * N`
combined-image-sampler descriptors and its pool is created with none. At `N = 2` the
numbers are 16 against 14 and 10 against 0, while `maxSets` is 4 for 4 and for 2 sets. -/
theorem descriptor_pools_smaller_than_allocated_sets :
    (∀ N : Nat,
      allocatedDescriptors VkDescriptorType.INPUT_ATTACHMENT
        (DeferredRenderPass.createDescriptorSets N) = 8 * N ∧
      (DeferredRenderPass.createDescriptorPool N).descriptorCount
        VkDescriptorType.INPUT_ATTACHMENT ≤ 7 * N ∧
      allocatedDescriptors VkDescriptorType.COMBINED_IMAGE_SAMPLER
        (GBufferRenderPass.createDescriptorSets N) = 5 * N ∧
      (GBufferRenderPass.createDescriptorPool N).descriptorCount
        VkDescriptorType.COMBINED_IMAGE_SAMPLER = 0) ∧
    allocatedDescriptors VkDescriptorType.INPUT_ATTACHMENT
      (DeferredRenderPass.createDescriptorSets 2) = 16 ∧
    (DeferredRenderPass.createDescriptorPool 2).descriptorCount
      VkDescriptorType.INPUT_ATTACHMENT = 14 ∧
    (DeferredRenderPass.createDescriptorSets 2).length = 4 ∧
    (DeferredRenderPass.createDescriptorPool 2).maxSets = 4 ∧
    allocatedDescriptors VkDescriptorType.COMBINED_IMAGE_SAMPLER
      (GBufferRenderPass.createDescriptorSets 2) = 10 ∧
    (GBufferRenderPass.createDescriptorPool 2).descriptorCount
      VkDescriptorType.COMBINED_IMAGE_SAMPLER = 0 ∧
    (GBufferRenderPass.createDescriptorSets 2).length = 2 ∧
    (GBufferRenderPass.createDescriptorPool 2).maxSets = 4 := by
  refine ⟨fun N => ⟨?_, ?_, ?_, ?_⟩, by decide, by decide, by decide, by decide, by decide,
    by decide, by decide, by decide⟩
  · have h1 : layoutDescriptors VkDescriptorType.INPUT_ATTACHMENT
        DeferredRenderPass.ssaoInputLayoutBindings = 2 := by decide
    have h2 : layoutDescriptors VkDescriptorType.INPUT_ATTACHMENT
        DeferredRenderPass.lightingInputLayoutBindings = 6 := by decide
    rw [DeferredRenderPass.createDescriptorSets, allocatedDescriptors_append,
      allocatedDescriptors_replicate, allocatedDescriptors_replicate, h1, h2]
    omega
  · simp only [DeferredRenderPass.createDescriptorPool,
      VkDescriptorPoolCreateInfo.descriptorCount]
    simp
    have := Nat.mod_le (N * 7) 4294967296
    omega
  · have h1 : layoutDescriptors VkDescriptorType.COMBINED_IMAGE_SAMPLER
        GBufferRenderPass.layoutBindings = 5 := by decide
    rw [GBufferRenderPass.createDescriptorSets, allocatedDescriptors_replicate, h1]
    omega
  · simp [GBufferRenderPass.createDescriptorPool, VkDescriptorPoolCreateInfo.descriptorCount]

/-! ## The key callback and the bounds of the key array -/

theorem isKeyPressed_init (last : Nat) (key : Int) :
    InputManager.isKeyPressed last (InputManager.init last) key = .ok false := by
  unfold InputManager.isKeyPressed
  split_ifs with h
  · rfl
  · have h0 : 0 ≤ key := by omega
    have h1 : key.toNat < last := by omega
    simp [InputManager.read, InputManager.init, h0, h1]

/-- C30 fails on the code. For every value of `GLFW_KEY_LAST`, `GLFW_KEY_R` and `GLFW_KEY_P`
and a new input manager: `keyCallback` with the key `GLFW_KEY_UNKNOWN = -1`, on a press and
on a release, ends in an access of `keys` at index -1; with the key `GLFW_KEY_LAST`, on a
press and on a release, it ends in an access of `keys` at index `GLFW_KEY_LAST`, one past
the last element; and `isKeyPressed` accesses no element for these two keys and answers
false, in whatever state. -/
theorem keyCallback_indexes_keys_out_of_bounds (last keyR keyP : Nat) :
    RTGraphicsApp.keyCallback last keyR keyP { inputManager := InputManager.init last } (-1)
      KeyAction.GLFW_PRESS = .error (InputFault.outOfBounds (-1)) ∧
    RTGraphicsApp.keyCallback last keyR keyP { inputManager := InputManager.init last } (-1)
      KeyAction.GLFW_RELEASE = .error (InputFault.outOfBounds (-1)) ∧
    RTGraphicsApp.keyCallback last keyR keyP { inputManager := InputManager.init last } last
      KeyAction.GLFW_PRESS = .error (InputFault.outOfBounds last) ∧
    RTGraphicsApp.keyCallback last keyR keyP { inputManager := InputManager.init last } last
      KeyAction.GLFW_RELEASE = .error (InputFault.outOfBounds last) ∧
    (InputManager.init last).keys.length = last ∧
    ∀ m : InputManager, InputManager.isKeyPressed last m (-1) = .ok false ∧
      InputManager.isKeyPressed last m last = .ok false := by
  have hR : ((-1 : Int) = (keyR : Int)) = False := by
    apply eq_false; omega
  have hP : ((-1 : Int) = (keyP : Int)) = False := by
    apply eq_false; omega
  have hw : ∀ (m : InputManager) (v : Bool),
      m.keys.length = last → m.write (last : Int) v = .error (InputFault.outOfBounds last) := by
    intro m v hm
    simp [InputManager.write, hm]
  refine ⟨?_, ?_, ?_, ?_, by simp [InputManager.init], fun m => ⟨?_, ?_⟩⟩
  · simp [RTGraphicsApp.keyCallback, hR, hP, InputManager.keyPressed, InputManager.write,
      bind, Except.bind, pure, Except.pure]
  · simp [RTGraphicsApp.keyCallback, InputManager.keyReleased, InputManager.write,
      bind, Except.bind]
  · have hl : (InputManager.init last).keys.length = last := by simp [InputManager.init]
    simp only [RTGraphicsApp.keyCallback, isKeyPressed_init, InputManager.keyPressed]
    by_cases h1 : (last : Int) = (keyR : Int)
    · simp [h1, bind, Except.bind, pure, Except.pure]
      rw [← h1]; simp [hw _ _ hl]
    · by_cases h2 : (last : Int) = (keyP : Int)
      · simp [h1, h2, bind, Except.bind, pure, Except.pure]
        rw [← h2]; simp [hw _ _ hl]
      · simp [h1, h2, bind, Except.bind, pure, Except.pure, hw _ _ hl]
  · simp [RTGraphicsApp.keyCallback, InputManager.keyReleased, bind, Except.bind,
      hw _ _ (by simp [InputManager.init] : (InputManager.init last).keys.length = last)]
  · simp [InputManager.isKeyPressed]
  · simp [InputManager.isKeyPressed]

/-! ## Fences are waited on only when something signals them -/

theorem createFences_signaled (l : List Nat) (fences : List VkFence)
    (h : VulkanState.createFences { flags := [VkFenceCreateFlagBits.SIGNALED] } none l =
      .ok fences) :
    fences.length = l.length ∧ ∀ f ∈ fences, f.signaled = true := by
  induction l generalizing fences with
  | nil =>
    simp only [VulkanState.createFences, Except.ok.injEq] at h
    subst h
    simp
  | cons x l ih =>
    simp only [VulkanState.createFences] at h
    cases hl : VulkanState.createFences { flags := [VkFenceCreateFlagBits.SIGNALED] } none l with
    | error e => simp [hl] at h
    | ok fs =>
      simp only [hl, reduceCtorEq, if_false, Except.ok.injEq] at h
      subst h
      obtain ⟨h1, h2⟩ := ih fs hl
      refine ⟨by simp [h1], ?_⟩
      intro f hf
      rcases List.mem_cons.mp hf with rfl | hf
      · rfl
      · exact h2 f hf

theorem createSyncObjects_signaled (N : Nat) (fences : List VkFence)
    (h : VulkanState.createSyncObjects N none = .ok fences) :
    fences.length = N ∧ ∀ f ∈ fences, f.signaled = true := by
  have := createFences_signaled (List.range N) fences h
  simpa using this

theorem exists_first_of_mem {α : Type} (p : α → Bool) (l : List α) (h : ∃ x ∈ l, p x = true) :
    ∃ mid x post, l = mid ++ x :: post ∧ p x = true ∧ ∀ y ∈ mid, p y = false := by
  induction l with
  | nil => obtain ⟨x, hx, -⟩ := h; cases hx
  | cons a l ih =>
    cases ha : p a with
    | true => exact ⟨[], a, l, rfl, ha, fun y hy => by cases hy⟩
    | false =>
      obtain ⟨x, hx, hpx⟩ := h
      rcases List.mem_cons.mp hx with rfl | hx
      · rw [ha] at hpx; cases hpx
      · obtain ⟨mid, y, post, h1, h2, h3⟩ := ih ⟨x, hx, hpx⟩
        refine ⟨a :: mid, y, post, by rw [h1]; rfl, h2, ?_⟩
        intro z hz
        rcases List.mem_cons.mp hz with rfl | hz
        · exact ha
        · exact h3 z hz

namespace Watch

variable {α : Type}

/-- Every open obligation was opened by a call of the trace. -/
theorem mem_pending_opened (w : Watch α) (tr : List Event) (x : α) (h : x ∈ w.pending tr) :
    ∃ e ∈ tr, w.opens e = some x := by
  induction tr using List.reverseRecOn with
  | nil => cases h
  | append_singleton tr e ih =>
    rw [pending_append, List.foldl_cons, List.foldl_nil, mem_step] at h
    rcases h with ⟨h, -⟩ | h
    · obtain ⟨e', he', ho⟩ := ih h
      exact ⟨e', List.mem_append_left _ he', ho⟩
    · exact ⟨e, by simp, h⟩

/-- When no call opens an obligation that is open already, no obligation is open
twice. -/
theorem pending_nodup (w : Watch α) (needs : Event → α → Bool) (tr : List Event)
    (hn : ∀ e x, w.opens e = some x → needs e x = true) (h : w.Guarded needs tr) :
    (w.pending tr).Nodup := by
  induction tr using List.reverseRecOn with
  | nil => exact List.nodup_nil
  | append_singleton tr e ih =>
    obtain ⟨h1, h2⟩ := (guarded_snoc w needs tr e).mp h
    rw [pending_append, List.foldl_cons, List.foldl_nil]
    unfold step
    rw [List.nodup_append]
    refine ⟨(ih h1).filter _, ?_, ?_⟩
    · cases w.opens e <;> simp
    · intro a ha hb
      cases ho : w.opens e with
      | none => rw [ho] at hb; cases hb
      | some x =>
        rw [ho] at hb
        simp only [Option.toList, List.mem_singleton] at hb
        subst hb
        have := h2 a (List.mem_filter.mp ha).1
        rw [hn e a ho] at this
        cases this

/-- An obligation that a call opens and that is not open at the end of the trace was
closed by a later call; take the first. -/
theorem closed_after_open (w : Watch α) (pre post : List Event) (e : Event) (x : α)
    (ho : w.opens e = some x) (h : x ∉ w.pending (pre ++ e :: post)) :
    ∃ mid e' post', post = mid ++ e' :: post' ∧ w.closes e' x = true ∧
      ∀ y ∈ mid, w.closes y x = false := by
  apply exists_first_of_mem (fun y => w.closes y x) post
  by_contra hcon
  apply h
  apply mem_pending_of_open w pre post e x ho
  intro e' he'
  cases hc : w.closes e' x with
  | false => rfl
  | true => exact absurd ⟨e', he', hc⟩ hcon

end Watch

theorem nodup_length_le (l : List Nat) (N : Nat) (h : l.Nodup) (hb : ∀ a ∈ l, a < N) :
    l.length ≤ N := by
  have hs : l ⊆ List.range N := fun a ha => List.mem_range.mpr (hb a ha)
  have := (List.subperm_of_subset h hs).length_le
  simpa using this

theorem quiet_unsignaled (e : Event) (h : e.isResetOrSubmit = false) :
    fenceUnsignaled.Neutral e := by
  cases e <;> first | exact ⟨rfl, fun _ => rfl⟩ | cases h

theorem quiet_submitNeeds (e : Event) (h : e.isResetOrSubmit = false) (a : Nat) :
    submitNeeds e a = false := by
  cases e <;> first | rfl | cases h

theorem quiet_outstanding_opens (e : Event) (h : e.isResetOrSubmit = false) :
    outstanding.opens e = none := by
  cases e <;> first | rfl | cases h

theorem inert_quiet (e : Event) (h : e.isFenceCall = false) : e.isResetOrSubmit = false := by
  cases e <;> first | rfl | cases h

theorem inert_signalNeeds (e : Event) (h : e.isFenceCall = false) (a : Nat) :
    signalNeeds e a = false := by
  cases e <;> first | rfl | cases h

theorem foldl_outstanding_not_mem (l : List Event) (acc : List Nat) (x : Nat)
    (hx : x ∉ acc) (hl : ∀ e ∈ l, outstanding.opens e = none) :
    x ∉ l.foldl outstanding.step acc := by
  induction l generalizing acc with
  | nil => exact hx
  | cons e l ih =>
    rw [List.foldl_cons]
    apply ih _ _ (fun e' he' => hl e' (List.mem_cons_of_mem _ he'))
    rw [Watch.mem_step, hl e (List.mem_cons_self _ _)]
    rintro (⟨h, -⟩ | h)
    · exact hx h
    · cases h

theorem resetsAfterAcquire_append (tr l : List Event) (h : ResetsAfterAcquire tr)
    (hl : ∀ e ∈ l, e.isResetOrSubmit = false) : ResetsAfterAcquire (tr ++ l) := by
  intro pre post S heq
  rcases List.append_eq_append_iff.mp heq with ⟨a', h1, h2⟩ | ⟨c', h1, h2⟩
  · have := hl (Event.vkResetFences S) (by rw [h2]; simp)
    cases this
  · cases c' with
    | nil =>
      simp only [List.nil_append] at h2
      have := hl (Event.vkResetFences S) (by rw [← h2]; exact List.mem_cons_self _ _)
      cases this
    | cons x c'' =>
      simp only [List.cons_append, List.cons.injEq] at h2
      obtain ⟨rfl, -⟩ := h2
      exact h pre c'' S h1

theorem resetsAfterAcquire_submit (tr : List Event) (c f : Nat) (h : ResetsAfterAcquire tr) :
    ResetsAfterAcquire (tr ++ [Event.vkQueueSubmit c f]) := by
  intro pre post S heq
  rcases List.append_eq_append_iff.mp heq with ⟨a', h1, h2⟩ | ⟨c', h1, h2⟩
  · rcases a' with _ | ⟨x, a''⟩ <;> simp at h2
  · cases c' with
    | nil => simp at h2
    | cons x c'' =>
      simp only [List.cons_append, List.cons.injEq] at h2
      obtain ⟨rfl, -⟩ := h2
      exact h pre c'' S h1

theorem resetsAfterAcquire_reset (tr : List Event) (cf : Nat) (r : VkResult)
    (hr : r = VK_SUCCESS ∨ r = VK_SUBOPTIMAL_KHR)
    (h : ResetsAfterAcquire
      (tr ++ [Event.vkWaitForFences cf, Event.vkAcquireNextImageKHR cf r])) :
    ResetsAfterAcquire (tr ++ [Event.vkWaitForFences cf, Event.vkAcquireNextImageKHR cf r] ++
      [Event.vkResetFences cf]) := by
  intro pre post S heq
  rcases List.append_eq_append_iff.mp heq with ⟨a', h1, h2⟩ | ⟨c', h1, h2⟩
  · rcases a' with _ | ⟨x, a''⟩
    · simp only [List.nil_append, List.cons.injEq, Event.vkResetFences.injEq] at h2
      obtain ⟨rfl, -⟩ := h2
      exact ⟨tr, r, by simpa using h1, hr⟩
    · simp at h2
  · cases c' with
    | nil =>
      simp only [List.nil_append, List.cons.injEq, Event.vkResetFences.injEq] at h2
      obtain ⟨rfl, -⟩ := h2
      exact ⟨tr, r, by simpa using h1.symm, hr⟩
    | cons x c'' =>
      simp only [List.cons_append, List.cons.injEq] at h2
      obtain ⟨rfl, -⟩ := h2
      exact h pre c'' S h1

theorem signalInv_append (N : Nat) (tr l : List Event) (h : SignalInv N tr)
    (hq : ∀ e ∈ l, e.isResetOrSubmit = false)
    (hn : ∀ e ∈ l, ∀ a ∈ fenceUnsignaled.pending tr, signalNeeds e a = false) :
    SignalInv N (tr ++ l) ∧
    fenceUnsignaled.pending (tr ++ l) = fenceUnsignaled.pending tr := by
  refine ⟨⟨resetsAfterAcquire_append tr l h.acquired hq,
    Watch.guarded_append_neutral _ _ _ _ h.signaled (fun e he => quiet_unsignaled e (hq e he)) hn,
    Watch.guarded_append_of_needs_nothing _ _ _ _ h.single
      (fun e he a => quiet_submitNeeds e (hq e he) a), ?_⟩, ?_⟩
  · intro c f hm
    rcases List.mem_append.mp hm with hm | hm
    · exact h.slots c f hm
    · have := hq _ hm
      cases this
  · rw [Watch.pending_append]
    exact Watch.foldl_neutral _ _ _ (fun e he => quiet_unsignaled e (hq e he))

theorem outstanding_append_not_mem (tr l : List Event) (x : Nat)
    (hx : x ∉ outstanding.pending tr) (hq : ∀ e ∈ l, outstanding.opens e = none) :
    x ∉ outstanding.pending (tr ++ l) := by
  rw [Watch.pending_append]
  exact foldl_outstanding_not_mem l _ x hx hq

theorem signalInv_reset (N : Nat) (tr : List Event) (cf : Nat) (r : VkResult)
    (hr : r = VK_SUCCESS ∨ r = VK_SUBOPTIMAL_KHR)
    (h : SignalInv N (tr ++ [Event.vkWaitForFences cf, Event.vkAcquireNextImageKHR cf r]))
    (hp : fenceUnsignaled.pending
      (tr ++ [Event.vkWaitForFences cf, Event.vkAcquireNextImageKHR cf r]) = []) :
    SignalInv N (tr ++ [Event.vkWaitForFences cf, Event.vkAcquireNextImageKHR cf r] ++
      [Event.vkResetFences cf]) ∧
    fenceUnsignaled.pending (tr ++ [Event.vkWaitForFences cf,
      Event.vkAcquireNextImageKHR cf r] ++ [Event.vkResetFences cf]) = [cf] := by
  refine ⟨⟨resetsAfterAcquire_reset tr cf r hr h.acquired,
    (Watch.guarded_snoc _ _ _ _).mpr ⟨h.signaled, fun a _ => rfl⟩,
    (Watch.guarded_snoc _ _ _ _).mpr ⟨h.single, fun a _ => rfl⟩, ?_⟩, ?_⟩
  · intro c f hm
    rcases List.mem_append.mp hm with hm | hm
    · exact h.slots c f hm
    · simp at hm
  · rw [Watch.pending_append, hp]
    simp [Watch.step, fenceUnsignaled]

theorem signalInv_submit (N : Nat) (tr : List Event) (cf : Nat) (hcf : cf < N)
    (h : SignalInv N tr) (hp : fenceUnsignaled.pending tr = [cf])
    (ho : cf ∉ outstanding.pending tr) :
    SignalInv N (tr ++ [Event.vkQueueSubmit cf cf]) ∧
    fenceUnsignaled.pending (tr ++ [Event.vkQueueSubmit cf cf]) = [] := by
  refine ⟨⟨resetsAfterAcquire_submit tr cf cf h.acquired,
    (Watch.guarded_snoc _ _ _ _).mpr ⟨h.signaled, fun a _ => rfl⟩,
    (Watch.guarded_snoc _ _ _ _).mpr ⟨h.single, ?_⟩, ?_⟩, ?_⟩
  · intro a ha
    have : a ≠ cf := fun hc => ho (hc ▸ ha)
    simp [submitNeeds, this]
  · intro c f hm
    rcases List.mem_append.mp hm with hm | hm
    · exact h.slots c f hm
    · simp only [List.mem_singleton, Event.vkQueueSubmit.injEq] at hm
      obtain ⟨rfl, rfl⟩ := hm
      exact ⟨rfl, hcf⟩
  · rw [Watch.pending_append, hp]
    simp [Watch.step, fenceUnsignaled]

theorem outstanding_after_wait (tr : List Event) (cf : Nat) (r : VkResult) :
    cf ∉ outstanding.pending
      (tr ++ [Event.vkWaitForFences cf, Event.vkAcquireNextImageKHR cf r]) := by
  rw [Watch.pending_append, List.foldl_cons, List.foldl_cons, List.foldl_nil,
    Watch.mem_step, Watch.mem_step]
  simp [outstanding]

/-- The fences through one `GraphicsSystem::render`. -/
theorem signalInv_call (N cf : Nat) (a : VkResult) (C L : List Event) (ret : Bool)
    (tr : List Event) (hcf : cf < N) (h : SignalInv N tr)
    (hp : fenceUnsignaled.pending tr = [])
    (hC : ∀ e ∈ C, e.isFenceCall = false)
    (hL : (L = [] ∧ ret = false) ∨ FenceCalls cf a L ret) :
    SignalInv N
      (tr ++ ([Event.memcpyCameraUBO cf, Event.memcpyCameraMatrixUBO cf] ++ C ++ L)) ∧
    (ret = true → fenceUnsignaled.pending
      (tr ++ ([Event.memcpyCameraUBO cf, Event.memcpyCameraMatrixUBO cf] ++ C ++ L)) = []) := by
  have hvac : ∀ (t l : List Event), fenceUnsignaled.pending t = [] →
      ∀ e ∈ l, ∀ x ∈ fenceUnsignaled.pending t, signalNeeds e x = false := by
    intro t l ht e _ x hx
    rw [ht] at hx
    cases hx
  have hq1 : ∀ e ∈ [Event.memcpyCameraUBO cf, Event.memcpyCameraMatrixUBO cf] ++ C,
      e.isResetOrSubmit = false := by
    intro e he
    rw [List.mem_append] at he
    rcases he with he | he
    · revert e; simp [Event.isResetOrSubmit]
    · exact inert_quiet e (hC e he)
  obtain ⟨i1, p1⟩ := signalInv_append N tr _ h hq1 (hvac _ _ hp)
  rw [hp] at p1
  have hw : ∀ R : List Event, (∀ e ∈ R, e.isFenceCall = false) →
      ∀ e ∈ [Event.vkWaitForFences cf, Event.vkAcquireNextImageKHR cf a] ++ R,
        e.isResetOrSubmit = false := by
    intro R hR e he
    rw [List.mem_append] at he
    rcases he with he | he
    · revert e; simp [Event.isResetOrSubmit]
    · exact inert_quiet e (hR e he)
  rcases hL with ⟨rfl, rfl⟩ | ⟨R, rfl, hR⟩ | ⟨ha, ⟨rfl, M, rfl, hM⟩ | ⟨M, T, rfl, hM, hT⟩⟩
  · rw [List.append_nil]
    exact ⟨i1, fun h' => by cases h'⟩
  · obtain ⟨i2, p2⟩ := signalInv_append N _ _ i1 (hw R hR) (hvac _ _ p1)
    rw [p1] at p2
    rw [← List.append_assoc tr]
    exact ⟨i2, fun _ => p2⟩
  · obtain ⟨i2, p2⟩ := signalInv_append N _ _ i1 (hw [] (by simp)) (hvac _ _ p1)
    rw [p1, List.append_nil] at p2
    rw [List.append_nil] at i2
    obtain ⟨i3, -⟩ := signalInv_reset N _ cf a ha i2 p2
    obtain ⟨i4, -⟩ := signalInv_append N _ M i3 (fun e he => inert_quiet e (hM e he))
      (fun e he x _ => inert_signalNeeds e (hM e he) x)
    refine ⟨?_, fun h' => by cases h'⟩
    have e : tr ++ ([Event.memcpyCameraUBO cf, Event.memcpyCameraMatrixUBO cf] ++ C ++
        ([Event.vkWaitForFences cf, Event.vkAcquireNextImageKHR cf a,
          Event.vkResetFences cf] ++ M)) =
        tr ++ ([Event.memcpyCameraUBO cf, Event.memcpyCameraMatrixUBO cf] ++ C) ++
          [Event.vkWaitForFences cf, Event.vkAcquireNextImageKHR cf a] ++
          [Event.vkResetFences cf] ++ M := by
      simp only [List.append_assoc, List.cons_append, List.nil_append]
    rw [e]
    exact i4
  · obtain ⟨i2, p2⟩ := signalInv_append N _ _ i1 (hw [] (by simp)) (hvac _ _ p1)
    rw [p1, List.append_nil] at p2
    rw [List.append_nil] at i2
    have o2 := outstanding_after_wait
      (tr ++ ([Event.memcpyCameraUBO cf, Event.memcpyCameraMatrixUBO cf] ++ C)) cf a
    obtain ⟨i3, p3⟩ := signalInv_reset N _ cf a ha i2 p2
    have o3 := outstanding_append_not_mem _ [Event.vkResetFences cf] cf o2 (by simp [outstanding])
    obtain ⟨i4, p4⟩ := signalInv_append N _ M i3 (fun e he => inert_quiet e (hM e he))
      (fun e he x _ => inert_signalNeeds e (hM e he) x)
    rw [p3] at p4
    have o4 := outstanding_append_not_mem _ M cf o3
      (fun e he => quiet_outstanding_opens e (inert_quiet e (hM e he)))
    obtain ⟨i5, p5⟩ := signalInv_submit N _ cf hcf i4 p4 o4
    obtain ⟨i6, p6⟩ := signalInv_append N _ T i5 (fun e he => inert_quiet e (hT e he))
      (hvac _ _ p5)
    rw [p5] at p6
    have e : tr ++ ([Event.memcpyCameraUBO cf, Event.memcpyCameraMatrixUBO cf] ++ C ++
        ([Event.vkWaitForFences cf, Event.vkAcquireNextImageKHR cf a,
          Event.vkResetFences cf] ++ M ++ Event.vkQueueSubmit cf cf :: T)) =
        tr ++ ([Event.memcpyCameraUBO cf, Event.memcpyCameraMatrixUBO cf] ++ C) ++
          [Event.vkWaitForFences cf, Event.vkAcquireNextImageKHR cf a] ++
          [Event.vkResetFences cf] ++ M ++ [Event.vkQueueSubmit cf cf] ++ T := by
      simp only [List.append_assoc, List.cons_append, List.nil_append]
    rw [e]
    exact ⟨i6, fun _ => p6⟩

theorem isRecreate_inert (e : Event) (h : e.isRecreate = true) : e.isFenceCall = false := by
  cases e <;> first | rfl | cases h

namespace VulkanState

theorem recordEvents_inert (u : VulkanState) (rec : List Event)
    (h : recordEvents u = some rec) : ∀ e ∈ rec, e.isFenceCall = false := by
  rcases recordEvents_cases u rec (Or.inl h) with h | h | ⟨a, -, h⟩ <;> subst h <;>
    simp [Event.isFenceCall]

theorem commitEvents_inert (s : VulkanState) : ∀ e ∈ commitEvents s, e.isFenceCall = false := by
  cases hm : s.renderModeManager <;>
    simp [commitEvents, retireEvents, hm, Event.isFenceCall]

theorem recording_inert (u : VulkanState) (rec : List Event)
    (h : recordEvents u = some rec) (tail : List Event)
    (ht : ∀ e ∈ tail, e.isFenceCall = false) :
    ∀ e ∈ [Event.vkResetCommandBuffer u.currentFrame,
      Event.vkBeginCommandBuffer u.currentFrame] ++ rec ++ tail, e.isFenceCall = false := by
  intro e he
  rw [List.mem_append, List.mem_append] at he
  rcases he with (he | he) | he
  · revert e; simp [Event.isFenceCall]
  · exact recordEvents_inert u rec h e he
  · exact ht e he

theorem tail_inert (u : VulkanState) (R : List Event)
    (hR : ∀ e ∈ R, e.isRecreate = true) (slot : Nat) :
    ∀ e ∈ [Event.vkQueuePresentKHR u.currentFrame] ++ R ++ cleanupEvents u slot,
      e.isFenceCall = false := by
  intro e he
  rw [List.mem_append, List.mem_append] at he
  rcases he with (he | he) | he
  · revert e; simp [Event.isFenceCall]
  · exact isRecreate_inert e (hR e he)
  · obtain ⟨p, -, rfl⟩ := mem_cleanupEvents u _ e he
    rfl

/-- The calls of a `VulkanState::render`, as far as the fences go. -/
theorem render_fenceCalls (N : Nat) (inp : FrameInput) (u : VulkanState) :
    ∃ L, (render N inp u).state.trace = u.trace ++ L ∧
      FenceCalls u.currentFrame inp.acquireResult L (render N inp u).returned := by
  have hpath := render_path N inp u
  generalize render N inp u = r at hpath
  have hA : recreateEvents inp.acquireRecreate
      (u.log [Event.vkWaitForFences u.currentFrame,
        Event.vkAcquireNextImageKHR u.currentFrame inp.acquireResult]) =
      recreateEvents inp.acquireRecreate u := recreateEvents_congr _ _ _ (by simp)
  have hP : ∀ rec, recreateEvents inp.presentRecreate
      (((recorded inp rec u).log (submitEvents u)).setFramebufferResized false) =
      recreateEvents inp.presentRecreate u :=
    fun rec => recreateEvents_congr _ _ _ (by simp)
  have hgui : ∀ e ∈ [Event.guiRender u.currentFrame, Event.vkEndCommandBuffer u.currentFrame],
      e.isFenceCall = false := by
    simp [Event.isFenceCall]
  cases hpath with
  | acquireStale ha =>
    refine ⟨[Event.vkWaitForFences u.currentFrame,
        Event.vkAcquireNextImageKHR u.currentFrame inp.acquireResult] ++
        recreateEvents inp.acquireRecreate u, ?_, Or.inl ⟨_, rfl, fun e he =>
          isRecreate_inert e (recreateEvents_isRecreate _ _ _ he)⟩⟩
    rw [recreateSwapchain_trace, log_trace, hA, List.append_assoc]
  | acquireFailed =>
    refine ⟨[Event.vkWaitForFences u.currentFrame,
        Event.vkAcquireNextImageKHR u.currentFrame inp.acquireResult], ?_,
      Or.inl ⟨[], rfl, fun e he => by cases he⟩⟩
    simp only [Step.state, log_trace]
  | beginFailed ha hb =>
    refine ⟨beginEvents u inp.acquireResult, ?_, Or.inr ⟨ha, Or.inl ⟨rfl,
      [Event.vkResetCommandBuffer u.currentFrame, Event.vkBeginCommandBuffer u.currentFrame],
      rfl, by simp [Event.isFenceCall]⟩⟩⟩
    simp only [Step.state, log_trace]
  | nullPointer ha hb =>
    refine ⟨beginEvents u inp.acquireResult, ?_, Or.inr ⟨ha, Or.inl ⟨rfl,
      [Event.vkResetCommandBuffer u.currentFrame, Event.vkBeginCommandBuffer u.currentFrame],
      rfl, by simp [Event.isFenceCall]⟩⟩⟩
    simp only [Step.state, log_trace]
  | endFailed ha hb rec hr =>
    refine ⟨beginEvents u inp.acquireResult ++ rec ++ [Event.guiRender u.currentFrame] ++
        [Event.vkEndCommandBuffer u.currentFrame], ?_, Or.inr ⟨ha, Or.inl ⟨rfl,
      [Event.vkResetCommandBuffer u.currentFrame, Event.vkBeginCommandBuffer u.currentFrame] ++
        rec ++ [Event.guiRender u.currentFrame, Event.vkEndCommandBuffer u.currentFrame],
      by simp [beginEvents], recording_inert u rec hr _ hgui⟩⟩⟩
    simp only [Step.state, log_trace, recorded_trace, List.append_assoc]
  | submitFailed ha hb rec hr =>
    refine ⟨beginEvents u inp.acquireResult ++ rec ++ [Event.guiRender u.currentFrame] ++
        [Event.vkEndCommandBuffer u.currentFrame,
          Event.vkQueueSubmit u.currentFrame u.currentFrame], ?_, Or.inr ⟨ha, Or.inr ⟨
      [Event.vkResetCommandBuffer u.currentFrame, Event.vkBeginCommandBuffer u.currentFrame] ++
        rec ++ [Event.guiRender u.currentFrame, Event.vkEndCommandBuffer u.currentFrame], [],
      by simp [beginEvents], recording_inert u rec hr _ hgui, fun e he => by cases he⟩⟩⟩
    simp only [Step.state, log_trace, recorded_trace, List.append_assoc]
  | presentFailed ha hb rec hr =>
    refine ⟨frameEvents inp rec u, ?_, Or.inr ⟨ha, Or.inr ⟨
      [Event.vkResetCommandBuffer u.currentFrame, Event.vkBeginCommandBuffer u.currentFrame] ++
        rec ++ [Event.guiRender u.currentFrame, Event.vkEndCommandBuffer u.currentFrame],
      [Event.vkQueuePresentKHR u.currentFrame],
      by simp [frameEvents, beginEvents, submitEvents], recording_inert u rec hr _ hgui,
      by simp [Event.isFenceCall]⟩⟩⟩
    simp only [Step.state, log_trace, recorded_trace, frameEvents, List.append_assoc]
  | recreateFailed ha hb rec hr he hs hp err hre =>
    have ht := recreateSwapchain_trace inp.presentRecreate
      (((recorded inp rec u).log (submitEvents u)).setFramebufferResized false)
    rw [hre, hP] at ht
    have hT := tail_inert u (recreateEvents inp.presentRecreate u)
      (fun e he => recreateEvents_isRecreate _ _ _ he) 0
    refine ⟨frameEvents inp rec u ++ recreateEvents inp.presentRecreate u, ?_,
      Or.inr ⟨ha, Or.inr ⟨
      [Event.vkResetCommandBuffer u.currentFrame, Event.vkBeginCommandBuffer u.currentFrame] ++
        rec ++ [Event.guiRender u.currentFrame, Event.vkEndCommandBuffer u.currentFrame],
      [Event.vkQueuePresentKHR u.currentFrame] ++ recreateEvents inp.presentRecreate u,
      by simp [frameEvents, beginEvents, submitEvents], recording_inert u rec hr _ hgui,
      fun e he => hT e (List.mem_append_left _ he)⟩⟩⟩
    rw [ht]
    simp only [setFramebufferResized_trace, log_trace, recorded_trace, frameEvents,
      List.append_assoc]
  | presentStale ha hb rec hr he hs hp v hre =>
    obtain ⟨⟨a1, a2, a3, a4, -⟩, -⟩ := recreateSwapchain_spec inp.presentRecreate
      (((recorded inp rec u).log (submitEvents u)).setFramebufferResized false)
    have ht := recreateSwapchain_trace inp.presentRecreate
      (((recorded inp rec u).log (submitEvents u)).setFramebufferResized false)
    rw [hre, hP] at ht
    rw [hre] at a1 a2 a3 a4
    simp only [Step.state, setFramebufferResized_currentFrame, log_currentFrame,
      recorded_currentFrame, setFramebufferResized_oldRenderPassQueue,
      log_oldRenderPassQueue, recorded_oldRenderPassQueue,
      setFramebufferResized_renderModeManager, log_renderModeManager,
      recorded_renderModeManager, setFramebufferResized_nextId, log_nextId,
      recorded_nextId, setFramebufferResized_trace, log_trace, recorded_trace] at ht a1 a2 a3 a4
    refine ⟨frameEvents inp rec u ++ recreateEvents inp.presentRecreate u ++
        cleanupEvents u ((u.currentFrame + 1) % N), ?_, Or.inr ⟨ha, Or.inr ⟨
      [Event.vkResetCommandBuffer u.currentFrame, Event.vkBeginCommandBuffer u.currentFrame] ++
        rec ++ [Event.guiRender u.currentFrame, Event.vkEndCommandBuffer u.currentFrame],
      [Event.vkQueuePresentKHR u.currentFrame] ++ recreateEvents inp.presentRecreate u ++
        cleanupEvents u ((u.currentFrame + 1) % N),
      by simp [frameEvents, beginEvents, submitEvents], recording_inert u rec hr _ hgui,
      tail_inert u _ (fun e he => recreateEvents_isRecreate _ _ _ he) _⟩⟩⟩
    simp only [Step.state, drain_trace, advanceFrame_trace, advanceFrame_oldRenderPassQueue,
      advanceFrame_currentFrame, ht, a1, a3, cleanupEvents, frameEvents, List.append_assoc]
  | completed ha hb rec hr =>
    refine ⟨frameEvents inp rec u ++ [] ++ cleanupEvents u ((u.currentFrame + 1) % N), ?_,
      Or.inr ⟨ha, Or.inr ⟨
      [Event.vkResetCommandBuffer u.currentFrame, Event.vkBeginCommandBuffer u.currentFrame] ++
        rec ++ [Event.guiRender u.currentFrame, Event.vkEndCommandBuffer u.currentFrame],
      [Event.vkQueuePresentKHR u.currentFrame] ++ [] ++
        cleanupEvents u ((u.currentFrame + 1) % N),
      by simp [frameEvents, beginEvents, submitEvents], recording_inert u rec hr _ hgui,
      tail_inert u [] (fun e he => (by cases he)) _⟩⟩⟩
    simp only [Step.state, drain_trace, advanceFrame_trace, advanceFrame_oldRenderPassQueue,
      advanceFrame_currentFrame, cleanupEvents, log_oldRenderPassQueue,
      recorded_oldRenderPassQueue, log_currentFrame, recorded_currentFrame,
      log_trace, recorded_trace, frameEvents, List.append_assoc, List.append_nil]

/-- The calls of a `GraphicsSystem::render`, as far as the fences go. -/
theorem graphicsRender_fenceCalls (N : Nat) (inp : FrameInput) (s : VulkanState) :
    ∃ C L, (GraphicsSystem.render N inp s).state.trace =
        s.trace ++ ([Event.memcpyCameraUBO s.currentFrame,
          Event.memcpyCameraMatrixUBO s.currentFrame] ++ C ++ L) ∧
      (∀ e ∈ C, e.isFenceCall = false) ∧
      ((L = [] ∧ (GraphicsSystem.render N inp s).returned = false) ∨
        FenceCalls s.currentFrame inp.acquireResult L
          (GraphicsSystem.render N inp s).returned) := by
  rcases graphicsRender_cases N inp s with ⟨h1, h2⟩ | ⟨u, ⟨hcf, hc⟩, he⟩
  · refine ⟨commitEvents s, [], ?_, commitEvents_inert s, Or.inl ⟨rfl, h1⟩⟩
    rw [h2]
    simp only [cameraEvents, List.append_assoc, List.append_nil]
  · rw [he]
    obtain ⟨L, hL, hF⟩ := render_fenceCalls N inp u
    rw [hcf] at hF
    rcases hc with ⟨-, -, -, h4⟩ | ⟨-, -, -, h4⟩
    · refine ⟨[], L, ?_, fun e he => (by cases he), Or.inr hF⟩
      rw [hL, h4]
      simp only [cameraEvents, List.append_assoc, List.append_nil]
    · refine ⟨commitEvents s, L, ?_, commitEvents_inert s, Or.inr hF⟩
      rw [hL, h4]
      simp only [cameraEvents, List.append_assoc]

theorem signalInv_graphicsRender (N : Nat) (inp : FrameInput) (s : VulkanState)
    (hcf : s.currentFrame < N) (h : SignalInv N s.trace)
    (hp : fenceUnsignaled.pending s.trace = []) :
    SignalInv N (GraphicsSystem.render N inp s).state.trace ∧
    ((GraphicsSystem.render N inp s).returned = true →
      fenceUnsignaled.pending (GraphicsSystem.render N inp s).state.trace = []) := by
  obtain ⟨C, L, ht, hC, hL⟩ := graphicsRender_fenceCalls N inp s
  rw [ht]
  exact signalInv_call N s.currentFrame inp.acquireResult C L _ s.trace hcf h hp hC hL

theorem signalInv_runLoop (N : Nat) (its : List Iteration) (s : VulkanState)
    (hl : LoopInv N s) (h : SignalInv N s.trace)
    (hp : fenceUnsignaled.pending s.trace = []) :
    SignalInv N (runLoop N its s).state.trace ∧
    ((runLoop N its s).returned = true →
      fenceUnsignaled.pending (runLoop N its s).state.trace = []) := by
  induction its generalizing s with
  | nil => exact ⟨h, fun _ => hp⟩
  | cons it rest ih =>
    have hf := fireAll_inv N it.polled s hl
    have ht := (fireAll_sameFrame it.polled s).2
    obtain ⟨-, g2⟩ := graphicsRender_inv N it.frame _ hf
    obtain ⟨k1, k2⟩ := signalInv_graphicsRender N it.frame (s.fireAll it.polled) hf.frame
      (by rw [ht]; exact h) (by rw [ht]; exact hp)
    simp only [runLoop]
    cases hr : GraphicsSystem.render N it.frame (s.fireAll it.polled) with
    | error e =>
      rw [hr] at k1
      exact ⟨k1, fun h' => by cases h'⟩
    | ok v =>
      rw [hr] at g2 k1 k2
      exact ih v (g2 rfl) k1 (k2 rfl)

theorem signalInv_boot (N : Nat) (exts : List String) :
    SignalInv N (boot exts).trace ∧ fenceUnsignaled.pending (boot exts).trace = [] := by
  rw [boot_trace]
  refine ⟨⟨?_, ?_, ?_, ?_⟩, ?_⟩
  · intro pre post S heq
    rcases pre with _ | ⟨x, _ | ⟨y, _ | ⟨z, pre⟩⟩⟩ <;> simp at heq
  · have := Watch.guarded_append_of_needs_nothing fenceUnsignaled signalNeeds []
      [Event.construct 0 PassKind.Forward, Event.passInit 0] (Watch.guarded_nil _ _)
      (by simp [signalNeeds])
    simpa using this
  · have := Watch.guarded_append_of_needs_nothing outstanding submitNeeds []
      [Event.construct 0 PassKind.Forward, Event.passInit 0] (Watch.guarded_nil _ _)
      (by simp [submitNeeds])
    simpa using this
  · intro c f hm
    simp at hm
  · simp [Watch.pending, Watch.step, fenceUnsignaled]

end VulkanState

theorem beginsCall_signalNeeds (e : Event) (h : e.beginsCall = true) (a : Nat) :
    signalNeeds e a = true := by
  cases e <;> first | rfl | cases h

theorem opens_outstanding_submitNeeds (e : Event) (x : Nat)
    (h : outstanding.opens e = some x) : submitNeeds e x = true := by
  cases e <;> simp [outstanding] at h
  subst h
  simp [submitNeeds]

theorem closes_unsignaled_submit (e : Event) (S : Nat)
    (h : fenceUnsignaled.closes e S = true) : ∃ c, e = Event.vkQueueSubmit c S := by
  cases e <;> simp [fenceUnsignaled] at h
  subst h
  exact ⟨_, rfl⟩

/-- While a fence is reset and not yet handed to a submission, no `GraphicsSystem::render`
begins. -/
theorem no_call_begins_while_unsignaled (tr pre mid rest : List Event) (S : Nat)
    (hg : fenceUnsignaled.Guarded signalNeeds tr)
    (htr : tr = pre ++ Event.vkResetFences S :: (mid ++ rest))
    (hmid : ∀ y ∈ mid, fenceUnsignaled.closes y S = false) :
    ∀ e ∈ mid, e.beginsCall = false := by
  intro e he
  cases hb : e.beginsCall with
  | false => rfl
  | true =>
    obtain ⟨m1, m2, rfl⟩ := List.append_of_mem he
    have hp := Watch.mem_pending_of_open fenceUnsignaled pre m1 (Event.vkResetFences S) S rfl
      (fun y hy => hmid y (List.mem_append_left _ hy))
    have := hg (pre ++ Event.vkResetFences S :: m1) e (m2 ++ rest) (by rw [htr]; simp) S hp
    rw [beginsCall_signalNeeds e hb] at this
    cases this

open VulkanState

/-- C26. For `N ≥ 1` frame slots: `createSyncObjects` creates `N` fences, each signaled.
In every run of the loop of render calls after `createLevelResource`, whatever the
results of the Vulkan calls: a reset of `inFlightFences[S]` comes directly after the wait
on that fence and an acquire that returned `VK_SUCCESS` or `VK_SUBOPTIMAL_KHR`; it is
followed, before the next `GraphicsSystem::render` begins, by the queue submission of the
command buffer of `S` that is handed that fence, unless the run ended in a fault raised by
the call that made the reset; at every wait on `inFlightFences[S]` the fence is not in the
state between its reset and the submission handed it, so it is signaled or a submission
is outstanding that signals it; and at every moment the outstanding submissions, those
not followed by a wait on their fence or on the idle device, are handed distinct fences
of slots below `N`, so there are at most `N`. -/
theorem fences_waited_only_when_signaled_or_submitted (N : Nat) (hN : 1 ≤ N)
    (exts : List String) (its : List Iteration) :
    (∀ fences, VulkanState.createSyncObjects N none = .ok fences →
      fences.length = N ∧ ∀ f ∈ fences, f.signaled = true) ∧
    (∀ pre post S,
      (runLoop N its (boot exts)).state.trace = pre ++ Event.vkResetFences S :: post →
      (∃ before r, pre = before ++
          [Event.vkWaitForFences S, Event.vkAcquireNextImageKHR S r] ∧
        (r = VK_SUCCESS ∨ r = VK_SUBOPTIMAL_KHR)) ∧
      ((∃ mid post', post = mid ++ Event.vkQueueSubmit S S :: post' ∧
          ∀ e ∈ mid, e.beginsCall = false) ∨
        ((runLoop N its (boot exts)).returned = false ∧ ∀ e ∈ post, e.beginsCall = false))) ∧
    (∀ pre post S,
      (runLoop N its (boot exts)).state.trace = pre ++ Event.vkWaitForFences S :: post →
      S ∉ fenceUnsignaled.pending pre) ∧
    (∀ pre post, (runLoop N its (boot exts)).state.trace = pre ++ post →
      (outstanding.pending pre).Nodup ∧ (∀ a ∈ outstanding.pending pre, a < N) ∧
      (outstanding.pending pre).length ≤ N) := by
  obtain ⟨hi, hp⟩ := signalInv_boot N exts
  obtain ⟨I, P⟩ := signalInv_runLoop N its (boot exts) (boot_inv N hN exts) hi hp
  refine ⟨createSyncObjects_signaled N, ?_, ?_, ?_⟩
  · intro pre post S htr
    refine ⟨I.acquired pre post S htr, ?_⟩
    by_cases hcl : ∃ e' ∈ post, fenceUnsignaled.closes e' S = true
    · obtain ⟨mid, e', post', h1, h2, h3⟩ :=
        exists_first_of_mem (fun y => fenceUnsignaled.closes y S) post hcl
      obtain ⟨c, rfl⟩ := closes_unsignaled_submit e' S h2
      have hc : c = S := (I.slots c S (by rw [htr, h1]; simp)).1
      subst hc
      exact Or.inl ⟨mid, post', h1, no_call_begins_while_unsignaled _ pre mid
        (Event.vkQueueSubmit c c :: post') c I.signaled (by rw [htr, h1]) h3⟩
    · have hno : ∀ y ∈ post, fenceUnsignaled.closes y S = false := by
        intro y hy
        cases hc : fenceUnsignaled.closes y S with
        | false => rfl
        | true => exact absurd ⟨y, hy, hc⟩ hcl
      refine Or.inr ⟨?_, no_call_begins_while_unsignaled _ pre post [] S I.signaled
        (by rw [htr]; simp) hno⟩
      cases hret : (runLoop N its (boot exts)).returned with
      | false => rfl
      | true =>
        have hm := Watch.mem_pending_of_open fenceUnsignaled pre post (Event.vkResetFences S) S
          rfl hno
        rw [← htr, P hret] at hm
        cases hm
  · intro pre post S htr hmem
    have := I.signaled pre (Event.vkWaitForFences S) post htr S hmem
    simp [signalNeeds] at this
  · intro pre post htr
    have hg : outstanding.Guarded submitNeeds pre :=
      Watch.guarded_prefix _ _ pre post (htr ▸ I.single)
    have hnd := Watch.pending_nodup outstanding submitNeeds pre opens_outstanding_submitNeeds hg
    have hb : ∀ a ∈ outstanding.pending pre, a < N := by
      intro a ha
      obtain ⟨e, he, ho⟩ := Watch.mem_pending_opened outstanding pre a ha
      cases e <;> simp [outstanding] at ho
      subst ho
      exact (I.slots _ _ (by rw [htr]; exact List.mem_append_left _ he)).2
    exact ⟨hnd, hb, nodup_length_le _ N hnd hb⟩

set_option maxRecDepth 20000 in
/-- C26, at a concrete run: two frame slots and three cycles without any request. When
the run returns, the submissions handed the fences 1 and 0 are outstanding and no fence
is left reset without a submission. -/
theorem fences_waited_only_when_signaled_or_submitted_witness :
    1 ≤ 2 ∧
    (runLoop 2 threeCycles (boot deviceExtensions)).returned = true ∧
    outstanding.pending (runLoop 2 threeCycles (boot deviceExtensions)).state.trace = [1, 0] ∧
    fenceUnsignaled.pending (runLoop 2 threeCycles (boot deviceExtensions)).state.trace = [] ∧
    (outstanding.pending (runLoop 2 threeCycles (boot deviceExtensions)).state.trace).length ≤ 2 :=
  ⟨by decide, by decide, by decide, by decide,
    ((fences_waited_only_when_signaled_or_submitted 2 (by decide) deviceExtensions
      threeCycles).2.2.2 (runLoop 2 threeCycles (boot deviceExtensions)).state.trace []
      (by simp)).2.2⟩

/-! ## Render passes still retired at shutdown -/

section
open VulkanState

set_option maxRecDepth 20000 in
/-- C29 fails on the code. With two frame slots, on a device that supports ray tracing,
R is pressed before the first cycle and the application shuts down after it. The cycle
returns; it constructed the render pass objects 0 and 1, retired object 0 into bucket 0
and drained bucket 1, so object 0 is still in bucket 0 and object 1 is active. Then
`GraphicsSystem::cleanup` returns, and it has called `cleanup()` on object 1 once and on
object 0 never; object 0 is still in bucket 0. -/
theorem cleanup_skips_render_pass_retired_at_shutdown :
    (runLoop 2 switchedOnce (boot allExtensions)).returned = true ∧
    Event.construct 0 PassKind.Forward ∈ atShutdown.trace ∧
    Event.construct 1 PassKind.Deferred ∈ atShutdown.trace ∧
    Event.retire 0 0 ∈ atShutdown.trace ∧
    atShutdown.renderModeManager = some { id := 1, kind := PassKind.Deferred } ∧
    atShutdown.oldRenderPassQueue 0 = [{ id := 0, kind := PassKind.Forward }] ∧
    (GraphicsSystem.cleanup 2 atShutdown).returned = true ∧
    (GraphicsSystem.cleanup 2 atShutdown).state.trace.count (Event.passCleanup 1) = 1 ∧
    (GraphicsSystem.cleanup 2 atShutdown).state.trace.count (Event.passCleanup 0) = 0 ∧
    (GraphicsSystem.cleanup 2 atShutdown).state.oldRenderPassQueue 0 =
      [{ id := 0, kind := PassKind.Forward }] := by
  decide

end

end RTG
